import Mathlib

/-!
DECON window composition and frame commit (drivers/video/exynos/decon_7580/decon_core.c).

A shallow embedding of the window-configuration and frame-commit path of the
Exynos 7580 DECON display driver.

Conventions of the embedding.

* C `int` values are `Int`, `u32` values are `Nat`; every arithmetic step that can
  leave the 32-bit range is followed by the explicit wrap (`u32`, `s32`).  The
  kernel is built with `-fno-strict-overflow`, so signed arithmetic wraps.
* Kernel pointers, handles and device addresses are `Int` (the signed reading of
  the machine word): `0` is `NULL`, the values `-4095 .. -1` are `ERR_PTR`s.
* C arrays are functions on the index; `for (i = 0; i < n; i++)` is `for_loop`.
* Calls into other kernel subsystems are recorded, in order, as `kcall` events.
* Constants and macros of `decon.h` / `regs-decon.h` (not part of the source
  tree given here) are the fields of the parameter `decon_h`.
-/

namespace Decon

/-! ## Machine integers -/

/-- Truncation to `u32`. -/
def u32 (n : Nat) : Nat := n % 4294967296

/-- Truncation to `unsigned short`. -/
def u16 (n : Nat) : Nat := n % 65536

/-- The conversion `(u32)x` of an `int`. -/
def int_to_u32 (x : Int) : Nat := (x % 4294967296).toNat

/-- The conversion `(int)n` of a `u32` bit pattern (two's complement). -/
def u32_to_int (n : Nat) : Int :=
  if n % 4294967296 < 2147483648 then ((n % 4294967296 : Nat) : Int)
  else ((n % 4294967296 : Nat) : Int) - 4294967296

/-- Signed 32-bit wrap-around of an `int` result. -/
def s32 (x : Int) : Int := u32_to_int (int_to_u32 x)

/-- Bitwise complement `~x` of a 32-bit pattern. -/
def not32 (x : Nat) : Nat := 4294967295 ^^^ (x % 4294967296)

/-- The C loop `for (i = 0; i < n; i++) s = body i s`. -/
def for_loop {σ : Type} (body : Nat → σ → σ) : Nat → σ → σ
  | 0, s => s
  | n + 1, s => body n (for_loop body n s)

/-- Array store `a[i] = v`. -/
def set_at {α : Type} (a : Nat → α) (i : Nat) (v : α) : Nat → α :=
  fun j => if j = i then v else a j

/-! ## Kernel pointers and error codes (linux/err.h, errno) -/

def EINVAL : Int := 22

def ENOMEM : Int := 12

def ENOENT : Int := 2

def ERANGE : Int := 34

def ETIMEDOUT : Int := 110

def EBUSY : Int := 16

def EIO : Int := 5

def MAX_ERRNO : Int := 4095

/-- The test `IS_ERR(ptr)`: the pointer lies in the last `MAX_ERRNO` addresses. -/
def IS_ERR (p : Int) : Bool := decide (-MAX_ERRNO ≤ p ∧ p < 0)

/-- The test `IS_ERR_OR_NULL(ptr)`. -/
def IS_ERR_OR_NULL (p : Int) : Bool := decide (p = 0) || IS_ERR p

/-- The value `PTR_ERR(ptr)`. -/
def PTR_ERR (p : Int) : Int := p

/-! ## Calls into other kernel subsystems -/

/-- One call made by the driver into another subsystem (allocator, fences,
DECON register helpers, DSIM transport), kept in program order. -/
inductive kcall
  | sync_fence_put (fence : Int)
  | ion_iovmm_unmap (attachment dma_addr : Int)
  | dma_buf_unmap_attachment (attachment sg_table : Int)
  | dma_buf_detach (dma_buf attachment : Int)
  | dma_buf_put (dma_buf : Int)
  | ion_free (handle : Int)
  | put_unused_fd (fd : Int)
  | sync_fence_install (pt_value : Int) (fd : Int)
  | sw_sync_timeline_inc (inc : Nat)
  | kfree_regs
  | queue_kthread_work
  | decon_lpd_block
  | decon_exit_lpd
  | sync_fence_wait (fence : Int)
  | update_media_scenario (bw : Nat)
  | reg_set_trigger_disable
  | reg_shadow_protect_win (win : Nat) (protect : Bool)
  | reg_set_regs_data (win : Nat)
  | reg_set_block_mode (win : Nat) (x y : Int) (w h : Nat) (enable : Bool)
  | reg_start
  | reg_update_standalone
  | reg_per_frame_off
  | reg_wait_linecnt_is_zero
  | smc_protection_set (en : Bool)
  | reg_wait_for_update
  | decon_dump
  | reg_get_vstatus
  | clear_i80_framedone
  | wait_for_framedone
  | dsim_partial_cmd (x y : Int) (w h : Nat)
  | dsim_set_porch (xres yres hfp vfp : Nat)
  | reg_config_mic
  | reg_set_porch
  | reg_set_int (enable : Bool)
  | dsim_vsync (enable : Bool)
  | dsim_pkt_go (enable : Bool)
  | wait_event_vsync (timeout : Nat)
  | flush_workqueue_lpd
  | decon_lpd_block_exit
  | decon_lpd_unblock
  | mutex_lock_output
  | mutex_unlock_output
  | flush_kthread_worker
  | s_stream (enable : Bool)
  | msleep (msecs : Nat)
  | write_wincon (win val : Nat)
  deriving DecidableEq

/-! ## DMA buffer bindings -/

/-- The descriptor `struct decon_dma_buf_data` of one imported buffer plane. -/
structure decon_dma_buf_data where
  ion_handle : Int
  dma_buf : Int
  attachment : Int
  sg_table : Int
  dma_addr : Int
  fence : Int
  deriving DecidableEq

/-- The descriptor after `memset(dma, 0, sizeof(struct decon_dma_buf_data))`. -/
def dma_zero : decon_dma_buf_data :=
  { ion_handle := 0, dma_buf := 0, attachment := 0, sg_table := 0, dma_addr := 0, fence := 0 }

/-- The function `decon_free_dma_buf` (decon_core.c:1358): the calls it makes and
the descriptor it leaves. -/
def decon_free_dma_buf (dma : decon_dma_buf_data) : List kcall × decon_dma_buf_data :=
  if dma.dma_addr = 0 then ([], dma)
  else
    ((if dma.fence ≠ 0 then [kcall.sync_fence_put dma.fence] else []) ++
      [kcall.ion_iovmm_unmap dma.attachment dma.dma_addr,
       kcall.dma_buf_unmap_attachment dma.attachment dma.sg_table,
       kcall.dma_buf_detach dma.dma_buf dma.attachment,
       kcall.dma_buf_put dma.dma_buf,
       kcall.ion_free dma.ion_handle],
     dma_zero)

/-! ## Build-time parameters -/

/-- The constants and macros that decon_core.c takes from `decon.h` and
`regs-decon.h` (enumerators, register bit fields, field macros) and the Kconfig
options it is compiled under.  Those headers are not part of the source tree, so
the values are parameters of the embedding. -/
structure decon_h where
  DECON_PIXEL_FORMAT_ARGB_8888 : Nat
  DECON_PIXEL_FORMAT_ABGR_8888 : Nat
  DECON_PIXEL_FORMAT_RGBA_8888 : Nat
  DECON_PIXEL_FORMAT_BGRA_8888 : Nat
  DECON_PIXEL_FORMAT_XRGB_8888 : Nat
  DECON_PIXEL_FORMAT_XBGR_8888 : Nat
  DECON_PIXEL_FORMAT_RGBX_8888 : Nat
  DECON_PIXEL_FORMAT_BGRX_8888 : Nat
  DECON_PIXEL_FORMAT_RGBA_5551 : Nat
  DECON_PIXEL_FORMAT_RGB_565 : Nat
  DECON_PIXEL_FORMAT_NV12 : Nat
  DECON_PIXEL_FORMAT_NV21 : Nat
  DECON_PIXEL_FORMAT_NV12M : Nat
  DECON_PIXEL_FORMAT_NV21M : Nat
  DECON_PIXEL_FORMAT_NV21M_FULL : Nat
  DECON_PIXEL_FORMAT_MAX : Nat
  DECON_BLENDING_NONE : Nat
  DECON_BLENDING_PREMULT : Nat
  DECON_BLENDING_COVERAGE : Nat
  DECON_BLENDING_MAX : Nat
  DECON_WIN_STATE_DISABLED : Nat
  DECON_WIN_STATE_COLOR : Nat
  DECON_WIN_STATE_BUFFER : Nat
  DECON_WIN_STATE_UPDATE : Nat
  DECON_WIN_UPDATE_IDX : Nat
  MIN_BLK_MODE_WIDTH : Int
  MIN_BLK_MODE_HEIGHT : Int
  VSYNC_TIMEOUT_MSEC : Nat
  VIDOSD_A_TOPLEFT_X : Nat → Nat
  VIDOSD_A_TOPLEFT_Y : Nat → Nat
  VIDOSD_B_BOTRIGHT_X : Nat → Nat
  VIDOSD_B_BOTRIGHT_Y : Nat → Nat
  VIDOSD_C_ALPHA0_R_F : Nat → Nat
  VIDOSD_C_ALPHA0_G_F : Nat → Nat
  VIDOSD_C_ALPHA0_B_F : Nat → Nat
  VIDOSD_D_ALPHA1_R_F : Nat → Nat
  VIDOSD_D_ALPHA1_G_F : Nat → Nat
  VIDOSD_D_ALPHA1_B_F : Nat → Nat
  WINCON_BPPMODE_NV12 : Nat
  WINCON_BPPMODE_NV21 : Nat
  WINCON_BPPMODE_RGB565 : Nat
  WINCON_BPPMODE_ARGB8888 : Nat
  WINCON_BPPMODE_XRGB8888 : Nat
  WINCON_BPPMODE_ABGR8888 : Nat
  WINCON_BPPMODE_XBGR8888 : Nat
  WINCON_BPPMODE_BGRA8888 : Nat
  WINCON_BPPMODE_RGBA8888 : Nat
  WINCON_BPPMODE_BGRX8888 : Nat
  WINCON_BPPMODE_RGBX8888 : Nat
  WINCON_INTERPOLATION_EN : Nat
  WINCON_BLD_PIX : Nat
  WINCON_ALPHA_SEL : Nat
  WINCON_ALPHA_MUL : Nat
  WINCON_ENWIN : Nat
  WINCON_BURSTLEN_16WORD : Nat
  WIN_MAP_MAP : Nat
  WIN_MAP_MAP_COLOUR : Nat → Nat
  BLENDE_COEF_ZERO : Nat
  BLENDE_COEF_ONE : Nat
  BLENDE_COEF_ALPHA_A : Nat
  BLENDE_COEF_ONE_MINUS_ALPHA_A : Nat
  BLENDE_COEF_ALPHA0 : Nat
  BLENDE_A_FUNC : Nat → Nat
  BLENDE_B_FUNC : Nat → Nat
  BLENDE_P_FUNC : Nat → Nat
  BLENDE_Q_FUNC : Nat → Nat
  CONFIG_FB_WINDOW_UPDATE : Bool
  CONFIG_DECON_BLOCKING_MODE : Bool
  CONFIG_USE_VSYNC_SKIP : Bool
  CONFIG_DECON_DEVFREQ : Bool
  CONFIG_LCD_HMT : Bool
  CONFIG_DECON_MIPI_DSI_PKTGO : Bool

/-- Modelled from the spec: the constant `MAX_BUF_PLANE_CNT` of `decon.h` (not in
the source tree); a window request carries "buffer handles (up to 3 planes)", and
decon_core.c addresses planes 0, 1 and 2. -/
def MAX_BUF_PLANE_CNT : Nat := 3

/-! ## Data model -/

/-- The C type `struct decon_win_rect`: `int x, y; u32 w, h`. -/
structure decon_win_rect where
  x : Int
  y : Int
  w : Nat
  h : Nat
  deriving DecidableEq

/-- The C type `struct decon_frame`: `int x, y; u32 w, h, f_w, f_h`. -/
structure decon_frame where
  x : Int
  y : Int
  w : Nat
  h : Nat
  f_w : Nat
  f_h : Nat
  deriving DecidableEq

/-- The C type `struct decon_rect`: four `int` edges, all inclusive. -/
structure decon_rect where
  left : Int
  top : Int
  right : Int
  bottom : Int
  deriving DecidableEq

/-- One window request, `struct decon_win_config`, with the fields decon_core.c
reads or writes (`vpp_addr` is `vpp_parm.addr`). -/
structure decon_win_config where
  state : Nat
  color : Nat
  fd_idma : Nat → Int
  fence_fd : Int
  plane_alpha : Int
  blending : Nat
  idma_type : Nat
  format : Nat
  vpp_addr : Nat → Int
  block_area : decon_win_rect
  src : decon_frame
  dst : decon_frame
  protection : Bool

/-- The fields of `struct fb_var_screeninfo` that the driver writes. -/
structure fb_var_screeninfo where
  red_length : Nat
  red_offset : Nat
  green_length : Nat
  green_offset : Nat
  blue_length : Nat
  blue_offset : Nat
  transp_length : Nat
  transp_offset : Nat
  bits_per_pixel : Nat
  xres : Nat
  xres_virtual : Nat
  yres : Nat
  yres_virtual : Nat
  xoffset : Nat
  yoffset : Nat
  deriving DecidableEq

/-- The fields of `struct fb_fix_screeninfo` that the driver writes. -/
structure fb_fix_screeninfo where
  smem_start : Int
  smem_len : Nat
  line_length : Nat
  xpanstep : Nat
  ypanstep : Nat
  deriving DecidableEq

/-- A persistent window slot, `struct decon_win`.  The field `index` of the C
struct is the slot number itself (`decon_acquire_windows` stores `win->index = idx`
in `decon->windows[idx]`), so `decon->windows[i]->index` is written `i`. -/
structure decon_win where
  fix : fb_fix_screeninfo
  var : fb_var_screeninfo
  prev_fix : fb_fix_screeninfo
  prev_var : fb_var_screeninfo
  fps : Int
  dma_buf_data : Nat → decon_dma_buf_data

/-- The staged register snapshot of one frame, `struct decon_reg_data`. -/
structure decon_reg_data where
  wincon : Nat → Nat
  winmap : Nat → Nat
  vidosd_a : Nat → Nat
  vidosd_b : Nat → Nat
  vidosd_c : Nat → Nat
  vidosd_d : Nat → Nat
  blendeq : Nat → Nat
  buf_start : Nat → Int
  whole_w : Nat → Nat
  whole_h : Nat → Nat
  offset_x : Nat → Nat
  offset_y : Nat → Nat
  protection : Nat → Bool
  dma_buf_data : Nat → Nat → decon_dma_buf_data
  win_config : Nat → decon_win_config
  block_rect : Nat → decon_win_rect
  update_win : decon_win_rect
  need_update : Bool
  bandwidth : Nat
  num_of_window : Nat

/-- A zeroed rectangle. -/
def win_rect_zero : decon_win_rect := { x := 0, y := 0, w := 0, h := 0 }

/-- A zeroed frame. -/
def frame_zero : decon_frame := { x := 0, y := 0, w := 0, h := 0, f_w := 0, f_h := 0 }

/-- A zeroed window request. -/
def win_config_zero : decon_win_config :=
  { state := 0, color := 0, fd_idma := fun _ => 0, fence_fd := 0, plane_alpha := 0,
    blending := 0, idma_type := 0, format := 0, vpp_addr := fun _ => 0,
    block_area := win_rect_zero, src := frame_zero, dst := frame_zero, protection := false }

/-- The snapshot returned by `kzalloc(sizeof(struct decon_reg_data), GFP_KERNEL)`. -/
def regs_zero : decon_reg_data :=
  { wincon := fun _ => 0, winmap := fun _ => 0, vidosd_a := fun _ => 0, vidosd_b := fun _ => 0,
    vidosd_c := fun _ => 0, vidosd_d := fun _ => 0, blendeq := fun _ => 0,
    buf_start := fun _ => 0, whole_w := fun _ => 0, whole_h := fun _ => 0,
    offset_x := fun _ => 0, offset_y := fun _ => 0, protection := fun _ => false,
    dma_buf_data := fun _ _ => dma_zero, win_config := fun _ => win_config_zero,
    block_rect := fun _ => win_rect_zero, update_win := win_rect_zero, need_update := false,
    bandwidth := 0, num_of_window := 0 }

/-! ## Register value helpers (decon_core.c:148-256) -/

/-- The function `fb_panstep`. -/
def fb_panstep (res res_virtual : Nat) : Nat := if res_virtual > res then 1 else 0

/-- The function `vidosd_a(int x, int y)`. -/
def vidosd_a (H : decon_h) (x y : Int) : Nat :=
  H.VIDOSD_A_TOPLEFT_X (int_to_u32 x) ||| H.VIDOSD_A_TOPLEFT_Y (int_to_u32 y)

/-- The function `vidosd_b(int x, int y, u32 xres, u32 yres)`; `x + xres - 1` is
computed in `u32`. -/
def vidosd_b (H : decon_h) (x y : Int) (xres yres : Nat) : Nat :=
  H.VIDOSD_B_BOTRIGHT_X (u32 (int_to_u32 x + xres + 4294967295)) |||
    H.VIDOSD_B_BOTRIGHT_Y (u32 (int_to_u32 y + yres + 4294967295))

/-- The function `vidosd_c(u8 r0, u8 g0, u8 b0)`. -/
def vidosd_c (H : decon_h) (r0 g0 b0 : Nat) : Nat :=
  H.VIDOSD_C_ALPHA0_R_F r0 ||| H.VIDOSD_C_ALPHA0_G_F g0 ||| H.VIDOSD_C_ALPHA0_B_F b0

/-- The function `vidosd_d(u8 r1, u8 g1, u8 b1)`. -/
def vidosd_d (H : decon_h) (r1 g1 b1 : Nat) : Nat :=
  H.VIDOSD_D_ALPHA1_R_F r1 ||| H.VIDOSD_D_ALPHA1_G_F g1 ||| H.VIDOSD_D_ALPHA1_B_F b1

/-- The function `wincon(u32 bits_per_pixel, u32 transp_length, int format)`. -/
def wincon (H : decon_h) (bits_per_pixel transp_length format : Nat) : Nat :=
  let data : Nat := 0
  let data :=
    if bits_per_pixel = 12 then
      let data :=
        if format = H.DECON_PIXEL_FORMAT_NV12 ∨ format = H.DECON_PIXEL_FORMAT_NV12M then
          data ||| H.WINCON_BPPMODE_NV12
        else if format = H.DECON_PIXEL_FORMAT_NV21 ∨ format = H.DECON_PIXEL_FORMAT_NV21M ∨
            format = H.DECON_PIXEL_FORMAT_NV21M_FULL then
          data ||| H.WINCON_BPPMODE_NV21
        else data
      data ||| H.WINCON_INTERPOLATION_EN
    else if bits_per_pixel = 16 then data ||| H.WINCON_BPPMODE_RGB565
    else if bits_per_pixel = 24 ∨ bits_per_pixel = 32 then
      if transp_length > 0 then (data ||| H.WINCON_BLD_PIX) ||| H.WINCON_BPPMODE_ARGB8888
      else data ||| H.WINCON_BPPMODE_XRGB8888
    else data
  if transp_length ≠ 1 then data ||| H.WINCON_ALPHA_SEL else data

/-- The function `blendeq(enum decon_blending blending, u8 transp_length,
int plane_alpha)`; `a` and `b` are `u8`. -/
def blendeq (H : decon_h) (blending transp_length : Nat) (plane_alpha : Int) : Nat :=
  let is_plane_alpha : Bool := decide (plane_alpha < 255 ∧ plane_alpha > 0)
  let blending :=
    if transp_length % 256 = 1 ∧ blending = H.DECON_BLENDING_PREMULT then
      H.DECON_BLENDING_COVERAGE
    else blending
  let eq (a b : Nat) : Nat :=
    H.BLENDE_A_FUNC (a % 256) ||| H.BLENDE_B_FUNC (b % 256) |||
      H.BLENDE_P_FUNC H.BLENDE_COEF_ZERO ||| H.BLENDE_Q_FUNC H.BLENDE_COEF_ZERO
  if blending = H.DECON_BLENDING_NONE then eq H.BLENDE_COEF_ONE H.BLENDE_COEF_ZERO
  else if blending = H.DECON_BLENDING_PREMULT then
    if !is_plane_alpha then eq H.BLENDE_COEF_ONE H.BLENDE_COEF_ONE_MINUS_ALPHA_A
    else eq H.BLENDE_COEF_ALPHA0 H.BLENDE_COEF_ONE_MINUS_ALPHA_A
  else if blending = H.DECON_BLENDING_COVERAGE then
    eq H.BLENDE_COEF_ALPHA_A H.BLENDE_COEF_ONE_MINUS_ALPHA_A
  else 0

/-! ## Pixel-format tables (decon_core.c:258-553) -/

/-- The five YUV formats that every table lists together. -/
def yuv_formats (H : decon_h) : List Nat :=
  [H.DECON_PIXEL_FORMAT_NV12, H.DECON_PIXEL_FORMAT_NV21, H.DECON_PIXEL_FORMAT_NV12M,
   H.DECON_PIXEL_FORMAT_NV21M, H.DECON_PIXEL_FORMAT_NV21M_FULL]

/-- The function `decon_red_length`. -/
def decon_red_length (H : decon_h) (format : Nat) : Nat :=
  if format ∈ [H.DECON_PIXEL_FORMAT_ARGB_8888, H.DECON_PIXEL_FORMAT_ABGR_8888,
      H.DECON_PIXEL_FORMAT_RGBA_8888, H.DECON_PIXEL_FORMAT_BGRA_8888,
      H.DECON_PIXEL_FORMAT_XRGB_8888, H.DECON_PIXEL_FORMAT_XBGR_8888,
      H.DECON_PIXEL_FORMAT_RGBX_8888, H.DECON_PIXEL_FORMAT_BGRX_8888] then 8
  else if format = H.DECON_PIXEL_FORMAT_RGBA_5551 then 5
  else if format = H.DECON_PIXEL_FORMAT_RGB_565 then 5
  else if format ∈ yuv_formats H then 0
  else 0

/-- The function `decon_red_offset`. -/
def decon_red_offset (H : decon_h) (format : Nat) : Nat :=
  if format ∈ [H.DECON_PIXEL_FORMAT_RGBA_8888, H.DECON_PIXEL_FORMAT_RGBX_8888,
      H.DECON_PIXEL_FORMAT_RGBA_5551] then 0
  else if format ∈ [H.DECON_PIXEL_FORMAT_ARGB_8888, H.DECON_PIXEL_FORMAT_XRGB_8888] then 8
  else if format = H.DECON_PIXEL_FORMAT_RGB_565 then 11
  else if format ∈ [H.DECON_PIXEL_FORMAT_BGRA_8888, H.DECON_PIXEL_FORMAT_BGRX_8888] then 16
  else if format ∈ [H.DECON_PIXEL_FORMAT_ABGR_8888, H.DECON_PIXEL_FORMAT_XBGR_8888] then 24
  else if format ∈ yuv_formats H then 0
  else 0

/-- The function `decon_green_length`. -/
def decon_green_length (H : decon_h) (format : Nat) : Nat :=
  if format ∈ [H.DECON_PIXEL_FORMAT_ARGB_8888, H.DECON_PIXEL_FORMAT_ABGR_8888,
      H.DECON_PIXEL_FORMAT_RGBA_8888, H.DECON_PIXEL_FORMAT_BGRA_8888,
      H.DECON_PIXEL_FORMAT_XRGB_8888, H.DECON_PIXEL_FORMAT_XBGR_8888,
      H.DECON_PIXEL_FORMAT_RGBX_8888, H.DECON_PIXEL_FORMAT_BGRX_8888] then 8
  else if format = H.DECON_PIXEL_FORMAT_RGBA_5551 then 5
  else if format = H.DECON_PIXEL_FORMAT_RGB_565 then 6
  else if format ∈ yuv_formats H then 0
  else 0

/-- The function `decon_green_offset`. -/
def decon_green_offset (H : decon_h) (format : Nat) : Nat :=
  if format ∈ [H.DECON_PIXEL_FORMAT_RGBA_8888, H.DECON_PIXEL_FORMAT_RGBX_8888,
      H.DECON_PIXEL_FORMAT_BGRA_8888, H.DECON_PIXEL_FORMAT_BGRX_8888] then 8
  else if format ∈ [H.DECON_PIXEL_FORMAT_ARGB_8888, H.DECON_PIXEL_FORMAT_ABGR_8888,
      H.DECON_PIXEL_FORMAT_XRGB_8888, H.DECON_PIXEL_FORMAT_XBGR_8888] then 16
  else if format ∈ [H.DECON_PIXEL_FORMAT_RGBA_5551, H.DECON_PIXEL_FORMAT_RGB_565] then 5
  else if format ∈ yuv_formats H then 0
  else 0

/-- The function `decon_blue_length`. -/
def decon_blue_length (H : decon_h) (format : Nat) : Nat := decon_red_length H format

/-- The function `decon_blue_offset`. -/
def decon_blue_offset (H : decon_h) (format : Nat) : Nat :=
  if format ∈ [H.DECON_PIXEL_FORMAT_RGBA_8888, H.DECON_PIXEL_FORMAT_RGBX_8888] then 16
  else if format = H.DECON_PIXEL_FORMAT_RGBA_5551 then 10
  else if format ∈ [H.DECON_PIXEL_FORMAT_ABGR_8888, H.DECON_PIXEL_FORMAT_XBGR_8888] then 8
  else if format ∈ [H.DECON_PIXEL_FORMAT_ARGB_8888, H.DECON_PIXEL_FORMAT_XRGB_8888] then 24
  else if format ∈ [H.DECON_PIXEL_FORMAT_RGB_565, H.DECON_PIXEL_FORMAT_BGRA_8888,
      H.DECON_PIXEL_FORMAT_BGRX_8888] then 0
  else if format ∈ yuv_formats H then 0
  else 0

/-- The function `decon_transp_length`. -/
def decon_transp_length (H : decon_h) (format : Nat) : Nat :=
  if format ∈ [H.DECON_PIXEL_FORMAT_RGBA_8888, H.DECON_PIXEL_FORMAT_BGRA_8888] then 8
  else if format = H.DECON_PIXEL_FORMAT_RGBA_5551 then 1
  else if format ∈ [H.DECON_PIXEL_FORMAT_RGBX_8888, H.DECON_PIXEL_FORMAT_RGB_565,
      H.DECON_PIXEL_FORMAT_BGRX_8888] then 0
  else if format ∈ yuv_formats H then 0
  else 0

/-- The function `decon_transp_offset`. -/
def decon_transp_offset (H : decon_h) (format : Nat) : Nat :=
  if format ∈ [H.DECON_PIXEL_FORMAT_RGBA_8888, H.DECON_PIXEL_FORMAT_BGRA_8888] then 24
  else if format = H.DECON_PIXEL_FORMAT_RGBA_5551 then 15
  else if format = H.DECON_PIXEL_FORMAT_RGBX_8888 then decon_blue_offset H format
  else if format = H.DECON_PIXEL_FORMAT_BGRX_8888 then decon_red_offset H format
  else if format = H.DECON_PIXEL_FORMAT_RGB_565 then 0
  else if format ∈ yuv_formats H then 0
  else 0

/-- The function `decon_padding`. -/
def decon_padding (H : decon_h) (format : Nat) : Nat :=
  if format ∈ [H.DECON_PIXEL_FORMAT_RGBX_8888, H.DECON_PIXEL_FORMAT_BGRX_8888] then 8
  else if format ∈ [H.DECON_PIXEL_FORMAT_RGBA_8888, H.DECON_PIXEL_FORMAT_RGBA_5551,
      H.DECON_PIXEL_FORMAT_RGB_565, H.DECON_PIXEL_FORMAT_BGRA_8888] then 0
  else if format ∈ yuv_formats H then 0
  else 0

/-- The function `decon_rgborder`. -/
def decon_rgborder (H : decon_h) (format : Nat) : Nat :=
  if format = H.DECON_PIXEL_FORMAT_RGBA_8888 then H.WINCON_BPPMODE_ABGR8888
  else if format = H.DECON_PIXEL_FORMAT_RGBX_8888 then H.WINCON_BPPMODE_XBGR8888
  else if format = H.DECON_PIXEL_FORMAT_RGB_565 then H.WINCON_BPPMODE_RGB565
  else if format = H.DECON_PIXEL_FORMAT_BGRA_8888 then H.WINCON_BPPMODE_ARGB8888
  else if format = H.DECON_PIXEL_FORMAT_BGRX_8888 then H.WINCON_BPPMODE_XRGB8888
  else if format = H.DECON_PIXEL_FORMAT_ARGB_8888 then H.WINCON_BPPMODE_BGRA8888
  else if format = H.DECON_PIXEL_FORMAT_ABGR_8888 then H.WINCON_BPPMODE_RGBA8888
  else if format = H.DECON_PIXEL_FORMAT_XRGB_8888 then H.WINCON_BPPMODE_BGRX8888
  else if format = H.DECON_PIXEL_FORMAT_XBGR_8888 then H.WINCON_BPPMODE_RGBX8888
  else if format ∈ yuv_formats H then 0
  else 0

/-- The function `decon_validate_x_alignment(decon, int x, u32 w, u32 bits_per_pixel)`:
`pixel_alignment` is a `uint8_t`, `x % pixel_alignment` an `int` remainder and
`(x + w) % pixel_alignment` a `u32` remainder.  (A zero `pixel_alignment` is a
division by zero in C; here `%` then returns the dividend.) -/
def decon_validate_x_alignment (x : Int) (w bits_per_pixel : Nat) : Bool :=
  let pixel_alignment : Nat := (32 / bits_per_pixel) % 256
  if Int.tmod x (pixel_alignment : Int) ≠ 0 then false
  else if u32 (int_to_u32 x + w) % pixel_alignment ≠ 0 then false
  else true

/-- The function `decon_calc_bandwidth(u32 w, u32 h, u32 bytes_per_pixel, int fps)`,
every product in `unsigned int`. -/
def decon_calc_bandwidth (w h bytes_per_pixel : Nat) (fps : Int) : Nat :=
  let bw := u32 (w * h)
  let bw := u32 (bw * bytes_per_pixel)
  let bw := u32 (bw * int_to_u32 fps)
  bw

/-! ## Rectangles (decon_core.c:606-650) -/

/-- The function `is_decon_rect_differ`. -/
def is_decon_rect_differ (r1 r2 : decon_rect) : Bool :=
  decide (r1.left ≠ r2.left ∨ r1.top ≠ r2.top ∨ r1.right ≠ r2.right ∨ r1.bottom ≠ r2.bottom)

/-- The function `does_layer_need_scale`. -/
def does_layer_need_scale (config : decon_win_config) : Bool :=
  decide (config.dst.w ≠ config.src.w ∨ config.dst.h ≠ config.src.h)

/-- The function `decon_intersect`. -/
def decon_intersect (r1 r2 : decon_rect) : Bool :=
  !decide (r1.left > r2.right ∨ r1.right < r2.left ∨ r1.top > r2.bottom ∨ r1.bottom < r2.top)

/-- The function `decon_intersection`: the rectangle it stores in `r3`. -/
def decon_intersection (r1 r2 : decon_rect) : decon_rect :=
  { top := max r1.top r2.top, bottom := min r1.bottom r2.bottom,
    left := max r1.left r2.left, right := min r1.right r2.right }

/-- The function `is_decon_rgb32`. -/
def is_decon_rgb32 (H : decon_h) (format : Nat) : Bool :=
  decide (format ∈ [H.DECON_PIXEL_FORMAT_ARGB_8888, H.DECON_PIXEL_FORMAT_ABGR_8888,
    H.DECON_PIXEL_FORMAT_RGBA_8888, H.DECON_PIXEL_FORMAT_BGRA_8888,
    H.DECON_PIXEL_FORMAT_XRGB_8888, H.DECON_PIXEL_FORMAT_XBGR_8888,
    H.DECON_PIXEL_FORMAT_RGBX_8888, H.DECON_PIXEL_FORMAT_BGRX_8888])

/-- The inclusive far edge `x + w - 1` of a span with `int x` and `u32 w`: the sum
is formed in `u32` and stored to an `int`. -/
def far_edge (x : Int) (w : Nat) : Int := u32_to_int (int_to_u32 x + w + 4294967295)

/-- The four assignments `r.left = dst.x; r.top = dst.y; r.right = r.left + dst.w - 1;
r.bottom = r.top + dst.h - 1` made from a destination frame. -/
def rect_of_dst (dst : decon_frame) : decon_rect :=
  { left := dst.x, top := dst.y, right := far_edge dst.x dst.w, bottom := far_edge dst.y dst.h }

/-- The function `decon_get_memory_plane_cnt`. -/
def decon_get_memory_plane_cnt (H : decon_h) (format : Nat) : Int :=
  if format ∈ [H.DECON_PIXEL_FORMAT_ARGB_8888, H.DECON_PIXEL_FORMAT_ABGR_8888,
      H.DECON_PIXEL_FORMAT_RGBA_8888, H.DECON_PIXEL_FORMAT_BGRA_8888,
      H.DECON_PIXEL_FORMAT_XRGB_8888, H.DECON_PIXEL_FORMAT_XBGR_8888,
      H.DECON_PIXEL_FORMAT_RGBX_8888, H.DECON_PIXEL_FORMAT_BGRX_8888,
      H.DECON_PIXEL_FORMAT_RGBA_5551, H.DECON_PIXEL_FORMAT_RGB_565] then 1
  else if format ∈ [H.DECON_PIXEL_FORMAT_NV12M, H.DECON_PIXEL_FORMAT_NV21M,
      H.DECON_PIXEL_FORMAT_NV21M_FULL] then 2
  else if format ∈ [H.DECON_PIXEL_FORMAT_NV12, H.DECON_PIXEL_FORMAT_NV21] then 1
  else -1

/-- The function `decon_is_plane_offset_calc_required`. -/
def decon_is_plane_offset_calc_required (H : decon_h) (format : Nat) : Bool :=
  decide (format ∈ [H.DECON_PIXEL_FORMAT_NV12, H.DECON_PIXEL_FORMAT_NV21])

/-! ## Blocking mode (decon_core.c:652-733) -/

/-- The locals of the search loop of `decon_set_win_blocking_mode`. -/
structure blocking_state where
  returned : Bool
  block_rect : decon_rect
  blocking_size : Nat
  enabled : Bool

/-- The product `(r.right - r.left) * (r.bottom - r.top)` of `int`s, stored to an
`unsigned int`. -/
def rect_size (r : decon_rect) : Nat :=
  int_to_u32 (s32 (s32 (r.right - r.left) * s32 (r.bottom - r.top)))

/-- One iteration, for upper window `j`, of the loop of `decon_set_win_blocking_mode`
(`returned` records that `return 1` was taken). -/
def blocking_step (H : decon_h) (win_config : Nat → decon_win_config) (r1 : decon_rect)
    (j : Nat) (st : blocking_state) : blocking_state :=
  if st.returned then st
  else
    let config := win_config j
    if config.state ≠ H.DECON_WIN_STATE_BUFFER then st
    else if config.format = H.DECON_PIXEL_FORMAT_ARGB_8888 ∨
        config.format = H.DECON_PIXEL_FORMAT_ABGR_8888 ∨
        config.format = H.DECON_PIXEL_FORMAT_RGBA_8888 ∨
        config.format = H.DECON_PIXEL_FORMAT_BGRA_8888 ∨
        config.format = H.DECON_PIXEL_FORMAT_RGBA_5551 ∨
        (config.plane_alpha < 255 ∧ config.plane_alpha > 0) then st
    else
      let r2 := rect_of_dst config.dst
      if decon_intersect r1 r2 then
        let overlap_rect := decon_intersection r1 r2
        if !is_decon_rect_differ r1 overlap_rect then { st with returned := true }
        else if s32 (s32 (overlap_rect.right - overlap_rect.left) + 1) < H.MIN_BLK_MODE_WIDTH ∨
            s32 (s32 (overlap_rect.bottom - overlap_rect.top) + 1) < H.MIN_BLK_MODE_HEIGHT then st
        else
          let overlap_size := rect_size overlap_rect
          if overlap_size > st.blocking_size then
            { st with block_rect := overlap_rect, blocking_size := rect_size overlap_rect,
                      enabled := true }
          else st
      else st

/-- The function `decon_set_win_blocking_mode` for window `idx`: its return value and
the request array and snapshot it leaves.  The final `memcpy` goes to
`win_config->block_area`, the first element of the request array. -/
def decon_set_win_blocking_mode (H : decon_h) (max_win idx : Nat)
    (win_config : Nat → decon_win_config) (regs : decon_reg_data) :
    Int × (Nat → decon_win_config) × decon_reg_data :=
  let config := win_config idx
  if config.state ≠ H.DECON_WIN_STATE_BUFFER then (0, win_config, regs)
  else if !is_decon_rgb32 H config.format then (0, win_config, regs)
  else
    let r1 := rect_of_dst (win_config idx).dst
    let st0 : blocking_state :=
      { returned := false, block_rect := { left := 0, top := 0, right := 0, bottom := 0 },
        blocking_size := 0, enabled := false }
    let st := for_loop (fun k st => blocking_step H win_config r1 (idx + 1 + k) st)
      (max_win - (idx + 1)) st0
    if st.returned then
      (1, set_at win_config idx { win_config idx with state := H.DECON_WIN_STATE_DISABLED }, regs)
    else if st.enabled then
      let rect : decon_win_rect :=
        { w := int_to_u32 (s32 (s32 (st.block_rect.right - st.block_rect.left) + 1)),
          h := int_to_u32 (s32 (s32 (st.block_rect.bottom - st.block_rect.top) + 1)),
          x := s32 (st.block_rect.left - (win_config idx).dst.x),
          y := s32 (st.block_rect.top - (win_config idx).dst.y) }
      let regs := { regs with block_rect := set_at regs.block_rect idx rect }
      (0, set_at win_config 0 { win_config 0 with block_area := regs.block_rect idx }, regs)
    else (0, win_config, regs)

/-! ## Buffer import (decon_core.c:1312-1440) -/

/-- The answers of the kernel services that the submission path calls: file
descriptors, memory allocation, the ION / dma-buf import chain and fence lookup. -/
structure kernel_env where
  get_unused_fd : Int
  get_unused_fd_retry : Int
  kzalloc_ok : Bool
  ion_import_dma_buf : Int → Int
  dma_buf_get : Int → Int
  dma_buf_size : Int → Nat
  dma_buf_attach : Int → Int
  dma_buf_map_attachment : Int → Int
  ion_iovmm_map : Int → Int
  sync_fence_fdget : Int → Int

/-- The function `decon_map_ion_handle`: the size it returns (0 on failure), the
descriptor it leaves in `*dma`, and the calls of its unwinding. -/
def decon_map_ion_handle (env : kernel_env) (dma : decon_dma_buf_data) (ion_handle buf : Int) :
    Nat × decon_dma_buf_data × List kcall :=
  let dma := { dma with fence := 0, dma_buf := buf }
  let dma := { dma with attachment := env.dma_buf_attach dma.dma_buf }
  if IS_ERR_OR_NULL dma.attachment then (0, dma, [])
  else
    let dma := { dma with sg_table := env.dma_buf_map_attachment dma.attachment }
    if IS_ERR_OR_NULL dma.sg_table then
      (0, dma, [kcall.dma_buf_detach dma.dma_buf dma.attachment])
    else
      let dma := { dma with dma_addr := env.ion_iovmm_map dma.attachment }
      if dma.dma_addr = 0 ∨ IS_ERR dma.dma_addr then
        (0, dma, [kcall.dma_buf_unmap_attachment dma.attachment dma.sg_table,
                  kcall.dma_buf_detach dma.dma_buf dma.attachment])
      else
        let dma := { dma with ion_handle := ion_handle }
        (u32 (env.dma_buf_size dma.dma_buf), dma, [])

/-- The function `decon_calc_plane_offset` on the three descriptors of one window;
`stride * vstride` is an `unsigned int` product. -/
def decon_calc_plane_offset (H : decon_h) (config : decon_win_config)
    (dma_buf_data : Nat → decon_dma_buf_data) : Nat → decon_dma_buf_data :=
  let stride := config.src.f_w
  let vstride := config.src.f_h
  if config.format = H.DECON_PIXEL_FORMAT_NV12 ∨ config.format = H.DECON_PIXEL_FORMAT_NV21 then
    let addr1 : Int := (dma_buf_data 0).dma_addr + (u32 (stride * vstride) : Nat)
    let d := set_at dma_buf_data 1 { dma_buf_data 1 with dma_addr := addr1 }
    set_at d 2 { d 2 with dma_addr := 0 }
  else dma_buf_data

/-! ## Alpha blending (decon_core.c:1488-1523) -/

/-- The function `decon_set_alpha_blending`: the request (its `blending` may be
rewritten) and the snapshot it leaves. -/
def decon_set_alpha_blending (H : decon_h) (win_config : decon_win_config)
    (regs : decon_reg_data) (win_no : Nat) (transp_length : Nat) :
    decon_win_config × decon_reg_data :=
  let has_plane_alpha : Bool := decide (win_config.plane_alpha > 0 ∧ win_config.plane_alpha < 255)
  let alpha : Nat × Nat :=
    if has_plane_alpha then (int_to_u32 win_config.plane_alpha % 256, 0)
    else if transp_length = 1 ∧ win_config.blending = H.DECON_BLENDING_NONE then (255, 255)
    else (0, 255)
  let regs := { regs with vidosd_c := set_at regs.vidosd_c win_no (vidosd_c H alpha.1 alpha.1 alpha.1) }
  let regs := { regs with vidosd_d := set_at regs.vidosd_d win_no (vidosd_d H alpha.2 alpha.2 alpha.2) }
  if win_no ≠ 0 then
    let step : decon_win_config × decon_reg_data :=
      if has_plane_alpha then
        if transp_length ≠ 0 then
          if win_config.blending ≠ H.DECON_BLENDING_NONE then
            let wc := set_at regs.wincon win_no (regs.wincon win_no ||| H.WINCON_ALPHA_MUL)
            (win_config, { regs with wincon := wc })
          else (win_config, regs)
        else
          let wc := set_at regs.wincon win_no (regs.wincon win_no &&& not32 H.WINCON_ALPHA_SEL)
          let regs := { regs with wincon := wc }
          if win_config.blending = H.DECON_BLENDING_PREMULT then
            ({ win_config with blending := H.DECON_BLENDING_COVERAGE }, regs)
          else (win_config, regs)
      else (win_config, regs)
    let win_config := step.1
    let regs := step.2
    let eq := blendeq H win_config.blending transp_length win_config.plane_alpha
    (win_config, { regs with blendeq := set_at regs.blendeq (win_no - 1) eq })
  else (win_config, regs)

/-! ## Staging one buffer window (decon_core.c:1525-1724) -/

/-- Where the plane-import loop of `decon_set_win_buffer` stands: still running, or
left through one of its `goto` labels. -/
inductive import_exit
  | running
  | err_invalid
  | err_buf_get
  | err_map
  deriving DecidableEq

/-- The locals of `decon_set_win_buffer` that the plane-import loop works on.  The
local arrays `buf` and `dma_buf_data` and the local `handle` are not initialised by
the C code; they start zeroed here. -/
structure import_state where
  exit : import_exit
  ret : Int
  handle : Int
  buf : Nat → Int
  dma_buf_data : Nat → decon_dma_buf_data
  buf_size : Nat
  vpp_addr : Nat → Int
  log : List kcall

/-- One iteration (plane `i`) of the import loop at decon_core.c:1615-1639. -/
def import_step (env : kernel_env) (fd_idma : Nat → Int) (i : Nat) (st : import_state) :
    import_state :=
  if st.exit ≠ import_exit.running then st
  else
    let handle := env.ion_import_dma_buf (fd_idma i)
    if IS_ERR handle then
      { st with exit := import_exit.err_invalid, ret := PTR_ERR handle, handle := handle }
    else
      let b := env.dma_buf_get (fd_idma i)
      let st := { st with handle := handle, buf := set_at st.buf i b }
      if IS_ERR_OR_NULL b then { st with exit := import_exit.err_buf_get, ret := PTR_ERR b }
      else
        let m := decon_map_ion_handle env (st.dma_buf_data i) handle b
        let st := { st with dma_buf_data := set_at st.dma_buf_data i m.2.1, buf_size := m.1,
                            log := st.log ++ m.2.2 }
        if m.1 = 0 then { st with exit := import_exit.err_map, ret := -ENOMEM }
        else
          { st with vpp_addr := set_at st.vpp_addr i m.2.1.dma_addr, handle := 0,
                    buf := set_at st.buf i 0 }

/-- The calls of `for (i = 0; i < n; ++i) decon_free_dma_buf(decon, &dma[i])`. -/
def free_planes_log (dma : Nat → decon_dma_buf_data) (n : Nat) : List kcall :=
  for_loop (fun i l => l ++ (decon_free_dma_buf (dma i)).1) n []

/-- The calls of `for (i = 0; i < n; ++i) dma_buf_put(buf[i])`. -/
def put_bufs_log (buf : Nat → Int) (n : Nat) : List kcall :=
  for_loop (fun i l => l ++ [kcall.dma_buf_put (buf i)]) n []

/-- What `decon_set_win_buffer` returns and leaves behind. -/
structure win_buffer_result where
  ret : Int
  win : decon_win
  win_config : decon_win_config
  regs : decon_reg_data
  log : List kcall

/-- The channel layout that `decon_set_win_buffer` writes to `win->fbinfo->var`
(decon_core.c:1563-1587). -/
def var_of_format (H : decon_h) (var : fb_var_screeninfo) (format : Nat) : fb_var_screeninfo :=
  let var := { var with red_length := decon_red_length H format,
                        red_offset := decon_red_offset H format,
                        green_length := decon_green_length H format,
                        green_offset := decon_green_offset H format,
                        blue_length := decon_blue_length H format,
                        blue_offset := decon_blue_offset H format,
                        transp_length := decon_transp_length H format,
                        transp_offset := decon_transp_offset H format }
  let sum := u32 (var.red_length + var.green_length + var.blue_length + var.transp_length +
    decon_padding H format)
  let var := { var with bits_per_pixel := sum }
  if format ≤ H.DECON_PIXEL_FORMAT_RGB_565 then { var with bits_per_pixel := sum }
  else { var with bits_per_pixel := 12 }

/-- The window state that the success path of `decon_set_win_buffer` stores
(decon_core.c:1662-1676); `var` is the layout already written for the format. -/
def win_of_buffer (win : decon_win) (var : fb_var_screeninfo) (win_config : decon_win_config)
    (dma_addr : Int) (buf_size : Nat) : decon_win :=
  let var := { var with xres := win_config.dst.w,
                        xres_virtual := win_config.dst.f_w,
                        yres := win_config.dst.h,
                        yres_virtual := win_config.dst.f_h,
                        xoffset := int_to_u32 win_config.src.x,
                        yoffset := int_to_u32 win_config.src.y }
  let fix := { win.fix with smem_start := dma_addr,
                            smem_len := buf_size,
                            line_length := u32 (win_config.src.f_w * var.bits_per_pixel) / 8,
                            xpanstep := fb_panstep win_config.dst.w var.xres_virtual,
                            ypanstep := fb_panstep win_config.dst.h var.yres_virtual }
  { win with fix := fix, var := var }

/-- The snapshot entries that the success path of `decon_set_win_buffer` stores
before it calls `decon_set_alpha_blending` (decon_core.c:1678-1699). -/
def regs_of_buffer (H : decon_h) (win_no : Nat) (win : decon_win) (win_config : decon_win_config)
    (dma : Nat → decon_dma_buf_data) (plane_cnt : Nat) (regs : decon_reg_data) : decon_reg_data :=
  let planes : Nat → decon_dma_buf_data :=
    fun i => if i < plane_cnt then dma i else regs.dma_buf_data win_no i
  let planes :=
    if decon_is_plane_offset_calc_required H win_config.format then
      decon_calc_plane_offset H win_config planes
    else planes
  let wc := wincon H win.var.bits_per_pixel win.var.transp_length win_config.format
  let wc := wc ||| decon_rgborder H win_config.format
  { regs with
    dma_buf_data := set_at regs.dma_buf_data win_no planes,
    buf_start := set_at regs.buf_start win_no win.fix.smem_start,
    vidosd_a := set_at regs.vidosd_a win_no (vidosd_a H win_config.dst.x win_config.dst.y),
    vidosd_b := set_at regs.vidosd_b win_no
      (vidosd_b H win_config.dst.x win_config.dst.y win_config.dst.w win_config.dst.h),
    whole_w := set_at regs.whole_w win_no win_config.src.f_w,
    whole_h := set_at regs.whole_h win_no win_config.src.f_h,
    offset_x := set_at regs.offset_x win_no (int_to_u32 win_config.src.x),
    offset_y := set_at regs.offset_y win_no (int_to_u32 win_config.src.y),
    wincon := set_at regs.wincon win_no wc,
    protection := set_at regs.protection win_no win_config.protection }

/-- The calls of the label `err_buf_get`: `if (handle) ion_free(...)`. -/
def ion_free_log (handle : Int) : List kcall :=
  if handle ≠ 0 then [kcall.ion_free handle] else []

/-- The part of `decon_set_win_buffer` after the plane-import loop
(decon_core.c:1640-1723), given the loop's final locals `st`, the layout `var`
already written to the window, and `prev_var`. -/
def win_buffer_finish (H : decon_h) (env : kernel_env) (win_no : Nat) (win : decon_win)
    (var prev_var : fb_var_screeninfo) (win_config : decon_win_config) (regs : decon_reg_data)
    (plane_cnt : Nat) (st : import_state) : win_buffer_result :=
  let err_invalid (ret : Int) (log : List kcall) : win_buffer_result :=
    { ret := ret, win := { win with var := prev_var },
      win_config := { win_config with vpp_addr := st.vpp_addr }, regs := regs, log := log }
  let err_offset (ret : Int) (dma : Nat → decon_dma_buf_data) : win_buffer_result :=
    err_invalid ret
      (st.log ++ free_planes_log dma plane_cnt ++ put_bufs_log st.buf plane_cnt ++
        ion_free_log st.handle)
  match st.exit with
  | import_exit.err_invalid => err_invalid st.ret st.log
  | import_exit.err_buf_get => err_invalid st.ret (st.log ++ ion_free_log st.handle)
  | import_exit.err_map =>
    err_invalid st.ret (st.log ++ put_bufs_log st.buf plane_cnt ++ ion_free_log st.handle)
  | import_exit.running =>
    let fence : Int := env.sync_fence_fdget win_config.fence_fd
    let dma : Nat → decon_dma_buf_data :=
      if win_config.fence_fd ≥ 0 then
        set_at st.dma_buf_data 0 { st.dma_buf_data 0 with fence := fence }
      else st.dma_buf_data
    if win_config.fence_fd ≥ 0 ∧ fence = 0 then err_offset (-EINVAL) dma
    else
      let window_size := u32 (u32 (win_config.dst.w * win_config.dst.h) * var.bits_per_pixel) / 8
      if win_config.format ≤ H.DECON_PIXEL_FORMAT_RGB_565 ∧ window_size > st.buf_size then
        err_offset (-EINVAL) dma
      else
        let win := win_of_buffer win var win_config (dma 0).dma_addr st.buf_size
        let win_config := { win_config with vpp_addr := st.vpp_addr }
        let regs := regs_of_buffer H win_no win win_config dma plane_cnt regs
        let ab := decon_set_alpha_blending H win_config regs win_no win.var.transp_length
        { ret := 0, win := win, win_config := ab.1, regs := ab.2, log := st.log }

/-- The function `decon_set_win_buffer` for window `win_no` (`win->index`). -/
def decon_set_win_buffer (H : decon_h) (env : kernel_env) (win_no : Nat) (win : decon_win)
    (win_config : decon_win_config) (regs : decon_reg_data) : win_buffer_result :=
  let prev_var := win.var
  let early (ret : Int) : win_buffer_result :=
    { ret := ret, win := win, win_config := win_config, regs := regs, log := [] }
  if win_config.format ≥ H.DECON_PIXEL_FORMAT_MAX then early (-EINVAL)
  else if win_config.blending ≥ H.DECON_BLENDING_MAX then early (-EINVAL)
  else if win_no = 0 ∧ win_config.blending ≠ H.DECON_BLENDING_NONE then early (-EINVAL)
  else if win_config.dst.w = 0 ∨ win_config.dst.h = 0 ∨ win_config.dst.x < 0 ∨
      win_config.dst.y < 0 then early (-EINVAL)
  else
    let var := var_of_format H win.var win_config.format
    let err_invalid (ret : Int) : win_buffer_result :=
      { ret := ret, win := { win with var := prev_var }, win_config := win_config, regs := regs,
        log := [] }
    if u32 (win_config.dst.w * var.bits_per_pixel) / 8 < 128 then err_invalid (-EINVAL)
    else if win_config.src.f_w < win_config.dst.w then err_invalid (-EINVAL)
    else if win_config.format ≤ H.DECON_PIXEL_FORMAT_RGB_565 ∧
        decon_validate_x_alignment win_config.dst.x win_config.dst.w var.bits_per_pixel = false then
      err_invalid (-EINVAL)
    else
      let plane_cnt := (decon_get_memory_plane_cnt H win_config.format).toNat
      let st0 : import_state :=
        { exit := import_exit.running, ret := 0, handle := 0, buf := fun _ => 0,
          dma_buf_data := fun _ => dma_zero, buf_size := 0, vpp_addr := win_config.vpp_addr,
          log := [] }
      let st := for_loop (import_step env win_config.fd_idma) plane_cnt st0
      win_buffer_finish H env win_no win var prev_var win_config regs plane_cnt st

/-! ## The device -/

/-- The power state `decon->state`. -/
inductive decon_state
  | OFF
  | INIT
  | ON
  | LPD
  | LPD_ENT_REQ
  | LPD_EXIT_REQ
  deriving DecidableEq

/-- The output `decon->out_type`; `OTHER` is any enumerator that decon_core.c does
not name. -/
inductive decon_out_type
  | DSI
  | TUI
  | OTHER
  deriving DecidableEq

/-- The mode `decon->pdata->psr_mode`; `OTHER` is any enumerator that decon_core.c
does not name. -/
inductive decon_psr_mode
  | VIDEO_MODE
  | MIPI_COMMAND_MODE
  | OTHER
  deriving DecidableEq

/-- The trigger `decon->pdata->trig_mode`. -/
inductive decon_trig_mode
  | HW_TRIG
  | SW_TRIG
  deriving DecidableEq

/-- The fields of `struct decon_lcd` that the commit path reads. -/
structure decon_lcd where
  xres : Nat
  yres : Nat
  hfp : Nat
  vfp : Nat
  mic_enabled : Bool
  deriving DecidableEq

/-- The driver instance `struct decon_device`: the fields that submission and commit
read or write.  `timeline` is the value of the sw_sync timeline `decon->timeline`
(a `u32`), `timeline_max` the `int` counter of promised fences, `update_regs_list`
the queue of snapshots waiting for the worker (head first), `extra_vsync_wait`
the file-scope counter of that name, `log` the calls made so far. -/
structure decon_device where
  state : decon_state
  out_type : decon_out_type
  psr_mode : decon_psr_mode
  trig_mode : decon_trig_mode
  ignore_vsync : Bool
  max_win : Nat
  lcd_info : decon_lcd
  windows : Nat → decon_win
  update_win : decon_win_rect
  need_update : Bool
  timeline_max : Int
  timeline : Nat
  update_regs_list : List decon_reg_data
  prev_bw : Nat
  max_win_bw : Nat
  cur_protection_bitmask : Nat
  prev_protection_status : Bool
  frame_done_cnt_target : Nat
  frame_done_cnt_cur : Nat
  vsync_irq_refcount : Int
  extra_vsync_wait : Int
  log : List kcall

/-! ## Partial update (decon_core.c:1727-1887) -/

/-- The C expression `a & b` on two `int`s. -/
def int_and (a b : Int) : Int := u32_to_int (int_to_u32 a &&& int_to_u32 b)

/-- The function `decon_update_2_full`. -/
def decon_update_2_full (decon : decon_device) (regs : decon_reg_data) (flag : Bool) :
    decon_device × decon_reg_data :=
  let regs := if flag then { regs with need_update := true } else regs
  let decon := { decon with need_update := false,
                            update_win := { x := 0, y := 0, w := decon.lcd_info.xres,
                                            h := decon.lcd_info.yres } }
  let regs := { regs with update_win := { regs.update_win with w := decon.lcd_info.xres,
                                                               h := decon.lcd_info.yres } }
  (decon, regs)

/-- The function `decon_calibrate_win_update_size`: the update request it leaves.
`~0x7` is the `int` -8; `dst.w` arithmetic is `u32`. -/
def decon_calibrate_win_update_size (H : decon_h) (decon : decon_device)
    (update_config : decon_win_config) : decon_win_config :=
  if update_config.state ≠ H.DECON_WIN_STATE_UPDATE then update_config
  else if update_config.dst.x < 0 ∨ update_config.dst.y < 0 then
    { update_config with state := H.DECON_WIN_STATE_DISABLED }
  else if decon.update_win.w = 0 ∨ decon.update_win.h = 0 then
    { update_config with state := H.DECON_WIN_STATE_DISABLED }
  else
    let dst := update_config.dst
    let dst :=
      if int_and dst.x 7 ≠ 0 then
        let dst := { dst with w := u32 (dst.w + int_to_u32 (int_and dst.x 7)) }
        { dst with x := int_and dst.x (-8) }
      else dst
    let dst := { dst with w := u32 (dst.w + 7) &&& not32 7 }
    let dst :=
      if u32 (int_to_u32 dst.x + dst.w) > decon.lcd_info.xres then
        { dst with w := decon.lcd_info.xres, x := 0 }
      else dst
    { update_config with dst := dst }

/-- Store to `win_config[i].dst`. -/
def set_dst (wc : Nat → decon_win_config) (i : Nat) (dst : decon_frame) :
    Nat → decon_win_config :=
  set_at wc i { wc i with dst := dst }

/-- Store to `win_config[i].src`. -/
def set_src (wc : Nat → decon_win_config) (i : Nat) (src : decon_frame) :
    Nat → decon_win_config :=
  set_at wc i { wc i with src := src }

/-- Store to `win_config[i].state`. -/
def set_state (wc : Nat → decon_win_config) (i : Nat) (state : Nat) : Nat → decon_win_config :=
  set_at wc i { wc i with state := state }

/-- The C expression `min(u_w, c_x + c_w - u_x)` of the clipping loop (`u32`
arithmetic on `int` origins and `u32` extents). -/
def clip_from_low (u_x : Int) (u_w : Nat) (c_x : Int) (c_w : Nat) : Nat :=
  min u_w (u32 (int_to_u32 c_x + c_w + 4294967296 - int_to_u32 u_x))

/-- The C expression `min(c_w, u_w + u_x - c_x)` of the clipping loop. -/
def clip_from_high (u_x : Int) (u_w : Nat) (c_x : Int) (c_w : Nat) : Nat :=
  min c_w (u32 (u_w + int_to_u32 u_x + 4294967296 - int_to_u32 c_x))

/-- One iteration (window `i`) of the clipping loop of `decon_set_win_update_config`
(decon_core.c:1836-1884).  `update_config` points into the same array, at index
`DECON_WIN_UPDATE_IDX`, so it is read from the array at every use; `r1` was
computed before the loop. -/
def win_update_clip (H : decon_h) (r1 : decon_rect) (i : Nat) (wc : Nat → decon_win_config) :
    Nat → decon_win_config :=
  let U := H.DECON_WIN_UPDATE_IDX
  if (wc i).state = H.DECON_WIN_STATE_DISABLED then wc
  else
    let r2 := rect_of_dst (wc i).dst
    if !decon_intersect r1 r2 then set_state wc i H.DECON_WIN_STATE_DISABLED
    else
      let temp_config := wc i
      let wc :=
        if (wc U).dst.x > (wc i).dst.x then
          let w := clip_from_low (wc U).dst.x (wc U).dst.w (wc i).dst.x (wc i).dst.w
          set_dst wc i { (wc i).dst with w := w }
        else if u32 (int_to_u32 (wc U).dst.x + (wc U).dst.w) <
            u32 (int_to_u32 (wc i).dst.x + (wc i).dst.w) then
          let w := clip_from_high (wc U).dst.x (wc U).dst.w (wc i).dst.x (wc i).dst.w
          set_dst wc i { (wc i).dst with w := w }
        else wc
      let wc :=
        if (wc U).dst.y > (wc i).dst.y then
          let h := clip_from_low (wc U).dst.y (wc U).dst.h (wc i).dst.y (wc i).dst.h
          set_dst wc i { (wc i).dst with h := h }
        else if u32 (int_to_u32 (wc U).dst.y + (wc U).dst.h) <
            u32 (int_to_u32 (wc i).dst.y + (wc i).dst.h) then
          let h := clip_from_high (wc U).dst.y (wc U).dst.h (wc i).dst.y (wc i).dst.h
          set_dst wc i { (wc i).dst with h := h }
        else wc
      let wc := set_dst wc i { (wc i).dst with x := max (s32 ((wc i).dst.x - (wc U).dst.x)) 0 }
      let wc := set_dst wc i { (wc i).dst with y := max (s32 ((wc i).dst.y - (wc U).dst.y)) 0 }
      let wc :=
        if (wc U).dst.y > temp_config.dst.y then
          let y := s32 ((wc i).src.y + s32 ((wc U).dst.y - temp_config.dst.y))
          set_src wc i { (wc i).src with y := y }
        else wc
      let wc :=
        if (wc U).dst.x > temp_config.dst.x then
          let x := s32 ((wc i).src.x + s32 ((wc U).dst.x - temp_config.dst.x))
          set_src wc i { (wc i).src with x := x }
        else wc
      let wc := set_src wc i { (wc i).src with w := (wc i).dst.w }
      let wc := set_src wc i { (wc i).src with h := (wc i).dst.h }
      wc

/-- The rectangle `x, y, w, h` of a destination frame. -/
def win_rect_of_dst (dst : decon_frame) : decon_win_rect :=
  { x := dst.x, y := dst.y, w := dst.w, h := dst.h }

/-- The function `decon_set_win_update_config`: the device, the request array and
the snapshot it leaves. -/
def decon_set_win_update_config (H : decon_h) (decon : decon_device)
    (win_config : Nat → decon_win_config) (regs : decon_reg_data) :
    decon_device × (Nat → decon_win_config) × decon_reg_data :=
  let U := H.DECON_WIN_UPDATE_IDX
  let win_config := set_at win_config U (decon_calibrate_win_update_size H decon (win_config U))
  let update_config := win_config U
  let clip (decon : decon_device) (regs : decon_reg_data) :
      decon_device × (Nat → decon_win_config) × decon_reg_data :=
    if update_config.state ≠ H.DECON_WIN_STATE_UPDATE then (decon, win_config, regs)
    else
      let r1 := rect_of_dst update_config.dst
      (decon, for_loop (win_update_clip H r1) decon.max_win win_config, regs)
  if update_config.state = H.DECON_WIN_STATE_UPDATE ∧
      (update_config.dst.x ≠ decon.update_win.x ∨ update_config.dst.y ≠ decon.update_win.y ∨
       update_config.dst.w ≠ decon.update_win.w ∨ update_config.dst.h ≠ decon.update_win.h) then
    clip { decon with update_win := win_rect_of_dst update_config.dst, need_update := true }
      { regs with need_update := true, update_win := win_rect_of_dst update_config.dst }
  else if decon.need_update ∧ update_config.state ≠ H.DECON_WIN_STATE_UPDATE then
    let r := decon_update_2_full decon regs true
    (r.1, win_config, r.2)
  else if decon.need_update then
    clip decon { regs with update_win := win_rect_of_dst update_config.dst }
  else clip decon regs

/-! ## Submission: decon_set_win_config (decon_core.c:2189-2362) -/

/-- The argument `struct decon_win_config_data`: the request array and the fence
descriptor returned to the caller. -/
structure decon_win_config_data where
  config : Nat → decon_win_config
  fence : Int

/-- The variables that the window loop of `decon_set_win_config` updates: the device
(windows and call log), the request array, the snapshot, `ret` and `bw`. -/
structure cfg_state where
  decon : decon_device
  win_config : Nat → decon_win_config
  regs : decon_reg_data
  ret : Int
  bw : Nat

/-- Store to `decon->windows[i]`. -/
def set_window (decon : decon_device) (i : Nat) (win : decon_win) : decon_device :=
  { decon with windows := set_at decon.windows i win }

/-- The outcome of the `switch (config->state)` of the window loop. -/
structure switch_out where
  st : cfg_state
  enabled : Bool
  color_map : Nat

/-- The call of `decon_set_win_blocking_mode` in the `DECON_WIN_STATE_BUFFER` case
(decon_core.c:2286-2289): its return value and the state it leaves; 0 and the
state unchanged when `CONFIG_DECON_BLOCKING_MODE` is off. -/
def blocking_stage (H : decon_h) (i : Nat) (st : cfg_state) : Int × cfg_state :=
  if H.CONFIG_DECON_BLOCKING_MODE then
    let blk := decon_set_win_blocking_mode H st.decon.max_win i st.win_config st.regs
    (blk.1, { st with win_config := blk.2.1, regs := blk.2.2 })
  else (0, st)

/-- The call `ret = decon_set_win_buffer(decon, win, config, regs)` for window `i`
(decon_core.c:2291) and the stores it makes through its pointer arguments. -/
def buffer_stage (H : decon_h) (env : kernel_env) (i : Nat) (st : cfg_state) : cfg_state :=
  let r := decon_set_win_buffer H env i (st.decon.windows i) (st.win_config i) st.regs
  let decon := set_window st.decon i r.win
  let decon := { decon with log := decon.log ++ r.log }
  { st with decon := decon, win_config := set_at st.win_config i r.win_config,
            regs := r.regs, ret := r.ret }

/-- The `DECON_WIN_STATE_COLOR` case of the switch (decon_core.c:2277-2284): the
state it leaves (`color_map` is a local, handled by the caller). -/
def color_stage (H : decon_h) (i : Nat) (st : cfg_state) : cfg_state :=
  let config := st.win_config i
  let regs := { st.regs with
    vidosd_a := set_at st.regs.vidosd_a i (vidosd_a H config.dst.x config.dst.y),
    vidosd_b := set_at st.regs.vidosd_b i
      (vidosd_b H config.dst.x config.dst.y config.dst.w config.dst.h) }
  let ab := decon_set_alpha_blending H config regs i 0
  { st with win_config := set_at st.win_config i ab.1, regs := ab.2 }

/-- The `switch (config->state)` of the window loop (decon_core.c:2274-2302) for
window `i`, entered with `enabled = 0` and the initial `color_map`. -/
def win_config_switch (H : decon_h) (env : kernel_env) (i : Nat) (st : cfg_state)
    (color_map : Nat) : switch_out :=
  let config := st.win_config i
  if config.state = H.DECON_WIN_STATE_DISABLED then
    { st := st, enabled := false, color_map := color_map }
  else if config.state = H.DECON_WIN_STATE_COLOR then
    { st := color_stage H i st, enabled := true,
      color_map := color_map ||| H.WIN_MAP_MAP_COLOUR config.color }
  else if config.state = H.DECON_WIN_STATE_BUFFER then
    let blk := blocking_stage H i st
    if blk.1 ≠ 0 then { st := blk.2, enabled := false, color_map := color_map }
    else
      let st := buffer_stage H env i blk.2
      if st.ret = 0 then { st := st, enabled := true, color_map := 0 }
      else { st := st, enabled := false, color_map := color_map }
  else
    { st := { st with ret := -EINVAL }, enabled := false, color_map := color_map }

/-- The two checks that open the body of the window loop (decon_core.c:2261-2272):
a layer that needs scaling, or whose format has no plane count, is set to
`DECON_WIN_STATE_DISABLED`. -/
def win_config_checked (H : decon_h) (i : Nat) (st : cfg_state) : cfg_state :=
  let st :=
    if does_layer_need_scale (st.win_config i) then
      { st with win_config := set_state st.win_config i H.DECON_WIN_STATE_DISABLED }
    else st
  if decon_get_memory_plane_cnt H (st.win_config i).format < 0 then
    { st with win_config := set_state st.win_config i H.DECON_WIN_STATE_DISABLED }
  else st

/-- The end of the body of the window loop (decon_core.c:2303-2323): the enable
bit, the burst length, the colour map and the bandwidth of window `i`. -/
def win_config_commit (H : decon_h) (i : Nat) (sw : switch_out) : cfg_state :=
  let st := sw.st
  let wc :=
    if sw.enabled then st.regs.wincon i ||| H.WINCON_ENWIN
    else st.regs.wincon i &&& not32 H.WINCON_ENWIN
  let wc := wc ||| H.WINCON_BURSTLEN_16WORD
  let regs := { st.regs with wincon := set_at st.regs.wincon i wc,
                             winmap := set_at st.regs.winmap i sw.color_map }
  let st := { st with regs := regs }
  if sw.enabled ∧ (st.win_config i).state = H.DECON_WIN_STATE_BUFFER then
    let win := st.decon.windows i
    let add := decon_calc_bandwidth (st.win_config i).dst.w (st.win_config i).dst.h
      (u32 (win.var.bits_per_pixel + 8 - 1) / 8) win.fps
    { st with bw := u32 (st.bw + add),
              regs := { st.regs with num_of_window := u32 (st.regs.num_of_window + 1) } }
  else st

/-- The body of the window loop of `decon_set_win_config` (decon_core.c:2254-2324)
for window `i`. -/
def win_config_body (H : decon_h) (env : kernel_env) (i : Nat) (st : cfg_state) : cfg_state :=
  let color_map := H.WIN_MAP_MAP ||| H.WIN_MAP_MAP_COLOUR 0
  let st := win_config_checked H i st
  let sw := win_config_switch H env i st color_map
  win_config_commit H i sw

/-- One pass of `for (i = 0; i < max_win && !ret; i++)`: the body runs only while
`ret` is 0. -/
def win_config_step (H : decon_h) (env : kernel_env) (i : Nat) (st : cfg_state) : cfg_state :=
  if st.ret = 0 then win_config_body H env i st else st

/-- The error path at decon_core.c:2335-2342 for window `i`: restore `fix` and `var`,
release the planes staged for the window. -/
def win_config_unwind (H : decon_h) (regs : decon_reg_data) (i : Nat) (decon : decon_device) :
    decon_device :=
  let win := decon.windows i
  let decon := set_window decon i { win with fix := win.prev_fix, var := win.prev_var }
  let plane_cnt := (decon_get_memory_plane_cnt H (regs.win_config i).format).toNat
  { decon with log := decon.log ++ free_planes_log (regs.dma_buf_data i) plane_cnt }

/-- What `decon_set_win_config` returns and leaves behind: the return value, the
device, the caller's `win_data`, and the snapshot `regs` as built in this call
(the zeroed snapshot when none was built), whether it was then queued or freed. -/
structure win_config_result where
  ret : Int
  decon : decon_device
  win_data : decon_win_config_data
  regs : decon_reg_data

/-- The state in which the window loop of `decon_set_win_config` starts, once the
snapshot is allocated (decon_core.c:2241-2252): `fix` and `var` of every window are
saved, and `decon_set_win_update_config` has run when the driver is built with
`CONFIG_FB_WINDOW_UPDATE` and drives a DSI panel. -/
def win_config_start (H : decon_h) (decon : decon_device) (win_data : decon_win_config_data) :
    cfg_state :=
  let regs := regs_zero
  let decon := for_loop
    (fun i d => set_window d i { d.windows i with prev_fix := (d.windows i).fix,
                                                  prev_var := (d.windows i).var })
    decon.max_win decon
  let upd : decon_device × (Nat → decon_win_config) × decon_reg_data :=
    if H.CONFIG_FB_WINDOW_UPDATE ∧ decon.out_type = decon_out_type.DSI then
      decon_set_win_update_config H decon win_data.config regs
    else (decon, win_data.config, regs)
  { decon := upd.1, win_config := upd.2.1, regs := upd.2.2, ret := 0, bw := 0 }

/-- The end of `decon_set_win_config` (decon_core.c:2326-2361), after the window loop
has left the state `st`: the requests are copied into the snapshot, and the
snapshot is released (error) or queued (DSI output). -/
def win_config_finish (H : decon_h) (fd : Int) (win_data : decon_win_config_data)
    (st : cfg_state) : win_config_result :=
  let decon := st.decon
  let regs := { st.regs with
    win_config := fun i => if i < decon.max_win then st.win_config i else st.regs.win_config i }
  let regs := { regs with bandwidth := st.bw }
  let win_data := { win_data with config := st.win_config }
  if st.ret ≠ 0 then
    let decon := for_loop (win_config_unwind H regs) decon.max_win decon
    let decon := { decon with log := decon.log ++ [kcall.put_unused_fd fd, kcall.kfree_regs] }
    { ret := st.ret, decon := decon, win_data := win_data, regs := regs }
  else if decon.out_type = decon_out_type.DSI then
    let decon := { decon with timeline_max := s32 (decon.timeline_max + 1) }
    let decon := { decon with
      log := decon.log ++ [kcall.decon_lpd_block,
                           kcall.sync_fence_install decon.timeline_max fd,
                           kcall.queue_kthread_work],
      update_regs_list := decon.update_regs_list ++ [regs] }
    { ret := st.ret, decon := decon, win_data := { win_data with fence := fd }, regs := regs }
  else { ret := st.ret, decon := decon, win_data := win_data, regs := regs }

/-- The function `decon_set_win_config`.  `env.get_unused_fd` is the first descriptor
obtained; when it is 0, 1 or 2 the retry loop at decon_core.c:2213-2219 sets such
descriptors aside, asks again until it holds one that is at least 3
(`env.get_unused_fd_retry`), and gives the ones set aside back. -/
def decon_set_win_config (H : decon_h) (env : kernel_env) (decon : decon_device)
    (win_data : decon_win_config_data) : win_config_result :=
  let fd := env.get_unused_fd
  if fd < 0 then { ret := -EINVAL, decon := decon, win_data := win_data, regs := regs_zero }
  else
    let fd := if fd < 3 then env.get_unused_fd_retry else fd
    if decon.state = decon_state.OFF ∨ decon.ignore_vsync = true ∨
        decon.out_type = decon_out_type.TUI then
      let decon := { decon with timeline_max := s32 (decon.timeline_max + 1) }
      let decon := { decon with
        log := decon.log ++ [kcall.sync_fence_install decon.timeline_max fd,
                             kcall.sw_sync_timeline_inc 1],
        timeline := u32 (decon.timeline + 1) }
      { ret := 0, decon := decon, win_data := { win_data with fence := fd }, regs := regs_zero }
    else if !env.kzalloc_ok then
      { ret := -ENOMEM, decon := decon, win_data := win_data, regs := regs_zero }
    else
      let st0 := win_config_start H decon win_data
      let st := for_loop (win_config_step H env) decon.max_win st0
      win_config_finish H fd win_data st

/-! ## Commit: decon_update_regs (decon_core.c:1890-2164) -/

/-- One iteration (window `i`) of the loop of `decon_reg_chmap_validate`, on the
pair (`bitmap`, snapshot).  `bitmap` is an `unsigned short`; `1 << idma_type` is an
`int` shift, undefined in C for a count of 31 or more. -/
def chmap_step (H : decon_h) (i : Nat) (st : Nat × decon_reg_data) : Nat × decon_reg_data :=
  let bitmap := st.1
  let regs := st.2
  if regs.wincon i &&& H.WINCON_ENWIN ≠ 0 ∧ ¬ (regs.winmap i &&& H.WIN_MAP_MAP ≠ 0) then
    let regs :=
      if bitmap &&& (1 <<< (regs.win_config i).idma_type) ≠ 0 then
        { regs with wincon := set_at regs.wincon i (regs.wincon i &&& not32 H.WINCON_ENWIN) }
      else regs
    (u16 (bitmap ||| (1 <<< (regs.win_config i).idma_type)), regs)
  else (bitmap, regs)

/-- The function `decon_reg_chmap_validate`: the snapshot it leaves. -/
def decon_reg_chmap_validate (H : decon_h) (max_win : Nat) (regs : decon_reg_data) :
    decon_reg_data :=
  (for_loop (chmap_step H) max_win (0, regs)).2

/-- The answers of the hardware and of the helpers outside decon_core.c during one
commit.  Answers that can differ from call to call take the number of calls logged
so far as their argument.  `decon_exit_lpd` is the helper of that name
(decon_helper.c, not part of the source tree): the device it leaves.
`ignore_vsync_after_wait n b` is the value of `decon->ignore_vsync` when the sleep of
`decon_wait_for_vsync` returns, `b` being its value when the sleep began: while the
caller sleeps the flag is written by `decon_esd_panel_reset` (decon_core.c:4022, 4046)
and by the panel-fault interrupt handler (decon_core.c:4132). -/
structure hw_env where
  decon_exit_lpd : decon_device → decon_device
  sync_fence_wait : Int → Int
  wait_event_vsync : Nat → Int
  ignore_vsync_after_wait : Nat → Bool → Bool
  reg_wait_linecnt_is_zero : Nat → Int
  exynos_smc : Nat → Int
  reg_wait_for_update : Nat → Int
  vstatus_idle : Nat → Bool
  size_match : Nat → Bool
  dsim_partial_cmd : Nat → Int
  dsim_set_porch : Nat → Int
  hmt_on : Bool

/-- Append calls to the device's log. -/
def emit (decon : decon_device) (calls : List kcall) : decon_device :=
  { decon with log := decon.log ++ calls }

/-- The function `decon_win_update_rect_reset`. -/
def decon_win_update_rect_reset (decon : decon_device) : decon_device :=
  { decon with update_win := { x := 0, y := 0, w := 0, h := 0 }, need_update := true }

/-- The function `decon_reg_ddi_partial_cmd`: its return value and the device. -/
def decon_reg_ddi_partial_cmd (H : decon_h) (hw : hw_env) (decon : decon_device)
    (rect : decon_win_rect) : Int × decon_device :=
  let decon := emit decon [kcall.wait_for_framedone, kcall.reg_wait_linecnt_is_zero]
  let w := u32 (int_to_u32 rect.x + rect.w + 4294967295)
  let h := u32 (int_to_u32 rect.y + rect.h + 4294967295)
  let decon := if H.CONFIG_DECON_MIPI_DSI_PKTGO then emit decon [kcall.dsim_pkt_go false] else decon
  let ret := hw.dsim_partial_cmd decon.log.length
  let decon := emit decon [kcall.dsim_partial_cmd rect.x rect.y w h]
  let decon := if ret ≠ 0 then decon_win_update_rect_reset decon else decon
  let decon := if H.CONFIG_DECON_MIPI_DSI_PKTGO then emit decon [kcall.dsim_pkt_go true] else decon
  (ret, decon)

/-- The function `decon_win_update_disp_config`: its return value and the device. -/
def decon_win_update_disp_config (hw : hw_env) (decon : decon_device)
    (win_rect : decon_win_rect) : Int × decon_device :=
  let hfp := u32 (decon.lcd_info.hfp + u32 (decon.lcd_info.xres + 4294967296 - u32 win_rect.w) / 2)
  let vfp := u32 (decon.lcd_info.vfp + decon.lcd_info.yres + 4294967296 - u32 win_rect.h)
  let ret := hw.dsim_set_porch decon.log.length
  let decon := emit decon [kcall.dsim_set_porch win_rect.w win_rect.h hfp vfp]
  let decon := if ret ≠ 0 then decon_win_update_rect_reset decon else decon
  let decon := if decon.lcd_info.mic_enabled then emit decon [kcall.reg_config_mic] else decon
  let decon := emit decon [kcall.reg_set_porch]
  (ret, decon)

/-- The function `decon_reg_set_win_update_config`. -/
def decon_reg_set_win_update_config (H : decon_h) (hw : hw_env) (decon : decon_device)
    (regs : decon_reg_data) : Int × decon_device :=
  if regs.need_update then
    let r := decon_reg_ddi_partial_cmd H hw decon regs.update_win
    decon_win_update_disp_config hw r.2 regs.update_win
  else (0, decon)

/-- The `do ... while (retry--)` loop of `decon_set_protected_content` in video mode,
with `fuel` passes left (`retry` starts at 5, so at most 6 passes). -/
def protect_retry (hw : hw_env) : Nat → decon_device → decon_device
  | 0, decon => decon
  | fuel + 1, decon =>
    let decon := emit decon [kcall.reg_update_standalone, kcall.reg_per_frame_off]
    let ret := hw.reg_wait_linecnt_is_zero decon.log.length
    let decon := emit decon [kcall.reg_wait_linecnt_is_zero]
    if ret ≠ 0 then protect_retry hw fuel decon else decon

/-- The function `decon_set_protected_content`. -/
def decon_set_protected_content (hw : hw_env) (decon : decon_device) (enable : Bool) :
    decon_device :=
  let en : Bool := if enable then decide (decon.cur_protection_bitmask ≠ 0) else false
  if en = decon.prev_protection_status then decon
  else
    let decon :=
      if decon.psr_mode = decon_psr_mode.VIDEO_MODE then protect_retry hw 6 decon
      else emit decon [kcall.reg_wait_linecnt_is_zero]
    let decon := emit decon [kcall.smc_protection_set en]
    { decon with prev_protection_status := en }

/-- The function `decon_enable_blocking_mode`: the register call it makes. -/
def decon_enable_blocking_mode (regs : decon_reg_data) (win_idx : Nat) : kcall :=
  let rect := regs.block_rect win_idx
  if u32 (rect.w * rect.h) ≠ 0 then
    kcall.reg_set_block_mode win_idx rect.x rect.y rect.w rect.h true
  else kcall.reg_set_block_mode win_idx 0 0 0 0 false

/-- The bindings that `__decon_update_regs` installs in window `i`
(decon_core.c:1954-1962). -/
def installed_planes (H : decon_h) (regs : decon_reg_data) (i : Nat) : Nat → decon_dma_buf_data :=
  fun j =>
    if j < MAX_BUF_PLANE_CNT then
      if (j : Int) < decon_get_memory_plane_cnt H (regs.win_config i).format then
        regs.dma_buf_data i j
      else dma_zero
    else dma_zero

/-- One iteration (window `i`) of the register-write loop of `__decon_update_regs`
(decon_core.c:1949-1965).  Window planes at `MAX_BUF_PLANE_CNT` and above do not
exist; the model keeps them zero. -/
def update_regs_win (H : decon_h) (regs : decon_reg_data) (i : Nat) (decon : decon_device) :
    decon_device :=
  let decon := emit decon [kcall.reg_set_regs_data i]
  let bit : Nat := if regs.protection i then 1 else 0
  let mask := u32 (decon.cur_protection_bitmask ||| (bit <<< (regs.win_config i).idma_type))
  let decon := { decon with cur_protection_bitmask := mask }
  let win := decon.windows i
  let decon := set_window decon i { win with dma_buf_data := installed_planes H regs i }
  if H.CONFIG_DECON_BLOCKING_MODE then emit decon [decon_enable_blocking_mode regs i] else decon

/-- The function `__decon_update_regs`: the device and the snapshot (which
`decon_reg_chmap_validate` may change) it leaves. -/
def __decon_update_regs (H : decon_h) (hw : hw_env) (decon : decon_device)
    (regs : decon_reg_data) : decon_device × decon_reg_data :=
  let decon := { decon with cur_protection_bitmask := 0 }
  let decon :=
    if decon.trig_mode = decon_trig_mode.HW_TRIG then emit decon [kcall.reg_set_trigger_disable]
    else decon
  let decon := for_loop (fun i d => emit d [kcall.reg_shadow_protect_win i true]) decon.max_win decon
  let regs := decon_reg_chmap_validate H decon.max_win regs
  let decon :=
    if H.CONFIG_FB_WINDOW_UPDATE ∧ decon.out_type = decon_out_type.DSI then
      (decon_reg_set_win_update_config H hw decon regs).2
    else decon
  let decon := for_loop (update_regs_win H regs) decon.max_win decon
  let decon := for_loop (fun i d => emit d [kcall.reg_shadow_protect_win i false]) decon.max_win decon
  let decon := decon_set_protected_content hw decon true
  let decon := emit decon [kcall.reg_start]
  let decon := if H.CONFIG_DECON_MIPI_DSI_PKTGO then emit decon [kcall.dsim_pkt_go true] else decon
  (decon, regs)

/-- The function `decon_fence_wait`: the call it makes (the result is only logged). -/
def decon_fence_wait (fence : Int) : List kcall := [kcall.sync_fence_wait fence]

/-- The value `req_bandwidth` of `decon_set_qos`:
`regs ? (is_default_qos ? 0 : regs->bandwidth) : (decon->max_win_bw * 3)`, a `u64`. -/
def qos_req_bandwidth (decon : decon_device) (regs : Option decon_reg_data)
    (is_default_qos : Bool) : Nat :=
  match regs with
  | some r => if is_default_qos then 0 else r.bandwidth
  | none => (decon.max_win_bw * 3) % 18446744073709551616

/-- The function `decon_set_qos` (`regs` may be `NULL`); `req_bandwidth` is a `u64`.
Without `CONFIG_DECON_DEVFREQ` the function is empty. -/
def decon_set_qos (H : decon_h) (decon : decon_device) (regs : Option decon_reg_data)
    (is_after is_default_qos : Bool) : decon_device :=
  if H.CONFIG_DECON_DEVFREQ then
    let req_bandwidth : Nat := qos_req_bandwidth decon regs is_default_qos
    if decon.prev_bw = req_bandwidth then decon
    else if (is_after ∧ decon.prev_bw > req_bandwidth) ∨
        (!is_after ∧ decon.prev_bw < req_bandwidth) then
      { emit decon [kcall.update_media_scenario req_bandwidth] with prev_bw := req_bandwidth }
    else decon
  else decon

/-- The function `decon_activate_vsync`. -/
def decon_activate_vsync (decon : decon_device) : decon_device :=
  let prev_refcount := decon.vsync_irq_refcount
  let decon := { decon with vsync_irq_refcount := s32 (decon.vsync_irq_refcount + 1) }
  if prev_refcount = 0 ∧ decon.psr_mode = decon_psr_mode.VIDEO_MODE then
    emit decon [kcall.reg_set_int true, kcall.dsim_vsync true]
  else decon

/-- The function `decon_deactivate_vsync`. -/
def decon_deactivate_vsync (decon : decon_device) : decon_device :=
  let decon := { decon with vsync_irq_refcount := s32 (decon.vsync_irq_refcount - 1) }
  if decon.vsync_irq_refcount = 0 ∧ decon.psr_mode = decon_psr_mode.VIDEO_MODE then
    emit decon [kcall.reg_set_int false, kcall.dsim_vsync false]
  else decon

/-- The function `decon_wait_for_vsync`: its return value and the device.
`hw.wait_event_vsync` is the result of `wait_event_interruptible_timeout` (or of
`wait_event_interruptible` when `timeout` is 0).  The second test of
`decon->ignore_vsync` (decon_core.c:1263-1266) reads the flag as it is when the sleep
returns (`hw.ignore_vsync_after_wait`). -/
def decon_wait_for_vsync (hw : hw_env) (decon : decon_device) (timeout : Nat) :
    Int × decon_device :=
  if decon.psr_mode = decon_psr_mode.MIPI_COMMAND_MODE ∧ decon.ignore_vsync then (0, decon)
  else
    let activate : Bool := decide (decon.trig_mode = decon_trig_mode.SW_TRIG ∨
      decon.psr_mode = decon_psr_mode.VIDEO_MODE)
    let decon := if activate then decon_activate_vsync decon else decon
    let ret := hw.wait_event_vsync decon.log.length
    let woken := hw.ignore_vsync_after_wait decon.log.length decon.ignore_vsync
    let decon := emit decon [kcall.wait_event_vsync timeout]
    let decon := { decon with ignore_vsync := woken }
    let decon := if activate then decon_deactivate_vsync decon else decon
    if decon.psr_mode = decon_psr_mode.MIPI_COMMAND_MODE ∧ decon.ignore_vsync then (0, decon)
    else if timeout ≠ 0 ∧ ret = 0 then (-ETIMEDOUT, decon)
    else (0, decon)

/-- The polling loop of `decon_prevent_size_mismatch`,
`while (vstatus == IDLE && --cnt) ...`, entered with the counter at `cnt`. -/
def size_mismatch_poll (hw : hw_env) : Nat → decon_device → decon_device
  | 0, decon => decon
  | cnt + 1, decon =>
    let idle := hw.vstatus_idle decon.log.length
    let decon := emit decon [kcall.reg_get_vstatus]
    if !idle then decon
    else if cnt = 0 then decon
    else if hw.size_match decon.log.length then decon
    else size_mismatch_poll hw cnt decon

/-- The function `decon_prevent_size_mismatch(decon, dsi_idx, timeout)`; it always
returns 0.  (Its only call passes 50 * 1000, so the counter starts at 500.) -/
def decon_prevent_size_mismatch (hw : hw_env) (decon : decon_device) (timeout : Nat) :
    decon_device :=
  let delay_time := 100
  let cnt := timeout / delay_time
  if decon.psr_mode = decon_psr_mode.VIDEO_MODE then decon
  else size_mismatch_poll hw cnt decon

/-- The loop `while ((vsync_wait_cnt--) > 0)` of `decon_update_regs` under
`CONFIG_USE_VSYNC_SKIP`, with `n` the value of `vsync_wait_cnt`. -/
def vsync_skip_loop (H : decon_h) (hw : hw_env) : Nat → decon_device → decon_device
  | 0, decon => decon
  | n + 1, decon =>
    if decon.extra_vsync_wait ≥ ERANGE then { decon with extra_vsync_wait := 0 }
    else vsync_skip_loop H hw n (decon_wait_for_vsync hw decon H.VSYNC_TIMEOUT_MSEC).2

/-- The block of `decon_update_regs` under `CONFIG_USE_VSYNC_SKIP`
(decon_core.c:2106-2118). -/
def vsync_skip (H : decon_h) (hw : hw_env) (decon : decon_device) (regs : decon_reg_data) :
    decon_device :=
  let vsync_wait_cnt := decon.extra_vsync_wait
  let decon := { decon with extra_vsync_wait := 0 }
  if vsync_wait_cnt < ERANGE ∧ regs.num_of_window ≤ 2 then
    vsync_skip_loop H hw vsync_wait_cnt.toNat decon
  else decon

/-- The copy `old_dma_bufs[i][j] = decon->windows[i]->dma_buf_data[j]`. -/
def old_dma_bufs_of (decon : decon_device) : Nat → Nat → decon_dma_buf_data :=
  fun i j =>
    if i < decon.max_win ∧ j < MAX_BUF_PLANE_CNT then (decon.windows i).dma_buf_data j
    else dma_zero

/-- The trigger masking at decon_core.c:2140-2150, in its `CONFIG_LCD_HMT` and
plain variants. -/
def mask_trigger (H : decon_h) (hw : hw_env) (decon : decon_device) : decon_device :=
  if H.CONFIG_LCD_HMT then
    if decon.out_type = decon_out_type.DSI ∧ hw.hmt_on = false then
      if decon.trig_mode = decon_trig_mode.HW_TRIG then emit decon [kcall.reg_set_trigger_disable]
      else decon
    else decon
  else if decon.trig_mode = decon_trig_mode.HW_TRIG then
    emit decon [kcall.reg_set_trigger_disable]
  else decon

/-- The function `decon_update_regs`: the device it leaves. -/
def decon_update_regs (H : decon_h) (hw : hw_env) (decon : decon_device)
    (regs : decon_reg_data) : decon_device :=
  let decon :=
    if decon.state = decon_state.LPD then
      { hw.decon_exit_lpd decon with log := decon.log ++ [kcall.decon_exit_lpd] }
    else decon
  let old_dma_bufs := old_dma_bufs_of decon
  let decon := for_loop
    (fun i d =>
      if (regs.dma_buf_data i 0).fence ≠ 0 then emit d (decon_fence_wait (regs.dma_buf_data i 0).fence)
      else d)
    decon.max_win decon
  let decon :=
    if decon.prev_bw ≠ regs.bandwidth then decon_set_qos H decon (some regs) false false
    else decon
  let decon := if H.CONFIG_USE_VSYNC_SKIP then vsync_skip H hw decon regs else decon
  let r := __decon_update_regs H hw decon regs
  let decon := r.1
  let regs := r.2
  let decon := (decon_wait_for_vsync hw decon H.VSYNC_TIMEOUT_MSEC).2
  let upd := hw.reg_wait_for_update decon.log.length
  let decon := emit decon [kcall.reg_wait_for_update]
  let decon := if upd < 0 then emit decon [kcall.decon_dump] else decon
  let decon := decon_prevent_size_mismatch hw decon (50 * 1000)
  let decon := emit decon [kcall.clear_i80_framedone]
  let decon := { decon with frame_done_cnt_target := u32 (decon.frame_done_cnt_cur + 1) }
  let decon := mask_trigger H hw decon
  let decon := for_loop
    (fun i d => emit d (free_planes_log (old_dma_bufs i) MAX_BUF_PLANE_CNT))
    decon.max_win decon
  let decon := emit decon [kcall.sw_sync_timeline_inc 1]
  let decon := { decon with timeline := u32 (decon.timeline + 1) }
  if decon.prev_bw ≠ regs.bandwidth then decon_set_qos H decon (some regs) true false
  else decon

/-! ## Predicates used in the statements -/

/-- Window `i` of a snapshot takes part in the channel check of
`decon_reg_chmap_validate`: it is enabled (`WINCON_ENWIN` set) and not colour-mapped
(`WIN_MAP_MAP` clear). -/
def chmap_active (H : decon_h) (regs : decon_reg_data) (i : Nat) : Prop :=
  regs.wincon i &&& H.WINCON_ENWIN ≠ 0 ∧ ¬ (regs.winmap i &&& H.WIN_MAP_MAP ≠ 0)

/-- Some window below `j` takes part in the channel check with the channel of `j`. -/
def chmap_earlier (H : decon_h) (regs : decon_reg_data) (j : Nat) : Prop :=
  ∃ i, i < j ∧ chmap_active H regs i ∧
    (regs.win_config i).idma_type = (regs.win_config j).idma_type

/-! ## Sample inputs

A sample assignment of the build-time parameters and small concrete inputs, used
where a statement is evaluated at a concrete input. -/

/-- A sample header: pixel formats, blending modes and window states numbered in
the order in which the tables of decon_core.c list them, one bit per register
flag, and every Kconfig option of the composition path switched on. -/
def sample_h : decon_h :=
  { DECON_PIXEL_FORMAT_ARGB_8888 := 0, DECON_PIXEL_FORMAT_ABGR_8888 := 1,
    DECON_PIXEL_FORMAT_RGBA_8888 := 2, DECON_PIXEL_FORMAT_BGRA_8888 := 3,
    DECON_PIXEL_FORMAT_XRGB_8888 := 4, DECON_PIXEL_FORMAT_XBGR_8888 := 5,
    DECON_PIXEL_FORMAT_RGBX_8888 := 6, DECON_PIXEL_FORMAT_BGRX_8888 := 7,
    DECON_PIXEL_FORMAT_RGBA_5551 := 8, DECON_PIXEL_FORMAT_RGB_565 := 9,
    DECON_PIXEL_FORMAT_NV12 := 10, DECON_PIXEL_FORMAT_NV21 := 11,
    DECON_PIXEL_FORMAT_NV12M := 12, DECON_PIXEL_FORMAT_NV21M := 13,
    DECON_PIXEL_FORMAT_NV21M_FULL := 14, DECON_PIXEL_FORMAT_MAX := 15,
    DECON_BLENDING_NONE := 0, DECON_BLENDING_PREMULT := 1, DECON_BLENDING_COVERAGE := 2,
    DECON_BLENDING_MAX := 3,
    DECON_WIN_STATE_DISABLED := 0, DECON_WIN_STATE_COLOR := 1, DECON_WIN_STATE_BUFFER := 2,
    DECON_WIN_STATE_UPDATE := 3,
    DECON_WIN_UPDATE_IDX := 7,
    MIN_BLK_MODE_WIDTH := 2, MIN_BLK_MODE_HEIGHT := 2,
    VSYNC_TIMEOUT_MSEC := 200,
    VIDOSD_A_TOPLEFT_X := fun x => (x &&& 8191) <<< 13,
    VIDOSD_A_TOPLEFT_Y := fun y => y &&& 8191,
    VIDOSD_B_BOTRIGHT_X := fun x => (x &&& 8191) <<< 13,
    VIDOSD_B_BOTRIGHT_Y := fun y => y &&& 8191,
    VIDOSD_C_ALPHA0_R_F := fun v => (v &&& 255) <<< 16,
    VIDOSD_C_ALPHA0_G_F := fun v => (v &&& 255) <<< 8,
    VIDOSD_C_ALPHA0_B_F := fun v => v &&& 255,
    VIDOSD_D_ALPHA1_R_F := fun v => (v &&& 255) <<< 16,
    VIDOSD_D_ALPHA1_G_F := fun v => (v &&& 255) <<< 8,
    VIDOSD_D_ALPHA1_B_F := fun v => v &&& 255,
    WINCON_BPPMODE_NV12 := 18 <<< 2, WINCON_BPPMODE_NV21 := 19 <<< 2,
    WINCON_BPPMODE_RGB565 := 10 <<< 2, WINCON_BPPMODE_ARGB8888 := 0 <<< 2,
    WINCON_BPPMODE_XRGB8888 := 4 <<< 2, WINCON_BPPMODE_ABGR8888 := 1 <<< 2,
    WINCON_BPPMODE_XBGR8888 := 5 <<< 2, WINCON_BPPMODE_BGRA8888 := 3 <<< 2,
    WINCON_BPPMODE_RGBA8888 := 2 <<< 2, WINCON_BPPMODE_BGRX8888 := 7 <<< 2,
    WINCON_BPPMODE_RGBX8888 := 6 <<< 2,
    WINCON_INTERPOLATION_EN := 1 <<< 9, WINCON_BLD_PIX := 1 <<< 8, WINCON_ALPHA_SEL := 1 <<< 1,
    WINCON_ALPHA_MUL := 1 <<< 7, WINCON_ENWIN := 1 <<< 0, WINCON_BURSTLEN_16WORD := 0 <<< 10,
    WIN_MAP_MAP := 1 <<< 24, WIN_MAP_MAP_COLOUR := fun c => c &&& 16777215,
    BLENDE_COEF_ZERO := 0, BLENDE_COEF_ONE := 1, BLENDE_COEF_ALPHA_A := 2,
    BLENDE_COEF_ONE_MINUS_ALPHA_A := 3, BLENDE_COEF_ALPHA0 := 6,
    BLENDE_A_FUNC := fun v => v &&& 15, BLENDE_B_FUNC := fun v => (v &&& 15) <<< 6,
    BLENDE_P_FUNC := fun v => (v &&& 15) <<< 12, BLENDE_Q_FUNC := fun v => (v &&& 15) <<< 18,
    CONFIG_FB_WINDOW_UPDATE := true, CONFIG_DECON_BLOCKING_MODE := true,
    CONFIG_USE_VSYNC_SKIP := true, CONFIG_DECON_DEVFREQ := true, CONFIG_LCD_HMT := false,
    CONFIG_DECON_MIPI_DSI_PKTGO := false }

/-- A snapshot of three enabled buffer windows: windows 0 and 1 on channel 1,
window 2 on channel 2. -/
def chmap_sample_regs : decon_reg_data :=
  { regs_zero with
    wincon := fun i => if i < 3 then 1 else 0,
    win_config := fun i => { win_config_zero with idma_type := if i = 2 then 2 else 1 } }

/-- A call that neither releases part of a buffer binding (fence put, unmap,
detach, put, free) nor advances the completion timeline. -/
def quiet_call : kcall → Bool
  | kcall.sync_fence_put _ => false
  | kcall.ion_iovmm_unmap _ _ => false
  | kcall.dma_buf_unmap_attachment _ _ => false
  | kcall.dma_buf_detach _ _ => false
  | kcall.dma_buf_put _ => false
  | kcall.ion_free _ => false
  | kcall.sw_sync_timeline_inc _ => false
  | _ => true

/-- The release calls for every binding (all windows below `max_win`, all
`MAX_BUF_PLANE_CNT` planes) held in `windows`, in the order of the release loop. -/
def release_log (windows : Nat → decon_win) (max_win : Nat) : List kcall :=
  for_loop (fun i l => l ++ free_planes_log (windows i).dma_buf_data MAX_BUF_PLANE_CNT) max_win []

/-- The call `sw_sync_timeline_inc`, with any increment. -/
def is_timeline_inc : kcall → Bool
  | kcall.sw_sync_timeline_inc _ => true
  | _ => false

/-- A sample `decon_exit_lpd` answer: the device is powered on, nothing else
changes. -/
def sample_exit_lpd (decon : decon_device) : decon_device :=
  { decon with state := decon_state.ON }

/-- Sample hardware answers: every wait succeeds at once, and nothing writes
`ignore_vsync` while the caller sleeps. -/
def sample_hw : hw_env :=
  { decon_exit_lpd := sample_exit_lpd, sync_fence_wait := fun _ => 0,
    wait_event_vsync := fun _ => 1, ignore_vsync_after_wait := fun _ b => b,
    reg_wait_linecnt_is_zero := fun _ => 0,
    exynos_smc := fun _ => 1, reg_wait_for_update := fun _ => 0, vstatus_idle := fun _ => false,
    size_match := fun _ => true, dsim_partial_cmd := fun _ => 0, dsim_set_porch := fun _ => 0,
    hmt_on := false }

/-- Sample hardware answers for a commit in which every wait times out. -/
def sample_hw_timeout : hw_env :=
  { sample_hw with sync_fence_wait := fun _ => -62, wait_event_vsync := fun _ => 0,
                   reg_wait_for_update := fun _ => -1, vstatus_idle := fun _ => true,
                   size_match := fun _ => false }

/-- A zeroed window. -/
def win_zero : decon_win :=
  let var : fb_var_screeninfo :=
    { red_length := 0, red_offset := 0, green_length := 0, green_offset := 0, blue_length := 0,
      blue_offset := 0, transp_length := 0, transp_offset := 0, bits_per_pixel := 0, xres := 0,
      xres_virtual := 0, yres := 0, yres_virtual := 0, xoffset := 0, yoffset := 0 }
  let fix : fb_fix_screeninfo :=
    { smem_start := 0, smem_len := 0, line_length := 0, xpanstep := 0, ypanstep := 0 }
  { fix := fix, var := var, prev_fix := fix, prev_var := var, fps := 60,
    dma_buf_data := fun _ => dma_zero }

/-- A sample device as `decon_probe` and a first `decon_enable` leave it: three
windows on a 720x1280 command-mode DSI panel, powered on, nothing queued. -/
def sample_decon : decon_device :=
  { state := decon_state.ON, out_type := decon_out_type.DSI,
    psr_mode := decon_psr_mode.MIPI_COMMAND_MODE, trig_mode := decon_trig_mode.HW_TRIG,
    ignore_vsync := false, max_win := 3,
    lcd_info := { xres := 720, yres := 1280, hfp := 20, vfp := 10, mic_enabled := false },
    windows := fun _ => win_zero,
    update_win := { x := 0, y := 0, w := 720, h := 1280 }, need_update := false,
    timeline_max := 1, timeline := 0, update_regs_list := [], prev_bw := 0, max_win_bw := 0,
    cur_protection_bitmask := 0, prev_protection_status := false, frame_done_cnt_target := 0,
    frame_done_cnt_cur := 0, vsync_irq_refcount := 0, extra_vsync_wait := 0, log := [] }

/-- Sample kernel answers: descriptor 5, allocation succeeds, every import step
succeeds (handle `100 + fd`, buffer `200 + fd`, 4 MiB each, device address
`0x10000000 + attachment`), every fence descriptor resolves. -/
def sample_env : kernel_env :=
  { get_unused_fd := 5, get_unused_fd_retry := 5, kzalloc_ok := true,
    ion_import_dma_buf := fun fd => 100 + fd, dma_buf_get := fun fd => 200 + fd,
    dma_buf_size := fun _ => 4194304, dma_buf_attach := fun b => 1000 + b,
    dma_buf_map_attachment := fun a => 2000 + a, ion_iovmm_map := fun a => 268435456 + a,
    sync_fence_fdget := fun fd => 3000 + fd }

/-- A sample Buffer-state request: an RGB565 (16 bits per pixel) layer of `w` x `h`
pixels at `(x, y)`, unscaled, stride `w`, no blending, no acquire fence. -/
def buffer_request (x y : Int) (w h : Nat) : decon_win_config :=
  { win_config_zero with
    state := 2, format := 9, blending := 0, plane_alpha := 255, fence_fd := -1,
    fd_idma := fun _ => 10,
    src := { x := 0, y := 0, w := w, h := h, f_w := w, f_h := h },
    dst := { x := x, y := y, w := w, h := h, f_w := w, f_h := h } }

/-- A batch whose window 0 is `c0` and whose other slots (the update slot
included) are zeroed, hence Disabled. -/
def batch_of (c0 : decon_win_config) : decon_win_config_data :=
  { config := fun i => if i = 0 then c0 else win_config_zero, fence := -1 }

/-- The geometry, alpha, blend and buffer-address entries that a snapshot holds for
one window (window `i` has the blend equation `blendeq[i - 1]`; window 0 has none). -/
structure staged_entries where
  vidosd_a : Nat
  vidosd_b : Nat
  vidosd_c : Nat
  vidosd_d : Nat
  blendeq : Nat
  buf_start : Int
  whole_w : Nat
  whole_h : Nat
  offset_x : Nat
  offset_y : Nat
  deriving DecidableEq

/-- The entries of window `i` in the snapshot `regs`. -/
def staged_entries_of (regs : decon_reg_data) (i : Nat) : staged_entries :=
  { vidosd_a := regs.vidosd_a i, vidosd_b := regs.vidosd_b i, vidosd_c := regs.vidosd_c i,
    vidosd_d := regs.vidosd_d i, blendeq := if i = 0 then 0 else regs.blendeq (i - 1),
    buf_start := regs.buf_start i, whole_w := regs.whole_w i, whole_h := regs.whole_h i,
    offset_x := regs.offset_x i, offset_y := regs.offset_y i }

/-- The entries of a window that was never staged: all zero, as `kzalloc` left
them. -/
def staged_entries_zero : staged_entries :=
  { vidosd_a := 0, vidosd_b := 0, vidosd_c := 0, vidosd_d := 0, blendeq := 0, buf_start := 0,
    whole_w := 0, whole_h := 0, offset_x := 0, offset_y := 0 }

/-- The state of `decon_set_win_config` when its window loop has run windows
`0 .. i - 1`. -/
def win_config_before (H : decon_h) (env : kernel_env) (decon : decon_device)
    (win_data : decon_win_config_data) (i : Nat) : cfg_state :=
  for_loop (win_config_step H env) i (win_config_start H decon win_data)

/-- The state in which the body of the window loop, for window `i`, stands after
its two opening checks and the blocking-mode call, where it calls
`decon_set_win_buffer` if the window is still in Buffer state. -/
def at_buffer_call (H : decon_h) (env : kernel_env) (decon : decon_device)
    (win_data : decon_win_config_data) (i : Nat) : cfg_state :=
  (blocking_stage H i (win_config_checked H i (win_config_before H env decon win_data i))).2

/-- The submission gets to its window loop: a descriptor is available, the device
is neither off, nor ignoring vsync, nor handed to the TUI, and the snapshot is
allocated. -/
def reaches_window_loop (env : kernel_env) (decon : decon_device) : Prop :=
  0 ≤ env.get_unused_fd ∧
  ¬ (decon.state = decon_state.OFF ∨ decon.ignore_vsync = true ∨
      decon.out_type = decon_out_type.TUI) ∧
  env.kzalloc_ok = true

/-- The window loop of `decon_set_win_config` calls `decon_set_win_buffer` for
window `i`: the submission gets to the loop, the windows before `i` were accepted
(`ret` is still 0), window `i` is in Buffer state after the two opening checks, and
blocking mode does not drop it. -/
def calls_set_win_buffer (H : decon_h) (env : kernel_env) (decon : decon_device)
    (win_data : decon_win_config_data) (i : Nat) : Prop :=
  reaches_window_loop env decon ∧ i < decon.max_win ∧
  (win_config_before H env decon win_data i).ret = 0 ∧
  ((win_config_checked H i (win_config_before H env decon win_data i)).win_config i).state ≠
    H.DECON_WIN_STATE_DISABLED ∧
  ((win_config_checked H i (win_config_before H env decon win_data i)).win_config i).state ≠
    H.DECON_WIN_STATE_COLOR ∧
  ((win_config_checked H i (win_config_before H env decon win_data i)).win_config i).state =
    H.DECON_WIN_STATE_BUFFER ∧
  (blocking_stage H i (win_config_checked H i (win_config_before H env decon win_data i))).1 = 0

/-- The result of the call `decon_set_win_buffer` that the window loop makes for
window `i`. -/
def buffer_call_result (H : decon_h) (env : kernel_env) (decon : decon_device)
    (win_data : decon_win_config_data) (i : Nat) : win_buffer_result :=
  decon_set_win_buffer H env i ((at_buffer_call H env decon win_data i).decon.windows i)
    ((at_buffer_call H env decon win_data i).win_config i)
    (at_buffer_call H env decon win_data i).regs

/-- A request passes the four opening checks of `decon_set_win_buffer` for window
`win_no`: known format, known blending, no blending on window 0, non-zero
destination size and non-negative position. -/
def passes_opening_checks (H : decon_h) (win_no : Nat) (c : decon_win_config) : Prop :=
  ¬ (c.format ≥ H.DECON_PIXEL_FORMAT_MAX) ∧ ¬ (c.blending ≥ H.DECON_BLENDING_MAX) ∧
  ¬ (win_no = 0 ∧ c.blending ≠ H.DECON_BLENDING_NONE) ∧
  ¬ (c.dst.w = 0 ∨ c.dst.h = 0 ∨ c.dst.x < 0 ∨ c.dst.y < 0)

/-- The bits per pixel that `decon_set_win_buffer` derives for a format
(decon_core.c:1573-1587); the value does not depend on the previous `var`. -/
def bits_per_pixel_of (H : decon_h) (format : Nat) : Nat :=
  if format ≤ H.DECON_PIXEL_FORMAT_RGB_565 then
    u32 (decon_red_length H format + decon_green_length H format + decon_blue_length H format +
      decon_transp_length H format + decon_padding H format)
  else 12

instance (env : kernel_env) (decon : decon_device) : Decidable (reaches_window_loop env decon) := by
  unfold reaches_window_loop
  infer_instance

instance (H : decon_h) (env : kernel_env) (decon : decon_device)
    (win_data : decon_win_config_data) (i : Nat) :
    Decidable (calls_set_win_buffer H env decon win_data i) := by
  unfold calls_set_win_buffer
  infer_instance

instance (H : decon_h) (win_no : Nat) (c : decon_win_config) :
    Decidable (passes_opening_checks H win_no c) := by
  unfold passes_opening_checks
  infer_instance

/-- A sample device in low-power state whose window 0 holds a bound buffer with a
fence, and a sample snapshot that brings a new RGB565 buffer for window 0. -/
def commit_sample_decon : decon_device :=
  { sample_decon with
    state := decon_state.LPD,
    windows := fun i =>
      if i = 0 then
        { win_zero with dma_buf_data := fun j =>
            if j = 0 then
              { ion_handle := 5, dma_buf := 6, attachment := 7, sg_table := 8, dma_addr := 4096,
                fence := 9 }
            else dma_zero }
      else win_zero }

/-- The snapshot of the sample commit: window 0 enabled on channel 1 with an RGB565
buffer at device address 8192. -/
def commit_sample_regs : decon_reg_data :=
  { regs_zero with
    wincon := fun i => if i = 0 then 1 else 0,
    win_config := fun i =>
      if i = 0 then { win_config_zero with format := 9, idma_type := 1, state := 2 }
      else { win_config_zero with format := 15 },
    dma_buf_data := fun i j =>
      if i = 0 ∧ j = 0 then
        { ion_handle := 15, dma_buf := 16, attachment := 17, sg_table := 18, dma_addr := 8192,
          fence := 0 }
      else dma_zero }

/-- A batch whose windows 0 and 1 are `c0` and `c1` and whose other slots (the
update slot included) are zeroed, hence Disabled. -/
def batch_of2 (c0 c1 : decon_win_config) : decon_win_config_data :=
  { config := fun i => if i = 0 then c0 else if i = 1 then c1 else win_config_zero, fence := -1 }

/-- A sample Color-state request: a solid colour over `w` x `h` pixels at `(x, y)`
with the given blending mode. -/
def color_request (x y : Int) (w h blending : Nat) : decon_win_config :=
  { win_config_zero with
    state := 1, color := 16711680, blending := blending, plane_alpha := 255,
    src := { x := 0, y := 0, w := w, h := h, f_w := w, f_h := h },
    dst := { x := x, y := y, w := w, h := h, f_w := w, f_h := h } }

/-- A sample partial-update request for the update slot: the region `w` x `h` at
`(x, y)`, in Update state. -/
def update_request (x y : Int) (w h : Nat) : decon_win_config :=
  { win_config_zero with
    state := 3,
    dst := { x := x, y := y, w := w, h := h, f_w := w, f_h := h } }

/-- A batch whose window 0 is `c0`, whose update slot (`DECON_WIN_UPDATE_IDX` of
`sample_h`) is `u`, and whose other slots are zeroed. -/
def batch_with_update (c0 u : decon_win_config) : decon_win_config_data :=
  { config := fun i => if i = 0 then c0 else if i = 7 then u else win_config_zero, fence := -1 }

/-- A sample Buffer-state request that asks for scaling: a 360 x 640 source, out of
a buffer 720 pixels wide, shown on the full 720 x 1280 screen. -/
def scaled_request : decon_win_config :=
  { buffer_request 0 0 720 1280 with
    src := { x := 0, y := 0, w := 360, h := 640, f_w := 720, f_h := 1280 } }

/-- A request that the window loop cannot stage: it is Disabled, or it is in Buffer
state with a destination of width 0 (at an x other than `INT_MIN`) or of height 0
(at a y other than `INT_MIN`). -/
def zero_extent (H : decon_h) (c : decon_win_config) : Prop :=
  c.state = H.DECON_WIN_STATE_DISABLED ∨
  (c.state = H.DECON_WIN_STATE_BUFFER ∧
    ((c.dst.w = 0 ∧ -2147483648 < c.dst.x ∧ c.dst.x < 2147483648) ∨
     (c.dst.h = 0 ∧ -2147483648 < c.dst.y ∧ c.dst.y < 2147483648)))

/-- A sample Buffer-state request of width 0 at x = `INT_MIN`, out of a buffer 720
pixels wide: its far edge `x + w - 1` wraps around to `INT_MAX`. -/
def wrapped_request : decon_win_config :=
  { buffer_request (-2147483648) 0 0 1280 with
    src := { x := 0, y := 0, w := 0, h := 1280, f_w := 720, f_h := 1280 } }

/-- A sample snapshot whose only non-zero entry is the bandwidth `bw`. -/
def qos_sample_regs (bw : Nat) : decon_reg_data :=
  { regs_zero with bandwidth := bw }

/-- The left edge of an update request snapped down to a multiple of 8: the value
of `x & ~7` for `x >= 0`. -/
def calibrated_x (x : Int) : Int := x - x % 8

/-- The width of an update request grown by the `x & 7` pixels that the left edge
moved and rounded up to a multiple of 8: the value of `(w + (x & 7) + 7) & ~7` in
`u32` arithmetic. -/
def calibrated_w (x : Int) (w : Nat) : Nat :=
  (w + (x % 8).toNat + 7) % 4294967296 - (w + (x % 8).toNat + 7) % 4294967296 % 8

/-- The calibrated request leaves the panel: the test `x' + w' > xres`, the sum in
`u32`. -/
def calibration_exceeds (x : Int) (w xres : Nat) : Prop :=
  ((calibrated_x x).toNat + calibrated_w x w) % 4294967296 > xres

instance (x : Int) (w xres : Nat) : Decidable (calibration_exceeds x w xres) := by
  unfold calibration_exceeds
  infer_instance

/-- The device on which `decon_wait_for_vsync` sleeps: the vsync interrupt has been
activated if the device triggers by software or runs in video mode. -/
def vsync_wait_device (decon : decon_device) : decon_device :=
  if decon.trig_mode = decon_trig_mode.SW_TRIG ∨ decon.psr_mode = decon_psr_mode.VIDEO_MODE then
    decon_activate_vsync decon
  else decon

/-- The result of the sleep of `decon_wait_for_vsync`: 0 when the timeout elapsed
without a new vsync timestamp. -/
def vsync_wait_result (hw : hw_env) (decon : decon_device) : Int :=
  hw.wait_event_vsync (vsync_wait_device decon).log.length

/-- Vsync is being ignored: MIPI command mode with `ignore_vsync` set. -/
def vsync_ignored (decon : decon_device) : Prop :=
  decon.psr_mode = decon_psr_mode.MIPI_COMMAND_MODE ∧ decon.ignore_vsync = true

instance (decon : decon_device) : Decidable (vsync_ignored decon) := by
  unfold vsync_ignored
  infer_instance

/-- The value of `ignore_vsync` when the sleep of `decon_wait_for_vsync` returns. -/
def vsync_flag_after_wait (hw : hw_env) (decon : decon_device) : Bool :=
  hw.ignore_vsync_after_wait (vsync_wait_device decon).log.length decon.ignore_vsync

/-- Vsync is being ignored when the sleep of `decon_wait_for_vsync` returns: MIPI
command mode with `ignore_vsync` set by then. -/
def vsync_ignored_after_wait (hw : hw_env) (decon : decon_device) : Prop :=
  decon.psr_mode = decon_psr_mode.MIPI_COMMAND_MODE ∧ vsync_flag_after_wait hw decon = true

instance (hw : hw_env) (decon : decon_device) : Decidable (vsync_ignored_after_wait hw decon) := by
  unfold vsync_ignored_after_wait
  infer_instance

/-- Sample hardware answers as `sample_hw_timeout`, with `ignore_vsync` set while the
caller sleeps (a panel fault arrives during the wait). -/
def sample_hw_fault_during_wait : hw_env :=
  { sample_hw_timeout with ignore_vsync_after_wait := fun _ _ => true }

/-- The word that `blendeq` returns for the coefficients `a` and `b` (both `u8`):
`BLENDE_A_FUNC(a) | BLENDE_B_FUNC(b) | BLENDE_P_FUNC(0) | BLENDE_Q_FUNC(0)`. -/
def blend_equation (H : decon_h) (a b : Nat) : Nat :=
  H.BLENDE_A_FUNC (a % 256) ||| H.BLENDE_B_FUNC (b % 256) |||
    H.BLENDE_P_FUNC H.BLENDE_COEF_ZERO ||| H.BLENDE_Q_FUNC H.BLENDE_COEF_ZERO

/-- A sample Color-state request with premultiplied blending and plane alpha 128
over 200 x 200 pixels at (100, 100). -/
def translucent_color_request : decon_win_config :=
  { color_request 100 100 200 200 1 with plane_alpha := 128 }

/-- The update request after calibration, as the clipping loop of
`decon_set_win_update_config` reads it (`update_config`). -/
def update_request_of (H : decon_h) (decon : decon_device) (wc : Nat → decon_win_config) :
    decon_win_config :=
  decon_calibrate_win_update_size H decon (wc H.DECON_WIN_UPDATE_IDX)

/-- The request of window `i` as `decon_set_win_update_config` leaves it. -/
def clipped_request (H : decon_h) (decon : decon_device) (wc : Nat → decon_win_config)
    (regs : decon_reg_data) (i : Nat) : decon_win_config :=
  (decon_set_win_update_config H decon wc regs).2.1 i

/-- The span `[x, x + w)` lies within `[lo, 2^30]`: far from the ends of the `int`
and `u32` ranges, so that no sum or difference of two edges wraps. -/
def span_within (lo x : Int) (w : Nat) : Prop := lo ≤ x ∧ x + (w : Int) ≤ 1073741824

instance (lo x : Int) (w : Nat) : Decidable (span_within lo x w) := by
  unfold span_within
  infer_instance

/-- The spans `[ux, ux + uw)` and `[dx, dx + dw)` are disjoint. -/
def spans_apart (ux : Int) (uw : Nat) (dx : Int) (dw : Nat) : Prop :=
  ux + (uw : Int) ≤ dx ∨ dx + (dw : Int) ≤ ux

instance (ux : Int) (uw : Nat) (dx : Int) (dw : Nat) : Decidable (spans_apart ux uw dx dw) := by
  unfold spans_apart
  infer_instance

/-- The value `x` is an `int`. -/
def is_int (x : Int) : Prop := -2147483648 ≤ x ∧ x < 2147483648

instance (x : Int) : Decidable (is_int x) := by
  unfold is_int
  infer_instance

/-- The update `src += u - d`, made when `u > d`, stays within `int`: neither the
difference nor the sum overflows. -/
def shift_fits (src u d : Int) : Prop :=
  is_int src ∧ is_int u ∧ is_int d ∧ max (u - d) 0 < 2147483648 ∧
  src + max (u - d) 0 < 2147483648

instance (src u d : Int) : Decidable (shift_fits src u d) := by
  unfold shift_fits
  infer_instance

/-- Sample kernel answers as `sample_env`, with buffers of 1 GiB. -/
def roomy_env : kernel_env :=
  { sample_env with dma_buf_size := fun _ => 1073741824 }

/-- The sum `f 0 + ... + f (n - 1)`, as an exact natural number. -/
def sum_below (f : Nat → Nat) : Nat → Nat
  | 0 => 0
  | n + 1 => sum_below f n + f n

/-- The term of window `i` in the bandwidth estimate of a snapshot: for a window
that is enabled (`WINCON_ENWIN` set) in Buffer state, the value of
`decon_calc_bandwidth(dst.w, dst.h, DIV_ROUND_UP(bits_per_pixel, 8), fps)`; 0 for any
other window. -/
def window_bandwidth (H : decon_h) (regs : decon_reg_data) (windows : Nat → decon_win)
    (i : Nat) : Nat :=
  if regs.wincon i &&& H.WINCON_ENWIN ≠ 0 ∧
      (regs.win_config i).state = H.DECON_WIN_STATE_BUFFER then
    decon_calc_bandwidth (regs.win_config i).dst.w (regs.win_config i).dst.h
      (u32 ((windows i).var.bits_per_pixel + 8 - 1) / 8) (windows i).fps
  else 0

/-- The exact sum of the bandwidth terms of the windows of a submission result. -/
def total_bandwidth (H : decon_h) (r : win_config_result) : Nat :=
  sum_below (window_bandwidth H r.regs r.decon.windows) r.decon.max_win

/-- A sample Buffer-state request in RGBA8888 (32 bits, 4 bytes per pixel) of `w` x
`h` pixels at `(x, y)`. -/
def rgba_request (x y : Int) (w h : Nat) : decon_win_config :=
  { buffer_request x y w h with format := 2 }

/-- A sample Buffer-state request over the full screen whose source origin is at
x = `INT_MAX`. -/
def far_source_request : decon_win_config :=
  { buffer_request 0 0 720 1280 with
    src := { x := 2147483647, y := 0, w := 720, h := 1280, f_w := 720, f_h := 1280 } }

/-! ## Invariants and frame conditions used by the proofs -/

/-- The loop invariant of `decon_reg_chmap_validate` after `n` windows. -/
def chmap_inv (H : decon_h) (regs : decon_reg_data) (n : Nat) (st : Nat × decon_reg_data) : Prop :=
  (∀ t, t < 16 → (st.1.testBit t = true ↔
      ∃ i, i < n ∧ chmap_active H regs i ∧ (regs.win_config i).idma_type = t)) ∧
  st.2 = { regs with wincon := st.2.wincon } ∧
  (∀ j, n ≤ j → st.2.wincon j = regs.wincon j) ∧
  (∀ j, j < n → chmap_active H regs j → chmap_earlier H regs j →
      st.2.wincon j = regs.wincon j &&& not32 H.WINCON_ENWIN) ∧
  (∀ j, j < n → ¬ (chmap_active H regs j ∧ chmap_earlier H regs j) →
      st.2.wincon j = regs.wincon j)

/-- From `d` to `d'` the driver made only quiet calls and left the timeline, the
window count and the windows alone. -/
def steps_quietly (d d' : decon_device) : Prop :=
  d'.timeline = d.timeline ∧ d'.max_win = d.max_win ∧ d'.windows = d.windows ∧
  ∃ l, d'.log = d.log ++ l ∧ ∀ c ∈ l, quiet_call c = true

/-- From `d` to `d'` the timeline value is kept and no `sw_sync_timeline_inc` is
called. -/
def steps_without_inc (d d' : decon_device) : Prop :=
  d'.timeline = d.timeline ∧ ∃ l, d'.log = d.log ++ l ∧ ∀ c ∈ l, is_timeline_inc c = false

/-- From `d` to `d'` only quiet calls were made, listed in `l`; the window count
is kept. -/
def quiet_log (d d' : decon_device) (l : List kcall) : Prop :=
  d'.max_win = d.max_win ∧ d'.log = d.log ++ l ∧ ∀ c ∈ l, quiet_call c = true

/-- The fields of the device that staging a batch never touches. -/
def same_core (d d' : decon_device) : Prop :=
  d'.max_win = d.max_win ∧ d'.update_regs_list = d.update_regs_list ∧
  d'.timeline = d.timeline ∧ d'.timeline_max = d.timeline_max ∧
  d'.out_type = d.out_type ∧ d'.state = d.state

/-- The snapshot `regs'` agrees with `regs` on the entries of every window but `k`. -/
def regs_keeps_others (k : Nat) (regs regs' : decon_reg_data) : Prop :=
  ∀ j, j ≠ k → staged_entries_of regs' j = staged_entries_of regs j ∧
    regs'.wincon j = regs.wincon j ∧ regs'.winmap j = regs.winmap j

/-- The state `st'` agrees with `st` on the staged entries, the state and the
destination of every window but `k`. -/
def keeps_others (k : Nat) (st st' : cfg_state) : Prop :=
  regs_keeps_others k st.regs st'.regs ∧
  ∀ j, j ≠ k → (st'.win_config j).state = (st.win_config j).state ∧
    (st'.win_config j).dst = (st.win_config j).dst

/-- The bandwidth term of window `i` read off the state of the window loop (the
requests are copied into the snapshot only after the loop). -/
def loop_bandwidth_term (H : decon_h) (st : cfg_state) (i : Nat) : Nat :=
  if st.regs.wincon i &&& H.WINCON_ENWIN ≠ 0 ∧
      (st.win_config i).state = H.DECON_WIN_STATE_BUFFER then
    decon_calc_bandwidth (st.win_config i).dst.w (st.win_config i).dst.h
      (u32 ((st.decon.windows i).var.bits_per_pixel + 8 - 1) / 8) (st.decon.windows i).fps
  else 0

/-- The invariant of the window loop for the bandwidth estimate, after `n` windows:
`bw` is the sum of the terms of the windows below `n` modulo `2^32`, and the windows
from `n` on are not staged. -/
def bandwidth_inv (H : decon_h) (n : Nat) (st : cfg_state) : Prop :=
  st.bw = sum_below (loop_bandwidth_term H st) n % 4294967296 ∧
  ∀ j, n ≤ j → st.regs.wincon j = 0

/-! ## Samples for the blocking-mode claims -/

/-- A sample Buffer-state request in RGBX8888 (32 bits per pixel, no alpha channel)
of `w` x `h` pixels at `(x, y)`. -/
def rgbx_request (x y : Int) (w h : Nat) : decon_win_config :=
  { buffer_request x y w h with format := 6 }

/-- A request array whose windows 0, 1 and 2 are `c0`, `c1` and `c2` and whose other
slots are zeroed. -/
def requests_of3 (c0 c1 c2 : decon_win_config) : Nat → decon_win_config :=
  fun i => if i = 0 then c0 else if i = 1 then c1 else if i = 2 then c2 else win_config_zero

/-! ## The write path of the KL5KUSB105 converter (kl5kusb105.c:377-393)

Memory is a map from byte offsets, counted from `dest`, to bytes; it extends past
the `size` bytes of the destination block so that a store behind the block is
visible.  `kfifo_out_locked` belongs to the kernel's kfifo library, which is not part
of the source tree; `kfifo_out` below follows its documented contract (the oldest
`min(len, used)` bytes leave the fifo, in order, and their number is returned). -/

/-- The driver's `#define KLSI_HDR_LEN 2`. -/
def KLSI_HDR_LEN : Nat := 2

/-- The field `.bulk_out_size = 64` of `kl5kusb105d_device`. -/
def kl5kusb105d_bulk_out_size : Nat := 64

/-- The part of `struct usb_serial_port` that the write path reads: the bytes held
by `write_fifo`, oldest first. -/
structure usb_serial_port where
  write_fifo : List Nat

/-- The kfifo operation `kfifo_out(fifo, buf, len)`: the bytes copied out and the
bytes left in the fifo. -/
def kfifo_out (fifo : List Nat) (len : Nat) : List Nat × List Nat :=
  (fifo.take len, fifo.drop len)

/-- Store `bytes` at the offsets `off, off + 1, ...` of `mem`. -/
def store_bytes (mem : Nat → Nat) (off : Nat) (bytes : List Nat) : Nat → Nat :=
  fun a => if off ≤ a ∧ a < off + bytes.length then bytes.getD (a - off) 0 else mem a

/-- The helper `put_unaligned_le16(val, p)` with `p` at offset `off`: the low byte,
then the high byte of the `u16` value. -/
def put_unaligned_le16 (val : Nat) (mem : Nat → Nat) (off : Nat) : Nat → Nat :=
  store_bytes mem off [u16 val % 256, u16 val / 256]

/-- The result of `klsi_105_prepare_write_buffer`. -/
structure prepare_write_result where
  ret : Int
  port : usb_serial_port
  mem : Nat → Nat
  count : Int

/-- The function `klsi_105_prepare_write_buffer(port, dest, size)`: its return value,
the port, the memory from `dest` on, and the local `count`. -/
def klsi_105_prepare_write_buffer (port : usb_serial_port) (dest : Nat → Nat) (size : Nat) :
    prepare_write_result :=
  let out := kfifo_out port.write_fifo (u32 size)
  let buf := store_bytes dest KLSI_HDR_LEN out.1
  let count : Int := u32_to_int out.1.length
  let buf := put_unaligned_le16 (int_to_u32 count) buf 0
  { ret := s32 (count + KLSI_HDR_LEN), port := { write_fifo := out.2 }, mem := buf,
    count := count }

/-- A sample port with the 64 bytes `1, 2, ..., 64` waiting in its write fifo. -/
def sample_port : usb_serial_port := { write_fifo := (List.range 64).map (fun i => i + 1) }

/-- Sample memory: every byte from `dest` on holds 0. -/
def sample_dest : Nat → Nat := fun _ => 0

/-! ## Panel recovery and the TUI hand-over (decon_core.c:4003-4090, 4319-4384) -/

/-- The part of `struct esd_protect` that recovery writes: the flag
`esd->queuework_pending`, set by the fault interrupt handlers when they queue the
recovery work. -/
structure esd_protect where
  queuework_pending : Nat
  deriving DecidableEq

/-- The answers of the helpers outside decon_core.c on the recovery and TUI paths.
`flush_lpd_wq`, `decon_lpd_block_exit` and `flush_update_regs_worker` give the device
as it is when `flush_workqueue(decon->lpd_wq)`, `decon_lpd_block_exit` (decon_helper.c,
not part of the source tree) and `flush_kthread_worker(&decon->update_regs_worker)`
return; `s_stream` is the result of `v4l2_subdev_call(output_sd, video, s_stream, on)`. -/
structure recovery_env where
  flush_lpd_wq : decon_device → decon_device
  decon_lpd_block_exit : decon_device → decon_device
  flush_update_regs_worker : decon_device → decon_device
  s_stream : Bool → Int

/-- Make the call `c`, which leaves the device as `f` says, and log it. -/
def call_out (f : decon_device → decon_device) (c : kcall) (decon : decon_device) :
    decon_device :=
  { f decon with log := decon.log ++ [c] }

/-- One step of a run of `decon_esd_panel_reset`: a call, or one of the stores whose
order the recovery protocol fixes. -/
inductive esd_step
  | call (c : kcall)
  | store_ignore_vsync (v : Bool)
  | store_queuework_pending (v : Nat)
  | store_update_win (need_update : Bool) (x y : Int) (w h : Nat)
  deriving DecidableEq

/-- The result of `decon_esd_panel_reset`: the return value, the device, the recovery
bookkeeping and the steps of the run in program order. -/
structure esd_reset_result where
  ret : Int
  decon : decon_device
  esd : esd_protect
  trace : List esd_step

/-- The label `reset_fail` of `decon_esd_panel_reset` (decon_core.c:4079-4089). -/
def esd_reset_fail (ret : Int) (decon : decon_device) (esd : esd_protect)
    (trace : List esd_step) : esd_reset_result :=
  let cmd : Bool := decide (decon.psr_mode = decon_psr_mode.MIPI_COMMAND_MODE)
  let decon := if cmd then { decon with ignore_vsync := false } else decon
  let trace := trace ++ (if cmd then [esd_step.store_ignore_vsync false] else [])
  let decon := emit decon [kcall.mutex_unlock_output, kcall.decon_lpd_unblock]
  let trace := trace ++ [esd_step.call kcall.mutex_unlock_output,
    esd_step.call kcall.decon_lpd_unblock]
  { ret := ret, decon := decon, esd := esd, trace := trace }

/-- The function `decon_esd_panel_reset`. -/
def decon_esd_panel_reset (H : decon_h) (renv : recovery_env) (decon : decon_device)
    (esd : esd_protect) : esd_reset_result :=
  if decon.state = decon_state.OFF then { ret := 0, decon := decon, esd := esd, trace := [] }
  else
    let decon := call_out renv.flush_lpd_wq kcall.flush_workqueue_lpd decon
    let decon := call_out renv.decon_lpd_block_exit kcall.decon_lpd_block_exit decon
    let decon := emit decon [kcall.mutex_lock_output]
    let trace := [esd_step.call kcall.flush_workqueue_lpd,
      esd_step.call kcall.decon_lpd_block_exit, esd_step.call kcall.mutex_lock_output]
    let cmd : Bool := decide (decon.psr_mode = decon_psr_mode.MIPI_COMMAND_MODE)
    let decon := if cmd then { decon with ignore_vsync := true } else decon
    let trace := trace ++ (if cmd then [esd_step.store_ignore_vsync true] else [])
    let decon := call_out renv.flush_update_regs_worker kcall.flush_kthread_worker decon
    let trace := trace ++ [esd_step.call kcall.flush_kthread_worker]
    let ret := renv.s_stream false
    let decon := emit decon [kcall.s_stream false]
    let trace := trace ++ [esd_step.call (kcall.s_stream false)]
    if ret ≠ 0 then esd_reset_fail ret decon esd trace
    else
      let decon := emit decon [kcall.msleep 200]
      let trace := trace ++ [esd_step.call (kcall.msleep 200)]
      let ret := renv.s_stream true
      let decon := emit decon [kcall.s_stream true]
      let trace := trace ++ [esd_step.call (kcall.s_stream true)]
      if ret ≠ 0 then esd_reset_fail ret decon esd trace
      else
        let esd := { esd with queuework_pending := 0 }
        let trace := trace ++ [esd_step.store_queuework_pending 0]
        let cmd : Bool := decide (decon.psr_mode = decon_psr_mode.MIPI_COMMAND_MODE)
        let decon := if cmd then { decon with ignore_vsync := false } else decon
        let trace := trace ++ (if cmd then [esd_step.store_ignore_vsync false] else [])
        let full : decon_win_rect :=
          { x := 0, y := 0, w := decon.lcd_info.xres, h := decon.lcd_info.yres }
        let decon :=
          if H.CONFIG_FB_WINDOW_UPDATE then { decon with need_update := false, update_win := full }
          else decon
        let trace := trace ++
          (if H.CONFIG_FB_WINDOW_UPDATE then
            [esd_step.store_update_win false 0 0 decon.lcd_info.xres decon.lcd_info.yres]
          else [])
        let decon := emit decon [kcall.mutex_unlock_output, kcall.decon_lpd_unblock]
        let trace := trace ++ [esd_step.call kcall.mutex_unlock_output,
          esd_step.call kcall.decon_lpd_unblock]
        { ret := ret, decon := decon, esd := esd, trace := trace }

/-- The function `decon_tui_protection`: its return value and the device.  The
pointer `&decon->update_win` handed to the two partial-update helpers is read when
each of them runs. -/
def decon_tui_protection (H : decon_h) (hw : hw_env) (renv : recovery_env)
    (decon : decon_device) (tui_en : Bool) : Int × decon_device :=
  let decon := emit decon [kcall.mutex_lock_output]
  if decon.state = decon_state.OFF then
    let decon := { decon with out_type := decon_out_type.DSI }
    (-EBUSY, emit decon [kcall.mutex_unlock_output, kcall.decon_lpd_unblock])
  else
    let decon := emit decon [kcall.mutex_unlock_output]
    if tui_en then
      let decon := call_out renv.decon_lpd_block_exit kcall.decon_lpd_block_exit decon
      let decon := emit decon [kcall.mutex_lock_output]
      let decon := call_out renv.flush_update_regs_worker kcall.flush_kthread_worker decon
      let decon := (decon_wait_for_vsync hw decon H.VSYNC_TIMEOUT_MSEC).2
      let decon := for_loop (fun i d => emit d [kcall.write_wincon i 0]) decon.max_win decon
      let decon :=
        if H.CONFIG_FB_WINDOW_UPDATE ∧ decon.need_update then
          let full : decon_win_rect :=
            { x := 0, y := 0, w := decon.lcd_info.xres, h := decon.lcd_info.yres }
          let decon := { decon with update_win := full }
          let decon := (decon_reg_ddi_partial_cmd H hw decon decon.update_win).2
          let decon := (decon_win_update_disp_config hw decon decon.update_win).2
          { decon with need_update := false }
        else decon
      let decon :=
        if decon.trig_mode = decon_trig_mode.HW_TRIG then
          emit decon [kcall.reg_set_trigger_disable]
        else decon
      let decon := emit decon [kcall.reg_per_frame_off, kcall.reg_update_standalone]
      let decon := { decon with out_type := decon_out_type.TUI, prev_bw := 0 }
      let decon := decon_set_qos H decon none false false
      (0, emit decon [kcall.mutex_unlock_output])
    else
      let decon := emit decon [kcall.mutex_lock_output]
      let decon := { decon with out_type := decon_out_type.DSI }
      (0, emit decon [kcall.mutex_unlock_output, kcall.decon_lpd_unblock])

/-- The invariant of the partial-update state: when `need_update` is clear the
stored rectangle is the full screen. -/
def update_win_inv (decon : decon_device) : Prop :=
  decon.need_update = false →
    decon.update_win = { x := 0, y := 0, w := decon.lcd_info.xres, h := decon.lcd_info.yres }

instance (decon : decon_device) : Decidable (update_win_inv decon) := by
  unfold update_win_inv
  infer_instance

/-- Sample answers on the recovery path: nothing is queued and the device is awake,
so the flushes and `decon_lpd_block_exit` leave the device as it is; both stream
calls succeed. -/
def sample_renv : recovery_env :=
  { flush_lpd_wq := fun d => d, decon_lpd_block_exit := fun d => d,
    flush_update_regs_worker := fun d => d, s_stream := fun _ => 0 }

/-- Sample answers as `sample_renv`, but stopping the stream fails with `-EIO`. -/
def sample_renv_stop_fails : recovery_env :=
  { sample_renv with s_stream := fun enable => if enable then 0 else - EIO }

/-- Sample answers as `sample_renv`, but restarting the stream fails with `-EIO`. -/
def sample_renv_start_fails : recovery_env :=
  { sample_renv with s_stream := fun enable => if enable then - EIO else 0 }

/-- The recovery bookkeeping after a fault interrupt has queued the recovery work
(`decon_esd_err_handler` sets the flag to 1). -/
def esd_pending : esd_protect := { queuework_pending := 1 }

/-- The sample device after a partial update to the region 360 x 640 at (0, 0). -/
def partial_decon : decon_device :=
  { sample_decon with update_win := { x := 0, y := 0, w := 360, h := 640 }, need_update := true }

/-- Sample hardware answers as `sample_hw`, but the DSIM refuses `DSIM_IOC_SET_PORCH`
with `-EINVAL`. -/
def sample_hw_porch_fails : hw_env := { sample_hw with dsim_set_porch := fun _ => -EINVAL }


/-! ## The covering search of blocking mode, in exact integers -/

/-- The request `c` is an opaque Buffer-state layer: its format has no alpha channel
(it is none of ARGB, ABGR, RGBA, BGRA 8888 and RGBA_5551) and its plane alpha is not
in 1..254. -/
def opaque_buffer (H : decon_h) (c : decon_win_config) : Prop :=
  c.state = H.DECON_WIN_STATE_BUFFER ∧
  ¬ (c.format = H.DECON_PIXEL_FORMAT_ARGB_8888 ∨ c.format = H.DECON_PIXEL_FORMAT_ABGR_8888 ∨
     c.format = H.DECON_PIXEL_FORMAT_RGBA_8888 ∨ c.format = H.DECON_PIXEL_FORMAT_BGRA_8888 ∨
     c.format = H.DECON_PIXEL_FORMAT_RGBA_5551) ∧
  ¬ (0 < c.plane_alpha ∧ c.plane_alpha < 255)

instance (H : decon_h) (c : decon_win_config) : Decidable (opaque_buffer H c) := by
  unfold opaque_buffer
  infer_instance

/-- The destination rectangle `outer` contains the whole destination rectangle
`inner`, as sets of pixels `[x, x + w) x [y, y + h)` in exact integers. -/
def dst_contains (outer inner : decon_frame) : Prop :=
  outer.x ≤ inner.x ∧ inner.x + (inner.w : Int) ≤ outer.x + (outer.w : Int) ∧
  outer.y ≤ inner.y ∧ inner.y + (inner.h : Int) ≤ outer.y + (outer.h : Int)

instance (outer inner : decon_frame) : Decidable (dst_contains outer inner) := by
  unfold dst_contains
  infer_instance

/-- The corners of the destination rectangle are `int`s: neither `x + w - 1` nor
`y + h - 1` wraps around. -/
def dst_fits (d : decon_frame) : Prop :=
  is_int d.x ∧ is_int (d.x + (d.w : Int) - 1) ∧ is_int d.y ∧ is_int (d.y + (d.h : Int) - 1)

instance (d : decon_frame) : Decidable (dst_fits d) := by
  unfold dst_fits
  infer_instance

/-- Window `j` is an opaque Buffer-state layer whose destination contains the
destination of window `i`. -/
def covers (H : decon_h) (wc : Nat → decon_win_config) (i j : Nat) : Prop :=
  opaque_buffer H (wc j) ∧ dst_contains (wc j).dst (wc i).dst

instance (H : decon_h) (wc : Nat → decon_win_config) (i j : Nat) : Decidable (covers H wc i j) := by
  unfold covers
  infer_instance

/-- Some window above `i` and below `max_win` covers window `i`. -/
def covered (H : decon_h) (max_win : Nat) (wc : Nat → decon_win_config) (i : Nat) : Prop :=
  ∃ j, i < j ∧ j < max_win ∧ covers H wc i j

/-- A sample opaque RGB565 request at (0, 0) of height 1280 whose width is
`UINT_MAX`: its far edge `x + w - 1` wraps around to -2. -/
def overwide_request : decon_win_config :=
  { buffer_request 0 0 720 1280 with
    dst := { x := 0, y := 0, w := 4294967295, h := 1280, f_w := 720, f_h := 1280 } }

/-! ## The worker and the fence timeline (decon_core.c:2166-2187)

`decon_update_regs_handler` runs on the worker thread while submissions go on, so it
is embedded in two pieces that a run interleaves with submissions. -/

/-- The head of `decon_update_regs_handler` (decon_core.c:2176-2179): under
`update_regs_list_lock` the queue is moved to the local `saved_list`.  The result
is the device and `saved_list`. -/
def handler_take (decon : decon_device) : decon_device × List decon_reg_data :=
  ({ decon with update_regs_list := [] }, decon.update_regs_list)

/-- One iteration of the loop `list_for_each_entry_safe(data, next, &saved_list, list)`
of `decon_update_regs_handler`: commit `data`, unblock LPD, free the snapshot. -/
def handler_commit (H : decon_h) (hw : hw_env) (decon : decon_device) (data : decon_reg_data) :
    decon_device :=
  emit (decon_update_regs H hw decon data) [kcall.decon_lpd_unblock, kcall.kfree_regs]

/-- The function `decon_update_regs_handler`, run without a submission in between;
every commit gets the hardware answers `hw`. -/
def decon_update_regs_handler (H : decon_h) (hw : hw_env) (decon : decon_device) : decon_device :=
  (handler_take decon).2.foldl (handler_commit H hw) (handler_take decon).1

/-- The display pipeline between two steps: the device, and the snapshots that the
worker has taken off `update_regs_list` and not committed yet (`saved_list`). -/
structure pipeline_state where
  decon : decon_device
  saved_list : List decon_reg_data

/-- One step of the pipeline: a call of `decon_set_win_config` (on any of its paths),
the head of the worker's handler, or one commit of the handler's loop. -/
inductive pipeline_step
  | submit (env : kernel_env) (win_data : decon_win_config_data)
  | take
  | commit (hw : hw_env)

/-- The pipeline after one step.  The worker runs one handler at a time, so `take`
happens only when the previous `saved_list` is used up; `commit` handles the oldest
snapshot of `saved_list`. -/
def pipeline_next (H : decon_h) (s : pipeline_state) : pipeline_step → pipeline_state
  | pipeline_step.submit env win_data =>
    { s with decon := (decon_set_win_config H env s.decon win_data).decon }
  | pipeline_step.take =>
    match s.saved_list with
    | [] => { decon := (handler_take s.decon).1, saved_list := (handler_take s.decon).2 }
    | _ :: _ => s
  | pipeline_step.commit hw =>
    match s.saved_list with
    | [] => s
    | data :: rest => { decon := handler_commit H hw s.decon data, saved_list := rest }

/-- The pipeline after a sequence of steps. -/
def pipeline_run (H : decon_h) (steps : List pipeline_step) (s : pipeline_state) :
    pipeline_state :=
  steps.foldl (pipeline_next H) s

/-- The target of the fence that a submission taking the device from `d` to `d'`
created, if it created one: `decon->timeline_max` is incremented exactly when a fence
is created, and its new value is the target given to `sw_sync_pt_create`. -/
def fence_of (d d' : decon_device) : List Int :=
  if d'.timeline_max = d.timeline_max then [] else [d'.timeline_max]

/-- The targets of the fences created during a run, in order of creation. -/
def issued_targets (H : decon_h) : List pipeline_step → pipeline_state → List Int
  | [], _ => []
  | pipeline_step.submit env win_data :: rest, s =>
    fence_of s.decon (decon_set_win_config H env s.decon win_data).decon ++
      issued_targets H rest (pipeline_next H s (pipeline_step.submit env win_data))
  | pipeline_step.take :: rest, s => issued_targets H rest (pipeline_next H s pipeline_step.take)
  | pipeline_step.commit hw :: rest, s =>
    issued_targets H rest (pipeline_next H s (pipeline_step.commit hw))

/-- The list is `a, a + 1, a + 2, ...`. -/
def consecutive_from : Int → List Int → Prop
  | _, [] => True
  | a, x :: xs => x = a ∧ consecutive_from (a + 1) xs

/-- The equation of the fence timeline: `timeline_max` is the timeline value plus
the number of snapshots queued or taken by the worker and not yet committed, plus
1. -/
def timeline_eq (s : pipeline_state) : Prop :=
  s.decon.timeline_max =
    (s.decon.timeline : Int) + (s.decon.update_regs_list.length : Int) +
      (s.saved_list.length : Int) + 1

/-- The helper `decon_exit_lpd`, whose code is outside the source tree, leaves the
timeline value, `timeline_max` and the queue alone. -/
def lpd_exit_keeps (hw : hw_env) : Prop :=
  ∀ d : decon_device, d.state = decon_state.LPD →
    (hw.decon_exit_lpd d).timeline = d.timeline ∧
    (hw.decon_exit_lpd d).timeline_max = d.timeline_max ∧
    (hw.decon_exit_lpd d).update_regs_list = d.update_regs_list

/-- The assumption on the helpers outside the source tree that a step relies on. -/
def step_ok : pipeline_step → Prop
  | pipeline_step.commit hw => lpd_exit_keeps hw
  | _ => True

/-- From `d` to `d'` the timeline value, `timeline_max` and the queue are kept. -/
def keeps_counters (d d' : decon_device) : Prop :=
  d'.timeline = d.timeline ∧ d'.timeline_max = d.timeline_max ∧
  d'.update_regs_list = d.update_regs_list

/-! ## The partial-update request from submission to commit -/

@[simp] theorem for_loop_zero {σ : Type} (body : Nat → σ → σ) (s : σ) :
    for_loop body 0 s = s := rfl

@[simp] theorem for_loop_succ {σ : Type} (body : Nat → σ → σ) (n : Nat) (s : σ) :
    for_loop body (n + 1) s = body n (for_loop body n s) := rfl

@[simp] theorem set_at_same {α : Type} (a : Nat → α) (i : Nat) (v : α) :
    set_at a i v i = v := by simp [set_at]

theorem set_at_other {α : Type} (a : Nat → α) (i j : Nat) (v : α) (h : j ≠ i) :
    set_at a i v j = a j := by simp [set_at, h]

/-- An invariant that every iteration preserves holds after the loop. -/
theorem for_loop_inv {σ : Type} (P : σ → Prop) (body : Nat → σ → σ) (n : Nat) (s : σ)
    (h0 : P s) (hstep : ∀ i s, i < n → P s → P (body i s)) : P (for_loop body n s) := by
  induction n with
  | zero => exact h0
  | succ k ih =>
    exact hstep k _ (Nat.lt_succ_self k) (ih (fun i s hi hp => hstep i s (Nat.lt_succ_of_lt hi) hp))

/-- Clearing the bits of `e` leaves none of them set. -/
theorem and_not32_and (w e : Nat) : (w &&& not32 e) &&& e = 0 := by
  apply Nat.eq_of_testBit_eq
  intro i
  have h32 : (4294967295 : Nat) = 2 ^ 32 - 1 := by norm_num
  have h32b : (4294967296 : Nat) = 2 ^ 32 := by norm_num
  simp only [not32, Nat.testBit_and, Nat.testBit_xor, h32, h32b, Nat.testBit_two_pow_sub_one,
    Nat.testBit_mod_two_pow, Nat.zero_testBit]
  by_cases hi : i < 32 <;> cases hw : w.testBit i <;> cases he : e.testBit i <;> simp [hi]

/-! ## C8: decon_free_dma_buf -/

/-- C8. `decon_free_dma_buf` is idempotent.  On a binding with a non-zero device
address it makes each release call once (the fence put only when a fence is
attached) and zeroes the whole descriptor; on a descriptor whose device address is
0, in particular on the descriptor left by a first call, it makes no call and
leaves the descriptor unchanged. -/
theorem decon_free_dma_buf_idempotent (dma : decon_dma_buf_data) :
    (dma.dma_addr ≠ 0 →
      (decon_free_dma_buf dma).1 =
        (if dma.fence ≠ 0 then [kcall.sync_fence_put dma.fence] else []) ++
          [kcall.ion_iovmm_unmap dma.attachment dma.dma_addr,
           kcall.dma_buf_unmap_attachment dma.attachment dma.sg_table,
           kcall.dma_buf_detach dma.dma_buf dma.attachment,
           kcall.dma_buf_put dma.dma_buf,
           kcall.ion_free dma.ion_handle] ∧
      (decon_free_dma_buf dma).2 = dma_zero) ∧
    (dma.dma_addr = 0 → decon_free_dma_buf dma = ([], dma)) ∧
    decon_free_dma_buf (decon_free_dma_buf dma).2 = ([], (decon_free_dma_buf dma).2) := by
  refine ⟨?_, ?_, ?_⟩
  · intro h
    simp [decon_free_dma_buf, h]
  · intro h
    simp [decon_free_dma_buf, h]
  · by_cases h : dma.dma_addr = 0
    · simp [decon_free_dma_buf, h]
    · simp [decon_free_dma_buf, h, dma_zero]

/-! ## C10: decon_reg_chmap_validate -/

theorem and_two_pow_ne_zero (b t : Nat) : b &&& (1 <<< t) ≠ 0 ↔ b.testBit t = true := by
  rw [Nat.one_shiftLeft]
  constructor
  · intro h
    by_contra hb
    apply h
    apply Nat.eq_of_testBit_eq
    intro i
    simp only [Nat.testBit_and, Nat.testBit_two_pow, Nat.zero_testBit]
    by_cases hti : t = i
    · subst hti
      simp [hb]
    · simp [hti]
  · intro hb h
    have := congrArg (fun x => Nat.testBit x t) h
    simp [Nat.testBit_and, Nat.testBit_two_pow, hb] at this

theorem u16_or_testBit (b t s : Nat) (hs : s < 16) :
    (u16 (b ||| (1 <<< t))).testBit s = (b.testBit s || decide (t = s)) := by
  have h16 : (65536 : Nat) = 2 ^ 16 := by norm_num
  rw [u16, h16, Nat.testBit_mod_two_pow, Nat.testBit_or, Nat.one_shiftLeft, Nat.testBit_two_pow]
  simp [hs]

theorem chmap_step_skip (H : decon_h) (i bitmap : Nat) (r : decon_reg_data)
    (hc : ¬ (r.wincon i &&& H.WINCON_ENWIN ≠ 0 ∧ ¬ (r.winmap i &&& H.WIN_MAP_MAP ≠ 0))) :
    chmap_step H i (bitmap, r) = (bitmap, r) := by
  unfold chmap_step
  dsimp only
  rw [if_neg hc]

theorem chmap_step_keep (H : decon_h) (i bitmap : Nat) (r : decon_reg_data)
    (hc : r.wincon i &&& H.WINCON_ENWIN ≠ 0 ∧ ¬ (r.winmap i &&& H.WIN_MAP_MAP ≠ 0))
    (hd : ¬ (bitmap &&& (1 <<< (r.win_config i).idma_type) ≠ 0)) :
    chmap_step H i (bitmap, r) = (u16 (bitmap ||| (1 <<< (r.win_config i).idma_type)), r) := by
  unfold chmap_step
  dsimp only
  rw [if_pos hc, if_neg hd]

theorem chmap_step_clear (H : decon_h) (i bitmap : Nat) (r : decon_reg_data)
    (hc : r.wincon i &&& H.WINCON_ENWIN ≠ 0 ∧ ¬ (r.winmap i &&& H.WIN_MAP_MAP ≠ 0))
    (hd : bitmap &&& (1 <<< (r.win_config i).idma_type) ≠ 0) :
    chmap_step H i (bitmap, r) =
      (u16 (bitmap ||| (1 <<< (r.win_config i).idma_type)),
       { r with wincon := set_at r.wincon i (r.wincon i &&& not32 H.WINCON_ENWIN) }) := by
  unfold chmap_step
  dsimp only
  rw [if_pos hc, if_pos hd]

theorem chmap_inv_loop (H : decon_h) (regs : decon_reg_data) (max_win : Nat)
    (hch : ∀ i, i < max_win → (regs.win_config i).idma_type < 16) :
    ∀ n, n ≤ max_win → chmap_inv H regs n (for_loop (chmap_step H) n (0, regs)) := by
  intro n
  induction n with
  | zero =>
    intro _
    refine ⟨?_, rfl, fun _ _ => rfl, ?_, ?_⟩
    · intro t _
      simp
    · intro j hj
      exact absurd hj (Nat.not_lt_zero j)
    · intro j hj
      exact absurd hj (Nat.not_lt_zero j)
  | succ n ih =>
    intro hn
    have hn' : n < max_win := hn
    obtain ⟨hbit, hrec, hge, hcl, hkeep⟩ := ih (Nat.le_of_lt hn')
    rw [for_loop_succ]
    generalize for_loop (chmap_step H) n (0, regs) = st at hbit hrec hge hcl hkeep
    obtain ⟨bitmap, r⟩ := st
    simp only at hbit hrec hge hcl hkeep
    have hmap : r.winmap = regs.winmap := by rw [hrec]
    have hcfg : r.win_config = regs.win_config := by rw [hrec]
    have hwn : r.wincon n = regs.wincon n := hge n (Nat.le_refl n)
    have htn : (regs.win_config n).idma_type < 16 := hch n hn'
    by_cases hact : chmap_active H regs n
    · -- window n takes part in the check
      have hcond : r.wincon n &&& H.WINCON_ENWIN ≠ 0 ∧ ¬ (r.winmap n &&& H.WIN_MAP_MAP ≠ 0) := by
        rw [hwn, hmap]; exact hact
      by_cases hdup : bitmap &&& (1 <<< (regs.win_config n).idma_type) ≠ 0
      · -- channel already taken: the enable bit is cleared
        have hearlier : chmap_earlier H regs n := by
          obtain ⟨i, hi, hai, hti⟩ := (hbit _ htn).1 ((and_two_pow_ne_zero _ _).1 hdup)
          exact ⟨i, hi, hai, hti⟩
        have hstep : chmap_step H n (bitmap, r) =
            (u16 (bitmap ||| (1 <<< (regs.win_config n).idma_type)),
             { r with wincon := set_at r.wincon n (r.wincon n &&& not32 H.WINCON_ENWIN) }) := by
          rw [chmap_step_clear H n bitmap r hcond (by rw [hcfg]; exact hdup), hcfg]
        rw [hstep]
        refine ⟨?_, ?_, ?_, ?_, ?_⟩
        · intro t ht
          simp only
          rw [u16_or_testBit _ _ _ ht]
          constructor
          · intro h
            rcases Bool.or_eq_true _ _ ▸ h with h1 | h1
            · obtain ⟨i, hi, hai, hti⟩ := (hbit t ht).1 h1
              exact ⟨i, Nat.lt_succ_of_lt hi, hai, hti⟩
            · exact ⟨n, Nat.lt_succ_self n, hact, of_decide_eq_true h1⟩
          · rintro ⟨i, hi, hai, hti⟩
            rcases Nat.lt_succ_iff_lt_or_eq.1 hi with hlt | heq
            · simp [(hbit t ht).2 ⟨i, hlt, hai, hti⟩]
            · subst heq
              simp [hti]
        · exact congrArg (fun x : decon_reg_data =>
            { x with wincon := set_at r.wincon n (r.wincon n &&& not32 H.WINCON_ENWIN) }) hrec
        · intro j hj
          have hne : j ≠ n := by omega
          simp only [set_at_other _ _ _ _ hne]
          exact hge j (by omega)
        · intro j hj haj hej
          rcases Nat.lt_succ_iff_lt_or_eq.1 hj with hlt | heq
          · have hne : j ≠ n := by omega
            simp only [set_at_other _ _ _ _ hne]
            exact hcl j hlt haj hej
          · subst heq
            simp only [set_at_same, hwn]
        · intro j hj hnot
          rcases Nat.lt_succ_iff_lt_or_eq.1 hj with hlt | heq
          · have hne : j ≠ n := by omega
            simp only [set_at_other _ _ _ _ hne]
            exact hkeep j hlt hnot
          · subst heq
            exact absurd ⟨hact, hearlier⟩ hnot
      · -- channel free: the window keeps its enable bit
        have hnoearlier : ¬ chmap_earlier H regs n := by
          rintro ⟨i, hi, hai, hti⟩
          exact hdup ((and_two_pow_ne_zero _ _).2 ((hbit _ htn).2 ⟨i, hi, hai, hti⟩))
        have hstep : chmap_step H n (bitmap, r) =
            (u16 (bitmap ||| (1 <<< (regs.win_config n).idma_type)), r) := by
          rw [chmap_step_keep H n bitmap r hcond (by rw [hcfg]; exact hdup), hcfg]
        rw [hstep]
        refine ⟨?_, hrec, ?_, ?_, ?_⟩
        · intro t ht
          simp only
          rw [u16_or_testBit _ _ _ ht]
          constructor
          · intro h
            rcases Bool.or_eq_true _ _ ▸ h with h1 | h1
            · obtain ⟨i, hi, hai, hti⟩ := (hbit t ht).1 h1
              exact ⟨i, Nat.lt_succ_of_lt hi, hai, hti⟩
            · exact ⟨n, Nat.lt_succ_self n, hact, of_decide_eq_true h1⟩
          · rintro ⟨i, hi, hai, hti⟩
            rcases Nat.lt_succ_iff_lt_or_eq.1 hi with hlt | heq
            · simp [(hbit t ht).2 ⟨i, hlt, hai, hti⟩]
            · subst heq
              simp [hti]
        · intro j hj
          exact hge j (by omega)
        · intro j hj haj hej
          rcases Nat.lt_succ_iff_lt_or_eq.1 hj with hlt | heq
          · exact hcl j hlt haj hej
          · subst heq
            exact absurd hej hnoearlier
        · intro j hj hnot
          rcases Nat.lt_succ_iff_lt_or_eq.1 hj with hlt | heq
          · exact hkeep j hlt hnot
          · subst heq
            exact hwn
    · -- window n is disabled or colour-mapped: nothing happens
      have hcond : ¬ (r.wincon n &&& H.WINCON_ENWIN ≠ 0 ∧ ¬ (r.winmap n &&& H.WIN_MAP_MAP ≠ 0)) := by
        rw [hwn, hmap]; exact hact
      have hstep : chmap_step H n (bitmap, r) = (bitmap, r) := by
        exact chmap_step_skip H n bitmap r hcond
      rw [hstep]
      refine ⟨?_, hrec, ?_, ?_, ?_⟩
      · intro t ht
        simp only
        rw [hbit t ht]
        constructor
        · rintro ⟨i, hi, hai, hti⟩
          exact ⟨i, Nat.lt_succ_of_lt hi, hai, hti⟩
        · rintro ⟨i, hi, hai, hti⟩
          rcases Nat.lt_succ_iff_lt_or_eq.1 hi with hlt | heq
          · exact ⟨i, hlt, hai, hti⟩
          · subst heq
            exact absurd hai hact
      · intro j hj
        exact hge j (by omega)
      · intro j hj haj hej
        rcases Nat.lt_succ_iff_lt_or_eq.1 hj with hlt | heq
        · exact hcl j hlt haj hej
        · subst heq
          exact absurd haj hact
      · intro j hj hnot
        rcases Nat.lt_succ_iff_lt_or_eq.1 hj with hlt | heq
        · exact hkeep j hlt hnot
        · subst heq
          exact hwn

/-- C10. After `decon_reg_chmap_validate`, when every window's `idma_type` is below
16: no two windows that are enabled and not colour-mapped share an `idma_type`;
a window that took part in the check and has an earlier such window on its channel
has exactly its `WINCON_ENWIN` bits cleared, every other window (the lowest-indexed
one of a channel, the disabled and the colour-mapped ones, the slots from `max_win`
on) keeps its `wincon`; and no other entry of the snapshot changes.  The function
is total and returns nothing, so it cannot fail the commit. -/
theorem decon_reg_chmap_validate_spec (H : decon_h) (max_win : Nat) (regs : decon_reg_data)
    (hch : ∀ i, i < max_win → (regs.win_config i).idma_type < 16) :
    (∀ i j, i < j → j < max_win →
      chmap_active H (decon_reg_chmap_validate H max_win regs) i →
      chmap_active H (decon_reg_chmap_validate H max_win regs) j →
      ((decon_reg_chmap_validate H max_win regs).win_config i).idma_type ≠
        ((decon_reg_chmap_validate H max_win regs).win_config j).idma_type) ∧
    (∀ j, j < max_win → chmap_active H regs j → chmap_earlier H regs j →
      (decon_reg_chmap_validate H max_win regs).wincon j =
        regs.wincon j &&& not32 H.WINCON_ENWIN) ∧
    (∀ j, ¬ (j < max_win ∧ chmap_active H regs j ∧ chmap_earlier H regs j) →
      (decon_reg_chmap_validate H max_win regs).wincon j = regs.wincon j) ∧
    decon_reg_chmap_validate H max_win regs =
      { regs with wincon := (decon_reg_chmap_validate H max_win regs).wincon } := by
  obtain ⟨_, hrec, hge, hcl, hkeep⟩ := chmap_inv_loop H regs max_win hch max_win (Nat.le_refl _)
  have hmap : (decon_reg_chmap_validate H max_win regs).winmap = regs.winmap := by
    unfold decon_reg_chmap_validate; rw [hrec]
  have hcfg : (decon_reg_chmap_validate H max_win regs).win_config = regs.win_config := by
    unfold decon_reg_chmap_validate; rw [hrec]
  have hkeep' : ∀ j, ¬ (j < max_win ∧ chmap_active H regs j ∧ chmap_earlier H regs j) →
      (decon_reg_chmap_validate H max_win regs).wincon j = regs.wincon j := by
    intro j hnot
    by_cases hj : j < max_win
    · exact hkeep j hj (fun h => hnot ⟨hj, h.1, h.2⟩)
    · exact hge j (Nat.le_of_not_lt hj)
  have hclear : ∀ j, j < max_win → chmap_active H regs j → chmap_earlier H regs j →
      ¬ chmap_active H (decon_reg_chmap_validate H max_win regs) j := by
    intro j hj haj hej hact
    have h := hcl j hj haj hej
    unfold decon_reg_chmap_validate at hact
    unfold chmap_active at hact
    rw [h] at hact
    exact hact.1 (and_not32_and _ _)
  have hback : ∀ j, j < max_win → chmap_active H (decon_reg_chmap_validate H max_win regs) j →
      chmap_active H regs j ∧ ¬ chmap_earlier H regs j := by
    intro j hj hact
    by_cases hc : chmap_active H regs j ∧ chmap_earlier H regs j
    · exact absurd hact (hclear j hj hc.1 hc.2)
    · have hw := hkeep' j (fun h => hc ⟨h.2.1, h.2.2⟩)
      have haj : chmap_active H regs j := by
        unfold chmap_active at hact ⊢
        rw [hw, hmap] at hact
        exact hact
      exact ⟨haj, fun he => hc ⟨haj, he⟩⟩
  refine ⟨?_, hcl, hkeep', hrec⟩
  intro i j hij hj hai haj heq
  rw [hcfg] at heq
  have hi := hback i (Nat.lt_trans hij hj) hai
  have hjj := hback j hj haj
  exact hjj.2 ⟨i, hij, hi.1, heq⟩

/-- C10 at a concrete snapshot: three enabled windows on channels 1, 1, 2. -/
theorem decon_reg_chmap_validate_spec_witness :
    (∀ i, i < 3 → (chmap_sample_regs.win_config i).idma_type < 16) ∧
    (∀ i j, i < j → j < 3 →
      chmap_active sample_h (decon_reg_chmap_validate sample_h 3 chmap_sample_regs) i →
      chmap_active sample_h (decon_reg_chmap_validate sample_h 3 chmap_sample_regs) j →
      ((decon_reg_chmap_validate sample_h 3 chmap_sample_regs).win_config i).idma_type ≠
        ((decon_reg_chmap_validate sample_h 3 chmap_sample_regs).win_config j).idma_type) ∧
    (decon_reg_chmap_validate sample_h 3 chmap_sample_regs).wincon 0 = 1 ∧
    (decon_reg_chmap_validate sample_h 3 chmap_sample_regs).wincon 1 = 0 ∧
    (decon_reg_chmap_validate sample_h 3 chmap_sample_regs).wincon 2 = 1 :=
  have h : ∀ i, i < 3 → (chmap_sample_regs.win_config i).idma_type < 16 := by
    intro i _
    simp only [chmap_sample_regs]
    split <;> decide
  ⟨h, (decon_reg_chmap_validate_spec sample_h 3 chmap_sample_regs h).1, by decide, by decide,
    by decide⟩

/-! ## C7, C9: decon_update_regs -/

theorem steps_quietly_refl (d : decon_device) : steps_quietly d d :=
  ⟨rfl, rfl, rfl, [], by simp, by simp⟩

theorem steps_quietly_trans {a b c : decon_device} (h1 : steps_quietly a b)
    (h2 : steps_quietly b c) : steps_quietly a c := by
  obtain ⟨t1, m1, w1, l1, e1, q1⟩ := h1
  obtain ⟨t2, m2, w2, l2, e2, q2⟩ := h2
  refine ⟨t2.trans t1, m2.trans m1, w2.trans w1, l1 ++ l2, ?_, ?_⟩
  · rw [e2, e1, List.append_assoc]
  · intro c hc
    rcases List.mem_append.1 hc with h | h
    · exact q1 c h
    · exact q2 c h

theorem steps_quietly_emit (d : decon_device) (l : List kcall)
    (h : ∀ c ∈ l, quiet_call c = true) : steps_quietly d (emit d l) :=
  ⟨rfl, rfl, rfl, l, rfl, h⟩

theorem steps_quietly_ite {d a b : decon_device} (p : Prop) [Decidable p]
    (ha : steps_quietly d a) (hb : steps_quietly d b) :
    steps_quietly d (if p then a else b) := by
  split
  · exact ha
  · exact hb

theorem quiet_rect_reset (d : decon_device) : steps_quietly d (decon_win_update_rect_reset d) :=
  ⟨rfl, rfl, rfl, [], by simp [decon_win_update_rect_reset], by simp⟩

theorem quiet_partial_cmd (H : decon_h) (hw : hw_env) (d : decon_device) (rect : decon_win_rect) :
    steps_quietly d (decon_reg_ddi_partial_cmd H hw d rect).2 := by
  unfold decon_reg_ddi_partial_cmd steps_quietly
  dsimp only
  split_ifs <;>
    refine ⟨by simp [emit, decon_win_update_rect_reset], by simp [emit, decon_win_update_rect_reset],
      by simp [emit, decon_win_update_rect_reset], ?_⟩ <;>
    simp only [emit, decon_win_update_rect_reset, List.append_assoc] <;>
    exact ⟨_, rfl, by simp [quiet_call]⟩

theorem quiet_disp_config (hw : hw_env) (d : decon_device) (rect : decon_win_rect) :
    steps_quietly d (decon_win_update_disp_config hw d rect).2 := by
  unfold decon_win_update_disp_config steps_quietly
  dsimp only
  split_ifs <;>
    refine ⟨by simp [emit, decon_win_update_rect_reset], by simp [emit, decon_win_update_rect_reset],
      by simp [emit, decon_win_update_rect_reset], ?_⟩ <;>
    simp only [emit, decon_win_update_rect_reset, List.append_assoc] <;>
    exact ⟨_, rfl, by simp [quiet_call]⟩

theorem quiet_reg_set_win_update_config (H : decon_h) (hw : hw_env) (d : decon_device)
    (regs : decon_reg_data) :
    steps_quietly d (decon_reg_set_win_update_config H hw d regs).2 := by
  unfold decon_reg_set_win_update_config
  split
  · exact steps_quietly_trans (quiet_partial_cmd H hw d _) (quiet_disp_config hw _ _)
  · exact steps_quietly_refl d

theorem quiet_protect_retry (hw : hw_env) (fuel : Nat) :
    ∀ d, steps_quietly d (protect_retry hw fuel d) := by
  induction fuel with
  | zero => intro d; exact steps_quietly_refl d
  | succ n ih =>
    intro d
    unfold protect_retry
    dsimp only
    have h1 : steps_quietly d
        (emit (emit d [kcall.reg_update_standalone, kcall.reg_per_frame_off])
          [kcall.reg_wait_linecnt_is_zero]) :=
      steps_quietly_trans (steps_quietly_emit _ _ (by simp [quiet_call]))
        (steps_quietly_emit _ _ (by simp [quiet_call]))
    split
    · exact steps_quietly_trans h1 (ih _)
    · exact h1

theorem quiet_field_update (d d' : decon_device) (ht : d'.timeline = d.timeline)
    (hm : d'.max_win = d.max_win) (hw : d'.windows = d.windows) (hl : d'.log = d.log) :
    steps_quietly d d' :=
  ⟨ht, hm, hw, [], by simp [hl], by simp⟩

theorem quiet_set_protected_content (hw : hw_env) (d : decon_device) (enable : Bool) :
    steps_quietly d (decon_set_protected_content hw d enable) := by
  unfold decon_set_protected_content
  dsimp only
  generalize (if enable = true then decide (d.cur_protection_bitmask ≠ 0) else false) = en
  by_cases hen : en = d.prev_protection_status
  · rw [if_pos hen]
    exact steps_quietly_refl d
  · rw [if_neg hen]
    refine steps_quietly_trans (b := if d.psr_mode = decon_psr_mode.VIDEO_MODE then
        protect_retry hw 6 d else emit d [kcall.reg_wait_linecnt_is_zero]) ?_ ?_
    · exact steps_quietly_ite _ (quiet_protect_retry hw 6 d)
        (steps_quietly_emit _ _ (by simp [quiet_call]))
    · exact ⟨rfl, rfl, rfl, [kcall.smc_protection_set en], rfl, by simp [quiet_call]⟩

theorem quiet_emit_loop (f : Nat → List kcall) (hf : ∀ i, ∀ c ∈ f i, quiet_call c = true)
    (n : Nat) (d : decon_device) :
    steps_quietly d (for_loop (fun i d => emit d (f i)) n d) := by
  apply for_loop_inv (steps_quietly d)
  · exact steps_quietly_refl d
  · intro i s _ hs
    exact steps_quietly_trans hs (steps_quietly_emit _ _ (hf i))

theorem quiet_fence_loop (regs : decon_reg_data) (n : Nat) (d : decon_device) :
    steps_quietly d (for_loop
      (fun i d =>
        if (regs.dma_buf_data i 0).fence ≠ 0 then
          emit d (decon_fence_wait (regs.dma_buf_data i 0).fence)
        else d) n d) := by
  apply for_loop_inv (steps_quietly d)
  · exact steps_quietly_refl d
  · intro i s _ hs
    refine steps_quietly_trans hs ?_
    dsimp only
    split
    · exact steps_quietly_emit _ _ (by simp [decon_fence_wait, quiet_call])
    · exact steps_quietly_refl _

theorem quiet_set_qos (H : decon_h) (d : decon_device) (regs : Option decon_reg_data)
    (is_after is_default_qos : Bool) :
    steps_quietly d (decon_set_qos H d regs is_after is_default_qos) := by
  unfold decon_set_qos
  dsimp only
  generalize qos_req_bandwidth d regs is_default_qos = req
  split_ifs
  · exact steps_quietly_refl d
  · exact ⟨rfl, rfl, rfl, [kcall.update_media_scenario req], rfl, by simp [quiet_call]⟩
  · exact steps_quietly_refl d
  · exact steps_quietly_refl d

theorem quiet_activate_vsync (d : decon_device) : steps_quietly d (decon_activate_vsync d) := by
  unfold decon_activate_vsync
  dsimp only
  split
  · exact ⟨rfl, rfl, rfl, [kcall.reg_set_int true, kcall.dsim_vsync true], rfl,
      by simp [quiet_call]⟩
  · exact quiet_field_update _ _ rfl rfl rfl rfl

theorem quiet_deactivate_vsync (d : decon_device) : steps_quietly d (decon_deactivate_vsync d) := by
  unfold decon_deactivate_vsync
  dsimp only
  split
  · exact ⟨rfl, rfl, rfl, [kcall.reg_set_int false, kcall.dsim_vsync false], rfl,
      by simp [quiet_call]⟩
  · exact quiet_field_update _ _ rfl rfl rfl rfl

theorem quiet_wait_for_vsync (hw : hw_env) (d : decon_device) (timeout : Nat) :
    steps_quietly d (decon_wait_for_vsync hw d timeout).2 := by
  unfold decon_wait_for_vsync
  split
  · exact steps_quietly_refl d
  · lift_lets
    intro activate d1 ret woken d2 d3 d4
    have h1 : steps_quietly d d1 :=
      steps_quietly_ite _ (quiet_activate_vsync d) (steps_quietly_refl d)
    have h2 : steps_quietly d1 d2 := steps_quietly_emit _ _ (by simp [quiet_call])
    have h3 : steps_quietly d2 d3 := quiet_field_update _ _ rfl rfl rfl rfl
    have h4 : steps_quietly d3 d4 :=
      steps_quietly_ite _ (quiet_deactivate_vsync d3) (steps_quietly_refl d3)
    have h := steps_quietly_trans h1 (steps_quietly_trans h2 (steps_quietly_trans h3 h4))
    split_ifs <;> exact h

theorem quiet_size_mismatch_poll (hw : hw_env) (cnt : Nat) :
    ∀ d, steps_quietly d (size_mismatch_poll hw cnt d) := by
  induction cnt with
  | zero => intro d; exact steps_quietly_refl d
  | succ n ih =>
    intro d
    unfold size_mismatch_poll
    dsimp only
    have h1 : steps_quietly d (emit d [kcall.reg_get_vstatus]) :=
      steps_quietly_emit _ _ (by simp [quiet_call])
    split_ifs
    · exact h1
    · exact h1
    · exact h1
    · exact steps_quietly_trans h1 (ih _)

theorem quiet_prevent_size_mismatch (hw : hw_env) (d : decon_device) (timeout : Nat) :
    steps_quietly d (decon_prevent_size_mismatch hw d timeout) := by
  unfold decon_prevent_size_mismatch
  dsimp only
  split
  · exact steps_quietly_refl d
  · exact quiet_size_mismatch_poll hw _ d

theorem quiet_vsync_skip_loop (H : decon_h) (hw : hw_env) (n : Nat) :
    ∀ d, steps_quietly d (vsync_skip_loop H hw n d) := by
  induction n with
  | zero => intro d; exact steps_quietly_refl d
  | succ n ih =>
    intro d
    unfold vsync_skip_loop
    split
    · exact quiet_field_update _ _ rfl rfl rfl rfl
    · exact steps_quietly_trans (quiet_wait_for_vsync hw d _) (ih _)

theorem quiet_not_inc (c : kcall) (h : quiet_call c = true) : is_timeline_inc c = false := by
  cases c <;> simp_all [quiet_call, is_timeline_inc]

theorem steps_without_inc_of_quiet {d d' : decon_device} (h : steps_quietly d d') :
    steps_without_inc d d' := by
  obtain ⟨t, _, _, l, e, q⟩ := h
  exact ⟨t, l, e, fun c hc => quiet_not_inc c (q c hc)⟩

theorem steps_without_inc_refl (d : decon_device) : steps_without_inc d d :=
  ⟨rfl, [], by simp, by simp⟩

theorem steps_without_inc_trans {a b c : decon_device} (h1 : steps_without_inc a b)
    (h2 : steps_without_inc b c) : steps_without_inc a c := by
  obtain ⟨t1, l1, e1, q1⟩ := h1
  obtain ⟨t2, l2, e2, q2⟩ := h2
  refine ⟨t2.trans t1, l1 ++ l2, ?_, ?_⟩
  · rw [e2, e1, List.append_assoc]
  · intro c hc
    rcases List.mem_append.1 hc with h | h
    · exact q1 c h
    · exact q2 c h

theorem free_dma_buf_calls (dma : decon_dma_buf_data) :
    ∀ c ∈ (decon_free_dma_buf dma).1, is_timeline_inc c = false ∧ quiet_call c = false := by
  intro c hc
  unfold decon_free_dma_buf at hc
  split at hc
  · simp at hc
  · rcases List.mem_append.1 hc with h | h
    · split at h
      · simp at h
        subst h
        simp [is_timeline_inc, quiet_call]
      · simp at h
    · simp at h
      rcases h with h | h | h | h | h <;> subst h <;> simp [is_timeline_inc, quiet_call]

theorem free_planes_log_calls (dma : Nat → decon_dma_buf_data) (n : Nat) :
    ∀ c ∈ free_planes_log dma n, is_timeline_inc c = false ∧ quiet_call c = false := by
  unfold free_planes_log
  induction n with
  | zero => intro c hc; simp at hc
  | succ k ih =>
    intro c hc
    rw [for_loop_succ] at hc
    rcases List.mem_append.1 hc with h | h
    · exact ih c h
    · exact free_dma_buf_calls _ c h

theorem update_regs_win_without_inc (H : decon_h) (regs : decon_reg_data) (i : Nat)
    (d : decon_device) : steps_without_inc d (update_regs_win H regs i d) := by
  unfold update_regs_win steps_without_inc
  dsimp only
  split
  · refine ⟨rfl, [kcall.reg_set_regs_data i, decon_enable_blocking_mode regs i], ?_, ?_⟩
    · simp [emit, set_window]
    · intro c hc
      simp at hc
      rcases hc with h | h
      · subst h; rfl
      · subst h
        unfold decon_enable_blocking_mode
        dsimp only
        split <;> rfl
  · refine ⟨rfl, [kcall.reg_set_regs_data i], ?_, ?_⟩
    · simp [emit, set_window]
    · intro c hc
      simp at hc
      subst hc; rfl

theorem update_regs_inner_without_inc (H : decon_h) (hw : hw_env) (d : decon_device)
    (regs : decon_reg_data) : steps_without_inc d (__decon_update_regs H hw d regs).1 := by
  unfold __decon_update_regs
  lift_lets
  extract_lets d0 d1 d2 r d3 d4 d5 d6 d7 d8
  show steps_without_inc d d8
  have h0 : steps_without_inc d d0 := ⟨rfl, [], by simp [d0], by simp⟩
  have h1 : steps_without_inc d0 d1 :=
    steps_without_inc_of_quiet
      (steps_quietly_ite _ (steps_quietly_emit _ _ (by simp [quiet_call])) (steps_quietly_refl _))
  have h2 : steps_without_inc d1 d2 := steps_without_inc_of_quiet
    (quiet_emit_loop (fun i => [kcall.reg_shadow_protect_win i true])
      (by intro i c hc; simp at hc; subst hc; rfl) d1.max_win d1)
  have h3 : steps_without_inc d2 d3 :=
    steps_without_inc_of_quiet
      (steps_quietly_ite _ (quiet_reg_set_win_update_config H hw d2 _) (steps_quietly_refl _))
  have h4 : steps_without_inc d3 d4 := by
    apply for_loop_inv (steps_without_inc d3)
    · exact steps_without_inc_refl d3
    · intro i s _ hs
      exact steps_without_inc_trans hs (update_regs_win_without_inc H _ i s)
  have h5 : steps_without_inc d4 d5 := steps_without_inc_of_quiet
    (quiet_emit_loop (fun i => [kcall.reg_shadow_protect_win i false])
      (by intro i c hc; simp at hc; subst hc; rfl) d4.max_win d4)
  have h6 : steps_without_inc d5 d6 :=
    steps_without_inc_of_quiet (quiet_set_protected_content hw d5 true)
  have h7 : steps_without_inc d6 d7 :=
    steps_without_inc_of_quiet (steps_quietly_emit _ [kcall.reg_start] (by simp [quiet_call]))
  have h8 : steps_without_inc d7 d8 :=
    steps_without_inc_of_quiet
      (steps_quietly_ite _ (steps_quietly_emit _ [kcall.dsim_pkt_go true] (by simp [quiet_call]))
        (steps_quietly_refl _))
  exact steps_without_inc_trans h0 (steps_without_inc_trans h1 (steps_without_inc_trans h2
    (steps_without_inc_trans h3 (steps_without_inc_trans h4 (steps_without_inc_trans h5
    (steps_without_inc_trans h6 (steps_without_inc_trans h7 h8)))))))

theorem quiet_vsync_skip (H : decon_h) (hw : hw_env) (d : decon_device) (regs : decon_reg_data) :
    steps_quietly d (vsync_skip H hw d regs) := by
  unfold vsync_skip
  dsimp only
  refine steps_quietly_trans (b := { d with extra_vsync_wait := 0 })
    (quiet_field_update _ _ rfl rfl rfl rfl) ?_
  exact steps_quietly_ite _ (quiet_vsync_skip_loop H hw _ _) (steps_quietly_refl _)

theorem quiet_mask_trigger (H : decon_h) (hw : hw_env) (d : decon_device) :
    steps_quietly d (mask_trigger H hw d) := by
  unfold mask_trigger
  split_ifs <;>
    first
    | exact steps_quietly_refl d
    | exact steps_quietly_emit d [kcall.reg_set_trigger_disable] (by simp [quiet_call])

theorem free_loop_without_inc (old : Nat → Nat → decon_dma_buf_data) (n : Nat) (d : decon_device) :
    steps_without_inc d
      (for_loop (fun i d => emit d (free_planes_log (old i) MAX_BUF_PLANE_CNT)) n d) := by
  apply for_loop_inv (steps_without_inc d)
  · exact steps_without_inc_refl d
  · intro i s _ hs
    refine steps_without_inc_trans hs ⟨rfl, _, rfl, ?_⟩
    intro c hc
    exact (free_planes_log_calls _ _ c hc).1

/-- The part of `decon_update_regs` before the timeline is advanced calls no
`sw_sync_timeline_inc`, and the part after it none either. -/
theorem update_regs_single_inc (H : decon_h) (hw : hw_env) (decon : decon_device)
    (regs : decon_reg_data)
    (hexit : decon.state = decon_state.LPD →
      (hw.decon_exit_lpd decon).timeline = decon.timeline) :
    ∃ d_before d_inc : decon_device,
      steps_without_inc decon d_before ∧
      d_inc = { emit d_before [kcall.sw_sync_timeline_inc 1] with
                timeline := u32 (d_before.timeline + 1) } ∧
      steps_without_inc d_inc (decon_update_regs H hw decon regs) := by
  unfold decon_update_regs
  lift_lets
  extract_lets x0 d0 old d1 d2 d3 r d4 regs2 d5 upd d6 d7 d8 d9 d10 d11 d12 d13 d14
  refine ⟨d12, d14, ?_, rfl, ?_⟩
  · have h0 : steps_without_inc decon d0 := by
      by_cases hs : decon.state = decon_state.LPD
      · refine ⟨?_, [kcall.decon_exit_lpd], ?_, ?_⟩
        · simp only [d0, if_pos hs]
          exact hexit hs
        · simp only [d0, if_pos hs]
        · intro c hc
          simp at hc
          subst hc
          rfl
      · simp only [d0, if_neg hs]
        exact steps_without_inc_refl decon
    have h1 : steps_without_inc d0 d1 := steps_without_inc_of_quiet (quiet_fence_loop regs _ d0)
    have h2 : steps_without_inc d1 d2 := steps_without_inc_of_quiet
      (steps_quietly_ite _ (quiet_set_qos H d1 _ _ _) (steps_quietly_refl _))
    have h3 : steps_without_inc d2 d3 := steps_without_inc_of_quiet
      (steps_quietly_ite _ (quiet_vsync_skip H hw d2 regs) (steps_quietly_refl _))
    have h4 : steps_without_inc d3 d4 := update_regs_inner_without_inc H hw d3 regs
    have h5 : steps_without_inc d4 d5 := steps_without_inc_of_quiet (quiet_wait_for_vsync hw d4 _)
    have h6 : steps_without_inc d5 d6 := steps_without_inc_of_quiet
      (steps_quietly_emit d5 [kcall.reg_wait_for_update] (by simp [quiet_call]))
    have h7 : steps_without_inc d6 d7 := steps_without_inc_of_quiet
      (steps_quietly_ite _ (steps_quietly_emit d6 [kcall.decon_dump] (by simp [quiet_call]))
        (steps_quietly_refl _))
    have h8 : steps_without_inc d7 d8 :=
      steps_without_inc_of_quiet (quiet_prevent_size_mismatch hw d7 _)
    have h9 : steps_without_inc d8 d9 := steps_without_inc_of_quiet
      (steps_quietly_emit d8 [kcall.clear_i80_framedone] (by simp [quiet_call]))
    have h10 : steps_without_inc d9 d10 := ⟨rfl, [], by simp [d10], by simp⟩
    have h11 : steps_without_inc d10 d11 := steps_without_inc_of_quiet (quiet_mask_trigger H hw d10)
    have h12 : steps_without_inc d11 d12 := free_loop_without_inc old _ d11
    exact steps_without_inc_trans h0 (steps_without_inc_trans h1 (steps_without_inc_trans h2
      (steps_without_inc_trans h3 (steps_without_inc_trans h4 (steps_without_inc_trans h5
      (steps_without_inc_trans h6 (steps_without_inc_trans h7 (steps_without_inc_trans h8
      (steps_without_inc_trans h9 (steps_without_inc_trans h10
      (steps_without_inc_trans h11 h12)))))))))))
  · exact steps_without_inc_of_quiet
      (steps_quietly_ite _ (quiet_set_qos H d14 _ _ _) (steps_quietly_refl _))

/-- C9. Every snapshot processed by `decon_update_regs` advances the completion
timeline by exactly one tick: the timeline value becomes `timeline + 1` (as a
`u32`), and the calls made during the commit contain exactly one
`sw_sync_timeline_inc`, with increment 1 - for every outcome of the fence waits,
the vsync wait, the update-done wait and the size-mismatch poll (all of `hw`).
The helper `decon_exit_lpd`, whose code is outside the source tree, is assumed to
leave the timeline value alone. -/
theorem decon_update_regs_timeline (H : decon_h) (hw : hw_env) (decon : decon_device)
    (regs : decon_reg_data)
    (hexit : decon.state = decon_state.LPD →
      (hw.decon_exit_lpd decon).timeline = decon.timeline) :
    (decon_update_regs H hw decon regs).timeline = u32 (decon.timeline + 1) ∧
    ∃ pre post,
      (decon_update_regs H hw decon regs).log =
        decon.log ++ pre ++ [kcall.sw_sync_timeline_inc 1] ++ post ∧
      (∀ c ∈ pre, is_timeline_inc c = false) ∧ (∀ c ∈ post, is_timeline_inc c = false) := by
  obtain ⟨d_before, d_inc, ⟨t1, pre, e1, q1⟩, hinc, ⟨t2, post, e2, q2⟩⟩ :=
    update_regs_single_inc H hw decon regs hexit
  subst hinc
  refine ⟨?_, pre, post, ?_, q1, q2⟩
  · rw [t2]
    simp only [t1]
  · rw [e2]
    simp only [emit, e1]

/-- C9 at a concrete commit: an LPD-state device, the empty snapshot, and hardware
answers in which the fence wait, the vsync wait and the update-done wait all time
out and the size-mismatch poll never sees a match. -/
theorem decon_update_regs_timeline_witness :
    (decon_update_regs sample_h sample_hw_timeout
        { sample_decon with state := decon_state.LPD, timeline := 41 } regs_zero).timeline = 42 ∧
    ∃ pre post,
      (decon_update_regs sample_h sample_hw_timeout
          { sample_decon with state := decon_state.LPD, timeline := 41 } regs_zero).log =
        ([] : List kcall) ++ pre ++ [kcall.sw_sync_timeline_inc 1] ++ post ∧
      (∀ c ∈ pre, is_timeline_inc c = false) ∧ (∀ c ∈ post, is_timeline_inc c = false) :=
  decon_update_regs_timeline sample_h sample_hw_timeout
    { sample_decon with state := decon_state.LPD, timeline := 41 } regs_zero (fun _ => rfl)

/-! ### C7: bindings installed, then the old ones released -/

theorem chmap_step_fields (H : decon_h) (regs : decon_reg_data) (i : Nat)
    (st : Nat × decon_reg_data) (h : st.2 = { regs with wincon := st.2.wincon }) :
    (chmap_step H i st).2 = { regs with wincon := (chmap_step H i st).2.wincon } := by
  obtain ⟨bitmap, r⟩ := st
  simp only at h
  by_cases hc : r.wincon i &&& H.WINCON_ENWIN ≠ 0 ∧ ¬ (r.winmap i &&& H.WIN_MAP_MAP ≠ 0)
  · by_cases hd : bitmap &&& (1 <<< (r.win_config i).idma_type) ≠ 0
    · rw [chmap_step_clear H i bitmap r hc hd]
      exact congrArg (fun x : decon_reg_data =>
        { x with wincon := set_at r.wincon i (r.wincon i &&& not32 H.WINCON_ENWIN) }) h
    · rw [chmap_step_keep H i bitmap r hc hd]
      exact h
  · rw [chmap_step_skip H i bitmap r hc]
    exact h

theorem chmap_validate_fields (H : decon_h) (max_win : Nat) (regs : decon_reg_data) :
    decon_reg_chmap_validate H max_win regs =
      { regs with wincon := (decon_reg_chmap_validate H max_win regs).wincon } := by
  unfold decon_reg_chmap_validate
  apply for_loop_inv (fun st : Nat × decon_reg_data => st.2 = { regs with wincon := st.2.wincon })
  · rfl
  · intro i s _ hs
    exact chmap_step_fields H regs i s hs

theorem installed_planes_chmap (H : decon_h) (max_win : Nat) (regs : decon_reg_data) (i : Nat) :
    installed_planes H (decon_reg_chmap_validate H max_win regs) i = installed_planes H regs i := by
  have h := chmap_validate_fields H max_win regs
  unfold installed_planes
  rw [h]

theorem quiet_log_of_quiet {d d' : decon_device} (h : steps_quietly d d') :
    ∃ l, quiet_log d d' l := by
  obtain ⟨_, m, _, l, e, q⟩ := h
  exact ⟨l, m, e, q⟩

theorem quiet_log_trans {a b c : decon_device} {l1 l2 : List kcall} (h1 : quiet_log a b l1)
    (h2 : quiet_log b c l2) : quiet_log a c (l1 ++ l2) := by
  obtain ⟨m1, e1, q1⟩ := h1
  obtain ⟨m2, e2, q2⟩ := h2
  refine ⟨m2.trans m1, ?_, ?_⟩
  · rw [e2, e1, List.append_assoc]
  · intro x hx
    rcases List.mem_append.1 hx with h | h
    · exact q1 x h
    · exact q2 x h

theorem update_regs_win_log (H : decon_h) (regs : decon_reg_data) (i : Nat) (d : decon_device) :
    ∃ l, quiet_log d (update_regs_win H regs i d) l ∧ kcall.reg_set_regs_data i ∈ l ∧
      (update_regs_win H regs i d).windows =
        set_at d.windows i { d.windows i with dma_buf_data := installed_planes H regs i } := by
  unfold update_regs_win quiet_log
  dsimp only
  split
  · refine ⟨[kcall.reg_set_regs_data i, decon_enable_blocking_mode regs i], ⟨rfl, ?_, ?_⟩, ?_, rfl⟩
    · simp [emit, set_window]
    · intro c hc
      simp at hc
      rcases hc with h | h
      · subst h; rfl
      · subst h
        unfold decon_enable_blocking_mode
        dsimp only
        split <;> rfl
    · simp
  · refine ⟨[kcall.reg_set_regs_data i], ⟨rfl, ?_, ?_⟩, ?_, rfl⟩
    · simp [emit, set_window]
    · intro c hc
      simp at hc
      subst hc; rfl
    · simp

theorem install_loop_log (H : decon_h) (regs : decon_reg_data) (d : decon_device) (n : Nat) :
    ∃ l, quiet_log d (for_loop (update_regs_win H regs) n d) l ∧
      (∀ i, i < n → kcall.reg_set_regs_data i ∈ l) ∧
      (∀ i, i < n → ((for_loop (update_regs_win H regs) n d).windows i).dma_buf_data =
        installed_planes H regs i) := by
  induction n with
  | zero =>
    exact ⟨[], ⟨rfl, by simp, by simp⟩, fun i hi => absurd hi (Nat.not_lt_zero i),
      fun i hi => absurd hi (Nat.not_lt_zero i)⟩
  | succ k ih =>
    obtain ⟨l, hq, hmem, hwin⟩ := ih
    rw [for_loop_succ]
    obtain ⟨l2, hq2, hmem2, hwin2⟩ := update_regs_win_log H regs k (for_loop (update_regs_win H regs) k d)
    refine ⟨l ++ l2, quiet_log_trans hq hq2, ?_, ?_⟩
    · intro i hi
      rcases Nat.lt_succ_iff_lt_or_eq.1 hi with hlt | heq
      · exact List.mem_append_left _ (hmem i hlt)
      · subst heq
        exact List.mem_append_right _ hmem2
    · intro i hi
      rw [hwin2]
      rcases Nat.lt_succ_iff_lt_or_eq.1 hi with hlt | heq
      · have hne : i ≠ k := by omega
        rw [set_at_other _ _ _ _ hne]
        exact hwin i hlt
      · subst heq
        rw [set_at_same]

theorem update_regs_inner_log (H : decon_h) (hw : hw_env) (d : decon_device)
    (regs : decon_reg_data) :
    ∃ l, quiet_log d (__decon_update_regs H hw d regs).1 l ∧
      (∀ i, i < d.max_win → kcall.reg_set_regs_data i ∈ l) ∧
      (∀ i, i < d.max_win → (((__decon_update_regs H hw d regs).1).windows i).dma_buf_data =
        installed_planes H regs i) := by
  unfold __decon_update_regs
  lift_lets
  extract_lets d0 d1 d2 r d3 d4 d5 d6 d7 d8
  show ∃ l, quiet_log d d8 l ∧ (∀ i, i < d.max_win → kcall.reg_set_regs_data i ∈ l) ∧
      (∀ i, i < d.max_win → (d8.windows i).dma_buf_data = installed_planes H regs i)
  have q0 : steps_quietly d d0 := quiet_field_update _ _ rfl rfl rfl rfl
  have q1 : steps_quietly d0 d1 :=
    steps_quietly_ite _ (steps_quietly_emit _ _ (by simp [quiet_call])) (steps_quietly_refl _)
  have q2 : steps_quietly d1 d2 :=
    quiet_emit_loop (fun i => [kcall.reg_shadow_protect_win i true])
      (by intro i c hc; simp at hc; subst hc; rfl) d1.max_win d1
  have q3 : steps_quietly d2 d3 :=
    steps_quietly_ite _ (quiet_reg_set_win_update_config H hw d2 _) (steps_quietly_refl _)
  have q03 : steps_quietly d d3 :=
    steps_quietly_trans q0 (steps_quietly_trans q1 (steps_quietly_trans q2 q3))
  obtain ⟨la, ha⟩ := quiet_log_of_quiet q03
  obtain ⟨li, hi, hmem, hwin⟩ := install_loop_log H r d3 d3.max_win
  have q5 : steps_quietly d4 d5 :=
    quiet_emit_loop (fun i => [kcall.reg_shadow_protect_win i false])
      (by intro i c hc; simp at hc; subst hc; rfl) d4.max_win d4
  have q6 : steps_quietly d5 d6 := quiet_set_protected_content hw d5 true
  have q7 : steps_quietly d6 d7 := steps_quietly_emit _ [kcall.reg_start] (by simp [quiet_call])
  have q8 : steps_quietly d7 d8 :=
    steps_quietly_ite _ (steps_quietly_emit _ [kcall.dsim_pkt_go true] (by simp [quiet_call]))
      (steps_quietly_refl _)
  have q48 : steps_quietly d4 d8 :=
    steps_quietly_trans q5 (steps_quietly_trans q6 (steps_quietly_trans q7 q8))
  obtain ⟨lb, hb⟩ := quiet_log_of_quiet q48
  have hm3 : d3.max_win = d.max_win := q03.2.1
  have hm2 : d2.max_win = d.max_win :=
    (steps_quietly_trans q0 (steps_quietly_trans q1 q2)).2.1
  refine ⟨la ++ li ++ lb, quiet_log_trans (quiet_log_trans ha hi) hb, ?_, ?_⟩
  · intro i hlt
    exact List.mem_append_left _ (List.mem_append_right _ (hmem i (by rw [hm3]; exact hlt)))
  · intro i hlt
    rw [q48.2.2.1]
    have := hwin i (by rw [hm3]; exact hlt)
    rw [this]
    exact installed_planes_chmap H d2.max_win regs i

theorem emit_loop_eq (f : Nat → List kcall) (n : Nat) (d : decon_device) :
    for_loop (fun i d => emit d (f i)) n d = emit d (for_loop (fun i l => l ++ f i) n []) := by
  induction n with
  | zero => simp [emit]
  | succ k ih =>
    rw [for_loop_succ, for_loop_succ, ih]
    simp [emit, List.append_assoc]

theorem free_planes_log_congr (a b : Nat → decon_dma_buf_data) (n : Nat)
    (h : ∀ j, j < n → a j = b j) : free_planes_log a n = free_planes_log b n := by
  unfold free_planes_log
  induction n with
  | zero => rfl
  | succ k ih =>
    rw [for_loop_succ, for_loop_succ, ih (fun j hj => h j (Nat.lt_succ_of_lt hj)),
      h k (Nat.lt_succ_self k)]

theorem release_loop_congr (old : Nat → Nat → decon_dma_buf_data) (w : Nat → decon_win) (n : Nat)
    (h : ∀ i j, i < n → j < MAX_BUF_PLANE_CNT → old i j = (w i).dma_buf_data j) :
    for_loop (fun i l => l ++ free_planes_log (old i) MAX_BUF_PLANE_CNT) n [] = release_log w n := by
  unfold release_log
  induction n with
  | zero => rfl
  | succ k ih =>
    rw [for_loop_succ, for_loop_succ, ih (fun i j hi hj => h i j (Nat.lt_succ_of_lt hi) hj),
      free_planes_log_congr (old k) (w k).dma_buf_data MAX_BUF_PLANE_CNT
        (fun j hj => h k j (Nat.lt_succ_self k) hj)]

theorem set_qos_log (H : decon_h) (d : decon_device) (regs : Option decon_reg_data)
    (is_after is_default_qos : Bool) :
    ∃ l, (decon_set_qos H d regs is_after is_default_qos).log = d.log ++ l ∧
      (∀ c ∈ l, ∃ bw, c = kcall.update_media_scenario bw) ∧
      (decon_set_qos H d regs is_after is_default_qos).windows = d.windows := by
  unfold decon_set_qos
  dsimp only
  generalize qos_req_bandwidth d regs is_default_qos = req
  split_ifs
  · exact ⟨[], by simp, by simp, rfl⟩
  · exact ⟨[kcall.update_media_scenario req], rfl, by simp, rfl⟩
  · exact ⟨[], by simp, by simp, rfl⟩
  · exact ⟨[], by simp, by simp, rfl⟩

/-- C7. `decon_update_regs` releases exactly the bindings that the windows held
before the commit, after the snapshot's bindings are installed and the waits are
over.  The calls of the commit are `pre`, then the release calls of every binding
held on entry (`release_log`), then the timeline tick, then `post`; `pre` holds no
release call and contains the register write of every window (made in the pass that
installs its bindings) and the update-done wait; `post` holds bandwidth requests
only, so no wait and no install follows the release.  Afterwards each window holds
the snapshot's binding in the planes below its format's plane count and an all-zero
binding in the others.  The helper `decon_exit_lpd`, whose code is outside the
source tree, is assumed to keep the window count and the windows' bindings. -/
theorem decon_update_regs_bindings (H : decon_h) (hw : hw_env) (decon : decon_device)
    (regs : decon_reg_data)
    (hexit : decon.state = decon_state.LPD →
      (hw.decon_exit_lpd decon).max_win = decon.max_win ∧
      ∀ i j, i < decon.max_win → j < MAX_BUF_PLANE_CNT →
        ((hw.decon_exit_lpd decon).windows i).dma_buf_data j = (decon.windows i).dma_buf_data j) :
    (∃ pre post,
      (decon_update_regs H hw decon regs).log =
        decon.log ++ pre ++ release_log decon.windows decon.max_win ++
          [kcall.sw_sync_timeline_inc 1] ++ post ∧
      (∀ c ∈ pre, quiet_call c = true) ∧
      (∀ i, i < decon.max_win → kcall.reg_set_regs_data i ∈ pre) ∧
      kcall.reg_wait_for_update ∈ pre ∧
      (∀ c ∈ post, ∃ bw, c = kcall.update_media_scenario bw)) ∧
    (∀ i j, i < decon.max_win → j < MAX_BUF_PLANE_CNT →
      ((decon_update_regs H hw decon regs).windows i).dma_buf_data j =
        if (j : Int) < decon_get_memory_plane_cnt H (regs.win_config i).format then
          regs.dma_buf_data i j
        else dma_zero) := by
  unfold decon_update_regs
  lift_lets
  extract_lets x0 d0 old d1 d2 d3 r d4 regs2 d5 upd d6 d7 d8 d9 d10 d11 d12 d13 d14
  -- entry: the optional low-power exit
  have hA : ∃ l0, quiet_log decon d0 l0 ∧
      ∀ i j, i < decon.max_win → j < MAX_BUF_PLANE_CNT →
        (d0.windows i).dma_buf_data j = (decon.windows i).dma_buf_data j := by
    by_cases hs : decon.state = decon_state.LPD
    · refine ⟨[kcall.decon_exit_lpd], ⟨?_, ?_, ?_⟩, ?_⟩
      · simp only [d0, if_pos hs]
        exact (hexit hs).1
      · simp only [d0, if_pos hs]
      · intro c hc
        simp at hc
        subst hc
        rfl
      · simp only [d0, if_pos hs]
        exact (hexit hs).2
    · refine ⟨[], ⟨?_, ?_, ?_⟩, ?_⟩
      · simp only [d0, if_neg hs]
      · simp only [d0, if_neg hs, List.append_nil]
      · simp
      · simp only [d0, if_neg hs]
        intro i j _ _
        trivial
  obtain ⟨l0, hq0, hold⟩ := hA
  -- up to the register writes
  have q1 : steps_quietly d0 d1 := quiet_fence_loop regs _ d0
  have q2 : steps_quietly d1 d2 :=
    steps_quietly_ite _ (quiet_set_qos H d1 _ _ _) (steps_quietly_refl _)
  have q3 : steps_quietly d2 d3 :=
    steps_quietly_ite _ (quiet_vsync_skip H hw d2 regs) (steps_quietly_refl _)
  have q03 : steps_quietly d0 d3 := steps_quietly_trans q1 (steps_quietly_trans q2 q3)
  obtain ⟨la, ha⟩ := quiet_log_of_quiet q03
  obtain ⟨li, hi, hmem, hwin⟩ := update_regs_inner_log H hw d3 regs
  -- the waits
  have q5 : steps_quietly d4 d5 := quiet_wait_for_vsync hw d4 _
  obtain ⟨lv, hv⟩ := quiet_log_of_quiet q5
  have q6 : steps_quietly d5 d6 :=
    steps_quietly_emit d5 [kcall.reg_wait_for_update] (by simp [quiet_call])
  have h6 : quiet_log d5 d6 [kcall.reg_wait_for_update] :=
    ⟨rfl, rfl, by simp [quiet_call]⟩
  have q7 : steps_quietly d6 d7 :=
    steps_quietly_ite _ (steps_quietly_emit d6 [kcall.decon_dump] (by simp [quiet_call]))
      (steps_quietly_refl _)
  have q8 : steps_quietly d7 d8 := quiet_prevent_size_mismatch hw d7 _
  have q9 : steps_quietly d8 d9 :=
    steps_quietly_emit d8 [kcall.clear_i80_framedone] (by simp [quiet_call])
  have q10 : steps_quietly d9 d10 := quiet_field_update _ _ rfl rfl rfl rfl
  have q11 : steps_quietly d10 d11 := quiet_mask_trigger H hw d10
  have q611 : steps_quietly d6 d11 :=
    steps_quietly_trans q7 (steps_quietly_trans q8 (steps_quietly_trans q9
      (steps_quietly_trans q10 q11)))
  obtain ⟨lc, hc⟩ := quiet_log_of_quiet q611
  -- everything before the release loop
  have hpre : quiet_log decon d11 (l0 ++ la ++ li ++ lv ++ [kcall.reg_wait_for_update] ++ lc) :=
    quiet_log_trans (quiet_log_trans (quiet_log_trans (quiet_log_trans
      (quiet_log_trans hq0 ha) hi) hv) h6) hc
  have hm3 : d3.max_win = decon.max_win := ha.1.trans hq0.1
  have hm11 : d11.max_win = decon.max_win := hpre.1
  have hw411 : d11.windows = d4.windows :=
    (steps_quietly_trans q5 (steps_quietly_trans q6 q611)).2.2.1
  -- the release loop
  have hrel : d12 = emit d11 (release_log decon.windows decon.max_win) := by
    show for_loop (fun i d => emit d (free_planes_log (old i) MAX_BUF_PLANE_CNT)) d11.max_win d11 = _
    rw [emit_loop_eq, hm11]
    congr 1
    apply release_loop_congr
    intro i j hi hj
    have hi0 : i < d0.max_win := by rw [hq0.1]; exact hi
    simp only [old, old_dma_bufs_of, hi0, hj, and_self, if_true]
    exact hold i j hi hj
  -- the bandwidth request after the tick
  obtain ⟨lq, hql, hqc, hqw⟩ := set_qos_log H d14 (some regs2) true false
  have hfinal : ∃ post, (if d14.prev_bw ≠ regs2.bandwidth then
        decon_set_qos H d14 (some regs2) true false else d14).log = d14.log ++ post ∧
      (∀ c ∈ post, ∃ bw, c = kcall.update_media_scenario bw) ∧
      (if d14.prev_bw ≠ regs2.bandwidth then
        decon_set_qos H d14 (some regs2) true false else d14).windows = d14.windows := by
    split
    · exact ⟨lq, hql, hqc, hqw⟩
    · exact ⟨[], by simp, by simp, rfl⟩
  obtain ⟨post, hpl, hpc, hpw⟩ := hfinal
  have hlog14 : d14.log = decon.log ++ (l0 ++ la ++ li ++ lv ++ [kcall.reg_wait_for_update] ++ lc) ++
      release_log decon.windows decon.max_win ++ [kcall.sw_sync_timeline_inc 1] := by
    show (d12.log ++ [kcall.sw_sync_timeline_inc 1]) = _
    rw [hrel]
    show (d11.log ++ release_log decon.windows decon.max_win) ++ [kcall.sw_sync_timeline_inc 1] = _
    rw [hpre.2.1]
  have hwin14 : d14.windows = d4.windows := by
    show d12.windows = d4.windows
    rw [hrel]
    exact hw411
  refine ⟨⟨l0 ++ la ++ li ++ lv ++ [kcall.reg_wait_for_update] ++ lc, post, ?_, hpre.2.2, ?_, ?_,
    hpc⟩, ?_⟩
  · rw [hpl, hlog14]
  · intro i hlt
    have := hmem i (by rw [hm3]; exact hlt)
    simp only [List.mem_append]
    tauto
  · simp
  · intro i j hlt hj
    rw [hpw, hwin14]
    have h1 := hwin i (by rw [hm3]; exact hlt)
    show ((__decon_update_regs H hw d3 regs).1.windows i).dma_buf_data j = _
    rw [h1]
    simp only [installed_planes, hj, if_true]

/-- C7 at a concrete commit: window 0 holds a fenced binding at address 4096, the
snapshot brings a binding at 8192; the six release calls of the old binding are
made, and window 0 ends with the new binding in plane 0 and zero bindings in
planes 1 and 2. -/
theorem decon_update_regs_bindings_witness :
    release_log commit_sample_decon.windows 3 =
      [kcall.sync_fence_put 9, kcall.ion_iovmm_unmap 7 4096,
       kcall.dma_buf_unmap_attachment 7 8, kcall.dma_buf_detach 6 7, kcall.dma_buf_put 6,
       kcall.ion_free 5] ∧
    (∃ pre post,
      (decon_update_regs sample_h sample_hw commit_sample_decon commit_sample_regs).log =
        commit_sample_decon.log ++ pre ++ release_log commit_sample_decon.windows 3 ++
          [kcall.sw_sync_timeline_inc 1] ++ post ∧
      (∀ c ∈ pre, quiet_call c = true) ∧
      (∀ i, i < 3 → kcall.reg_set_regs_data i ∈ pre) ∧
      kcall.reg_wait_for_update ∈ pre ∧
      (∀ c ∈ post, ∃ bw, c = kcall.update_media_scenario bw)) ∧
    (((decon_update_regs sample_h sample_hw commit_sample_decon commit_sample_regs).windows
        0).dma_buf_data 0).dma_addr = 8192 ∧
    ((decon_update_regs sample_h sample_hw commit_sample_decon commit_sample_regs).windows
        0).dma_buf_data 1 = dma_zero :=
  ⟨by decide,
   (decon_update_regs_bindings sample_h sample_hw commit_sample_decon commit_sample_regs
      (fun _ => ⟨rfl, fun _ _ _ _ => rfl⟩)).1,
   by decide, by decide⟩

/-! ## The submission path: decon_set_win_config -/

theorem same_core_refl (d : decon_device) : same_core d d := ⟨rfl, rfl, rfl, rfl, rfl, rfl⟩

theorem same_core_trans {a b c : decon_device} (h1 : same_core a b) (h2 : same_core b c) :
    same_core a c :=
  ⟨h2.1.trans h1.1, h2.2.1.trans h1.2.1, h2.2.2.1.trans h1.2.2.1,
    h2.2.2.2.1.trans h1.2.2.2.1, h2.2.2.2.2.1.trans h1.2.2.2.2.1,
    h2.2.2.2.2.2.trans h1.2.2.2.2.2⟩

theorem same_core_set_window (d : decon_device) (i : Nat) (w : decon_win) :
    same_core d (set_window d i w) := ⟨rfl, rfl, rfl, rfl, rfl, rfl⟩

theorem same_core_update_config (H : decon_h) (d : decon_device)
    (wc : Nat → decon_win_config) (regs : decon_reg_data) :
    same_core d (decon_set_win_update_config H d wc regs).1 := by
  unfold decon_set_win_update_config
  dsimp only
  split_ifs <;> exact ⟨rfl, rfl, rfl, rfl, rfl, rfl⟩

theorem same_core_start (H : decon_h) (d : decon_device) (win_data : decon_win_config_data) :
    same_core d (win_config_start H d win_data).decon := by
  unfold win_config_start
  lift_lets
  extract_lets regs d1 upd
  have h1 : same_core d d1 := by
    apply for_loop_inv (same_core d)
    · exact same_core_refl d
    · intro i s _ hs
      exact same_core_trans hs (same_core_set_window s i _)
  show same_core d upd.1
  refine same_core_trans h1 ?_
  simp only [upd]
  split
  · exact same_core_update_config H d1 _ _
  · exact same_core_refl d1

theorem blocking_stage_decon (H : decon_h) (i : Nat) (st : cfg_state) :
    (blocking_stage H i st).2.decon = st.decon ∧ (blocking_stage H i st).2.ret = st.ret ∧
    (blocking_stage H i st).2.bw = st.bw := by
  unfold blocking_stage
  split <;> exact ⟨rfl, rfl, rfl⟩

theorem checked_decon (H : decon_h) (i : Nat) (st : cfg_state) :
    (win_config_checked H i st).decon = st.decon ∧ (win_config_checked H i st).ret = st.ret ∧
    (win_config_checked H i st).regs = st.regs ∧ (win_config_checked H i st).bw = st.bw := by
  unfold win_config_checked
  dsimp only
  split_ifs <;> exact ⟨rfl, rfl, rfl, rfl⟩

theorem commit_decon (H : decon_h) (i : Nat) (sw : switch_out) :
    (win_config_commit H i sw).decon = sw.st.decon ∧ (win_config_commit H i sw).ret = sw.st.ret ∧
    (win_config_commit H i sw).win_config = sw.st.win_config := by
  unfold win_config_commit
  dsimp only
  split_ifs <;> exact ⟨rfl, rfl, rfl⟩

theorem same_core_switch (H : decon_h) (env : kernel_env) (i : Nat) (st : cfg_state) (cm : Nat) :
    same_core st.decon (win_config_switch H env i st cm).st.decon := by
  unfold win_config_switch
  dsimp only
  split_ifs
  · exact same_core_refl _
  · exact same_core_refl _
  · rw [(blocking_stage_decon H i st).1]
    exact same_core_refl _
  · show same_core st.decon (buffer_stage H env i (blocking_stage H i st).2).decon
    unfold buffer_stage
    dsimp only
    rw [(blocking_stage_decon H i st).1]
    exact ⟨rfl, rfl, rfl, rfl, rfl, rfl⟩
  · show same_core st.decon (buffer_stage H env i (blocking_stage H i st).2).decon
    unfold buffer_stage
    dsimp only
    rw [(blocking_stage_decon H i st).1]
    exact ⟨rfl, rfl, rfl, rfl, rfl, rfl⟩
  · exact same_core_refl _

theorem same_core_body (H : decon_h) (env : kernel_env) (i : Nat) (st : cfg_state) :
    same_core st.decon (win_config_body H env i st).decon := by
  unfold win_config_body
  dsimp only
  rw [(commit_decon H i _).1]
  have h := same_core_switch H env i (win_config_checked H i st)
    (H.WIN_MAP_MAP ||| H.WIN_MAP_MAP_COLOUR 0)
  rw [(checked_decon H i st).1] at h
  exact h

theorem same_core_step (H : decon_h) (env : kernel_env) (i : Nat) (st : cfg_state) :
    same_core st.decon (win_config_step H env i st).decon := by
  unfold win_config_step
  split
  · exact same_core_body H env i st
  · exact same_core_refl _

theorem same_core_loop (H : decon_h) (env : kernel_env) (n : Nat) (st : cfg_state) :
    same_core st.decon (for_loop (win_config_step H env) n st).decon := by
  apply for_loop_inv (fun s : cfg_state => same_core st.decon s.decon)
  · exact same_core_refl _
  · intro i s _ hs
    exact same_core_trans hs (same_core_step H env i s)

theorem win_config_step_skip (H : decon_h) (env : kernel_env) (i : Nat) (st : cfg_state)
    (h : st.ret ≠ 0) : win_config_step H env i st = st := by
  unfold win_config_step
  rw [if_neg h]

theorem win_config_step_run (H : decon_h) (env : kernel_env) (i : Nat) (st : cfg_state)
    (h : st.ret = 0) : win_config_step H env i st = win_config_body H env i st := by
  unfold win_config_step
  rw [if_pos h]

/-- Once `ret` is set the loop runs no further body. -/
theorem loop_stuck (H : decon_h) (env : kernel_env) (st : cfg_state) (h : st.ret ≠ 0) :
    ∀ n, for_loop (win_config_step H env) n st = st := by
  intro n
  induction n with
  | zero => rfl
  | succ k ih =>
    rw [for_loop_succ, ih]
    exact win_config_step_skip H env k st h

theorem loop_after_error (H : decon_h) (env : kernel_env) (st : cfg_state) (i : Nat)
    (h : (for_loop (win_config_step H env) (i + 1) st).ret ≠ 0) :
    ∀ n, i + 1 ≤ n →
      for_loop (win_config_step H env) n st = for_loop (win_config_step H env) (i + 1) st := by
  intro n hn
  induction n with
  | zero => omega
  | succ k ih =>
    rcases Nat.lt_succ_iff_lt_or_eq.1 (Nat.lt_succ_of_le hn) with hlt | heq
    · have hk : i + 1 ≤ k := by omega
      rw [for_loop_succ, ih hk]
      exact win_config_step_skip H env k _ h
    · rw [heq]

theorem set_win_config_main (H : decon_h) (env : kernel_env) (decon : decon_device)
    (win_data : decon_win_config_data) (h : reaches_window_loop env decon) :
    decon_set_win_config H env decon win_data =
      win_config_finish H (if env.get_unused_fd < 3 then env.get_unused_fd_retry
          else env.get_unused_fd) win_data
        (for_loop (win_config_step H env) decon.max_win (win_config_start H decon win_data)) := by
  obtain ⟨hfd, hon, hal⟩ := h
  unfold decon_set_win_config
  dsimp only
  rw [if_neg (by omega), if_neg hon]
  simp [hal]

theorem same_core_unwind_loop (H : decon_h) (regs : decon_reg_data) (n : Nat) (d : decon_device) :
    same_core d (for_loop (win_config_unwind H regs) n d) := by
  apply for_loop_inv (same_core d)
  · exact same_core_refl d
  · intro i s _ hs
    refine same_core_trans hs ?_
    unfold win_config_unwind
    exact ⟨rfl, rfl, rfl, rfl, rfl, rfl⟩

theorem finish_error (H : decon_h) (fd : Int) (win_data : decon_win_config_data) (st : cfg_state)
    (h : st.ret ≠ 0) :
    (win_config_finish H fd win_data st).ret = st.ret ∧
    same_core st.decon (win_config_finish H fd win_data st).decon ∧
    (win_config_finish H fd win_data st).regs =
      { st.regs with
        win_config := fun i =>
          if i < st.decon.max_win then st.win_config i else st.regs.win_config i,
        bandwidth := st.bw } := by
  unfold win_config_finish
  dsimp only
  rw [if_pos h]
  refine ⟨rfl, ?_, rfl⟩
  exact same_core_trans (same_core_unwind_loop H _ st.decon.max_win st.decon)
    ⟨rfl, rfl, rfl, rfl, rfl, rfl⟩

/-! ### Every stage of the window loop writes the entries of its own window only -/

theorem regs_keeps_others_refl (k : Nat) (regs : decon_reg_data) : regs_keeps_others k regs regs :=
  fun _ _ => ⟨rfl, rfl, rfl⟩

theorem regs_keeps_others_trans {k : Nat} {a b c : decon_reg_data}
    (h1 : regs_keeps_others k a b) (h2 : regs_keeps_others k b c) : regs_keeps_others k a c :=
  fun j hj => ⟨(h2 j hj).1.trans (h1 j hj).1, (h2 j hj).2.1.trans (h1 j hj).2.1,
    (h2 j hj).2.2.trans (h1 j hj).2.2⟩

theorem blendeq_index (j k : Nat) (hj : j ≠ k) (hj0 : j ≠ 0) (hk0 : k ≠ 0) : j - 1 ≠ k - 1 := by
  omega

theorem alpha_blending_keeps_others (H : decon_h) (c : decon_win_config) (regs : decon_reg_data)
    (k tl : Nat) : regs_keeps_others k regs (decon_set_alpha_blending H c regs k tl).2 := by
  intro j hj
  unfold decon_set_alpha_blending
  dsimp only
  by_cases hk0 : k = 0
  · subst hk0
    simp [staged_entries_of, set_at, hj]
  · by_cases hj0 : j = 0
    · subst hj0
      simp only [hk0, ne_eq, not_false_eq_true, if_true]
      split_ifs <;> simp [staged_entries_of, set_at, hj]
    · have hidx := blendeq_index j k hj hj0 hk0
      simp only [hk0, ne_eq, not_false_eq_true, if_true]
      split_ifs <;> simp [staged_entries_of, set_at, hj, hj0, hidx]

theorem regs_of_buffer_keeps_others (H : decon_h) (k : Nat) (win : decon_win)
    (c : decon_win_config) (dma : Nat → decon_dma_buf_data) (pc : Nat) (regs : decon_reg_data) :
    regs_keeps_others k regs (regs_of_buffer H k win c dma pc regs) := by
  intro j hj
  unfold regs_of_buffer
  simp [staged_entries_of, set_at, hj]

theorem win_buffer_finish_regs (H : decon_h) (env : kernel_env) (k : Nat) (win : decon_win)
    (var prev_var : fb_var_screeninfo) (c : decon_win_config) (regs : decon_reg_data)
    (pc : Nat) (st : import_state) :
    ((win_buffer_finish H env k win var prev_var c regs pc st).ret ≠ 0 →
      (win_buffer_finish H env k win var prev_var c regs pc st).regs = regs) ∧
    regs_keeps_others k regs (win_buffer_finish H env k win var prev_var c regs pc st).regs := by
  unfold win_buffer_finish
  dsimp only
  split
  · exact ⟨fun _ => rfl, regs_keeps_others_refl k regs⟩
  · exact ⟨fun _ => rfl, regs_keeps_others_refl k regs⟩
  · exact ⟨fun _ => rfl, regs_keeps_others_refl k regs⟩
  · split_ifs <;>
      first
      | exact ⟨fun _ => rfl, regs_keeps_others_refl k regs⟩
      | exact ⟨fun h => absurd rfl h,
          regs_keeps_others_trans (regs_of_buffer_keeps_others H k _ _ _ _ regs)
            (alpha_blending_keeps_others H _ _ k _)⟩

theorem set_win_buffer_regs (H : decon_h) (env : kernel_env) (k : Nat) (win : decon_win)
    (c : decon_win_config) (regs : decon_reg_data) :
    ((decon_set_win_buffer H env k win c regs).ret ≠ 0 →
      (decon_set_win_buffer H env k win c regs).regs = regs) ∧
    regs_keeps_others k regs (decon_set_win_buffer H env k win c regs).regs := by
  unfold decon_set_win_buffer
  dsimp only
  split_ifs <;>
    first
    | exact ⟨fun _ => rfl, regs_keeps_others_refl k regs⟩
    | exact win_buffer_finish_regs H env k win _ _ c regs _ _

/-- What `decon_set_win_blocking_mode` for window `k` can change: the state of
request `k` (to Disabled), block areas, and `block_rect`. -/
theorem blocking_mode_effect (H : decon_h) (max_win k : Nat) (wc : Nat → decon_win_config)
    (regs : decon_reg_data) :
    (∀ j, staged_entries_of (decon_set_win_blocking_mode H max_win k wc regs).2.2 j =
        staged_entries_of regs j ∧
      (decon_set_win_blocking_mode H max_win k wc regs).2.2.wincon j = regs.wincon j ∧
      (decon_set_win_blocking_mode H max_win k wc regs).2.2.winmap j = regs.winmap j) ∧
    (∀ j, ((decon_set_win_blocking_mode H max_win k wc regs).2.1 j).dst = (wc j).dst ∧
      ((decon_set_win_blocking_mode H max_win k wc regs).2.1 j).blending = (wc j).blending ∧
      ((decon_set_win_blocking_mode H max_win k wc regs).2.1 j).format = (wc j).format) ∧
    (∀ j, j ≠ k →
      ((decon_set_win_blocking_mode H max_win k wc regs).2.1 j).state = (wc j).state) ∧
    (((decon_set_win_blocking_mode H max_win k wc regs).2.1 k).state = (wc k).state ∨
      ((decon_set_win_blocking_mode H max_win k wc regs).2.1 k).state =
        H.DECON_WIN_STATE_DISABLED) := by
  unfold decon_set_win_blocking_mode
  dsimp only
  generalize for_loop (fun k_1 st => blocking_step H wc (rect_of_dst (wc k).dst) (k + 1 + k_1) st)
    (max_win - (k + 1))
    { returned := false, block_rect := { left := 0, top := 0, right := 0, bottom := 0 },
      blocking_size := 0, enabled := false } = bs
  split_ifs
  · exact ⟨fun _ => ⟨rfl, rfl, rfl⟩, fun _ => ⟨rfl, rfl, rfl⟩, fun _ _ => rfl, Or.inl rfl⟩
  · exact ⟨fun _ => ⟨rfl, rfl, rfl⟩, fun _ => ⟨rfl, rfl, rfl⟩, fun _ _ => rfl, Or.inl rfl⟩
  · refine ⟨fun _ => ⟨rfl, rfl, rfl⟩, ?_, ?_, Or.inr (by simp)⟩
    · intro j
      by_cases hj : j = k
      · subst hj; simp
      · simp [set_at, hj]
    · intro j hj
      simp [set_at, hj]
  · refine ⟨fun _ => ⟨rfl, rfl, rfl⟩, ?_, ?_, ?_⟩
    · intro j
      by_cases hj : j = 0
      · subst hj; simp
      · simp [set_at, hj]
    · intro j _
      by_cases hj : j = 0
      · subst hj; simp
      · simp [set_at, hj]
    · left
      by_cases hj : k = 0
      · subst hj; simp
      · simp [set_at, hj]
  · exact ⟨fun _ => ⟨rfl, rfl, rfl⟩, fun _ => ⟨rfl, rfl, rfl⟩, fun _ _ => rfl, Or.inl rfl⟩

theorem keeps_others_refl (k : Nat) (st : cfg_state) : keeps_others k st st :=
  ⟨regs_keeps_others_refl k st.regs, fun _ _ => ⟨rfl, rfl⟩⟩

theorem keeps_others_trans {k : Nat} {a b c : cfg_state} (h1 : keeps_others k a b)
    (h2 : keeps_others k b c) : keeps_others k a c :=
  ⟨regs_keeps_others_trans h1.1 h2.1,
    fun j hj => ⟨(h2.2 j hj).1.trans (h1.2 j hj).1, (h2.2 j hj).2.trans (h1.2 j hj).2⟩⟩

theorem checked_keeps_others (H : decon_h) (k : Nat) (st : cfg_state) :
    keeps_others k st (win_config_checked H k st) := by
  refine ⟨?_, ?_⟩
  · rw [(checked_decon H k st).2.2.1]
    exact regs_keeps_others_refl k st.regs
  · intro j hj
    unfold win_config_checked
    dsimp only
    split_ifs <;> simp [set_state, set_at, hj]

theorem blocking_stage_keeps_others (H : decon_h) (k : Nat) (st : cfg_state) :
    keeps_others k st (blocking_stage H k st).2 := by
  unfold blocking_stage
  split
  · have h := blocking_mode_effect H st.decon.max_win k st.win_config st.regs
    exact ⟨fun j _ => h.1 j, fun j hj => ⟨h.2.2.1 j hj, (h.2.1 j).1⟩⟩
  · exact keeps_others_refl k st

theorem color_stage_keeps_others (H : decon_h) (k : Nat) (st : cfg_state) :
    keeps_others k st (color_stage H k st) := by
  unfold color_stage
  dsimp only
  refine ⟨?_, ?_⟩
  · refine regs_keeps_others_trans ?_ (alpha_blending_keeps_others H _ _ k 0)
    intro j hj
    simp [staged_entries_of, set_at, hj]
  · intro j hj
    simp [set_at, hj]

theorem buffer_stage_keeps_others (H : decon_h) (env : kernel_env) (k : Nat) (st : cfg_state) :
    keeps_others k st (buffer_stage H env k st) := by
  unfold buffer_stage
  dsimp only
  refine ⟨(set_win_buffer_regs H env k _ _ st.regs).2, ?_⟩
  intro j hj
  simp [set_at, hj]

theorem switch_keeps_others (H : decon_h) (env : kernel_env) (k : Nat) (st : cfg_state)
    (cm : Nat) : keeps_others k st (win_config_switch H env k st cm).st := by
  unfold win_config_switch
  dsimp only
  split_ifs
  · exact keeps_others_refl k st
  · exact color_stage_keeps_others H k st
  · exact blocking_stage_keeps_others H k st
  · exact keeps_others_trans (blocking_stage_keeps_others H k st)
      (buffer_stage_keeps_others H env k _)
  · exact keeps_others_trans (blocking_stage_keeps_others H k st)
      (buffer_stage_keeps_others H env k _)
  · exact keeps_others_refl k _

theorem commit_keeps_others (H : decon_h) (k : Nat) (sw : switch_out) :
    keeps_others k sw.st (win_config_commit H k sw) := by
  unfold win_config_commit
  dsimp only
  refine ⟨?_, ?_⟩
  · intro j hj
    split_ifs <;> simp [staged_entries_of, set_at, hj]
  · intro j _
    split_ifs <;> exact ⟨rfl, rfl⟩

theorem body_keeps_others (H : decon_h) (env : kernel_env) (k : Nat) (st : cfg_state) :
    keeps_others k st (win_config_body H env k st) := by
  unfold win_config_body
  dsimp only
  exact keeps_others_trans (checked_keeps_others H k st)
    (keeps_others_trans (switch_keeps_others H env k _ _) (commit_keeps_others H k _))

theorem step_keeps_others (H : decon_h) (env : kernel_env) (k : Nat) (st : cfg_state) :
    keeps_others k st (win_config_step H env k st) := by
  unfold win_config_step
  split
  · exact body_keeps_others H env k st
  · exact keeps_others_refl k st

/-! ### The state before window `i`, and how an error of `decon_set_win_buffer` ends the call -/

theorem update_config_regs (H : decon_h) (d : decon_device) (wc : Nat → decon_win_config)
    (regs : decon_reg_data) (j : Nat) :
    staged_entries_of (decon_set_win_update_config H d wc regs).2.2 j = staged_entries_of regs j ∧
    (decon_set_win_update_config H d wc regs).2.2.wincon j = regs.wincon j ∧
    (decon_set_win_update_config H d wc regs).2.2.winmap j = regs.winmap j := by
  unfold decon_set_win_update_config
  dsimp only
  split_ifs <;> exact ⟨rfl, rfl, rfl⟩

theorem start_ret (H : decon_h) (d : decon_device) (win_data : decon_win_config_data) :
    (win_config_start H d win_data).ret = 0 := rfl

theorem start_regs (H : decon_h) (d : decon_device) (win_data : decon_win_config_data) (j : Nat) :
    staged_entries_of (win_config_start H d win_data).regs j = staged_entries_zero ∧
    (win_config_start H d win_data).regs.wincon j = 0 ∧
    (win_config_start H d win_data).regs.winmap j = 0 := by
  unfold win_config_start
  lift_lets
  extract_lets regs d1 upd
  show staged_entries_of upd.2.2 j = staged_entries_zero ∧ upd.2.2.wincon j = 0 ∧
    upd.2.2.winmap j = 0
  have hz : staged_entries_of regs j = staged_entries_zero := by
    simp [regs, staged_entries_of, regs_zero, staged_entries_zero]
  by_cases hc : H.CONFIG_FB_WINDOW_UPDATE = true ∧ d1.out_type = decon_out_type.DSI
  · have h := update_config_regs H d1 win_data.config regs j
    simp only [upd, if_pos hc]
    exact ⟨h.1.trans hz, h.2.1, h.2.2⟩
  · simp only [upd, if_neg hc]
    exact ⟨hz, rfl, rfl⟩

/-- Windows from `n` on are untouched while the loop has run windows `0 .. n - 1`. -/
theorem before_untouched (H : decon_h) (env : kernel_env) (d : decon_device)
    (win_data : decon_win_config_data) (n : Nat) :
    ∀ j, n ≤ j →
      staged_entries_of (win_config_before H env d win_data n).regs j = staged_entries_zero ∧
      (win_config_before H env d win_data n).regs.wincon j = 0 ∧
      (win_config_before H env d win_data n).regs.winmap j = 0 ∧
      ((win_config_before H env d win_data n).win_config j).state =
        ((win_config_start H d win_data).win_config j).state ∧
      ((win_config_before H env d win_data n).win_config j).dst =
        ((win_config_start H d win_data).win_config j).dst := by
  induction n with
  | zero =>
    intro j _
    have h := start_regs H d win_data j
    exact ⟨h.1, h.2.1, h.2.2, rfl, rfl⟩
  | succ k ih =>
    intro j hj
    have hne : j ≠ k := by omega
    have hprev := ih j (by omega)
    have hstep := step_keeps_others H env k (win_config_before H env d win_data k)
    have h1 := hstep.1 j hne
    have h2 := hstep.2 j hne
    show staged_entries_of (win_config_step H env k (win_config_before H env d win_data k)).regs j
        = _ ∧ _
    exact ⟨h1.1.trans hprev.1, h1.2.1.trans hprev.2.1, h1.2.2.trans hprev.2.2.1,
      h2.1.trans hprev.2.2.2.1, h2.2.trans hprev.2.2.2.2⟩

/-- Windows below `n` are no longer touched once the loop has passed them. -/
theorem loop_keeps_earlier (H : decon_h) (env : kernel_env) (st : cfg_state) (i : Nat) :
    ∀ n, i + 1 ≤ n →
      staged_entries_of (for_loop (win_config_step H env) n st).regs i =
        staged_entries_of (for_loop (win_config_step H env) (i + 1) st).regs i ∧
      (for_loop (win_config_step H env) n st).regs.wincon i =
        (for_loop (win_config_step H env) (i + 1) st).regs.wincon i := by
  intro n hn
  induction n with
  | zero => omega
  | succ k ih =>
    rcases Nat.lt_succ_iff_lt_or_eq.1 (Nat.lt_succ_of_le hn) with hlt | heq
    · have hk : i + 1 ≤ k := by omega
      have hne : i ≠ k := by omega
      have hstep := (step_keeps_others H env k (for_loop (win_config_step H env) k st)).1 i hne
      rw [for_loop_succ]
      exact ⟨hstep.1.trans (ih hk).1, hstep.2.1.trans (ih hk).2⟩
    · rw [heq]
      exact ⟨rfl, rfl⟩

/-- The value of the body of the window loop when it reaches the call of
`decon_set_win_buffer`. -/
theorem body_at_buffer_call (H : decon_h) (env : kernel_env) (i : Nat) (st : cfg_state)
    (h1 : ((win_config_checked H i st).win_config i).state ≠ H.DECON_WIN_STATE_DISABLED)
    (h2 : ((win_config_checked H i st).win_config i).state ≠ H.DECON_WIN_STATE_COLOR)
    (h3 : ((win_config_checked H i st).win_config i).state = H.DECON_WIN_STATE_BUFFER)
    (h4 : (blocking_stage H i (win_config_checked H i st)).1 = 0) :
    win_config_body H env i st =
      win_config_commit H i
        (if (buffer_stage H env i (blocking_stage H i (win_config_checked H i st)).2).ret = 0 then
          { st := buffer_stage H env i (blocking_stage H i (win_config_checked H i st)).2,
            enabled := true, color_map := 0 }
        else
          { st := buffer_stage H env i (blocking_stage H i (win_config_checked H i st)).2,
            enabled := false, color_map := H.WIN_MAP_MAP ||| H.WIN_MAP_MAP_COLOUR 0 }) := by
  unfold win_config_body
  dsimp only
  congr 1
  unfold win_config_switch
  dsimp only
  rw [if_neg h1, if_neg h2, if_pos h3, if_neg (by rw [h4]; exact fun h => h rfl)]

theorem buffer_stage_ret (H : decon_h) (env : kernel_env) (i : Nat) (st : cfg_state) :
    (buffer_stage H env i st).ret =
      (decon_set_win_buffer H env i (st.decon.windows i) (st.win_config i) st.regs).ret ∧
    (buffer_stage H env i st).regs =
      (decon_set_win_buffer H env i (st.decon.windows i) (st.win_config i) st.regs).regs :=
  ⟨rfl, rfl⟩

/-- When the call of `decon_set_win_buffer` for window `i` fails, the loop stops
there, `decon_set_win_config` returns the error, nothing is queued, window `i`
keeps the entries it had at the call and is not enabled, and the windows after
`i` are never staged. -/
theorem buffer_error_ends_call (H : decon_h) (env : kernel_env) (decon : decon_device)
    (win_data : decon_win_config_data) (i : Nat)
    (hcall : calls_set_win_buffer H env decon win_data i)
    (herr : (buffer_call_result H env decon win_data i).ret ≠ 0) :
    (decon_set_win_config H env decon win_data).ret =
      (buffer_call_result H env decon win_data i).ret ∧
    same_core decon (decon_set_win_config H env decon win_data).decon ∧
    staged_entries_of (decon_set_win_config H env decon win_data).regs i = staged_entries_zero ∧
    (decon_set_win_config H env decon win_data).regs.wincon i =
      (0 &&& not32 H.WINCON_ENWIN) ||| H.WINCON_BURSTLEN_16WORD ∧
    (∀ j, i < j →
      staged_entries_of (decon_set_win_config H env decon win_data).regs j = staged_entries_zero ∧
      (decon_set_win_config H env decon win_data).regs.wincon j = 0 ∧
      (decon_set_win_config H env decon win_data).regs.winmap j = 0) := by
  obtain ⟨hreach, hi, hret, h1, h2, h3, h4⟩ := hcall
  -- the body for window i
  have hbody := body_at_buffer_call H env i (win_config_before H env decon win_data i) h1 h2 h3 h4
  have herr' : (buffer_stage H env i (at_buffer_call H env decon win_data i)).ret ≠ 0 := herr
  have hbody' : win_config_body H env i (win_config_before H env decon win_data i) =
      win_config_commit H i
        { st := buffer_stage H env i (at_buffer_call H env decon win_data i),
          enabled := false, color_map := H.WIN_MAP_MAP ||| H.WIN_MAP_MAP_COLOUR 0 } := by
    rw [hbody]
    unfold at_buffer_call at herr' ⊢
    rw [if_neg herr']
  have hnext : win_config_before H env decon win_data (i + 1) =
      win_config_body H env i (win_config_before H env decon win_data i) := by
    show win_config_step H env i (win_config_before H env decon win_data i) = _
    exact win_config_step_run H env i _ hret
  have hret1 : (win_config_before H env decon win_data (i + 1)).ret =
      (buffer_call_result H env decon win_data i).ret := by
    rw [hnext, hbody', (commit_decon H i _).2.1]
    rfl
  have hne1 : (for_loop (win_config_step H env) (i + 1) (win_config_start H decon win_data)).ret
      ≠ 0 := by
    show (win_config_before H env decon win_data (i + 1)).ret ≠ 0
    rw [hret1]
    exact herr
  -- the loop stops
  have hcore := same_core_start H decon win_data
  have hfinal : for_loop (win_config_step H env) decon.max_win (win_config_start H decon win_data) =
      win_config_before H env decon win_data (i + 1) :=
    loop_after_error H env _ i hne1 decon.max_win hi
  have hmain := set_win_config_main H env decon win_data hreach
  rw [hmain, hfinal]
  have hne2 : (win_config_before H env decon win_data (i + 1)).ret ≠ 0 := hne1
  obtain ⟨f1, f2, f3⟩ := finish_error H
    (if env.get_unused_fd < 3 then env.get_unused_fd_retry else env.get_unused_fd) win_data
    (win_config_before H env decon win_data (i + 1)) hne2
  have hcore2 : same_core decon (win_config_before H env decon win_data (i + 1)).decon :=
    same_core_trans hcore (same_core_loop H env (i + 1) _)
  -- the entries of window i at the call
  have hunt := before_untouched H env decon win_data i i (Nat.le_refl i)
  have hchk := (checked_decon H i (win_config_before H env decon win_data i)).2.2.1
  have hblk := (blocking_stage_keeps_others H i
    (win_config_checked H i (win_config_before H env decon win_data i)))
  have hregs_call : staged_entries_of (at_buffer_call H env decon win_data i).regs i =
      staged_entries_zero ∧ (at_buffer_call H env decon win_data i).regs.wincon i = 0 := by
    unfold at_buffer_call blocking_stage
    split
    · have h := blocking_mode_effect H
        (win_config_checked H i (win_config_before H env decon win_data i)).decon.max_win i
        (win_config_checked H i (win_config_before H env decon win_data i)).win_config
        (win_config_checked H i (win_config_before H env decon win_data i)).regs
      dsimp only
      rw [(h.1 i).1, (h.1 i).2.1, hchk]
      exact ⟨hunt.1, hunt.2.1⟩
    · dsimp only
      rw [hchk]
      exact ⟨hunt.1, hunt.2.1⟩
  have hbuf_regs : (buffer_stage H env i (at_buffer_call H env decon win_data i)).regs =
      (at_buffer_call H env decon win_data i).regs :=
    (set_win_buffer_regs H env i _ _ _).1 herr
  refine ⟨f1.trans hret1, same_core_trans hcore2 f2, ?_, ?_, ?_⟩
  · rw [f3, hnext, hbody']
    unfold win_config_commit
    dsimp only
    simp only [Bool.false_eq_true, false_and, if_false]
    rw [hbuf_regs]
    have := hregs_call.1
    simp only [staged_entries_of] at this ⊢
    exact this
  · rw [f3, hnext, hbody']
    unfold win_config_commit
    dsimp only
    simp only [Bool.false_eq_true, false_and, if_false, set_at_same]
    rw [hbuf_regs, hregs_call.2]
  · intro j hj
    have h := before_untouched H env decon win_data (i + 1) j hj
    rw [f3]
    exact ⟨h.1, h.2.1, h.2.2.1⟩

/-! ## C1: the minimum burst width and the stride check -/

theorem var_of_format_bits (H : decon_h) (var : fb_var_screeninfo) (format : Nat) :
    (var_of_format H var format).bits_per_pixel = bits_per_pixel_of H format := by
  unfold var_of_format bits_per_pixel_of
  dsimp only
  split <;> rfl

/-- Each of the four opening checks of `decon_set_win_buffer` returns `-EINVAL`
before anything is written. -/
theorem set_win_buffer_opening (H : decon_h) (env : kernel_env) (win_no : Nat) (win : decon_win)
    (c : decon_win_config) (regs : decon_reg_data) (h : ¬ passes_opening_checks H win_no c) :
    (decon_set_win_buffer H env win_no win c regs).ret = -EINVAL ∧
    (decon_set_win_buffer H env win_no win c regs).regs = regs ∧
    (decon_set_win_buffer H env win_no win c regs).win = win ∧
    (decon_set_win_buffer H env win_no win c regs).log = [] := by
  unfold passes_opening_checks at h
  unfold decon_set_win_buffer
  dsimp only
  by_cases h1 : c.format ≥ H.DECON_PIXEL_FORMAT_MAX
  · rw [if_pos h1]
    exact ⟨rfl, rfl, rfl, rfl⟩
  · rw [if_neg h1]
    by_cases h2 : c.blending ≥ H.DECON_BLENDING_MAX
    · rw [if_pos h2]
      exact ⟨rfl, rfl, rfl, rfl⟩
    · rw [if_neg h2]
      by_cases h3 : win_no = 0 ∧ c.blending ≠ H.DECON_BLENDING_NONE
      · rw [if_pos h3]
        exact ⟨rfl, rfl, rfl, rfl⟩
      · rw [if_neg h3]
        by_cases h4 : c.dst.w = 0 ∨ c.dst.h = 0 ∨ c.dst.x < 0 ∨ c.dst.y < 0
        · rw [if_pos h4]
          exact ⟨rfl, rfl, rfl, rfl⟩
        · exact absurd ⟨h1, h2, h3, h4⟩ h

/-- Past the opening checks, a window narrower than 128 bytes or wider than its
stride makes `decon_set_win_buffer` return `-EINVAL` with nothing written. -/
theorem set_win_buffer_burst (H : decon_h) (env : kernel_env) (win_no : Nat) (win : decon_win)
    (c : decon_win_config) (regs : decon_reg_data) (h : passes_opening_checks H win_no c)
    (hbad : u32 (c.dst.w * bits_per_pixel_of H c.format) / 8 < 128 ∨ c.src.f_w < c.dst.w) :
    (decon_set_win_buffer H env win_no win c regs).ret = -EINVAL ∧
    (decon_set_win_buffer H env win_no win c regs).regs = regs ∧
    (decon_set_win_buffer H env win_no win c regs).win = win ∧
    (decon_set_win_buffer H env win_no win c regs).log = [] := by
  obtain ⟨h1, h2, h3, h4⟩ := h
  unfold decon_set_win_buffer
  dsimp only
  rw [if_neg h1, if_neg h2, if_neg h3, if_neg h4, var_of_format_bits]
  by_cases hw : u32 (c.dst.w * bits_per_pixel_of H c.format) / 8 < 128
  · rw [if_pos hw]
    exact ⟨rfl, rfl, rfl, rfl⟩
  · rw [if_neg hw]
    have hf : c.src.f_w < c.dst.w := by
      rcases hbad with h | h
      · exact absurd h hw
      · exact h
    rw [if_pos hf]
    exact ⟨rfl, rfl, rfl, rfl⟩

theorem EINVAL_ne_zero : -EINVAL ≠ 0 := by decide

/-- C1. A Buffer-state request that passes the opening checks of
`decon_set_win_buffer` but is narrower than 128 bytes
(`dst.w * bits_per_pixel / 8 < 128` in `u32`) or wider than its stride
(`src.f_w < dst.w`) makes `decon_set_win_buffer` return `-EINVAL` with the snapshot,
the window and the call log exactly as they were; and when the window loop of
`decon_set_win_config` makes that call, `decon_set_win_config` returns `-EINVAL`
for the whole submission, with nothing queued and no fence promised. -/
theorem set_win_buffer_burst_check (H : decon_h) (env : kernel_env) :
    (∀ (win_no : Nat) (win : decon_win) (c : decon_win_config) (regs : decon_reg_data),
      passes_opening_checks H win_no c →
      (u32 (c.dst.w * bits_per_pixel_of H c.format) / 8 < 128 ∨ c.src.f_w < c.dst.w) →
      (decon_set_win_buffer H env win_no win c regs).ret = -EINVAL ∧
      (decon_set_win_buffer H env win_no win c regs).regs = regs ∧
      (decon_set_win_buffer H env win_no win c regs).win = win ∧
      (decon_set_win_buffer H env win_no win c regs).log = []) ∧
    (∀ (decon : decon_device) (win_data : decon_win_config_data) (i : Nat),
      calls_set_win_buffer H env decon win_data i →
      passes_opening_checks H i ((at_buffer_call H env decon win_data i).win_config i) →
      (u32 (((at_buffer_call H env decon win_data i).win_config i).dst.w *
          bits_per_pixel_of H ((at_buffer_call H env decon win_data i).win_config i).format) / 8
          < 128 ∨
        ((at_buffer_call H env decon win_data i).win_config i).src.f_w <
          ((at_buffer_call H env decon win_data i).win_config i).dst.w) →
      (decon_set_win_config H env decon win_data).ret = -EINVAL ∧
      (decon_set_win_config H env decon win_data).decon.update_regs_list =
        decon.update_regs_list ∧
      (decon_set_win_config H env decon win_data).decon.timeline_max = decon.timeline_max) := by
  refine ⟨fun win_no win c regs h hbad => set_win_buffer_burst H env win_no win c regs h hbad, ?_⟩
  intro decon win_data i hcall hpass hbad
  have hr : (buffer_call_result H env decon win_data i).ret = -EINVAL :=
    (set_win_buffer_burst H env i _ _ _ hpass hbad).1
  have herr : (buffer_call_result H env decon win_data i).ret ≠ 0 := by
    rw [hr]
    exact EINVAL_ne_zero
  obtain ⟨e1, e2, _⟩ := buffer_error_ends_call H env decon win_data i hcall herr
  exact ⟨e1.trans hr, e2.2.1, e2.2.2.2.1⟩

/-- C1 at the 16-bpp window of width 32 (32 * 16 / 8 = 64 < 128): the call for
window 0 and the whole submission return `-EINVAL` (-22). -/
theorem set_win_buffer_burst_check_witness :
    (decon_set_win_buffer sample_h sample_env 0 win_zero (buffer_request 0 0 32 32)
      regs_zero).ret = -22 ∧
    (decon_set_win_config sample_h sample_env sample_decon
      (batch_of (buffer_request 0 0 32 32))).ret = -22 ∧
    (decon_set_win_config sample_h sample_env sample_decon
      (batch_of (buffer_request 0 0 32 32))).decon.update_regs_list = [] :=
  ⟨((set_win_buffer_burst_check sample_h sample_env).1 0 win_zero (buffer_request 0 0 32 32)
      regs_zero (by decide) (by decide)).1,
   ((set_win_buffer_burst_check sample_h sample_env).2 sample_decon
      (batch_of (buffer_request 0 0 32 32)) 0 (by decide) (by decide) (by decide)).1,
   ((set_win_buffer_burst_check sample_h sample_env).2 sample_decon
      (batch_of (buffer_request 0 0 32 32)) 0 (by decide) (by decide) (by decide)).2.1⟩

/-! ## C3: a Buffer-state window with an abnormal destination -/

theorem enwin_clear (w e b : Nat) (h : b &&& e = 0) : ((w &&& not32 e) ||| b) &&& e = 0 := by
  apply Nat.eq_of_testBit_eq
  intro i
  have h1 := congrArg (fun x => Nat.testBit x i) (and_not32_and w e)
  have h2 := congrArg (fun x => Nat.testBit x i) h
  simp only [Nat.testBit_and, Nat.testBit_or, Nat.zero_testBit] at h1 h2 ⊢
  cases hb : b.testBit i <;> cases he : e.testBit i <;> simp_all

theorem enwin_set (w e b : Nat) : ((w ||| e) ||| b) &&& e = e := by
  apply Nat.eq_of_testBit_eq
  intro i
  simp only [Nat.testBit_and, Nat.testBit_or]
  cases w.testBit i <;> cases e.testBit i <;> cases b.testBit i <;> rfl

/-- C3 as stated fails: window 0 is a Buffer-state request of width 0 (no scaling,
RGB565) and window 1 a valid full-screen buffer; `decon_set_win_config` returns
`-EINVAL` (-22) instead of 0, queues nothing, and never stages window 1. -/
theorem abnormal_size_fails_submission :
    (decon_set_win_config sample_h sample_env sample_decon
      (batch_of2 (buffer_request 0 0 0 32) (buffer_request 0 0 720 1280))).ret = -22 ∧
    (decon_set_win_config sample_h sample_env sample_decon
      (batch_of2 (buffer_request 0 0 0 32)
        (buffer_request 0 0 720 1280))).decon.update_regs_list.length = 0 ∧
    (decon_set_win_config sample_h sample_env sample_decon
      (batch_of2 (buffer_request 0 0 0 32) (buffer_request 0 0 720 1280))).regs.wincon 1 = 0 ∧
    (decon_set_win_config sample_h sample_env sample_decon
      (batch_of2 (buffer_request 0 0 0 32) (buffer_request 0 0 720 1280))).regs.winmap 1 = 0 := by
  decide

/-- C3, amended. A destination of width or height 0, or at a negative x or y, makes
`decon_set_win_buffer` return `-EINVAL` with nothing written; and when the window
loop of `decon_set_win_config` makes that call for window `i`, the loop stops
there: `decon_set_win_config` returns `-EINVAL` for the whole submission, queues
nothing and promises no fence; window `i` keeps zeroed entries and (when the
burst-length bits do not overlap `WINCON_ENWIN`) a clear enable bit, and the
windows after `i` are never staged. -/
theorem abnormal_size_rejects_submission (H : decon_h) (env : kernel_env) :
    (∀ (win_no : Nat) (win : decon_win) (c : decon_win_config) (regs : decon_reg_data),
      (c.dst.w = 0 ∨ c.dst.h = 0 ∨ c.dst.x < 0 ∨ c.dst.y < 0) →
      (decon_set_win_buffer H env win_no win c regs).ret = -EINVAL ∧
      (decon_set_win_buffer H env win_no win c regs).regs = regs ∧
      (decon_set_win_buffer H env win_no win c regs).win = win) ∧
    (∀ (decon : decon_device) (win_data : decon_win_config_data) (i : Nat),
      calls_set_win_buffer H env decon win_data i →
      (((at_buffer_call H env decon win_data i).win_config i).dst.w = 0 ∨
        ((at_buffer_call H env decon win_data i).win_config i).dst.h = 0 ∨
        ((at_buffer_call H env decon win_data i).win_config i).dst.x < 0 ∨
        ((at_buffer_call H env decon win_data i).win_config i).dst.y < 0) →
      (decon_set_win_config H env decon win_data).ret = -EINVAL ∧
      (decon_set_win_config H env decon win_data).decon.update_regs_list =
        decon.update_regs_list ∧
      (decon_set_win_config H env decon win_data).decon.timeline_max = decon.timeline_max ∧
      staged_entries_of (decon_set_win_config H env decon win_data).regs i =
        staged_entries_zero ∧
      (H.WINCON_BURSTLEN_16WORD &&& H.WINCON_ENWIN = 0 →
        (decon_set_win_config H env decon win_data).regs.wincon i &&& H.WINCON_ENWIN = 0) ∧
      (∀ j, i < j →
        staged_entries_of (decon_set_win_config H env decon win_data).regs j =
          staged_entries_zero ∧
        (decon_set_win_config H env decon win_data).regs.wincon j = 0 ∧
        (decon_set_win_config H env decon win_data).regs.winmap j = 0)) := by
  have hbuf : ∀ (win_no : Nat) (win : decon_win) (c : decon_win_config) (regs : decon_reg_data),
      (c.dst.w = 0 ∨ c.dst.h = 0 ∨ c.dst.x < 0 ∨ c.dst.y < 0) →
      (decon_set_win_buffer H env win_no win c regs).ret = -EINVAL ∧
      (decon_set_win_buffer H env win_no win c regs).regs = regs ∧
      (decon_set_win_buffer H env win_no win c regs).win = win := by
    intro win_no win c regs hbad
    have h := set_win_buffer_opening H env win_no win c regs (fun hp => hp.2.2.2 hbad)
    exact ⟨h.1, h.2.1, h.2.2.1⟩
  refine ⟨hbuf, ?_⟩
  intro decon win_data i hcall hbad
  have hr : (buffer_call_result H env decon win_data i).ret = -EINVAL := (hbuf i _ _ _ hbad).1
  have herr : (buffer_call_result H env decon win_data i).ret ≠ 0 := by
    rw [hr]
    exact EINVAL_ne_zero
  obtain ⟨e1, e2, e3, e4, e5⟩ := buffer_error_ends_call H env decon win_data i hcall herr
  refine ⟨e1.trans hr, e2.2.1, e2.2.2.2.1, e3, ?_, e5⟩
  intro hb
  rw [e4]
  exact enwin_clear 0 _ _ hb

/-- C3, amended, at the width-0 request in window 0 followed by a valid window 1. -/
theorem abnormal_size_rejects_submission_witness :
    (decon_set_win_config sample_h sample_env sample_decon
      (batch_of2 (buffer_request 0 0 0 32) (buffer_request 0 0 720 1280))).ret = -EINVAL ∧
    (decon_set_win_config sample_h sample_env sample_decon
      (batch_of2 (buffer_request 0 0 0 32)
        (buffer_request 0 0 720 1280))).decon.update_regs_list = [] :=
  ⟨((abnormal_size_rejects_submission sample_h sample_env).2 sample_decon
      (batch_of2 (buffer_request 0 0 0 32) (buffer_request 0 0 720 1280)) 0 (by decide)
      (by decide)).1,
   ((abnormal_size_rejects_submission sample_h sample_env).2 sample_decon
      (batch_of2 (buffer_request 0 0 0 32) (buffer_request 0 0 720 1280)) 0 (by decide)
      (by decide)).2.1⟩

/-! ## C5: window 0 with a blending mode other than none -/

/-- The end of `decon_set_win_config` leaves the staged entries and the `wincon`
words of the snapshot as the window loop left them. -/
theorem finish_regs_entries (H : decon_h) (fd : Int) (win_data : decon_win_config_data)
    (st : cfg_state) (j : Nat) :
    staged_entries_of (win_config_finish H fd win_data st).regs j = staged_entries_of st.regs j ∧
    (win_config_finish H fd win_data st).regs.wincon j = st.regs.wincon j := by
  unfold win_config_finish
  dsimp only
  split_ifs <;> exact ⟨rfl, rfl⟩

/-- The body of the window loop enables a window that reaches the switch in Color
state. -/
theorem body_color_enabled (H : decon_h) (env : kernel_env) (i : Nat) (st : cfg_state)
    (h1 : ((win_config_checked H i st).win_config i).state ≠ H.DECON_WIN_STATE_DISABLED)
    (h2 : ((win_config_checked H i st).win_config i).state = H.DECON_WIN_STATE_COLOR) :
    (win_config_body H env i st).regs.wincon i &&& H.WINCON_ENWIN = H.WINCON_ENWIN := by
  unfold win_config_body
  dsimp only
  unfold win_config_switch
  dsimp only
  rw [if_neg h1, if_pos h2]
  unfold win_config_commit
  dsimp only
  simp only [if_true]
  split_ifs <;> simp only [set_at_same] <;> exact enwin_set _ _ _

/-- C5 as stated fails in both states.  A Color-state window 0 that asks for
premultiplied blending is staged enabled (return value 0, `WINCON_ENWIN` set); a
Buffer-state window 0 that asks for it fails the whole submission with `-EINVAL`
(-22) and nothing is queued. -/
theorem window0_blending_not_coerced :
    (decon_set_win_config sample_h sample_env sample_decon
      (batch_of (color_request 0 0 720 1280 1))).ret = 0 ∧
    (decon_set_win_config sample_h sample_env sample_decon
      (batch_of (color_request 0 0 720 1280 1))).regs.wincon 0 &&& sample_h.WINCON_ENWIN =
        sample_h.WINCON_ENWIN ∧
    sample_h.WINCON_ENWIN ≠ 0 ∧
    (decon_set_win_config sample_h sample_env sample_decon
      (batch_of { buffer_request 0 0 720 1280 with blending := 1 })).ret = -22 ∧
    (decon_set_win_config sample_h sample_env sample_decon
      (batch_of { buffer_request 0 0 720 1280 with blending := 1 })).decon.update_regs_list.length
        = 0 := by
  decide

/-- C5, amended. In Buffer state, a window 0 whose blending mode is not
`DECON_BLENDING_NONE` makes `decon_set_win_buffer` return `-EINVAL` with nothing
written, and the submission that makes this call fails as a whole: it returns
`-EINVAL`, queues nothing, promises no fence, and window 0 has a clear enable bit
(when the burst-length bits do not overlap `WINCON_ENWIN`).  In Color state the
blending mode is not checked: a window 0 that reaches the switch in Color state is
staged with `WINCON_ENWIN` set, whatever its blending mode. -/
theorem window0_blending (H : decon_h) (env : kernel_env) :
    (∀ (win : decon_win) (c : decon_win_config) (regs : decon_reg_data),
      c.blending ≠ H.DECON_BLENDING_NONE →
      (decon_set_win_buffer H env 0 win c regs).ret = -EINVAL ∧
      (decon_set_win_buffer H env 0 win c regs).regs = regs ∧
      (decon_set_win_buffer H env 0 win c regs).win = win) ∧
    (∀ (decon : decon_device) (win_data : decon_win_config_data),
      calls_set_win_buffer H env decon win_data 0 →
      ((at_buffer_call H env decon win_data 0).win_config 0).blending ≠ H.DECON_BLENDING_NONE →
      (decon_set_win_config H env decon win_data).ret = -EINVAL ∧
      (decon_set_win_config H env decon win_data).decon.update_regs_list =
        decon.update_regs_list ∧
      (decon_set_win_config H env decon win_data).decon.timeline_max = decon.timeline_max ∧
      (H.WINCON_BURSTLEN_16WORD &&& H.WINCON_ENWIN = 0 →
        (decon_set_win_config H env decon win_data).regs.wincon 0 &&& H.WINCON_ENWIN = 0)) ∧
    (∀ (decon : decon_device) (win_data : decon_win_config_data),
      reaches_window_loop env decon → 0 < decon.max_win →
      H.DECON_WIN_STATE_COLOR ≠ H.DECON_WIN_STATE_DISABLED →
      ((win_config_checked H 0 (win_config_start H decon win_data)).win_config 0).state =
        H.DECON_WIN_STATE_COLOR →
      (decon_set_win_config H env decon win_data).regs.wincon 0 &&& H.WINCON_ENWIN =
        H.WINCON_ENWIN) := by
  have hbuf : ∀ (win : decon_win) (c : decon_win_config) (regs : decon_reg_data),
      c.blending ≠ H.DECON_BLENDING_NONE →
      (decon_set_win_buffer H env 0 win c regs).ret = -EINVAL ∧
      (decon_set_win_buffer H env 0 win c regs).regs = regs ∧
      (decon_set_win_buffer H env 0 win c regs).win = win := by
    intro win c regs hbad
    have h := set_win_buffer_opening H env 0 win c regs (fun hp => hp.2.2.1 ⟨rfl, hbad⟩)
    exact ⟨h.1, h.2.1, h.2.2.1⟩
  refine ⟨hbuf, ?_, ?_⟩
  · intro decon win_data hcall hbad
    have hr : (buffer_call_result H env decon win_data 0).ret = -EINVAL := (hbuf _ _ _ hbad).1
    have herr : (buffer_call_result H env decon win_data 0).ret ≠ 0 := by
      rw [hr]
      exact EINVAL_ne_zero
    obtain ⟨e1, e2, _, e4, _⟩ := buffer_error_ends_call H env decon win_data 0 hcall herr
    refine ⟨e1.trans hr, e2.2.1, e2.2.2.2.1, ?_⟩
    intro hb
    rw [e4]
    exact enwin_clear 0 _ _ hb
  · intro decon win_data hreach hmax hne hcol
    rw [set_win_config_main H env decon win_data hreach, (finish_regs_entries H _ _ _ 0).2,
      (loop_keeps_earlier H env _ 0 decon.max_win hmax).2, for_loop_succ, for_loop_zero,
      win_config_step_run H env 0 _ (start_ret H decon win_data)]
    exact body_color_enabled H env 0 _ (by rw [hcol]; exact hne) hcol

/-- C5, amended, at a Color-state window 0 that asks for premultiplied blending. -/
theorem window0_blending_witness :
    (decon_set_win_config sample_h sample_env sample_decon
      (batch_of (color_request 0 0 720 1280 1))).regs.wincon 0 &&& sample_h.WINCON_ENWIN =
        sample_h.WINCON_ENWIN ∧
    (decon_set_win_config sample_h sample_env sample_decon
      (batch_of { buffer_request 0 0 720 1280 with blending := 1 })).ret = -EINVAL :=
  ⟨(window0_blending sample_h sample_env).2.2 sample_decon
      (batch_of (color_request 0 0 720 1280 1)) (by decide) (by decide) (by decide) (by decide),
   ((window0_blending sample_h sample_env).2.1 sample_decon
      (batch_of { buffer_request 0 0 720 1280 with blending := 1 }) (by decide) (by decide)).1⟩

/-! ## C2: what a failed submission leaves behind -/

/-- C2 fails on the stored partial-update state. The update slot asks for the region
360 x 640 at (0, 0) while the device stores the full screen, and window 0 is a
Buffer-state RGB565 request 32 pixels wide, which the burst check refuses:
`decon_set_win_config` returns `-EINVAL` (-22), yet `decon->update_win` has become
the requested region and `decon->need_update` is set.  A following, valid
submission for the same region then returns 0 with `regs->need_update` clear,
where the same submission on the device as it was on entry sets it. -/
theorem failed_submission_keeps_update_region :
    sample_decon.update_win = { x := 0, y := 0, w := 720, h := 1280 } ∧
    sample_decon.need_update = false ∧
    (decon_set_win_config sample_h sample_env sample_decon
      (batch_with_update (buffer_request 0 0 32 32) (update_request 0 0 360 640))).ret = -22 ∧
    (decon_set_win_config sample_h sample_env sample_decon
      (batch_with_update (buffer_request 0 0 32 32)
        (update_request 0 0 360 640))).decon.update_win = { x := 0, y := 0, w := 360, h := 640 } ∧
    (decon_set_win_config sample_h sample_env sample_decon
      (batch_with_update (buffer_request 0 0 32 32)
        (update_request 0 0 360 640))).decon.need_update = true ∧
    (decon_set_win_config sample_h sample_env
      (decon_set_win_config sample_h sample_env sample_decon
        (batch_with_update (buffer_request 0 0 32 32) (update_request 0 0 360 640))).decon
      (batch_with_update (buffer_request 0 0 360 640) (update_request 0 0 360 640))).ret = 0 ∧
    (decon_set_win_config sample_h sample_env
      (decon_set_win_config sample_h sample_env sample_decon
        (batch_with_update (buffer_request 0 0 32 32) (update_request 0 0 360 640))).decon
      (batch_with_update (buffer_request 0 0 360 640)
        (update_request 0 0 360 640))).regs.need_update = false ∧
    (decon_set_win_config sample_h sample_env sample_decon
      (batch_with_update (buffer_request 0 0 360 640)
        (update_request 0 0 360 640))).regs.need_update = true := by
  decide

/-! ## C6: a layer that needs scaling -/

/-- C6 fails under a partial-update request. Window 0 asks to show a 360 x 640
source on the full 720 x 1280 screen (`does_layer_need_scale` holds of the
request).  With the update slot in Update state for the full screen, the clipping
loop of `decon_set_win_update_config` overwrites `src.w` and `src.h` with the
destination size before the scaling check, so the window is staged enabled with a
buffer bound; without an update request the same window is disabled. -/
theorem scaled_layer_enabled_under_partial_update :
    does_layer_need_scale scaled_request = true ∧
    (decon_set_win_config sample_h sample_env sample_decon
      (batch_with_update scaled_request (update_request 0 0 720 1280))).ret = 0 ∧
    (decon_set_win_config sample_h sample_env sample_decon
      (batch_with_update scaled_request (update_request 0 0 720 1280))).regs.wincon 0 &&&
        sample_h.WINCON_ENWIN = sample_h.WINCON_ENWIN ∧
    sample_h.WINCON_ENWIN ≠ 0 ∧
    (decon_set_win_config sample_h sample_env sample_decon
      (batch_with_update scaled_request (update_request 0 0 720 1280))).regs.buf_start 0 ≠ 0 ∧
    (decon_set_win_config sample_h sample_env sample_decon
      (batch_of scaled_request)).ret = 0 ∧
    (decon_set_win_config sample_h sample_env sample_decon
      (batch_of scaled_request)).regs.wincon 0 &&& sample_h.WINCON_ENWIN = 0 := by
  decide

/-! ## C4: windows with a destination of width or height 0 -/

theorem far_edge_zero (x : Int) (h1 : -2147483648 < x) (h2 : x < 2147483648) :
    far_edge x 0 = x - 1 := by
  unfold far_edge u32_to_int int_to_u32
  split <;> omega

theorem s32_range (x : Int) : -2147483648 ≤ s32 x ∧ s32 x < 2147483648 := by
  unfold s32 u32_to_int int_to_u32
  split <;> omega

/-- An iteration of the clipping loop writes the slot of its own window only. -/
theorem clip_other (H : decon_h) (r1 : decon_rect) (j i : Nat) (wc : Nat → decon_win_config)
    (h : i ≠ j) : win_update_clip H r1 j wc i = wc i := by
  unfold win_update_clip
  lift_lets
  intro r2 tmp wl0 s0 wh0 wc1 hl1 s1 hh1 wc2 s2 wc3 s3 wc4 y4 s4 wc5 x5 s5 wc6 s6 wc7 s7 wc8
  have e1 : wc1 i = wc i := by
    simp only [wc1]
    split_ifs <;> simp [set_dst, set_at, h]
  have e2 : wc2 i = wc1 i := by
    simp only [wc2]
    split_ifs <;> simp [set_dst, set_at, h]
  have e3 : wc3 i = wc2 i := by simp [wc3, set_dst, set_at, h]
  have e4 : wc4 i = wc3 i := by simp [wc4, set_dst, set_at, h]
  have e5 : wc5 i = wc4 i := by
    simp only [wc5]
    split_ifs <;> simp [set_src, set_at, h]
  have e6 : wc6 i = wc5 i := by
    simp only [wc6]
    split_ifs <;> simp [set_src, set_at, h]
  have e7 : wc7 i = wc6 i := by simp [wc7, set_src, set_at, h]
  have e8 : wc8 i = wc7 i := by simp [wc8, set_src, set_at, h]
  split_ifs
  · rfl
  · simp [set_state, set_at, h]
  · rw [e8, e7, e6, e5, e4, e3, e2, e1]

/-- The state and the destination that an iteration of the clipping loop leaves in
the slot of a window that is not Disabled and meets the update region. -/
theorem clip_slot (H : decon_h) (r1 : decon_rect) (i : Nat) (wc : Nat → decon_win_config)
    (hU : H.DECON_WIN_UPDATE_IDX ≠ i)
    (hd : (wc i).state ≠ H.DECON_WIN_STATE_DISABLED)
    (hint : decon_intersect r1 (rect_of_dst (wc i).dst) = true) :
    (win_update_clip H r1 i wc i).state = (wc i).state ∧
    (win_update_clip H r1 i wc i).dst.w =
      (if (wc H.DECON_WIN_UPDATE_IDX).dst.x > (wc i).dst.x then
        clip_from_low (wc H.DECON_WIN_UPDATE_IDX).dst.x (wc H.DECON_WIN_UPDATE_IDX).dst.w
          (wc i).dst.x (wc i).dst.w
      else if u32 (int_to_u32 (wc H.DECON_WIN_UPDATE_IDX).dst.x +
          (wc H.DECON_WIN_UPDATE_IDX).dst.w) < u32 (int_to_u32 (wc i).dst.x + (wc i).dst.w) then
        clip_from_high (wc H.DECON_WIN_UPDATE_IDX).dst.x (wc H.DECON_WIN_UPDATE_IDX).dst.w
          (wc i).dst.x (wc i).dst.w
      else (wc i).dst.w) ∧
    (win_update_clip H r1 i wc i).dst.h =
      (if (wc H.DECON_WIN_UPDATE_IDX).dst.y > (wc i).dst.y then
        clip_from_low (wc H.DECON_WIN_UPDATE_IDX).dst.y (wc H.DECON_WIN_UPDATE_IDX).dst.h
          (wc i).dst.y (wc i).dst.h
      else if u32 (int_to_u32 (wc H.DECON_WIN_UPDATE_IDX).dst.y +
          (wc H.DECON_WIN_UPDATE_IDX).dst.h) < u32 (int_to_u32 (wc i).dst.y + (wc i).dst.h) then
        clip_from_high (wc H.DECON_WIN_UPDATE_IDX).dst.y (wc H.DECON_WIN_UPDATE_IDX).dst.h
          (wc i).dst.y (wc i).dst.h
      else (wc i).dst.h) ∧
    (win_update_clip H r1 i wc i).dst.x =
      max (s32 ((wc i).dst.x - (wc H.DECON_WIN_UPDATE_IDX).dst.x)) 0 ∧
    (win_update_clip H r1 i wc i).dst.y =
      max (s32 ((wc i).dst.y - (wc H.DECON_WIN_UPDATE_IDX).dst.y)) 0 := by
  unfold win_update_clip
  lift_lets
  intro r2 tmp wl0 s0 wh0 wc1 hl1 s1 hh1 wc2 s2 wc3 s3 wc4 y4 s4 wc5 x5 s5 wc6 s6 wc7 s7 wc8
  have a1 : wc1 H.DECON_WIN_UPDATE_IDX = wc H.DECON_WIN_UPDATE_IDX ∧
      (wc1 i).state = (wc i).state ∧ (wc1 i).dst.h = (wc i).dst.h ∧
      (wc1 i).dst.x = (wc i).dst.x ∧ (wc1 i).dst.y = (wc i).dst.y ∧
      (wc1 i).dst.w =
        (if (wc H.DECON_WIN_UPDATE_IDX).dst.x > (wc i).dst.x then wl0
        else if u32 (int_to_u32 (wc H.DECON_WIN_UPDATE_IDX).dst.x +
            (wc H.DECON_WIN_UPDATE_IDX).dst.w) < u32 (int_to_u32 (wc i).dst.x + (wc i).dst.w)
          then wh0
        else (wc i).dst.w) := by
    simp only [wc1]
    split_ifs <;> simp [set_dst, set_at, hU, s0]
  have a2 : wc2 H.DECON_WIN_UPDATE_IDX = wc H.DECON_WIN_UPDATE_IDX ∧
      (wc2 i).state = (wc i).state ∧ (wc2 i).dst.w = (wc1 i).dst.w ∧
      (wc2 i).dst.x = (wc i).dst.x ∧ (wc2 i).dst.y = (wc i).dst.y ∧
      (wc2 i).dst.h =
        (if (wc H.DECON_WIN_UPDATE_IDX).dst.y > (wc i).dst.y then hl1
        else if u32 (int_to_u32 (wc H.DECON_WIN_UPDATE_IDX).dst.y +
            (wc H.DECON_WIN_UPDATE_IDX).dst.h) < u32 (int_to_u32 (wc i).dst.y + (wc i).dst.h)
          then hh1
        else (wc i).dst.h) := by
    simp only [wc2, a1.1, a1.2.2.2.2.1, a1.2.2.1]
    split_ifs <;> simp [set_dst, set_at, hU, s1, a1]
  have a3 : wc3 H.DECON_WIN_UPDATE_IDX = wc H.DECON_WIN_UPDATE_IDX ∧
      (wc3 i).state = (wc i).state ∧ (wc3 i).dst.w = (wc1 i).dst.w ∧
      (wc3 i).dst.h = (wc2 i).dst.h ∧ (wc3 i).dst.y = (wc i).dst.y ∧
      (wc3 i).dst.x = max (s32 ((wc i).dst.x - (wc H.DECON_WIN_UPDATE_IDX).dst.x)) 0 := by
    simp [wc3, set_dst, set_at, hU, s2, a2]
  have a4 : (wc4 i).state = (wc i).state ∧ (wc4 i).dst.w = (wc1 i).dst.w ∧
      (wc4 i).dst.h = (wc2 i).dst.h ∧
      (wc4 i).dst.x = max (s32 ((wc i).dst.x - (wc H.DECON_WIN_UPDATE_IDX).dst.x)) 0 ∧
      (wc4 i).dst.y = max (s32 ((wc i).dst.y - (wc H.DECON_WIN_UPDATE_IDX).dst.y)) 0 := by
    simp [wc4, set_dst, set_at, hU, s3, a3]
  have a5 : (wc5 i).state = (wc4 i).state ∧ (wc5 i).dst = (wc4 i).dst := by
    simp only [wc5]
    split_ifs <;> simp [set_src, set_at]
  have a6 : (wc6 i).state = (wc5 i).state ∧ (wc6 i).dst = (wc5 i).dst := by
    simp only [wc6]
    split_ifs <;> simp [set_src, set_at]
  have a7 : (wc7 i).state = (wc6 i).state ∧ (wc7 i).dst = (wc6 i).dst := by
    simp [wc7, set_src, set_at]
  have a8 : (wc8 i).state = (wc7 i).state ∧ (wc8 i).dst = (wc7 i).dst := by
    simp [wc8, set_src, set_at]
  have hint2 : (!decon_intersect r1 r2) ≠ true := by
    simp only [r2, hint]
    decide
  rw [if_neg hd, if_neg hint2, a8.1, a8.2, a7.1, a7.2, a6.1, a6.2, a5.1, a5.2]
  refine ⟨a4.1, ?_, ?_, a4.2.2.2.1, a4.2.2.2.2⟩
  · rw [a4.2.1, a1.2.2.2.2.2]
  · rw [a4.2.2.1, a2.2.2.2.2.2]
    simp only [hl1, hh1, a1]

theorem clip_disabled (H : decon_h) (r1 : decon_rect) (i : Nat) (wc : Nat → decon_win_config)
    (hd : (wc i).state = H.DECON_WIN_STATE_DISABLED) : win_update_clip H r1 i wc = wc := by
  unfold win_update_clip
  lift_lets
  intros
  rw [if_pos hd]

theorem clip_apart (H : decon_h) (r1 : decon_rect) (i : Nat) (wc : Nat → decon_win_config)
    (hd : (wc i).state ≠ H.DECON_WIN_STATE_DISABLED)
    (hint : decon_intersect r1 (rect_of_dst (wc i).dst) ≠ true) :
    win_update_clip H r1 i wc = set_state wc i H.DECON_WIN_STATE_DISABLED := by
  unfold win_update_clip
  lift_lets
  intro U r2 tmp wl0 s0 wh0 wc1 hl1 s1 hh1 wc2 s2 wc3 s3 wc4 y4 s4 wc5 x5 s5 wc6 s6 wc7 s7 wc8
  have hint2 : (!decon_intersect r1 r2) = true := by
    simp only [r2]
    cases h : decon_intersect r1 (rect_of_dst (wc i).dst)
    · rfl
    · exact absurd h hint
  rw [if_neg hd, if_pos hint2]

theorem zero_extent_congr (H : decon_h) (c c' : decon_win_config) (hs : c'.state = c.state)
    (hd : c'.dst = c.dst) (h : zero_extent H c) : zero_extent H c' := by
  unfold zero_extent at h ⊢
  rw [hs, hd]
  exact h

/-- The clipping loop keeps a window of zero extent unstageable: its width (or
height) stays 0, or the window is set to Disabled. -/
theorem clip_zero_extent (H : decon_h) (r1 : decon_rect) (i : Nat) (wc : Nat → decon_win_config)
    (hU : H.DECON_WIN_UPDATE_IDX ≠ i)
    (hr : r1 = rect_of_dst (wc H.DECON_WIN_UPDATE_IDX).dst)
    (hQ : zero_extent H (wc i)) : zero_extent H (win_update_clip H r1 i wc i) := by
  by_cases hd : (wc i).state = H.DECON_WIN_STATE_DISABLED
  · rw [clip_disabled H r1 i wc hd]
    exact hQ
  by_cases hint : decon_intersect r1 (rect_of_dst (wc i).dst) = true
  · have hslot := clip_slot H r1 i wc hU hd hint
    rcases hQ with h | ⟨hb, hz⟩
    · exact absurd h hd
    right
    refine ⟨hslot.1.trans hb, ?_⟩
    rw [hr] at hint
    simp only [decon_intersect, rect_of_dst, Bool.not_eq_true', decide_eq_false_iff_not,
      not_or, not_lt, gt_iff_lt] at hint
    rcases hz with ⟨hw, hx1, hx2⟩ | ⟨hh, hy1, hy2⟩
    · left
      have hfe := far_edge_zero (wc i).dst.x hx1 hx2
      have hle : (wc H.DECON_WIN_UPDATE_IDX).dst.x ≤ (wc i).dst.x - 1 := by
        have h1 := hint.1
        rw [hw, hfe] at h1
        exact h1
      have hnot : ¬ (wc H.DECON_WIN_UPDATE_IDX).dst.x > (wc i).dst.x := by
        clear hslot hint
        omega
      have hrg := s32_range ((wc i).dst.x - (wc H.DECON_WIN_UPDATE_IDX).dst.x)
      have hm1 : -2147483648 < max (s32 ((wc i).dst.x - (wc H.DECON_WIN_UPDATE_IDX).dst.x)) 0 :=
        lt_of_lt_of_le (by norm_num) (le_max_right _ _)
      have hm2 : max (s32 ((wc i).dst.x - (wc H.DECON_WIN_UPDATE_IDX).dst.x)) 0 < 2147483648 :=
        max_lt hrg.2 (by norm_num)
      refine ⟨?_, ?_, ?_⟩
      · rw [hslot.2.1, if_neg hnot]
        by_cases hc : u32 (int_to_u32 (wc H.DECON_WIN_UPDATE_IDX).dst.x +
            (wc H.DECON_WIN_UPDATE_IDX).dst.w) < u32 (int_to_u32 (wc i).dst.x + (wc i).dst.w)
        · rw [if_pos hc]
          unfold clip_from_high
          rw [hw]
          exact Nat.zero_min _
        · rw [if_neg hc]
          exact hw
      · rw [hslot.2.2.2.1]
        exact hm1
      · rw [hslot.2.2.2.1]
        exact hm2
    · right
      have hfe := far_edge_zero (wc i).dst.y hy1 hy2
      have hle : (wc H.DECON_WIN_UPDATE_IDX).dst.y ≤ (wc i).dst.y - 1 := by
        have h1 := hint.2.2.1
        rw [hh, hfe] at h1
        exact h1
      have hnot : ¬ (wc H.DECON_WIN_UPDATE_IDX).dst.y > (wc i).dst.y := by
        clear hslot hint
        omega
      have hrg := s32_range ((wc i).dst.y - (wc H.DECON_WIN_UPDATE_IDX).dst.y)
      have hm1 : -2147483648 < max (s32 ((wc i).dst.y - (wc H.DECON_WIN_UPDATE_IDX).dst.y)) 0 :=
        lt_of_lt_of_le (by norm_num) (le_max_right _ _)
      have hm2 : max (s32 ((wc i).dst.y - (wc H.DECON_WIN_UPDATE_IDX).dst.y)) 0 < 2147483648 :=
        max_lt hrg.2 (by norm_num)
      refine ⟨?_, ?_, ?_⟩
      · rw [hslot.2.2.1, if_neg hnot]
        by_cases hc : u32 (int_to_u32 (wc H.DECON_WIN_UPDATE_IDX).dst.y +
            (wc H.DECON_WIN_UPDATE_IDX).dst.h) < u32 (int_to_u32 (wc i).dst.y + (wc i).dst.h)
        · rw [if_pos hc]
          unfold clip_from_high
          rw [hh]
          exact Nat.zero_min _
        · rw [if_neg hc]
          exact hh
      · rw [hslot.2.2.2.2]
        exact hm1
      · rw [hslot.2.2.2.2]
        exact hm2
  · rw [clip_apart H r1 i wc hd hint]
    left
    simp [set_state, set_at]

theorem clip_loop_zero_extent (H : decon_h) (uc : decon_win_config) (i n : Nat)
    (wc : Nat → decon_win_config) (hn : n ≤ H.DECON_WIN_UPDATE_IDX)
    (hU : H.DECON_WIN_UPDATE_IDX ≠ i) (hu : wc H.DECON_WIN_UPDATE_IDX = uc)
    (hQ : zero_extent H (wc i)) :
    zero_extent H (for_loop (win_update_clip H (rect_of_dst uc.dst)) n wc i) := by
  have h := for_loop_inv
    (fun a : Nat → decon_win_config => a H.DECON_WIN_UPDATE_IDX = uc ∧ zero_extent H (a i))
    (win_update_clip H (rect_of_dst uc.dst)) n wc ⟨hu, hQ⟩
    (by
      intro j s hj hs
      have hUj : H.DECON_WIN_UPDATE_IDX ≠ j := by omega
      refine ⟨(clip_other H _ j _ s hUj).trans hs.1, ?_⟩
      by_cases hji : i = j
      · subst hji
        exact clip_zero_extent H _ i s hU (by rw [hs.1]) hs.2
      · rw [clip_other H _ j i s hji]
        exact hs.2)
  exact h.2

theorem update_config_zero_extent (H : decon_h) (d : decon_device)
    (wc : Nat → decon_win_config) (regs : decon_reg_data) (i : Nat)
    (hn : d.max_win ≤ H.DECON_WIN_UPDATE_IDX) (hU : H.DECON_WIN_UPDATE_IDX ≠ i)
    (hQ : zero_extent H (wc i)) :
    zero_extent H ((decon_set_win_update_config H d wc regs).2.1 i) := by
  have hi : i ≠ H.DECON_WIN_UPDATE_IDX := fun h => hU h.symm
  have h0 : zero_extent H (set_at wc H.DECON_WIN_UPDATE_IDX
      (decon_calibrate_win_update_size H d (wc H.DECON_WIN_UPDATE_IDX)) i) := by
    rw [set_at_other _ _ _ _ hi]
    exact hQ
  have hloop := clip_loop_zero_extent H
    (decon_calibrate_win_update_size H d (wc H.DECON_WIN_UPDATE_IDX)) i d.max_win
    (set_at wc H.DECON_WIN_UPDATE_IDX
      (decon_calibrate_win_update_size H d (wc H.DECON_WIN_UPDATE_IDX)))
    hn hU (set_at_same _ _ _) h0
  unfold decon_set_win_update_config
  dsimp only
  simp only [set_at_same]
  split_ifs <;> first | exact h0 | exact hloop


theorem start_zero_extent (H : decon_h) (d : decon_device) (win_data : decon_win_config_data)
    (i : Nat) (hn : d.max_win ≤ H.DECON_WIN_UPDATE_IDX) (hU : H.DECON_WIN_UPDATE_IDX ≠ i)
    (hQ : zero_extent H (win_data.config i)) :
    zero_extent H ((win_config_start H d win_data).win_config i) := by
  unfold win_config_start
  lift_lets
  extract_lets regs d1 upd
  show zero_extent H (upd.2.1 i)
  have h1 : d1.max_win = d.max_win := by
    have h := for_loop_inv (same_core d)
      (fun i d => set_window d i { d.windows i with prev_fix := (d.windows i).fix,
                                                    prev_var := (d.windows i).var })
      d.max_win d (same_core_refl d)
      (fun i s _ hs => same_core_trans hs (same_core_set_window s i _))
    exact h.1
  by_cases hc : H.CONFIG_FB_WINDOW_UPDATE = true ∧ d1.out_type = decon_out_type.DSI
  · simp only [upd, if_pos hc]
    exact update_config_zero_extent H d1 win_data.config regs i (by rw [h1]; exact hn) hU hQ
  · simp only [upd, if_neg hc]
    exact hQ

theorem checked_zero_extent (H : decon_h) (i : Nat) (st : cfg_state)
    (hQ : zero_extent H (st.win_config i)) :
    zero_extent H ((win_config_checked H i st).win_config i) := by
  unfold win_config_checked
  dsimp only
  split_ifs
  · left
    simp [set_state, set_at]
  · left
    simp [set_state, set_at]
  · left
    simp [set_state, set_at]
  · exact hQ

/-- The blocking-mode call leaves the staged entries, the `wincon` word and the
destination of every window as they were. -/
theorem blocking_stage_slot (H : decon_h) (i : Nat) (st : cfg_state) (j : Nat) :
    staged_entries_of (blocking_stage H i st).2.regs j = staged_entries_of st.regs j ∧
    (blocking_stage H i st).2.regs.wincon j = st.regs.wincon j ∧
    ((blocking_stage H i st).2.win_config j).dst = (st.win_config j).dst := by
  unfold blocking_stage
  split
  · have h := blocking_mode_effect H st.decon.max_win i st.win_config st.regs
    exact ⟨(h.1 j).1, (h.1 j).2.1, (h.2.1 j).1⟩
  · exact ⟨rfl, rfl, rfl⟩

/-- The switch of the window loop does not enable a window of zero extent and
leaves its staged entries and `wincon` word as they were. -/
theorem switch_zero_extent (H : decon_h) (env : kernel_env) (i : Nat) (st : cfg_state) (cm : Nat)
    (hne : H.DECON_WIN_STATE_BUFFER ≠ H.DECON_WIN_STATE_COLOR)
    (hQ : zero_extent H (st.win_config i)) :
    (win_config_switch H env i st cm).enabled = false ∧
    staged_entries_of (win_config_switch H env i st cm).st.regs i = staged_entries_of st.regs i ∧
    (win_config_switch H env i st cm).st.regs.wincon i = st.regs.wincon i := by
  unfold win_config_switch
  dsimp only
  by_cases hd : (st.win_config i).state = H.DECON_WIN_STATE_DISABLED
  · rw [if_pos hd]
    exact ⟨rfl, rfl, rfl⟩
  rcases hQ with h | ⟨hb, hz⟩
  · exact absurd h hd
  have hcol : (st.win_config i).state ≠ H.DECON_WIN_STATE_COLOR := by
    rw [hb]
    exact hne
  have hslot := blocking_stage_slot H i st i
  rw [if_neg hd, if_neg hcol, if_pos hb]
  by_cases hblk : (blocking_stage H i st).1 ≠ 0
  · rw [if_pos hblk]
    exact ⟨rfl, hslot.1, hslot.2.1⟩
  · rw [if_neg hblk]
    have hbad : ¬ passes_opening_checks H i ((blocking_stage H i st).2.win_config i) := by
      intro hp
      apply hp.2.2.2
      rw [hslot.2.2]
      rcases hz with ⟨hw, _, _⟩ | ⟨hh, _, _⟩
      · exact Or.inl hw
      · exact Or.inr (Or.inl hh)
    have hopen := set_win_buffer_opening H env i ((blocking_stage H i st).2.decon.windows i)
      ((blocking_stage H i st).2.win_config i) (blocking_stage H i st).2.regs hbad
    have hret : (buffer_stage H env i (blocking_stage H i st).2).ret ≠ 0 := by
      rw [(buffer_stage_ret H env i _).1, hopen.1]
      exact EINVAL_ne_zero
    have hregs : (buffer_stage H env i (blocking_stage H i st).2).regs =
        (blocking_stage H i st).2.regs := by
      rw [(buffer_stage_ret H env i _).2, hopen.2.1]
    rw [if_neg hret]
    dsimp only
    rw [hregs]
    exact ⟨rfl, hslot.1, hslot.2.1⟩

/-- The end of the body of the window loop writes no staged entry; for a window
that is not enabled it clears `WINCON_ENWIN`. -/
theorem commit_slot (H : decon_h) (i : Nat) (sw : switch_out) (j : Nat) :
    staged_entries_of (win_config_commit H i sw).regs j = staged_entries_of sw.st.regs j ∧
    (sw.enabled = false →
      (win_config_commit H i sw).regs.wincon i =
        (sw.st.regs.wincon i &&& not32 H.WINCON_ENWIN) ||| H.WINCON_BURSTLEN_16WORD) := by
  unfold win_config_commit
  dsimp only
  refine ⟨?_, ?_⟩
  · split_ifs <;> rfl
  · intro he
    rw [he]
    simp only [Bool.false_eq_true, false_and, if_false, set_at_same]

theorem body_zero_extent (H : decon_h) (env : kernel_env) (i : Nat) (st : cfg_state)
    (hne : H.DECON_WIN_STATE_BUFFER ≠ H.DECON_WIN_STATE_COLOR)
    (hB : H.WINCON_BURSTLEN_16WORD &&& H.WINCON_ENWIN = 0)
    (hQ : zero_extent H (st.win_config i)) :
    staged_entries_of (win_config_body H env i st).regs i = staged_entries_of st.regs i ∧
    (win_config_body H env i st).regs.wincon i &&& H.WINCON_ENWIN = 0 := by
  unfold win_config_body
  dsimp only
  have hchk := checked_zero_extent H i st hQ
  have hsw := switch_zero_extent H env i (win_config_checked H i st)
    (H.WIN_MAP_MAP ||| H.WIN_MAP_MAP_COLOUR 0) hne hchk
  have hcm := commit_slot H i (win_config_switch H env i (win_config_checked H i st)
    (H.WIN_MAP_MAP ||| H.WIN_MAP_MAP_COLOUR 0)) i
  refine ⟨?_, ?_⟩
  · rw [hcm.1, hsw.2.1, (checked_decon H i st).2.2.1]
  · rw [hcm.2 hsw.1]
    exact enwin_clear _ _ _ hB

/-- A submission that does not get to its window loop leaves the snapshot zeroed. -/
theorem not_reaching_regs (H : decon_h) (env : kernel_env) (decon : decon_device)
    (win_data : decon_win_config_data) (h : ¬ reaches_window_loop env decon) :
    (decon_set_win_config H env decon win_data).regs = regs_zero := by
  unfold decon_set_win_config
  dsimp only
  by_cases h1 : env.get_unused_fd < 0
  · rw [if_pos h1]
  rw [if_neg h1]
  by_cases h2 : decon.state = decon_state.OFF ∨ decon.ignore_vsync = true ∨
      decon.out_type = decon_out_type.TUI
  · rw [if_pos h2]
  rw [if_neg h2]
  by_cases h3 : env.kzalloc_ok = true
  · exact absurd ⟨by omega, h2, h3⟩ h
  · simp [h3]


/-- C4 as stated fails. A Color-state window 0 of width 0 is staged enabled
(`vidosd_b` is written and `WINCON_ENWIN` is set); and under a partial update of the
full screen, a Buffer-state window 0 of width 0 at x = `INT_MIN` is clipped to the
update region and staged enabled too. -/
theorem zero_size_window_staged :
    (color_request 0 0 0 32 0).dst.w = 0 ∧
    (decon_set_win_config sample_h sample_env sample_decon
      (batch_of (color_request 0 0 0 32 0))).ret = 0 ∧
    (decon_set_win_config sample_h sample_env sample_decon
      (batch_of (color_request 0 0 0 32 0))).regs.vidosd_b 0 ≠ 0 ∧
    (decon_set_win_config sample_h sample_env sample_decon
      (batch_of (color_request 0 0 0 32 0))).regs.wincon 0 &&& sample_h.WINCON_ENWIN =
        sample_h.WINCON_ENWIN ∧
    sample_h.WINCON_ENWIN ≠ 0 ∧
    wrapped_request.dst.w = 0 ∧
    (decon_set_win_config sample_h sample_env sample_decon
      (batch_with_update wrapped_request (update_request 0 0 720 1280))).ret = 0 ∧
    (decon_set_win_config sample_h sample_env sample_decon
      (batch_with_update wrapped_request (update_request 0 0 720 1280))).regs.wincon 0 &&&
        sample_h.WINCON_ENWIN = sample_h.WINCON_ENWIN := by
  decide

/-- C4, amended. On a device whose windows all lie below the update slot, with
Buffer and Color distinct states and burst-length bits that do not overlap
`WINCON_ENWIN`: for every batch and every window `i` whose request is in Buffer
state with destination width 0 (at an x other than `INT_MIN`) or height 0 (at a y
other than `INT_MIN`), the snapshot that `decon_set_win_config` leaves, on every
path, has the geometry, alpha, blend and buffer-address entries of window `i` at
their initial zero and its `WINCON_ENWIN` bit clear. -/
theorem zero_size_buffer_window_unstaged (H : decon_h) (env : kernel_env) (decon : decon_device)
    (win_data : decon_win_config_data) (i : Nat)
    (hU : decon.max_win ≤ H.DECON_WIN_UPDATE_IDX)
    (hne : H.DECON_WIN_STATE_BUFFER ≠ H.DECON_WIN_STATE_COLOR)
    (hB : H.WINCON_BURSTLEN_16WORD &&& H.WINCON_ENWIN = 0)
    (hi : i < decon.max_win)
    (hstate : (win_data.config i).state = H.DECON_WIN_STATE_BUFFER)
    (hzero : ((win_data.config i).dst.w = 0 ∧ -2147483648 < (win_data.config i).dst.x ∧
        (win_data.config i).dst.x < 2147483648) ∨
      ((win_data.config i).dst.h = 0 ∧ -2147483648 < (win_data.config i).dst.y ∧
        (win_data.config i).dst.y < 2147483648)) :
    staged_entries_of (decon_set_win_config H env decon win_data).regs i = staged_entries_zero ∧
    (decon_set_win_config H env decon win_data).regs.wincon i &&& H.WINCON_ENWIN = 0 := by
  have hQ0 : zero_extent H (win_data.config i) := Or.inr ⟨hstate, hzero⟩
  by_cases hreach : reaches_window_loop env decon
  · have hUi : H.DECON_WIN_UPDATE_IDX ≠ i := by omega
    have hk := loop_keeps_earlier H env (win_config_start H decon win_data) i decon.max_win hi
    have hunt := before_untouched H env decon win_data i i (Nat.le_refl i)
    have hQ : zero_extent H ((win_config_before H env decon win_data i).win_config i) :=
      zero_extent_congr H _ _ hunt.2.2.2.1 hunt.2.2.2.2
        (start_zero_extent H decon win_data i hU hUi hQ0)
    have hstep : staged_entries_of
          (win_config_step H env i (win_config_before H env decon win_data i)).regs i =
          staged_entries_zero ∧
        (win_config_step H env i (win_config_before H env decon win_data i)).regs.wincon i &&&
          H.WINCON_ENWIN = 0 := by
      unfold win_config_step
      split
      · have hb := body_zero_extent H env i _ hne hB hQ
        exact ⟨hb.1.trans hunt.1, hb.2⟩
      · refine ⟨hunt.1, ?_⟩
        rw [hunt.2.1]
        exact Nat.zero_and _
    rw [set_win_config_main H env decon win_data hreach, (finish_regs_entries H _ _ _ i).1,
      (finish_regs_entries H _ _ _ i).2, hk.1, hk.2, for_loop_succ]
    exact hstep
  · rw [not_reaching_regs H env decon win_data hreach]
    refine ⟨?_, Nat.zero_and _⟩
    simp [staged_entries_of, regs_zero, staged_entries_zero]

/-- C4, amended, at a Buffer-state window 0 of width 0 that lies outside the
requested update region 360 x 640: the submission succeeds with the window left
unstaged. -/
theorem zero_size_buffer_window_unstaged_witness :
    staged_entries_of (decon_set_win_config sample_h sample_env sample_decon
      (batch_with_update (buffer_request 400 0 0 32) (update_request 0 0 360 640))).regs 0 =
        staged_entries_zero ∧
    (decon_set_win_config sample_h sample_env sample_decon
      (batch_with_update (buffer_request 400 0 0 32) (update_request 0 0 360 640))).regs.wincon 0
        &&& sample_h.WINCON_ENWIN = 0 :=
  zero_size_buffer_window_unstaged sample_h sample_env sample_decon
    (batch_with_update (buffer_request 400 0 0 32) (update_request 0 0 360 640)) 0
    (by decide) (by decide) (by decide) (by decide) (by decide) (by decide)

/-! ## C11: decon_set_qos raises before the commit and lowers after it -/

/-- C11. Built with `CONFIG_DECON_DEVFREQ`, called with a snapshot and
`is_default_qos` false, `decon_set_qos` issues the QoS request for the snapshot's
bandwidth and stores it in `prev_bw` exactly when it is called before the commit
with a bandwidth above `prev_bw`, or after the commit with a bandwidth below
`prev_bw`; in every other case (an equal bandwidth among them) it changes
nothing. -/
theorem decon_set_qos_raise_before_lower_after (H : decon_h) (decon : decon_device)
    (regs : decon_reg_data) (is_after : Bool) (hcfg : H.CONFIG_DECON_DEVFREQ = true) :
    (((is_after = false ∧ regs.bandwidth > decon.prev_bw) ∨
        (is_after = true ∧ regs.bandwidth < decon.prev_bw)) →
      decon_set_qos H decon (some regs) is_after false =
        { emit decon [kcall.update_media_scenario regs.bandwidth] with
          prev_bw := regs.bandwidth }) ∧
    (¬ ((is_after = false ∧ regs.bandwidth > decon.prev_bw) ∨
        (is_after = true ∧ regs.bandwidth < decon.prev_bw)) →
      decon_set_qos H decon (some regs) is_after false = decon) := by
  unfold decon_set_qos
  rw [if_pos hcfg]
  have hq : qos_req_bandwidth decon (some regs) false = regs.bandwidth := rfl
  dsimp only
  rw [hq]
  constructor
  · intro h
    have hne : decon.prev_bw ≠ regs.bandwidth := by
      rcases h with ⟨_, h⟩ | ⟨_, h⟩ <;> omega
    rw [if_neg hne]
    have hc : (is_after = true ∧ decon.prev_bw > regs.bandwidth) ∨
        ((!is_after) = true ∧ decon.prev_bw < regs.bandwidth) := by
      rcases h with ⟨h1, h2⟩ | ⟨h1, h2⟩
      · right
        exact ⟨by rw [h1]; rfl, h2⟩
      · left
        exact ⟨h1, h2⟩
    rw [if_pos hc]
  · intro h
    by_cases heq : decon.prev_bw = regs.bandwidth
    · rw [if_pos heq]
    · rw [if_neg heq]
      have hc : ¬ ((is_after = true ∧ decon.prev_bw > regs.bandwidth) ∨
          ((!is_after) = true ∧ decon.prev_bw < regs.bandwidth)) := by
        intro hc
        apply h
        rcases hc with ⟨h1, h2⟩ | ⟨h1, h2⟩
        · right
          exact ⟨h1, h2⟩
        · left
          refine ⟨?_, h2⟩
          cases is_after
          · rfl
          · exact absurd h1 (by decide)
      rw [if_neg hc]

/-- C11 at a rise from 0 to 1000 before the commit: the request is issued and
`prev_bw` becomes 1000. -/
theorem decon_set_qos_raise_before_lower_after_witness :
    (decon_set_qos sample_h sample_decon (some (qos_sample_regs 1000)) false false).prev_bw =
      1000 ∧
    (decon_set_qos sample_h sample_decon (some (qos_sample_regs 1000)) false false).log =
      [kcall.update_media_scenario 1000] := by
  rw [(decon_set_qos_raise_before_lower_after sample_h sample_decon (qos_sample_regs 1000)
    false rfl).1 (Or.inl ⟨rfl, by decide⟩)]
  exact ⟨rfl, rfl⟩

/-! ## C17: the intersection of two rectangles that intersect -/

/-- C17. For rectangles `r1`, `r2` with `left <= right` and `top <= bottom`, when
`decon_intersect r1 r2` holds the rectangle written by `decon_intersection` has
`right >= left` and `bottom >= top`, and it lies inside both `r1` and `r2`. -/
theorem decon_intersection_valid (r1 r2 : decon_rect)
    (h1 : r1.left ≤ r1.right ∧ r1.top ≤ r1.bottom)
    (h2 : r2.left ≤ r2.right ∧ r2.top ≤ r2.bottom)
    (hint : decon_intersect r1 r2 = true) :
    (decon_intersection r1 r2).left ≤ (decon_intersection r1 r2).right ∧
    (decon_intersection r1 r2).top ≤ (decon_intersection r1 r2).bottom ∧
    r1.left ≤ (decon_intersection r1 r2).left ∧ (decon_intersection r1 r2).right ≤ r1.right ∧
    r1.top ≤ (decon_intersection r1 r2).top ∧ (decon_intersection r1 r2).bottom ≤ r1.bottom ∧
    r2.left ≤ (decon_intersection r1 r2).left ∧ (decon_intersection r1 r2).right ≤ r2.right ∧
    r2.top ≤ (decon_intersection r1 r2).top ∧ (decon_intersection r1 r2).bottom ≤ r2.bottom := by
  simp only [decon_intersect, Bool.not_eq_true', decide_eq_false_iff_not, not_or, not_lt,
    gt_iff_lt] at hint
  obtain ⟨a, b, c, d⟩ := hint
  obtain ⟨e, f⟩ := h1
  obtain ⟨g, h⟩ := h2
  simp only [decon_intersection]
  refine ⟨?_, ?_, ?_, ?_, ?_, ?_, ?_, ?_, ?_, ?_⟩ <;> omega

/-- C17 at the rectangles [0, 9] x [0, 9] and [5, 14] x [5, 14], whose intersection is
[5, 9] x [5, 9]. -/
theorem decon_intersection_valid_witness :
    (decon_intersection { left := 0, top := 0, right := 9, bottom := 9 }
      { left := 5, top := 5, right := 14, bottom := 14 }).left ≤
    (decon_intersection { left := 0, top := 0, right := 9, bottom := 9 }
      { left := 5, top := 5, right := 14, bottom := 14 }).right ∧
    (decon_intersection { left := 0, top := 0, right := 9, bottom := 9 }
      { left := 5, top := 5, right := 14, bottom := 14 }).top ≤
    (decon_intersection { left := 0, top := 0, right := 9, bottom := 9 }
      { left := 5, top := 5, right := 14, bottom := 14 }).bottom :=
  ⟨(decon_intersection_valid { left := 0, top := 0, right := 9, bottom := 9 }
      { left := 5, top := 5, right := 14, bottom := 14 } (by decide) (by decide) (by decide)).1,
   (decon_intersection_valid { left := 0, top := 0, right := 9, bottom := 9 }
      { left := 5, top := 5, right := 14, bottom := 14 } (by decide) (by decide)
      (by decide)).2.1⟩

/-! ## C18: decon_validate_x_alignment -/

/-- C18 as stated fails when `x + w` leaves the `u32` range: for 3 bits per pixel the
alignment is 32 / 3 = 10; `x = 10` and `x + w = 4294967300` are both multiples of
10, yet the function returns false, because it tests `(x + w) mod 2^32 = 4`. -/
theorem x_alignment_wraps :
    decon_validate_x_alignment 10 4294967290 3 = false ∧
    (((32 / 3 : Nat) : Int) ∣ (10 : Int)) ∧
    (((32 / 3 : Nat) : Int) ∣ ((10 : Int) + ((4294967290 : Nat) : Int))) := by
  decide

/-- C18, amended. For `1 <= b <= 32` and an `int` `x >= 0`, the function returns
true exactly when `x` and `(x + w) mod 2^32` (the `u32` sum that the code forms)
are both multiples of `32 / b`; when `x + w` stays below `2^32` this is: `x` and
`x + w` are both multiples of `32 / b`. -/
theorem decon_validate_x_alignment_spec (x : Int) (w b : Nat)
    (hb : 1 ≤ b ∧ b ≤ 32) (hx : 0 ≤ x ∧ x < 2147483648) :
    (decon_validate_x_alignment x w b = true ↔
      (((32 / b : Nat) : Int) ∣ x ∧ ((32 / b : Nat) : Int) ∣ (x + (w : Int)) % 4294967296)) ∧
    (x + (w : Int) < 4294967296 →
      (decon_validate_x_alignment x w b = true ↔
        (((32 / b : Nat) : Int) ∣ x ∧ ((32 / b : Nat) : Int) ∣ (x + (w : Int))))) := by
  obtain ⟨hb1, hb2⟩ := hb
  obtain ⟨hx1, hx2⟩ := hx
  obtain ⟨n, rfl⟩ := Int.eq_ofNat_of_zero_le hx1
  have hpa : 32 / b % 256 = 32 / b := by
    apply Nat.mod_eq_of_lt
    have : 32 / b ≤ 32 := Nat.div_le_self 32 b
    omega
  have hn : n < 2147483648 := by exact_mod_cast hx2
  have hconv : int_to_u32 (n : Int) = n := by
    unfold int_to_u32
    omega
  have hmain : decon_validate_x_alignment (n : Int) w b = true ↔
      (((32 / b : Nat) : Int) ∣ (n : Int) ∧
        ((32 / b : Nat) : Int) ∣ ((n : Int) + (w : Int)) % 4294967296) := by
    unfold decon_validate_x_alignment
    dsimp only
    rw [hpa, hconv]
    have e1 : Int.tmod (n : Int) ((32 / b : Nat) : Int) = ((n % (32 / b) : Nat) : Int) := by
      rw [Int.tmod_eq_emod (Int.ofNat_nonneg n) (Int.ofNat_nonneg _)]
      exact (Int.natCast_mod n _).symm
    have e2 : ((n : Int) + (w : Int)) % 4294967296 = (((n + w) % 4294967296 : Nat) : Int) := by
      rw [Int.natCast_mod, Int.natCast_add]
      rfl
    rw [e2]
    unfold u32
    rw [Int.natCast_dvd_natCast, Int.natCast_dvd_natCast, Nat.dvd_iff_mod_eq_zero,
      Nat.dvd_iff_mod_eq_zero]
    by_cases c1 : n % (32 / b) = 0
    · have h1 : ¬ Int.tmod (n : Int) ((32 / b : Nat) : Int) ≠ 0 := by
        rw [e1, c1]
        exact fun h => h rfl
      rw [if_neg h1]
      by_cases c2 : (n + w) % 4294967296 % (32 / b) = 0
      · rw [if_neg (fun h => h c2)]
        exact ⟨fun _ => ⟨c1, c2⟩, fun _ => rfl⟩
      · rw [if_pos c2]
        exact ⟨fun h => absurd h (by decide), fun h => absurd h.2 c2⟩
    · have h1 : Int.tmod (n : Int) ((32 / b : Nat) : Int) ≠ 0 := by
        rw [e1]
        exact_mod_cast c1
      rw [if_pos h1]
      exact ⟨fun h => absurd h (by decide), fun h => absurd h.1 c1⟩
  refine ⟨hmain, ?_⟩
  intro hlt
  rw [hmain]
  have hmod : ((n : Int) + (w : Int)) % 4294967296 = (n : Int) + (w : Int) := by
    apply Int.emod_eq_of_lt
    · omega
    · exact hlt
  rw [hmod]

/-- C18, amended, at the two requests of the specification: at 16 bits per pixel
(alignment 2), `x = 4, w = 6` is aligned and `x = 3, w = 5` is not. -/
theorem decon_validate_x_alignment_spec_witness :
    decon_validate_x_alignment 4 6 16 = true ∧ decon_validate_x_alignment 3 5 16 = false :=
  ⟨((decon_validate_x_alignment_spec 4 6 16 (by decide) (by decide)).1).2 (by decide),
   by decide⟩

/-! ## C15: decon_calibrate_win_update_size -/

theorem and_not32_seven (n : Nat) (hn : n < 4294967296) : n &&& not32 7 = n - n % 8 := by
  have h8 : n - n % 8 = (n >>> 3) <<< 3 := by
    rw [Nat.shiftLeft_eq, Nat.shiftRight_eq_div_pow]
    have := Nat.div_add_mod n 8
    norm_num
    omega
  rw [h8]
  apply Nat.eq_of_testBit_eq
  intro i
  have h32 : (4294967295 : Nat) = 2 ^ 32 - 1 := by norm_num
  have h7 : (7 % 4294967296 : Nat) = 2 ^ 3 - 1 := by norm_num
  simp only [not32, Nat.testBit_and, Nat.testBit_xor, h32, h7, Nat.testBit_two_pow_sub_one,
    Nat.testBit_shiftLeft, Nat.testBit_shiftRight]
  by_cases h3 : i < 3
  · have h32i : i < 32 := by omega
    have hn3 : ¬ 3 ≤ i := by omega
    simp [h3, h32i, hn3]
  · by_cases hi : i < 32
    · have e : 3 + (i - 3) = i := by omega
      simp [h3, hi, e]
      intro _
      omega
    · have hf : n.testBit i = false := by
        apply Nat.testBit_lt_two_pow
        calc n < 2 ^ 32 := by norm_num; exact hn
          _ ≤ 2 ^ i := Nat.pow_le_pow_right (by norm_num) (by omega)
      have e : 3 + (i - 3) = i := by omega
      simp [hf, e]

theorem and_seven (n : Nat) : n &&& 7 = n % 8 := by
  have := Nat.and_pow_two_sub_one_eq_mod n 3
  norm_num at this
  exact this

theorem int_to_u32_natCast (n : Nat) (hn : n < 4294967296) : int_to_u32 (n : Int) = n := by
  unfold int_to_u32
  omega

theorem u32_to_int_small (n : Nat) (hn : n < 2147483648) : u32_to_int n = (n : Int) := by
  unfold u32_to_int
  have h : n % 4294967296 = n := Nat.mod_eq_of_lt (by omega)
  rw [h, if_pos hn]

theorem int_and_seven (n : Nat) (hn : n < 2147483648) :
    int_and (n : Int) 7 = ((n % 8 : Nat) : Int) := by
  unfold int_and
  have h7 : int_to_u32 7 = 7 := by decide
  rw [int_to_u32_natCast n (by omega), h7, and_seven]
  exact u32_to_int_small _ (by omega)

theorem int_and_not_seven (n : Nat) (hn : n < 2147483648) :
    int_and (n : Int) (-8) = ((n - n % 8 : Nat) : Int) := by
  unfold int_and
  have h8 : int_to_u32 (-8) = not32 7 := by decide
  rw [int_to_u32_natCast n (by omega), h8, and_not32_seven n (by omega)]
  exact u32_to_int_small _ (by omega)

/-- The request that `decon_calibrate_win_update_size` leaves when it accepts an
UPDATE-state request. -/
theorem calibrate_accepted (H : decon_h) (decon : decon_device) (uc : decon_win_config)
    (hs : uc.state = H.DECON_WIN_STATE_UPDATE) (hx0 : 0 ≤ uc.dst.x)
    (hx1 : uc.dst.x < 2147483648) (hy0 : 0 ≤ uc.dst.y) (hw : uc.dst.w < 4294967296)
    (hsw : decon.update_win.w ≠ 0) (hsh : decon.update_win.h ≠ 0) :
    (decon_calibrate_win_update_size H decon uc).state = H.DECON_WIN_STATE_UPDATE ∧
    (decon_calibrate_win_update_size H decon uc).dst.y = uc.dst.y ∧
    (decon_calibrate_win_update_size H decon uc).dst.h = uc.dst.h ∧
    (decon_calibrate_win_update_size H decon uc).dst.x =
      (if calibration_exceeds uc.dst.x uc.dst.w decon.lcd_info.xres then 0
        else calibrated_x uc.dst.x) ∧
    (decon_calibrate_win_update_size H decon uc).dst.w =
      (if calibration_exceeds uc.dst.x uc.dst.w decon.lcd_info.xres then decon.lcd_info.xres
        else calibrated_w uc.dst.x uc.dst.w) := by
  obtain ⟨n, hn⟩ := Int.eq_ofNat_of_zero_le hx0
  have hn31 : n < 2147483648 := by omega
  have hnot : ¬ (uc.dst.x < 0 ∨ uc.dst.y < 0) := by omega
  have hnz : ¬ (decon.update_win.w = 0 ∨ decon.update_win.h = 0) := by
    intro h
    rcases h with h | h
    · exact hsw h
    · exact hsh h
  unfold decon_calibrate_win_update_size
  rw [if_neg (fun h => h hs), if_neg hnot, if_neg hnz]
  lift_lets
  intro dst0 d1 dst1 dst2 dst3
  have hx : dst0.x = (n : Int) := hn
  have ha7 : int_and dst0.x 7 = ((n % 8 : Nat) : Int) := by
    rw [hx]
    exact int_and_seven n hn31
  have f1 : dst1.x = ((n - n % 8 : Nat) : Int) ∧ dst1.y = uc.dst.y ∧ dst1.h = uc.dst.h ∧
      dst1.w = (uc.dst.w + n % 8) % 4294967296 := by
    by_cases c : n % 8 = 0
    · have hc : ¬ int_and dst0.x 7 ≠ 0 := by
        rw [ha7, c]
        exact fun h => h rfl
      simp only [dst1, if_neg hc]
      refine ⟨?_, trivial, trivial, ?_⟩
      · rw [hx, c]
        rfl
      · rw [c]
        exact (Nat.mod_eq_of_lt hw).symm
    · have hc : int_and dst0.x 7 ≠ 0 := by
        rw [ha7]
        exact_mod_cast c
      simp only [dst1, if_pos hc]
      refine ⟨?_, trivial, trivial, ?_⟩
      · show int_and dst0.x (-8) = _
        rw [hx]
        exact int_and_not_seven n hn31
      · show u32 (dst0.w + int_to_u32 (int_and dst0.x 7)) = _
        rw [ha7, int_to_u32_natCast _ (by omega)]
        rfl
  have hs7 : u32 (dst1.w + 7) = (uc.dst.w + n % 8 + 7) % 4294967296 := by
    rw [f1.2.2.2]
    unfold u32
    omega
  have f2 : dst2.x = ((n - n % 8 : Nat) : Int) ∧ dst2.y = uc.dst.y ∧ dst2.h = uc.dst.h ∧
      dst2.w = calibrated_w uc.dst.x uc.dst.w := by
    refine ⟨f1.1, f1.2.1, f1.2.2.1, ?_⟩
    show u32 (dst1.w + 7) &&& not32 7 = _
    rw [hs7, and_not32_seven _ (Nat.mod_lt _ (by norm_num))]
    unfold calibrated_w
    have e : (uc.dst.x % 8).toNat = n % 8 := by
      rw [hn]
      omega
    rw [e]
  have hcx : calibrated_x uc.dst.x = ((n - n % 8 : Nat) : Int) := by
    unfold calibrated_x
    rw [hn]
    omega
  have hcond : u32 (int_to_u32 dst2.x + dst2.w) > decon.lcd_info.xres ↔
      calibration_exceeds uc.dst.x uc.dst.w decon.lcd_info.xres := by
    unfold calibration_exceeds
    rw [f2.1, f2.2.2.2, hcx, int_to_u32_natCast _ (by omega)]
    rfl
  by_cases hex : calibration_exceeds uc.dst.x uc.dst.w decon.lcd_info.xres
  · have hc := hcond.2 hex
    simp only [dst3, if_pos hc, if_pos hex]
    exact ⟨hs, f2.2.1, f2.2.2.1, trivial, trivial⟩
  · have hc : ¬ u32 (int_to_u32 dst2.x + dst2.w) > decon.lcd_info.xres := fun h => hex (hcond.1 h)
    simp only [dst3, if_neg hc, if_neg hex]
    exact ⟨hs, f2.2.1, f2.2.2.1, f2.1.trans hcx.symm, f2.2.2.2⟩

/-- C15. For an UPDATE-state request: with `x >= 0`, `y >= 0` and a stored update
rectangle of non-zero width and height, `decon_calibrate_win_update_size` leaves
the state, `y` and `h` alone and computes `x' = x & ~7` (`calibrated_x`) and
`w' = (w + (x & 7) + 7) & ~7` (`calibrated_w`, in `u32`), replaced by `x' = 0`,
`w' = xres` when `x' + w' > xres`; with a negative `x` or `y` it only sets the
state to Disabled. -/
theorem decon_calibrate_win_update_size_spec (H : decon_h) (decon : decon_device)
    (uc : decon_win_config) (hs : uc.state = H.DECON_WIN_STATE_UPDATE) :
    (0 ≤ uc.dst.x → uc.dst.x < 2147483648 → 0 ≤ uc.dst.y → uc.dst.w < 4294967296 →
      decon.update_win.w ≠ 0 → decon.update_win.h ≠ 0 →
      (decon_calibrate_win_update_size H decon uc).state = H.DECON_WIN_STATE_UPDATE ∧
      (decon_calibrate_win_update_size H decon uc).dst.y = uc.dst.y ∧
      (decon_calibrate_win_update_size H decon uc).dst.h = uc.dst.h ∧
      (decon_calibrate_win_update_size H decon uc).dst.x =
        (if calibration_exceeds uc.dst.x uc.dst.w decon.lcd_info.xres then 0
          else calibrated_x uc.dst.x) ∧
      (decon_calibrate_win_update_size H decon uc).dst.w =
        (if calibration_exceeds uc.dst.x uc.dst.w decon.lcd_info.xres then decon.lcd_info.xres
          else calibrated_w uc.dst.x uc.dst.w)) ∧
    ((uc.dst.x < 0 ∨ uc.dst.y < 0) →
      decon_calibrate_win_update_size H decon uc =
        { uc with state := H.DECON_WIN_STATE_DISABLED }) := by
  constructor
  · intro hx0 hx1 hy0 hw hsw hsh
    exact calibrate_accepted H decon uc hs hx0 hx1 hy0 hw hsw hsh
  · intro hneg
    unfold decon_calibrate_win_update_size
    rw [if_neg (fun h => h hs), if_pos hneg]

/-- C15 at the request (3, 10, 50, 50) on the 720-wide panel: the result is
(0, 10, 56, 50). -/
theorem decon_calibrate_win_update_size_spec_witness :
    (decon_calibrate_win_update_size sample_h sample_decon (update_request 3 10 50 50)).dst.x =
      0 ∧
    (decon_calibrate_win_update_size sample_h sample_decon (update_request 3 10 50 50)).dst.y =
      10 ∧
    (decon_calibrate_win_update_size sample_h sample_decon (update_request 3 10 50 50)).dst.w =
      56 ∧
    (decon_calibrate_win_update_size sample_h sample_decon (update_request 3 10 50 50)).dst.h =
      50 :=
  ⟨((decon_calibrate_win_update_size_spec sample_h sample_decon (update_request 3 10 50 50)
      rfl).1 (by decide) (by decide) (by decide) (by decide) (by decide)
      (by decide)).2.2.2.1.trans (by decide),
   by decide, by decide, by decide⟩

/-! ## C20: decon_wait_for_vsync -/

theorem s32_of_range (x : Int) (h1 : -2147483648 ≤ x) (h2 : x < 2147483648) : s32 x = x := by
  unfold s32 u32_to_int int_to_u32
  split <;> omega

theorem s32_succ_pred (r : Int) (h1 : -2147483648 ≤ r) (h2 : r < 2147483648) :
    s32 (s32 (r + 1) - 1) = r := by
  unfold s32 u32_to_int int_to_u32
  split <;> split <;> omega

theorem activate_vsync_fields (decon : decon_device) :
    (decon_activate_vsync decon).vsync_irq_refcount = s32 (decon.vsync_irq_refcount + 1) ∧
    (decon_activate_vsync decon).psr_mode = decon.psr_mode ∧
    (decon_activate_vsync decon).ignore_vsync = decon.ignore_vsync ∧
    ∃ l, (decon_activate_vsync decon).log = decon.log ++ l := by
  unfold decon_activate_vsync
  dsimp only
  split_ifs
  · exact ⟨rfl, rfl, rfl, _, rfl⟩
  · exact ⟨rfl, rfl, rfl, [], (List.append_nil _).symm⟩

theorem deactivate_vsync_fields (decon : decon_device) :
    (decon_deactivate_vsync decon).vsync_irq_refcount = s32 (decon.vsync_irq_refcount - 1) ∧
    (decon_deactivate_vsync decon).psr_mode = decon.psr_mode ∧
    (decon_deactivate_vsync decon).ignore_vsync = decon.ignore_vsync ∧
    ∃ l, (decon_deactivate_vsync decon).log = decon.log ++ l := by
  unfold decon_deactivate_vsync
  dsimp only
  split_ifs
  · exact ⟨rfl, rfl, rfl, _, rfl⟩
  · exact ⟨rfl, rfl, rfl, [], (List.append_nil _).symm⟩

/-- When vsync is not being ignored on entry, `decon_wait_for_vsync` sleeps; it
returns 0 if vsync is being ignored when the sleep returns, and by the result of the
sleep otherwise.  The refcount is restored, the sleep is recorded, and the device
holds `ignore_vsync` as it is when the sleep returns. -/
theorem wait_for_vsync_sleeps (hw : hw_env) (decon : decon_device) (timeout : Nat)
    (hr : -2147483648 ≤ decon.vsync_irq_refcount ∧ decon.vsync_irq_refcount < 2147483648)
    (hig : ¬ vsync_ignored decon) :
    ∃ d4 : decon_device, d4.vsync_irq_refcount = decon.vsync_irq_refcount ∧
      kcall.wait_event_vsync timeout ∈ d4.log ∧
      d4.ignore_vsync = vsync_flag_after_wait hw decon ∧
      decon_wait_for_vsync hw decon timeout =
        (if vsync_ignored_after_wait hw decon then (0, d4)
         else if timeout ≠ 0 ∧ vsync_wait_result hw decon = 0 then (-ETIMEDOUT, d4)
         else (0, d4)) := by
  have hig0 : ¬ (decon.psr_mode = decon_psr_mode.MIPI_COMMAND_MODE ∧
      decon.ignore_vsync = true) := hig
  unfold decon_wait_for_vsync
  rw [if_neg hig0]
  lift_lets
  intro activate d1 ret woken d2 d3 d4
  have hd1 : d1 = vsync_wait_device decon := by
    unfold vsync_wait_device
    by_cases hp : decon.trig_mode = decon_trig_mode.SW_TRIG ∨
        decon.psr_mode = decon_psr_mode.VIDEO_MODE
    · simp only [d1, activate, hp, decide_True, if_true]
    · simp only [d1, activate, hp, decide_False, if_false, Bool.false_eq_true]
  have hret : ret = vsync_wait_result hw decon := by
    show hw.wait_event_vsync d1.log.length = _
    rw [hd1]
    rfl
  have f1 : d1.vsync_irq_refcount =
        (if activate then s32 (decon.vsync_irq_refcount + 1) else decon.vsync_irq_refcount) ∧
      d1.psr_mode = decon.psr_mode ∧ d1.ignore_vsync = decon.ignore_vsync := by
    cases ha : activate
    · simp only [d1, ha, Bool.false_eq_true, if_false]
      exact ⟨trivial, trivial, trivial⟩
    · simp only [d1, ha, if_true]
      exact ⟨(activate_vsync_fields decon).1, (activate_vsync_fields decon).2.1,
        (activate_vsync_fields decon).2.2.1⟩
  have hwoken : woken = vsync_flag_after_wait hw decon := by
    show hw.ignore_vsync_after_wait d1.log.length d1.ignore_vsync = _
    rw [f1.2.2, hd1]
    rfl
  have f3 : d3.vsync_irq_refcount = d1.vsync_irq_refcount ∧ d3.psr_mode = d1.psr_mode ∧
      d3.ignore_vsync = woken ∧ kcall.wait_event_vsync timeout ∈ d3.log := by
    refine ⟨rfl, rfl, rfl, ?_⟩
    show kcall.wait_event_vsync timeout ∈ d1.log ++ [kcall.wait_event_vsync timeout]
    simp
  have f4 : d4.vsync_irq_refcount = decon.vsync_irq_refcount ∧
      d4.psr_mode = decon.psr_mode ∧ d4.ignore_vsync = woken ∧
      kcall.wait_event_vsync timeout ∈ d4.log := by
    cases ha : activate
    · rw [ha] at f1
      simp only [d4, ha, Bool.false_eq_true, if_false]
      exact ⟨f3.1.trans f1.1, f3.2.1.trans f1.2.1, trivial, f3.2.2.2⟩
    · rw [ha] at f1
      simp only [d4, ha, if_true]
      obtain ⟨g1, g2, g3, l, g4⟩ := deactivate_vsync_fields d3
      refine ⟨?_, g2.trans (f3.2.1.trans f1.2.1), g3.trans f3.2.2.1, ?_⟩
      · rw [g1, f3.1, f1.1]
        exact s32_succ_pred _ hr.1 hr.2
      · rw [g4]
        exact List.mem_append_left _ f3.2.2.2
  have hcond : (d4.psr_mode = decon_psr_mode.MIPI_COMMAND_MODE ∧ d4.ignore_vsync = true) ↔
      vsync_ignored_after_wait hw decon := by
    unfold vsync_ignored_after_wait
    rw [f4.2.1, f4.2.2.1, hwoken]
  refine ⟨d4, f4.1, f4.2.2.2, f4.2.2.1.trans hwoken, ?_⟩
  rw [hret]
  by_cases hc : vsync_ignored_after_wait hw decon
  · rw [if_pos (hcond.2 hc), if_pos hc]
  · rw [if_neg (fun h => hc (hcond.1 h)), if_neg hc]

/-- C20. `decon_wait_for_vsync` returns `-ETIMEDOUT` exactly when the timeout is
non-zero, the sleep returned 0, and vsync is not being ignored (command mode with
`ignore_vsync` set) at either of the two tests the code makes: on entry, and when the
sleep returns (the flag can be set while the caller sleeps); otherwise it returns 0.
When vsync is being ignored on entry it returns at once: the device is unchanged, no
sleep is recorded.  When it does sleep, the sleep is recorded, the vsync interrupt
refcount (an `int`) is the same on return as on entry, and the device holds
`ignore_vsync` as it is when the sleep returns. -/
theorem decon_wait_for_vsync_spec (hw : hw_env) (decon : decon_device) (timeout : Nat)
    (hr : -2147483648 ≤ decon.vsync_irq_refcount ∧ decon.vsync_irq_refcount < 2147483648) :
    ((decon_wait_for_vsync hw decon timeout).1 = -ETIMEDOUT ↔
      (timeout ≠ 0 ∧ vsync_wait_result hw decon = 0 ∧ ¬ vsync_ignored decon ∧
        ¬ vsync_ignored_after_wait hw decon)) ∧
    ((decon_wait_for_vsync hw decon timeout).1 ≠ -ETIMEDOUT →
      (decon_wait_for_vsync hw decon timeout).1 = 0) ∧
    (vsync_ignored decon → decon_wait_for_vsync hw decon timeout = (0, decon)) ∧
    (¬ vsync_ignored decon →
      (decon_wait_for_vsync hw decon timeout).2.vsync_irq_refcount = decon.vsync_irq_refcount ∧
      kcall.wait_event_vsync timeout ∈ (decon_wait_for_vsync hw decon timeout).2.log ∧
      (decon_wait_for_vsync hw decon timeout).2.ignore_vsync = vsync_flag_after_wait hw decon) := by
  have hne : (0 : Int) ≠ -ETIMEDOUT := by decide
  by_cases hig : vsync_ignored decon
  · have hres : decon_wait_for_vsync hw decon timeout = (0, decon) := by
      have hig0 : decon.psr_mode = decon_psr_mode.MIPI_COMMAND_MODE ∧
          decon.ignore_vsync = true := hig
      unfold decon_wait_for_vsync
      rw [if_pos hig0]
    rw [hres]
    exact ⟨⟨fun h => absurd h hne, fun h => absurd hig h.2.2.1⟩, fun _ => rfl, fun _ => rfl,
      fun h => absurd hig h⟩
  · obtain ⟨d4, hrc, hlog, hflag, hres⟩ := wait_for_vsync_sleeps hw decon timeout hr hig
    rw [hres]
    by_cases ha : vsync_ignored_after_wait hw decon
    · rw [if_pos ha]
      exact ⟨⟨fun h => absurd h hne, fun h => absurd ha h.2.2.2⟩, fun _ => rfl,
        fun h => absurd h hig, fun _ => ⟨hrc, hlog, hflag⟩⟩
    · rw [if_neg ha]
      by_cases hc : timeout ≠ 0 ∧ vsync_wait_result hw decon = 0
      · rw [if_pos hc]
        exact ⟨⟨fun _ => ⟨hc.1, hc.2, hig, ha⟩, fun _ => rfl⟩, fun h => absurd rfl h,
          fun h => absurd h hig, fun _ => ⟨hrc, hlog, hflag⟩⟩
      · rw [if_neg hc]
        exact ⟨⟨fun h => absurd h hne, fun h => absurd ⟨h.1, h.2.1⟩ hc⟩, fun _ => rfl,
          fun h => absurd h hig, fun _ => ⟨hrc, hlog, hflag⟩⟩

/-- C20 on the sample command-mode device when every wait times out: a wait of
200 ms returns `-ETIMEDOUT` with the refcount back at 0; when `ignore_vsync` is set
while the caller sleeps, the same wait returns 0 and the device holds the flag. -/
theorem decon_wait_for_vsync_spec_witness :
    (decon_wait_for_vsync sample_hw_timeout sample_decon 200).1 = -ETIMEDOUT ∧
    (decon_wait_for_vsync sample_hw_timeout sample_decon 200).2.vsync_irq_refcount = 0 ∧
    (decon_wait_for_vsync sample_hw_fault_during_wait sample_decon 200).1 = 0 ∧
    (decon_wait_for_vsync sample_hw_fault_during_wait sample_decon 200).2.ignore_vsync = true :=
  ⟨((decon_wait_for_vsync_spec sample_hw_timeout sample_decon 200 (by decide)).1).2
      (by decide),
   ((decon_wait_for_vsync_spec sample_hw_timeout sample_decon 200 (by decide)).2.2.2
      (by decide)).1,
   (decon_wait_for_vsync_spec sample_hw_fault_during_wait sample_decon 200 (by decide)).2.1
      (fun h => absurd
        (((decon_wait_for_vsync_spec sample_hw_fault_during_wait sample_decon 200
          (by decide)).1).1 h).2.2.2 (by decide)),
   ((decon_wait_for_vsync_spec sample_hw_fault_during_wait sample_decon 200 (by decide)).2.2.2
      (by decide)).2.2⟩

/-! ## C19: a Color-state window with premultiplied blending and a plane alpha -/

/-- For a window other than window 0 without per-pixel alpha (`transp_length` 0),
a plane alpha strictly between 0 and 255 makes `decon_set_alpha_blending` rewrite
premultiplied blending to coverage blending before it calls `blendeq`. -/
theorem alpha_blending_plane_alpha (H : decon_h) (c : decon_win_config) (regs : decon_reg_data)
    (win_no : Nat) (hw : win_no ≠ 0) (hbl : c.blending = H.DECON_BLENDING_PREMULT)
    (hpa : 0 < c.plane_alpha ∧ c.plane_alpha < 255)
    (hc1 : H.DECON_BLENDING_COVERAGE ≠ H.DECON_BLENDING_NONE)
    (hc2 : H.DECON_BLENDING_COVERAGE ≠ H.DECON_BLENDING_PREMULT) :
    (decon_set_alpha_blending H c regs win_no 0).1.blending = H.DECON_BLENDING_COVERAGE ∧
    (decon_set_alpha_blending H c regs win_no 0).2.blendeq (win_no - 1) =
      blend_equation H H.BLENDE_COEF_ALPHA_A H.BLENDE_COEF_ONE_MINUS_ALPHA_A := by
  have hpa2 : c.plane_alpha > 0 ∧ c.plane_alpha < 255 := hpa
  have hbq : blendeq H H.DECON_BLENDING_COVERAGE 0 c.plane_alpha =
      blend_equation H H.BLENDE_COEF_ALPHA_A H.BLENDE_COEF_ONE_MINUS_ALPHA_A := by
    unfold blendeq blend_equation
    dsimp only
    have h0 : ¬ (0 % 256 = 1 ∧ H.DECON_BLENDING_COVERAGE = H.DECON_BLENDING_PREMULT) := by
      intro h
      exact absurd h.1 (by decide)
    rw [if_neg h0, if_neg hc1, if_neg hc2, if_pos rfl]
  unfold decon_set_alpha_blending
  dsimp only
  rw [if_pos hw]
  simp only [hpa2, and_self, decide_True, if_true, ne_eq, not_true_eq_false, if_false, hbl,
    set_at_same]
  exact ⟨trivial, hbq⟩

theorem staged_blendeq (regs : decon_reg_data) (i : Nat) (hi : i ≠ 0) :
    (staged_entries_of regs i).blendeq = regs.blendeq (i - 1) := by
  simp [staged_entries_of, hi]

/-- The body of the window loop stages the coverage equation for a Color-state
window (not window 0) that asks for premultiplied blending with a plane alpha. -/
theorem body_color_blendeq (H : decon_h) (env : kernel_env) (i : Nat) (st : cfg_state)
    (hi : i ≠ 0)
    (h1 : ((win_config_checked H i st).win_config i).state ≠ H.DECON_WIN_STATE_DISABLED)
    (h2 : ((win_config_checked H i st).win_config i).state = H.DECON_WIN_STATE_COLOR)
    (hbl : ((win_config_checked H i st).win_config i).blending = H.DECON_BLENDING_PREMULT)
    (hpa : 0 < ((win_config_checked H i st).win_config i).plane_alpha ∧
      ((win_config_checked H i st).win_config i).plane_alpha < 255)
    (hc1 : H.DECON_BLENDING_COVERAGE ≠ H.DECON_BLENDING_NONE)
    (hc2 : H.DECON_BLENDING_COVERAGE ≠ H.DECON_BLENDING_PREMULT) :
    (win_config_body H env i st).regs.blendeq (i - 1) =
      blend_equation H H.BLENDE_COEF_ALPHA_A H.BLENDE_COEF_ONE_MINUS_ALPHA_A := by
  have hcm := (commit_slot H i (win_config_switch H env i (win_config_checked H i st)
    (H.WIN_MAP_MAP ||| H.WIN_MAP_MAP_COLOUR 0)) i).1
  have hsw : (win_config_switch H env i (win_config_checked H i st)
      (H.WIN_MAP_MAP ||| H.WIN_MAP_MAP_COLOUR 0)).st = color_stage H i (win_config_checked H i st) := by
    unfold win_config_switch
    dsimp only
    rw [if_neg h1, if_pos h2]
  have hb : win_config_body H env i st = win_config_commit H i
      (win_config_switch H env i (win_config_checked H i st)
        (H.WIN_MAP_MAP ||| H.WIN_MAP_MAP_COLOUR 0)) := rfl
  rw [hb, ← staged_blendeq _ i hi, hcm, hsw, staged_blendeq _ i hi]
  unfold color_stage
  dsimp only
  exact (alpha_blending_plane_alpha H _ _ i hi hbl hpa hc1 hc2).2

/-- The body of the window loop enables a window whose `decon_set_win_buffer` call
succeeds, and leaves `ret` at 0. -/
theorem body_buffer_enabled (H : decon_h) (env : kernel_env) (i : Nat) (st : cfg_state)
    (h1 : ((win_config_checked H i st).win_config i).state ≠ H.DECON_WIN_STATE_DISABLED)
    (h2 : ((win_config_checked H i st).win_config i).state ≠ H.DECON_WIN_STATE_COLOR)
    (h3 : ((win_config_checked H i st).win_config i).state = H.DECON_WIN_STATE_BUFFER)
    (h4 : (blocking_stage H i (win_config_checked H i st)).1 = 0)
    (hok : (buffer_stage H env i (blocking_stage H i (win_config_checked H i st)).2).ret = 0) :
    (win_config_body H env i st).ret = 0 ∧
    (win_config_body H env i st).regs.wincon i &&& H.WINCON_ENWIN = H.WINCON_ENWIN := by
  rw [body_at_buffer_call H env i st h1 h2 h3 h4, if_pos hok]
  refine ⟨?_, ?_⟩
  · rw [(commit_decon H i _).2.1]
    exact hok
  · unfold win_config_commit
    dsimp only
    simp only [if_true]
    split_ifs <;> simp only [set_at_same] <;> exact enwin_set _ _ _

/-- C19 as stated fails: above an opaque full-screen Buffer window 0, a Color-state
window 1 with premultiplied blending and plane alpha 128 is staged with the
coverage coefficients (A = `BLENDE_COEF_ALPHA_A`), not with the premultiplied
plane-alpha coefficients (A = `BLENDE_COEF_ALPHA0`).  The submission returns 0 and
window 0 is enabled. -/
theorem color_plane_alpha_uses_coverage :
    (decon_set_win_config sample_h sample_env sample_decon
      (batch_of2 (buffer_request 0 0 720 1280) translucent_color_request)).ret = 0 ∧
    (decon_set_win_config sample_h sample_env sample_decon
      (batch_of2 (buffer_request 0 0 720 1280) translucent_color_request)).regs.blendeq 0 =
        blend_equation sample_h sample_h.BLENDE_COEF_ALPHA_A
          sample_h.BLENDE_COEF_ONE_MINUS_ALPHA_A ∧
    (decon_set_win_config sample_h sample_env sample_decon
      (batch_of2 (buffer_request 0 0 720 1280) translucent_color_request)).regs.blendeq 0 ≠
        blend_equation sample_h sample_h.BLENDE_COEF_ALPHA0
          sample_h.BLENDE_COEF_ONE_MINUS_ALPHA_A ∧
    (decon_set_win_config sample_h sample_env sample_decon
      (batch_of2 (buffer_request 0 0 720 1280) translucent_color_request)).regs.wincon 0 &&&
        sample_h.WINCON_ENWIN = sample_h.WINCON_ENWIN := by
  decide

/-- C19, amended. When window 0 is a Buffer-state window whose
`decon_set_win_buffer` call succeeds and window 1 reaches the switch in Color state
with premultiplied blending and a plane alpha strictly between 0 and 255, the blend
equation staged for window 1 by `decon_set_win_config` uses the coverage
coefficients A = `BLENDE_COEF_ALPHA_A`, B = `BLENDE_COEF_ONE_MINUS_ALPHA_A`
(`decon_set_alpha_blending` rewrites the blending mode to coverage for a window
without per-pixel alpha), and windows 0 and 1 are both enabled in the snapshot. -/
theorem color_plane_alpha_blend (H : decon_h) (env : kernel_env) (decon : decon_device)
    (win_data : decon_win_config_data)
    (hcall0 : calls_set_win_buffer H env decon win_data 0)
    (hok0 : (buffer_call_result H env decon win_data 0).ret = 0)
    (hmax : 1 < decon.max_win)
    (hcol : H.DECON_WIN_STATE_COLOR ≠ H.DECON_WIN_STATE_DISABLED)
    (hstate : ((win_config_checked H 1
      (win_config_before H env decon win_data 1)).win_config 1).state = H.DECON_WIN_STATE_COLOR)
    (hbl : ((win_config_checked H 1
      (win_config_before H env decon win_data 1)).win_config 1).blending =
        H.DECON_BLENDING_PREMULT)
    (hpa : 0 < ((win_config_checked H 1
        (win_config_before H env decon win_data 1)).win_config 1).plane_alpha ∧
      ((win_config_checked H 1
        (win_config_before H env decon win_data 1)).win_config 1).plane_alpha < 255)
    (hc1 : H.DECON_BLENDING_COVERAGE ≠ H.DECON_BLENDING_NONE)
    (hc2 : H.DECON_BLENDING_COVERAGE ≠ H.DECON_BLENDING_PREMULT) :
    (decon_set_win_config H env decon win_data).regs.blendeq 0 =
      blend_equation H H.BLENDE_COEF_ALPHA_A H.BLENDE_COEF_ONE_MINUS_ALPHA_A ∧
    (decon_set_win_config H env decon win_data).regs.wincon 0 &&& H.WINCON_ENWIN =
      H.WINCON_ENWIN ∧
    (decon_set_win_config H env decon win_data).regs.wincon 1 &&& H.WINCON_ENWIN =
      H.WINCON_ENWIN := by
  obtain ⟨hreach, h0max, hret0, a1, a2, a3, a4⟩ := hcall0
  have hb0 := body_buffer_enabled H env 0 (win_config_before H env decon win_data 0) a1 a2 a3 a4
    hok0
  have hnext1 : win_config_before H env decon win_data 1 =
      win_config_body H env 0 (win_config_before H env decon win_data 0) := by
    show win_config_step H env 0 (win_config_before H env decon win_data 0) = _
    exact win_config_step_run H env 0 _ hret0
  have hret1 : (win_config_before H env decon win_data 1).ret = 0 := by
    rw [hnext1]
    exact hb0.1
  have hnext2 : for_loop (win_config_step H env) (1 + 1) (win_config_start H decon win_data) =
      win_config_body H env 1 (win_config_before H env decon win_data 1) := by
    rw [for_loop_succ]
    exact win_config_step_run H env 1 _ hret1
  have hne1 : ((win_config_checked H 1
      (win_config_before H env decon win_data 1)).win_config 1).state ≠
        H.DECON_WIN_STATE_DISABLED := by
    rw [hstate]
    exact hcol
  have hk0 := loop_keeps_earlier H env (win_config_start H decon win_data) 0 decon.max_win
    h0max
  have hk1 := loop_keeps_earlier H env (win_config_start H decon win_data) 1 decon.max_win
    hmax
  rw [set_win_config_main H env decon win_data hreach]
  refine ⟨?_, ?_, ?_⟩
  · have e := (finish_regs_entries H
      (if env.get_unused_fd < 3 then env.get_unused_fd_retry else env.get_unused_fd) win_data
      (for_loop (win_config_step H env) decon.max_win (win_config_start H decon win_data)) 1).1
    have e2 := congrArg staged_entries.blendeq (e.trans hk1.1)
    rw [staged_blendeq _ 1 (by decide), staged_blendeq _ 1 (by decide), hnext2] at e2
    rw [e2]
    exact body_color_blendeq H env 1 _ (by decide) hne1 hstate hbl hpa hc1 hc2
  · rw [(finish_regs_entries H _ _ _ 0).2, hk0.2]
    show (win_config_before H env decon win_data 1).regs.wincon 0 &&& H.WINCON_ENWIN = _
    rw [hnext1]
    exact hb0.2
  · rw [(finish_regs_entries H _ _ _ 1).2, hk1.2, hnext2]
    exact body_color_enabled H env 1 _ hne1 hstate

/-- C19, amended, at the sample batch: an opaque full-screen Buffer window 0 under a
Color-state window 1 with premultiplied blending and plane alpha 128. -/
theorem color_plane_alpha_blend_witness :
    (decon_set_win_config sample_h sample_env sample_decon
      (batch_of2 (buffer_request 0 0 720 1280) translucent_color_request)).regs.blendeq 0 =
        blend_equation sample_h sample_h.BLENDE_COEF_ALPHA_A
          sample_h.BLENDE_COEF_ONE_MINUS_ALPHA_A :=
  (color_plane_alpha_blend sample_h sample_env sample_decon
    (batch_of2 (buffer_request 0 0 720 1280) translucent_color_request)
    (by decide) (by decide) (by decide) (by decide) (by decide) (by decide) (by decide)
    (by decide) (by decide)).1

/-! ## C13, C14: clipping the windows to the update region -/

/-- The source rectangle that an iteration of the clipping loop leaves in the slot
of a window that is not Disabled and meets the update region. -/
theorem clip_slot_src (H : decon_h) (r1 : decon_rect) (i : Nat) (wc : Nat → decon_win_config)
    (hU : H.DECON_WIN_UPDATE_IDX ≠ i)
    (hd : (wc i).state ≠ H.DECON_WIN_STATE_DISABLED)
    (hint : decon_intersect r1 (rect_of_dst (wc i).dst) = true) :
    (win_update_clip H r1 i wc i).src.x =
      (if (wc H.DECON_WIN_UPDATE_IDX).dst.x > (wc i).dst.x then
        s32 ((wc i).src.x + s32 ((wc H.DECON_WIN_UPDATE_IDX).dst.x - (wc i).dst.x))
      else (wc i).src.x) ∧
    (win_update_clip H r1 i wc i).src.y =
      (if (wc H.DECON_WIN_UPDATE_IDX).dst.y > (wc i).dst.y then
        s32 ((wc i).src.y + s32 ((wc H.DECON_WIN_UPDATE_IDX).dst.y - (wc i).dst.y))
      else (wc i).src.y) ∧
    (win_update_clip H r1 i wc i).src.w = (win_update_clip H r1 i wc i).dst.w ∧
    (win_update_clip H r1 i wc i).src.h = (win_update_clip H r1 i wc i).dst.h := by
  unfold win_update_clip
  lift_lets
  intro r2 tmp wl0 s0 wh0 wc1 hl1 s1 hh1 wc2 s2 wc3 s3 wc4 y4 s4 wc5 x5 s5 wc6 s6 wc7 s7 wc8
  have a1 : wc1 H.DECON_WIN_UPDATE_IDX = wc H.DECON_WIN_UPDATE_IDX ∧ (wc1 i).src = (wc i).src := by
    simp only [wc1]
    split_ifs <;> simp [set_dst, set_at, hU]
  have a2 : wc2 H.DECON_WIN_UPDATE_IDX = wc H.DECON_WIN_UPDATE_IDX ∧ (wc2 i).src = (wc i).src := by
    simp only [wc2]
    split_ifs <;> simp [set_dst, set_at, hU, a1]
  have a3 : wc3 H.DECON_WIN_UPDATE_IDX = wc H.DECON_WIN_UPDATE_IDX ∧ (wc3 i).src = (wc i).src := by
    simp [wc3, set_dst, set_at, hU, a2]
  have a4 : wc4 H.DECON_WIN_UPDATE_IDX = wc H.DECON_WIN_UPDATE_IDX ∧ (wc4 i).src = (wc i).src := by
    simp [wc4, set_dst, set_at, hU, a3]
  have a5 : wc5 H.DECON_WIN_UPDATE_IDX = wc H.DECON_WIN_UPDATE_IDX ∧
      (wc5 i).dst = (wc4 i).dst ∧ (wc5 i).src.x = (wc i).src.x ∧
      (wc5 i).src.y =
        (if (wc H.DECON_WIN_UPDATE_IDX).dst.y > (wc i).dst.y then
          s32 ((wc i).src.y + s32 ((wc H.DECON_WIN_UPDATE_IDX).dst.y - (wc i).dst.y))
        else (wc i).src.y) := by
    simp only [wc5, a4.1, tmp]
    split_ifs <;> simp [set_src, set_at, hU, a4, y4, s4, tmp]
  have a6 : (wc6 i).dst = (wc4 i).dst ∧
      (wc6 i).src.x =
        (if (wc H.DECON_WIN_UPDATE_IDX).dst.x > (wc i).dst.x then
          s32 ((wc i).src.x + s32 ((wc H.DECON_WIN_UPDATE_IDX).dst.x - (wc i).dst.x))
        else (wc i).src.x) ∧
      (wc6 i).src.y = (wc5 i).src.y := by
    simp only [wc6, a5.1, tmp]
    split_ifs <;> simp [set_src, set_at, hU, a5, x5, s5, tmp]
  have a7 : (wc7 i).dst = (wc4 i).dst ∧ (wc7 i).src.x = (wc6 i).src.x ∧
      (wc7 i).src.y = (wc6 i).src.y ∧ (wc7 i).src.w = (wc4 i).dst.w := by
    simp [wc7, set_src, set_at, s6, a6]
  have a8 : (wc8 i).dst = (wc4 i).dst ∧ (wc8 i).src.x = (wc6 i).src.x ∧
      (wc8 i).src.y = (wc6 i).src.y ∧ (wc8 i).src.w = (wc4 i).dst.w ∧
      (wc8 i).src.h = (wc4 i).dst.h := by
    simp [wc8, set_src, set_at, s7, a7]
  have hint2 : (!decon_intersect r1 r2) ≠ true := by
    simp only [r2, hint]
    decide
  rw [if_neg hd, if_neg hint2]
  refine ⟨a8.2.1.trans a6.2.1, (a8.2.2.1.trans a6.2.2).trans a5.2.2.2, ?_, ?_⟩
  · rw [a8.2.2.2.1, a8.1]
  · rw [a8.2.2.2.2, a8.1]
theorem far_edge_exact (x : Int) (w : Nat) (h1 : -2147483648 ≤ x + (w : Int) - 1)
    (h2 : x + (w : Int) - 1 < 2147483648) (h3 : -2147483648 ≤ x) (h4 : x < 2147483648) :
    far_edge x w = x + (w : Int) - 1 := by
  unfold far_edge u32_to_int int_to_u32
  split <;> omega

theorem clip_from_low_exact (ux : Int) (uw : Nat) (cx : Int) (cw : Nat)
    (h1 : -2147483648 ≤ ux) (h2 : ux < 2147483648) (h3 : -2147483648 ≤ cx) (h4 : cx < 2147483648)
    (h5 : ux ≤ cx + (cw : Int)) (h6 : cx + (cw : Int) - ux < 4294967296) :
    ((clip_from_low ux uw cx cw : Nat) : Int) = min (uw : Int) (cx + (cw : Int) - ux) := by
  unfold clip_from_low u32 int_to_u32
  omega

theorem clip_from_high_exact (ux : Int) (uw : Nat) (cx : Int) (cw : Nat)
    (h1 : -2147483648 ≤ ux) (h2 : ux < 2147483648) (h3 : -2147483648 ≤ cx) (h4 : cx < 2147483648)
    (h5 : cx ≤ ux + (uw : Int)) (h6 : ux + (uw : Int) - cx < 4294967296) :
    ((clip_from_high ux uw cx cw : Nat) : Int) = min (cw : Int) ((uw : Int) + ux - cx) := by
  unfold clip_from_high u32 int_to_u32
  omega

theorem u32_sum_exact (x : Int) (w : Nat) (h1 : 0 ≤ x + (w : Int)) (h2 : x + (w : Int) < 4294967296)
    (h3 : -2147483648 ≤ x) (h4 : x < 2147483648) :
    ((u32 (int_to_u32 x + w) : Nat) : Int) = x + (w : Int) := by
  unfold u32 int_to_u32
  omega

theorem clip_loop_before (H : decon_h) (r1 : decon_rect) (k n : Nat) (wc : Nat → decon_win_config)
    (hn : n ≤ k) : for_loop (win_update_clip H r1) n wc k = wc k := by
  apply for_loop_inv (fun a : Nat → decon_win_config => a k = wc k)
  · rfl
  · intro j s hj hs
    have hkj : k ≠ j := by omega
    exact (clip_other H r1 j k s hkj).trans hs

theorem clip_loop_after (H : decon_h) (r1 : decon_rect) (i : Nat) (wc : Nat → decon_win_config) :
    ∀ n, i + 1 ≤ n →
      for_loop (win_update_clip H r1) n wc i = for_loop (win_update_clip H r1) (i + 1) wc i := by
  intro n hn
  induction n with
  | zero => omega
  | succ k ih =>
    rcases Nat.lt_succ_iff_lt_or_eq.1 (Nat.lt_succ_of_le hn) with hlt | heq
    · have hne : i ≠ k := by omega
      rw [for_loop_succ, clip_other H r1 k i _ hne]
      exact ih (by omega)
    · rw [heq]

/-- With an update request in Update state, the request that
`decon_set_win_update_config` leaves for window `i` is the one that iteration `i`
of the clipping loop computes from the original request of window `i` and the
calibrated update request. -/
theorem update_config_slot (H : decon_h) (d : decon_device) (wc : Nat → decon_win_config)
    (regs : decon_reg_data) (i : Nat)
    (hs : (update_request_of H d wc).state = H.DECON_WIN_STATE_UPDATE)
    (hn : d.max_win ≤ H.DECON_WIN_UPDATE_IDX) (hi : i < d.max_win) :
    ∃ a : Nat → decon_win_config, a i = wc i ∧
      a H.DECON_WIN_UPDATE_IDX = update_request_of H d wc ∧
      clipped_request H d wc regs i =
        win_update_clip H (rect_of_dst (update_request_of H d wc).dst) i a i := by
  have hiU : i ≠ H.DECON_WIN_UPDATE_IDX := by omega
  refine ⟨for_loop (win_update_clip H (rect_of_dst (update_request_of H d wc).dst)) i
    (set_at wc H.DECON_WIN_UPDATE_IDX (update_request_of H d wc)), ?_, ?_, ?_⟩
  · rw [clip_loop_before H _ i i _ (Nat.le_refl i)]
    exact set_at_other _ _ _ _ hiU
  · rw [clip_loop_before H _ H.DECON_WIN_UPDATE_IDX i _ (by omega)]
    exact set_at_same _ _ _
  · have hloop := clip_loop_after H (rect_of_dst (update_request_of H d wc).dst) i
      (set_at wc H.DECON_WIN_UPDATE_IDX (update_request_of H d wc)) d.max_win hi
    rw [for_loop_succ] at hloop
    rw [← hloop]
    unfold update_request_of at hs ⊢
    unfold clipped_request decon_set_win_update_config
    dsimp only
    simp only [set_at_same]
    have hs2 : ¬ (decon_calibrate_win_update_size H d (wc H.DECON_WIN_UPDATE_IDX)).state ≠
        H.DECON_WIN_STATE_UPDATE := fun h => h hs
    split_ifs <;> first | rfl | (exfalso; tauto)


theorem clip_width_exact (ux : Int) (uw : Nat) (dx : Int) (dw : Nat)
    (hu : span_within 0 ux uw) (hd : span_within (-1073741824) dx dw) (hw : 1 ≤ dw)
    (hm : ¬ spans_apart ux uw dx dw) :
    (((if ux > dx then clip_from_low ux uw dx dw
      else if u32 (int_to_u32 ux + uw) < u32 (int_to_u32 dx + dw) then
        clip_from_high ux uw dx dw
      else dw : Nat) : Nat) : Int) = min (dx + (dw : Int)) (ux + (uw : Int)) - max dx ux := by
  unfold span_within at hu hd
  unfold spans_apart at hm
  by_cases h1 : ux > dx
  · rw [if_pos h1, clip_from_low_exact ux uw dx dw (by omega) (by omega) (by omega) (by omega)
      (by omega) (by omega)]
    omega
  · rw [if_neg h1]
    have e1 := u32_sum_exact ux uw (by omega) (by omega) (by omega) (by omega)
    have e2 := u32_sum_exact dx dw (by omega) (by omega) (by omega) (by omega)
    by_cases h2 : u32 (int_to_u32 ux + uw) < u32 (int_to_u32 dx + dw)
    · rw [if_pos h2, clip_from_high_exact ux uw dx dw (by omega) (by omega) (by omega) (by omega)
        (by omega) (by omega)]
      omega
    · rw [if_neg h2]
      omega

theorem clip_origin_exact (ux dx : Int) (hu : 0 ≤ ux ∧ ux ≤ 1073741824)
    (hd : -1073741824 ≤ dx ∧ dx ≤ 1073741824) :
    max (s32 (dx - ux)) 0 = max dx ux - ux := by
  rw [s32_of_range (dx - ux) (by omega) (by omega)]
  omega

theorem intersect_iff_not_apart (u d : decon_frame)
    (hux : span_within 0 u.x u.w) (huy : span_within 0 u.y u.h)
    (hdx : span_within (-1073741824) d.x d.w) (hdy : span_within (-1073741824) d.y d.h)
    (hw : 1 ≤ d.w ∧ 1 ≤ d.h) :
    decon_intersect (rect_of_dst u) (rect_of_dst d) = true ↔
      ¬ (spans_apart u.x u.w d.x d.w ∨ spans_apart u.y u.h d.y d.h) := by
  unfold span_within at hux huy hdx hdy
  unfold spans_apart
  have f1 := far_edge_exact u.x u.w (by omega) (by omega) (by omega) (by omega)
  have f2 := far_edge_exact u.y u.h (by omega) (by omega) (by omega) (by omega)
  have f3 := far_edge_exact d.x d.w (by omega) (by omega) (by omega) (by omega)
  have f4 := far_edge_exact d.y d.h (by omega) (by omega) (by omega) (by omega)
  unfold decon_intersect rect_of_dst
  dsimp only
  rw [f1, f2, f3, f4]
  clear f1 f2 f3 f4 hux huy hdx hdy hw
  rw [Bool.not_eq_true', decide_eq_false_iff_not]
  constructor
  · intro h ha
    apply h
    rcases ha with (ha | ha) | (ha | ha)
    · right; left; omega
    · left; omega
    · right; right; right; omega
    · right; right; left; omega
  · intro h ha
    apply h
    rcases ha with ha | ha | ha | ha
    · left; right; omega
    · left; left; omega
    · right; right; omega
    · right; left; omega

/-- C13 as stated fails when the far edge `x + w - 1` of the destination leaves the
`u32` range. Window 0 asks for x = 5, w = 4294967295 (h = 10); its far edge wraps
to 3, so it meets the update region [0, 720) x [0, 1280), is not disabled, and
keeps the width 4294967295, which is neither the width 715 of the intersection nor
inside [0, 720). -/
theorem clip_keeps_wrapped_width :
    (update_request_of sample_h sample_decon
      (batch_with_update (buffer_request 5 0 4294967295 10)
        (update_request 0 0 720 1280)).config).state = sample_h.DECON_WIN_STATE_UPDATE ∧
    (update_request_of sample_h sample_decon
      (batch_with_update (buffer_request 5 0 4294967295 10)
        (update_request 0 0 720 1280)).config).dst.w = 720 ∧
    (clipped_request sample_h sample_decon
      (batch_with_update (buffer_request 5 0 4294967295 10)
        (update_request 0 0 720 1280)).config regs_zero 0).state ≠
      sample_h.DECON_WIN_STATE_DISABLED ∧
    (clipped_request sample_h sample_decon
      (batch_with_update (buffer_request 5 0 4294967295 10)
        (update_request 0 0 720 1280)).config regs_zero 0).dst.w = 4294967295 := by
  decide

/-- C13, amended. Let U be the calibrated update request, in Update state, with
the update slot outside the window slots, and let window `i` be not Disabled with
destination D, `w, h >= 1`.  If all edges of D lie in [-2^30, 2^30] and all edges
of U in [0, 2^30] (so that no edge sum wraps in `int` or `u32`), then
`decon_set_win_update_config` disables the window when D and U are disjoint, and
otherwise keeps its state and replaces its destination by the intersection of D
and U relative to the origin of U, which lies inside [0, U.w) x [0, U.h). -/
theorem clip_is_intersection (H : decon_h) (d : decon_device) (wc : Nat → decon_win_config)
    (regs : decon_reg_data) (i : Nat)
    (hs : (update_request_of H d wc).state = H.DECON_WIN_STATE_UPDATE)
    (hn : d.max_win ≤ H.DECON_WIN_UPDATE_IDX) (hi : i < d.max_win)
    (hd : (wc i).state ≠ H.DECON_WIN_STATE_DISABLED)
    (hw : 1 ≤ (wc i).dst.w ∧ 1 ≤ (wc i).dst.h)
    (hdx : span_within (-1073741824) (wc i).dst.x (wc i).dst.w)
    (hdy : span_within (-1073741824) (wc i).dst.y (wc i).dst.h)
    (hux : span_within 0 (update_request_of H d wc).dst.x (update_request_of H d wc).dst.w)
    (huy : span_within 0 (update_request_of H d wc).dst.y (update_request_of H d wc).dst.h) :
    ((spans_apart (update_request_of H d wc).dst.x (update_request_of H d wc).dst.w
          (wc i).dst.x (wc i).dst.w ∨
        spans_apart (update_request_of H d wc).dst.y (update_request_of H d wc).dst.h
          (wc i).dst.y (wc i).dst.h) →
      (clipped_request H d wc regs i).state = H.DECON_WIN_STATE_DISABLED) ∧
    (¬ (spans_apart (update_request_of H d wc).dst.x (update_request_of H d wc).dst.w
          (wc i).dst.x (wc i).dst.w ∨
        spans_apart (update_request_of H d wc).dst.y (update_request_of H d wc).dst.h
          (wc i).dst.y (wc i).dst.h) →
      (clipped_request H d wc regs i).state = (wc i).state ∧
      (clipped_request H d wc regs i).dst.x =
        max (wc i).dst.x (update_request_of H d wc).dst.x - (update_request_of H d wc).dst.x ∧
      (clipped_request H d wc regs i).dst.y =
        max (wc i).dst.y (update_request_of H d wc).dst.y - (update_request_of H d wc).dst.y ∧
      (((clipped_request H d wc regs i).dst.w : Nat) : Int) =
        min ((wc i).dst.x + ((wc i).dst.w : Int))
            ((update_request_of H d wc).dst.x + ((update_request_of H d wc).dst.w : Int)) -
          max (wc i).dst.x (update_request_of H d wc).dst.x ∧
      (((clipped_request H d wc regs i).dst.h : Nat) : Int) =
        min ((wc i).dst.y + ((wc i).dst.h : Int))
            ((update_request_of H d wc).dst.y + ((update_request_of H d wc).dst.h : Int)) -
          max (wc i).dst.y (update_request_of H d wc).dst.y ∧
      0 ≤ (clipped_request H d wc regs i).dst.x ∧
      (clipped_request H d wc regs i).dst.x + (((clipped_request H d wc regs i).dst.w : Nat) : Int)
        ≤ (((update_request_of H d wc).dst.w : Nat) : Int) ∧
      0 ≤ (clipped_request H d wc regs i).dst.y ∧
      (clipped_request H d wc regs i).dst.y + (((clipped_request H d wc regs i).dst.h : Nat) : Int)
        ≤ (((update_request_of H d wc).dst.h : Nat) : Int)) := by
  obtain ⟨a, hai, haU, hres⟩ := update_config_slot H d wc regs i hs hn hi
  have hUi : H.DECON_WIN_UPDATE_IDX ≠ i := by omega
  have hda : (a i).state ≠ H.DECON_WIN_STATE_DISABLED := by
    rw [hai]
    exact hd
  have hiff := intersect_iff_not_apart (update_request_of H d wc).dst (wc i).dst hux huy hdx hdy hw
  rw [hres]
  constructor
  · intro hap
    have hint : decon_intersect (rect_of_dst (update_request_of H d wc).dst)
        (rect_of_dst (a i).dst) ≠ true := by
      rw [hai]
      exact fun h => (hiff.1 h) hap
    rw [clip_apart H _ i a hda hint]
    simp [set_state, set_at]
  · intro hnap
    have hint : decon_intersect (rect_of_dst (update_request_of H d wc).dst)
        (rect_of_dst (a i).dst) = true := by
      rw [hai]
      exact hiff.2 hnap
    obtain ⟨c1, c2, c3, c4, c5⟩ := clip_slot H _ i a hUi hda hint
    rw [hai] at c1
    rw [hai, haU] at c2 c3 c4 c5
    have hnx : ¬ spans_apart (update_request_of H d wc).dst.x (update_request_of H d wc).dst.w
        (wc i).dst.x (wc i).dst.w := fun h => hnap (Or.inl h)
    have hny : ¬ spans_apart (update_request_of H d wc).dst.y (update_request_of H d wc).dst.h
        (wc i).dst.y (wc i).dst.h := fun h => hnap (Or.inr h)
    have ew := clip_width_exact _ _ _ _ hux hdx hw.1 hnx
    have eh := clip_width_exact _ _ _ _ huy hdy hw.2 hny
    rw [← c2] at ew
    rw [← c3] at eh
    have hux2 : 0 ≤ (update_request_of H d wc).dst.x ∧
        (update_request_of H d wc).dst.x ≤ 1073741824 := by
      unfold span_within at hux
      exact ⟨hux.1, by omega⟩
    have huy2 : 0 ≤ (update_request_of H d wc).dst.y ∧
        (update_request_of H d wc).dst.y ≤ 1073741824 := by
      unfold span_within at huy
      exact ⟨huy.1, by omega⟩
    have hdx2 : -1073741824 ≤ (wc i).dst.x ∧ (wc i).dst.x ≤ 1073741824 := by
      unfold span_within at hdx
      exact ⟨hdx.1, by omega⟩
    have hdy2 : -1073741824 ≤ (wc i).dst.y ∧ (wc i).dst.y ≤ 1073741824 := by
      unfold span_within at hdy
      exact ⟨hdy.1, by omega⟩
    have ex := c4.trans (clip_origin_exact _ _ hux2 hdx2)
    have ey := c5.trans (clip_origin_exact _ _ huy2 hdy2)
    clear c2 c3 c4 c5 hiff hres hint
    refine ⟨c1, ex, ey, ew, eh, ?_, ?_, ?_, ?_⟩
    · rw [ex]
      omega
    · rw [ex, ew]
      omega
    · rw [ey]
      omega
    · rw [ey, eh]
      omega

/-- C13, amended, at a 200 x 200 window at (300, 500) clipped to the update region
360 x 640 at (0, 0): the intersection is 60 x 140 at (300, 500). -/
theorem clip_is_intersection_witness :
    (clipped_request sample_h sample_decon
      (batch_with_update (buffer_request 300 500 200 200) (update_request 0 0 360 640)).config
      regs_zero 0).dst.x = 300 ∧
    (((clipped_request sample_h sample_decon
      (batch_with_update (buffer_request 300 500 200 200) (update_request 0 0 360 640)).config
      regs_zero 0).dst.w : Nat) : Int) = 60 :=
  ⟨((clip_is_intersection sample_h sample_decon
      (batch_with_update (buffer_request 300 500 200 200) (update_request 0 0 360 640)).config
      regs_zero 0 (by decide) (by decide) (by decide) (by decide) (by decide) (by decide)
      (by decide) (by decide) (by decide)).2 (by decide)).2.1.trans (by decide),
   ((clip_is_intersection sample_h sample_decon
      (batch_with_update (buffer_request 300 500 200 200) (update_request 0 0 360 640)).config
      regs_zero 0 (by decide) (by decide) (by decide) (by decide) (by decide) (by decide)
      (by decide) (by decide) (by decide)).2 (by decide)).2.2.2.1.trans (by decide)⟩


/-- C14, amended. For a window that `decon_set_win_update_config` clips and does not disable
(update request U in Update state, update slot outside the window slots, original
destination D), when the `int` updates `src.x += U.x - D.x` and
`src.y += U.y - D.y` do not overflow, the source origin moves by exactly the amount
the destination corner moved, `max(U.x - D.x, 0)` and `max(U.y - D.y, 0)`, and the
source size is set to the clipped destination size. -/
theorem clip_moves_source (H : decon_h) (d : decon_device) (wc : Nat → decon_win_config)
    (regs : decon_reg_data) (i : Nat)
    (hs : (update_request_of H d wc).state = H.DECON_WIN_STATE_UPDATE)
    (hn : d.max_win ≤ H.DECON_WIN_UPDATE_IDX) (hi : i < d.max_win)
    (hd : (wc i).state ≠ H.DECON_WIN_STATE_DISABLED)
    (hclip : (clipped_request H d wc regs i).state ≠ H.DECON_WIN_STATE_DISABLED)
    (hfx : shift_fits (wc i).src.x (update_request_of H d wc).dst.x (wc i).dst.x)
    (hfy : shift_fits (wc i).src.y (update_request_of H d wc).dst.y (wc i).dst.y) :
    (clipped_request H d wc regs i).src.x =
      (wc i).src.x + max ((update_request_of H d wc).dst.x - (wc i).dst.x) 0 ∧
    (clipped_request H d wc regs i).src.y =
      (wc i).src.y + max ((update_request_of H d wc).dst.y - (wc i).dst.y) 0 ∧
    (clipped_request H d wc regs i).src.w = (clipped_request H d wc regs i).dst.w ∧
    (clipped_request H d wc regs i).src.h = (clipped_request H d wc regs i).dst.h := by
  obtain ⟨a, hai, haU, hres⟩ := update_config_slot H d wc regs i hs hn hi
  have hUi : H.DECON_WIN_UPDATE_IDX ≠ i := by omega
  have hda : (a i).state ≠ H.DECON_WIN_STATE_DISABLED := by
    rw [hai]
    exact hd
  rw [hres] at hclip ⊢
  have hint : decon_intersect (rect_of_dst (update_request_of H d wc).dst)
      (rect_of_dst (a i).dst) = true := by
    by_contra hc
    apply hclip
    rw [clip_apart H _ i a hda hc]
    simp [set_state, set_at]
  obtain ⟨c1, c2, c3, c4⟩ := clip_slot_src H _ i a hUi hda hint
  rw [hai, haU] at c1 c2
  have shift : ∀ s u x : Int, shift_fits s u x →
      (if u > x then s32 (s + s32 (u - x)) else s) = s + max (u - x) 0 := by
    intro s u x hf
    unfold shift_fits is_int at hf
    by_cases hgt : u > x
    · rw [if_pos hgt, s32_of_range (u - x) (by omega) (by omega),
        s32_of_range (s + (u - x)) (by omega) (by omega)]
      omega
    · rw [if_neg hgt]
      omega
  exact ⟨c1.trans (shift _ _ _ hfx), c2.trans (shift _ _ _ hfy), c3, c4⟩

/-- C14, amended, at a 200 x 200 window at (300, 500) clipped to the update region 40 x 640
at (320, 0): the destination corner moves right by 20, and so does the source
origin; the source size becomes the clipped 40 x 140. -/
theorem clip_moves_source_witness :
    (clipped_request sample_h sample_decon
      (batch_with_update (buffer_request 300 500 200 200) (update_request 320 0 40 640)).config
      regs_zero 0).src.x = 20 ∧
    (clipped_request sample_h sample_decon
      (batch_with_update (buffer_request 300 500 200 200) (update_request 320 0 40 640)).config
      regs_zero 0).src.w = 40 :=
  ⟨(clip_moves_source sample_h sample_decon
      (batch_with_update (buffer_request 300 500 200 200) (update_request 320 0 40 640)).config
      regs_zero 0 (by decide) (by decide) (by decide) (by decide) (by decide) (by decide)
      (by decide)).1.trans (by decide),
   (clip_moves_source sample_h sample_decon
      (batch_with_update (buffer_request 300 500 200 200) (update_request 320 0 40 640)).config
      regs_zero 0 (by decide) (by decide) (by decide) (by decide) (by decide) (by decide)
      (by decide)).2.2.1.trans (by decide)⟩

/-- C14 as stated fails at a source origin near `INT_MAX`: window 0 asks for the full
screen with `src.x = 2147483647`, the update region is 712 x 1280 at (8, 0).  The
window is clipped and stays enabled, the left edge of its destination moves right by
8 on the screen, and `src.x += 8` wraps: the source origin becomes -2147483641, not
2147483655. -/
theorem clip_wraps_far_source :
    (update_request_of sample_h sample_decon
      (batch_with_update far_source_request (update_request 8 0 712 1280)).config).state =
        sample_h.DECON_WIN_STATE_UPDATE ∧
    (update_request_of sample_h sample_decon
      (batch_with_update far_source_request (update_request 8 0 712 1280)).config).dst.x = 8 ∧
    ((batch_with_update far_source_request (update_request 8 0 712 1280)).config 0).dst.x = 0 ∧
    ((batch_with_update far_source_request (update_request 8 0 712 1280)).config 0).src.x =
      2147483647 ∧
    (clipped_request sample_h sample_decon
      (batch_with_update far_source_request (update_request 8 0 712 1280)).config
      regs_zero 0).state ≠ sample_h.DECON_WIN_STATE_DISABLED ∧
    (clipped_request sample_h sample_decon
      (batch_with_update far_source_request (update_request 8 0 712 1280)).config
      regs_zero 0).dst.w = 712 ∧
    (clipped_request sample_h sample_decon
      (batch_with_update far_source_request (update_request 8 0 712 1280)).config
      regs_zero 0).src.x = -2147483641 ∧
    (clipped_request sample_h sample_decon
      (batch_with_update far_source_request (update_request 8 0 712 1280)).config
      regs_zero 0).src.x ≠
      ((batch_with_update far_source_request (update_request 8 0 712 1280)).config 0).src.x +
        max ((update_request_of sample_h sample_decon
          (batch_with_update far_source_request (update_request 8 0 712 1280)).config).dst.x -
          ((batch_with_update far_source_request (update_request 8 0 712 1280)).config 0).dst.x)
          0 := by
  decide

/-! ## C12: the bandwidth estimate of a snapshot -/

theorem sum_below_congr (f g : Nat → Nat) (n : Nat) (h : ∀ i, i < n → f i = g i) :
    sum_below f n = sum_below g n := by
  induction n with
  | zero => rfl
  | succ k ih =>
    show sum_below f k + f k = sum_below g k + g k
    rw [ih (fun i hi => h i (Nat.lt_succ_of_lt hi)), h k (Nat.lt_succ_self k)]

theorem switch_windows (H : decon_h) (env : kernel_env) (k : Nat) (st : cfg_state) (cm : Nat)
    (j : Nat) (hj : j ≠ k) :
    (win_config_switch H env k st cm).st.decon.windows j = st.decon.windows j ∧
    (win_config_switch H env k st cm).st.bw = st.bw := by
  unfold win_config_switch
  dsimp only
  have hb := blocking_stage_decon H k st
  split_ifs
  · exact ⟨rfl, rfl⟩
  · exact ⟨rfl, rfl⟩
  · rw [hb.1, hb.2.2]
    exact ⟨rfl, rfl⟩
  · refine ⟨?_, hb.2.2⟩
    show set_at (blocking_stage H k st).2.decon.windows k _ j = _
    rw [set_at_other _ _ _ _ hj, hb.1]
  · refine ⟨?_, hb.2.2⟩
    show set_at (blocking_stage H k st).2.decon.windows k _ j = _
    rw [set_at_other _ _ _ _ hj, hb.1]
  · exact ⟨rfl, rfl⟩

theorem step_windows (H : decon_h) (env : kernel_env) (k : Nat) (st : cfg_state)
    (j : Nat) (hj : j ≠ k) :
    (win_config_step H env k st).decon.windows j = st.decon.windows j := by
  unfold win_config_step
  split
  · unfold win_config_body
    dsimp only
    rw [(commit_decon H k _).1, (switch_windows H env k _ _ j hj).1, (checked_decon H k st).1]
  · rfl

/-- The end of the body of the window loop adds to `bw`, in `unsigned int`, exactly
the bandwidth term that the window has in the state it leaves. -/
theorem commit_bandwidth (H : decon_h) (k : Nat) (sw : switch_out) (S : Nat)
    (hE : H.WINCON_ENWIN ≠ 0) (hB : H.WINCON_BURSTLEN_16WORD &&& H.WINCON_ENWIN = 0)
    (hS : sw.st.bw = S % 4294967296) :
    (win_config_commit H k sw).bw =
      (S + loop_bandwidth_term H (win_config_commit H k sw) k) % 4294967296 := by
  have hcd := commit_decon H k sw
  have hw : (win_config_commit H k sw).regs.wincon k =
      (if sw.enabled then sw.st.regs.wincon k ||| H.WINCON_ENWIN
        else sw.st.regs.wincon k &&& not32 H.WINCON_ENWIN) ||| H.WINCON_BURSTLEN_16WORD := by
    unfold win_config_commit
    dsimp only
    split_ifs <;> simp only [set_at_same]
  have hbw : (win_config_commit H k sw).bw =
      (if sw.enabled = true ∧ (sw.st.win_config k).state = H.DECON_WIN_STATE_BUFFER then
        u32 (sw.st.bw + decon_calc_bandwidth (sw.st.win_config k).dst.w (sw.st.win_config k).dst.h
          (u32 ((sw.st.decon.windows k).var.bits_per_pixel + 8 - 1) / 8)
          (sw.st.decon.windows k).fps)
      else sw.st.bw) := by
    unfold win_config_commit
    dsimp only
    split_ifs <;> rfl
  unfold loop_bandwidth_term
  rw [hbw, hw, hcd.1, hcd.2.2]
  cases he : sw.enabled
  · have h0 : ((sw.st.regs.wincon k &&& not32 H.WINCON_ENWIN) ||| H.WINCON_BURSTLEN_16WORD) &&&
        H.WINCON_ENWIN = 0 := enwin_clear _ _ _ hB
    simp only [Bool.false_eq_true, false_and, if_false, h0, ne_eq, not_true_eq_false,
      Nat.add_zero]
    exact hS
  · have h1 : ((sw.st.regs.wincon k ||| H.WINCON_ENWIN) ||| H.WINCON_BURSTLEN_16WORD) &&&
        H.WINCON_ENWIN = H.WINCON_ENWIN := enwin_set _ _ _
    simp only [if_true, h1, true_and]
    by_cases hst : (sw.st.win_config k).state = H.DECON_WIN_STATE_BUFFER
    · rw [if_pos hst, if_pos ⟨hE, hst⟩, hS]
      unfold u32
      omega
    · rw [if_neg hst, if_neg (fun h => hst h.2), Nat.add_zero]
      exact hS

theorem step_bandwidth_term (H : decon_h) (env : kernel_env) (k : Nat) (st : cfg_state)
    (j : Nat) (hj : j ≠ k) :
    loop_bandwidth_term H (win_config_step H env k st) j = loop_bandwidth_term H st j := by
  have hk := step_keeps_others H env k st
  have hw := step_windows H env k st j hj
  unfold loop_bandwidth_term
  rw [(hk.1 j hj).2.1, (hk.2 j hj).1, (hk.2 j hj).2, hw]

/-- The bandwidth invariant holds all along the window loop. -/
theorem loop_bandwidth (H : decon_h) (env : kernel_env) (d : decon_device)
    (win_data : decon_win_config_data)
    (hE : H.WINCON_ENWIN ≠ 0) (hB : H.WINCON_BURSTLEN_16WORD &&& H.WINCON_ENWIN = 0) :
    ∀ n, bandwidth_inv H n (win_config_before H env d win_data n) := by
  intro n
  induction n with
  | zero =>
    refine ⟨rfl, ?_⟩
    intro j _
    exact (start_regs H d win_data j).2.1
  | succ k ih =>
    obtain ⟨ibw, iw⟩ := ih
    have hnext : win_config_before H env d win_data (k + 1) =
        win_config_step H env k (win_config_before H env d win_data k) := rfl
    have hko := step_keeps_others H env k (win_config_before H env d win_data k)
    refine ⟨?_, ?_⟩
    · have hsum : sum_below (loop_bandwidth_term H (win_config_before H env d win_data (k + 1))) k =
          sum_below (loop_bandwidth_term H (win_config_before H env d win_data k)) k := by
        apply sum_below_congr
        intro i hi
        rw [hnext]
        exact step_bandwidth_term H env k _ i (by omega)
      show (win_config_before H env d win_data (k + 1)).bw =
        (sum_below (loop_bandwidth_term H (win_config_before H env d win_data (k + 1))) k +
          loop_bandwidth_term H (win_config_before H env d win_data (k + 1)) k) % 4294967296
      rw [hsum, hnext]
      by_cases hr : (win_config_before H env d win_data k).ret = 0
      · rw [win_config_step_run H env k _ hr]
        unfold win_config_body
        dsimp only
        apply commit_bandwidth H k _ _ hE hB
        rw [(switch_windows H env k _ _ (k + 1) (by omega)).2, (checked_decon H k _).2.2.2]
        exact ibw
      · rw [win_config_step_skip H env k _ hr]
        have hz : loop_bandwidth_term H (win_config_before H env d win_data k) k = 0 := by
          unfold loop_bandwidth_term
          rw [iw k (Nat.le_refl k), Nat.zero_and]
          simp
        rw [hz, Nat.add_zero]
        exact ibw
    · intro j hj
      rw [hnext, (hko.1 j (by omega)).2.1]
      exact iw j (by omega)

theorem finish_success (H : decon_h) (fd : Int) (win_data : decon_win_config_data)
    (st : cfg_state) :
    (win_config_finish H fd win_data st).ret = st.ret ∧
    (st.ret = 0 →
      (win_config_finish H fd win_data st).regs.bandwidth = st.bw ∧
      (win_config_finish H fd win_data st).regs.wincon = st.regs.wincon ∧
      (∀ i, i < st.decon.max_win →
        (win_config_finish H fd win_data st).regs.win_config i = st.win_config i) ∧
      (win_config_finish H fd win_data st).decon.windows = st.decon.windows ∧
      (win_config_finish H fd win_data st).decon.max_win = st.decon.max_win) := by
  unfold win_config_finish
  dsimp only
  constructor
  · split_ifs <;> rfl
  · intro h0
    rw [if_neg (fun h => h h0)]
    split_ifs <;> exact ⟨rfl, rfl, fun i hi => if_pos hi, rfl, rfl⟩

/-- C12 as stated fails when the sum leaves the `unsigned int` range: two enabled
8192 x 4096 windows at 2 bytes per pixel and 60 fps have the terms 4026531840 each,
exact sum 8053063680, and the snapshot stores 3758096384. -/
theorem bandwidth_sum_wraps :
    (decon_set_win_config sample_h roomy_env sample_decon
      (batch_of2 (buffer_request 0 0 8192 4096) (buffer_request 0 0 8192 4096))).ret = 0 ∧
    total_bandwidth sample_h (decon_set_win_config sample_h roomy_env sample_decon
      (batch_of2 (buffer_request 0 0 8192 4096) (buffer_request 0 0 8192 4096))) =
        8053063680 ∧
    (decon_set_win_config sample_h roomy_env sample_decon
      (batch_of2 (buffer_request 0 0 8192 4096)
        (buffer_request 0 0 8192 4096))).regs.bandwidth = 3758096384 := by
  decide

/-- C12, amended. For a submission that gets to its window loop and returns 0 (with
`WINCON_ENWIN` non-zero and not overlapping the burst-length bits), the bandwidth
stored in the snapshot is the sum, modulo `2^32` (`bw` is an `unsigned int`), of the
`decon_calc_bandwidth` terms of the windows that end enabled in Buffer state; it is
the exact sum whenever that sum is below `2^32`. -/
theorem bandwidth_is_wrapped_sum (H : decon_h) (env : kernel_env) (decon : decon_device)
    (win_data : decon_win_config_data)
    (hreach : reaches_window_loop env decon)
    (hret : (decon_set_win_config H env decon win_data).ret = 0)
    (hE : H.WINCON_ENWIN ≠ 0) (hB : H.WINCON_BURSTLEN_16WORD &&& H.WINCON_ENWIN = 0) :
    (decon_set_win_config H env decon win_data).regs.bandwidth =
      total_bandwidth H (decon_set_win_config H env decon win_data) % 4294967296 ∧
    (total_bandwidth H (decon_set_win_config H env decon win_data) < 4294967296 →
      (decon_set_win_config H env decon win_data).regs.bandwidth =
        total_bandwidth H (decon_set_win_config H env decon win_data)) := by
  have hmain := set_win_config_main H env decon win_data hreach
  have hinv := loop_bandwidth H env decon win_data hE hB decon.max_win
  have hfin := finish_success H
    (if env.get_unused_fd < 3 then env.get_unused_fd_retry else env.get_unused_fd) win_data
    (for_loop (win_config_step H env) decon.max_win (win_config_start H decon win_data))
  rw [hmain] at hret ⊢
  have hst0 : (for_loop (win_config_step H env) decon.max_win
      (win_config_start H decon win_data)).ret = 0 := by
    rw [← hfin.1]
    exact hret
  obtain ⟨f1, f2, f3, f4, f5⟩ := hfin.2 hst0
  have hmax : (for_loop (win_config_step H env) decon.max_win
      (win_config_start H decon win_data)).decon.max_win = decon.max_win :=
    (same_core_trans (same_core_start H decon win_data)
      (same_core_loop H env decon.max_win _)).1
  have htot : total_bandwidth H (win_config_finish H
      (if env.get_unused_fd < 3 then env.get_unused_fd_retry else env.get_unused_fd) win_data
      (for_loop (win_config_step H env) decon.max_win (win_config_start H decon win_data))) =
      sum_below (loop_bandwidth_term H (for_loop (win_config_step H env) decon.max_win
        (win_config_start H decon win_data))) decon.max_win := by
    unfold total_bandwidth
    rw [f5, hmax]
    apply sum_below_congr
    intro i hi
    unfold window_bandwidth loop_bandwidth_term
    rw [f2, f3 i (by rw [hmax]; exact hi), f4]
  have hbw : (win_config_finish H
      (if env.get_unused_fd < 3 then env.get_unused_fd_retry else env.get_unused_fd) win_data
      (for_loop (win_config_step H env) decon.max_win
        (win_config_start H decon win_data))).regs.bandwidth =
      total_bandwidth H (win_config_finish H
        (if env.get_unused_fd < 3 then env.get_unused_fd_retry else env.get_unused_fd) win_data
        (for_loop (win_config_step H env) decon.max_win (win_config_start H decon win_data))) %
        4294967296 := by
    rw [f1, htot]
    exact hinv.1
  refine ⟨hbw, ?_⟩
  intro hlt
  rw [hbw]
  exact Nat.mod_eq_of_lt hlt

/-- C12, amended, at the example of the specification: two enabled 512 x 512 windows
(one below the other) at 4 bytes per pixel and 60 fps give 2 * (512 * 512 * 4 * 60) = 125829120. -/
theorem bandwidth_is_wrapped_sum_witness :
    (decon_set_win_config sample_h sample_env sample_decon
      (batch_of2 (rgba_request 0 0 512 512) (rgba_request 0 512 512 512))).regs.bandwidth = 125829120 :=
  ((bandwidth_is_wrapped_sum sample_h sample_env sample_decon
    (batch_of2 (rgba_request 0 0 512 512) (rgba_request 0 512 512 512))
    (by decide) (by decide) (by decide) (by decide)).2 (by decide)).trans (by decide)

/-! ## C22: the blend-equation table -/

/-- C22: `blendeq` is the lookup table of the blend-equation coefficients.  With the
three blending modes pairwise distinct and a `u8` transparency width: NONE gives
(ONE, ZERO); COVERAGE gives (ALPHA_A, ONE_MINUS_ALPHA_A); PREMULT with a transparency
width other than 1 gives (ONE, ONE_MINUS_ALPHA_A) when `plane_alpha` is at most 0 or at
least 255 and (ALPHA0, ONE_MINUS_ALPHA_A) when `0 < plane_alpha < 255`; P and Q are
ZERO in each word (`blend_equation`); with a transparency width of exactly 1 PREMULT
gives the word of COVERAGE; every other blending value gives 0. -/
theorem blendeq_table (H : decon_h) (transp_length : Nat) (plane_alpha : Int)
    (hu8 : transp_length < 256)
    (hnp : H.DECON_BLENDING_NONE ≠ H.DECON_BLENDING_PREMULT)
    (hnc : H.DECON_BLENDING_NONE ≠ H.DECON_BLENDING_COVERAGE)
    (hpc : H.DECON_BLENDING_PREMULT ≠ H.DECON_BLENDING_COVERAGE) :
    blendeq H H.DECON_BLENDING_NONE transp_length plane_alpha =
      blend_equation H H.BLENDE_COEF_ONE H.BLENDE_COEF_ZERO ∧
    blendeq H H.DECON_BLENDING_COVERAGE transp_length plane_alpha =
      blend_equation H H.BLENDE_COEF_ALPHA_A H.BLENDE_COEF_ONE_MINUS_ALPHA_A ∧
    (transp_length ≠ 1 → (plane_alpha ≤ 0 ∨ 255 ≤ plane_alpha) →
      blendeq H H.DECON_BLENDING_PREMULT transp_length plane_alpha =
        blend_equation H H.BLENDE_COEF_ONE H.BLENDE_COEF_ONE_MINUS_ALPHA_A) ∧
    (transp_length ≠ 1 → 0 < plane_alpha → plane_alpha < 255 →
      blendeq H H.DECON_BLENDING_PREMULT transp_length plane_alpha =
        blend_equation H H.BLENDE_COEF_ALPHA0 H.BLENDE_COEF_ONE_MINUS_ALPHA_A) ∧
    (transp_length = 1 →
      blendeq H H.DECON_BLENDING_PREMULT transp_length plane_alpha =
        blendeq H H.DECON_BLENDING_COVERAGE transp_length plane_alpha) ∧
    (∀ blending, blending ≠ H.DECON_BLENDING_NONE → blending ≠ H.DECON_BLENDING_PREMULT →
      blending ≠ H.DECON_BLENDING_COVERAGE →
      blendeq H blending transp_length plane_alpha = 0) := by
  have hmod : transp_length % 256 = transp_length := Nat.mod_eq_of_lt hu8
  refine ⟨?_, ?_, ?_, ?_, ?_, ?_⟩
  · unfold blendeq blend_equation
    simp only [hmod]
    have hb : (if transp_length = 1 ∧ H.DECON_BLENDING_NONE = H.DECON_BLENDING_PREMULT then
        H.DECON_BLENDING_COVERAGE else H.DECON_BLENDING_NONE) = H.DECON_BLENDING_NONE :=
      if_neg (fun h => hnp h.2)
    rw [hb, if_pos rfl]
  · unfold blendeq blend_equation
    simp only [hmod]
    have hb : (if transp_length = 1 ∧ H.DECON_BLENDING_COVERAGE = H.DECON_BLENDING_PREMULT then
        H.DECON_BLENDING_COVERAGE else H.DECON_BLENDING_COVERAGE) = H.DECON_BLENDING_COVERAGE :=
      ite_self _
    rw [hb, if_neg (Ne.symm hnc), if_neg (Ne.symm hpc), if_pos rfl]
  · intro h1 hpa
    unfold blendeq blend_equation
    simp only [hmod]
    have hb : (if transp_length = 1 ∧ True then
        H.DECON_BLENDING_COVERAGE else H.DECON_BLENDING_PREMULT) = H.DECON_BLENDING_PREMULT :=
      if_neg (fun h => h1 h.1)
    rw [hb, if_neg (Ne.symm hnp), if_pos rfl]
    have hd : decide (plane_alpha < 255 ∧ plane_alpha > 0) = false := by
      apply decide_eq_false
      intro h
      omega
    rw [hd]
    rfl
  · intro h1 h0 h255
    unfold blendeq blend_equation
    simp only [hmod]
    have hb : (if transp_length = 1 ∧ True then
        H.DECON_BLENDING_COVERAGE else H.DECON_BLENDING_PREMULT) = H.DECON_BLENDING_PREMULT :=
      if_neg (fun h => h1 h.1)
    rw [hb, if_neg (Ne.symm hnp), if_pos rfl]
    have hd : decide (plane_alpha < 255 ∧ plane_alpha > 0) = true :=
      decide_eq_true ⟨h255, h0⟩
    rw [hd]
    rfl
  · intro h1
    unfold blendeq
    simp only [hmod]
    have hb : (if transp_length = 1 ∧ True then
        H.DECON_BLENDING_COVERAGE else H.DECON_BLENDING_PREMULT) = H.DECON_BLENDING_COVERAGE :=
      if_pos ⟨h1, trivial⟩
    have hc : (if transp_length = 1 ∧ H.DECON_BLENDING_COVERAGE = H.DECON_BLENDING_PREMULT then
        H.DECON_BLENDING_COVERAGE else H.DECON_BLENDING_COVERAGE) = H.DECON_BLENDING_COVERAGE :=
      ite_self _
    rw [hb, hc]
  · intro blending h1 h2 h3
    unfold blendeq
    simp only [hmod]
    have hb : (if transp_length = 1 ∧ blending = H.DECON_BLENDING_PREMULT then
        H.DECON_BLENDING_COVERAGE else blending) = blending :=
      if_neg (fun h => h2 h.2)
    rw [hb, if_neg h1, if_neg h2, if_neg h3]

/-- C22 witness: the table at the sample header values, an 8-bit alpha channel and
plane alpha 128. -/
theorem blendeq_table_witness :
    blendeq sample_h 0 8 128 = blend_equation sample_h 1 0 ∧
    blendeq sample_h 2 8 128 = blend_equation sample_h 2 3 ∧
    blendeq sample_h 1 8 128 = blend_equation sample_h 6 3 ∧
    blendeq sample_h 1 1 128 = blendeq sample_h 2 1 128 ∧
    blendeq sample_h 3 8 128 = 0 :=
  have h := blendeq_table sample_h 8 128 (by decide) (by decide) (by decide) (by decide)
  have h1 := blendeq_table sample_h 1 128 (by decide) (by decide) (by decide) (by decide)
  ⟨h.1, h.2.1, h.2.2.2.1 (by decide) (by decide) (by decide), h1.2.2.2.2.1 rfl,
    h.2.2.2.2.2 3 (by decide) (by decide) (by decide)⟩

/-! ## C27: bits per pixel of the RGB formats -/

/-- C27: the bits per pixel that `decon_set_win_buffer` derives from the channel
tables.  With the ten RGB enumerators pairwise distinct, distinct from the YUV ones and
not above `DECON_PIXEL_FORMAT_RGB_565`: RGBA, BGRA, RGBX and BGRX 8888 give 32 and
RGBA_5551 and RGB_565 give 16, but ARGB, ABGR, XRGB and XBGR 8888 give 24, because
`decon_transp_length` and `decon_padding` have no case for them and return 0. -/
theorem bits_per_pixel_table (H : decon_h)
    (hd : ([H.DECON_PIXEL_FORMAT_ARGB_8888, H.DECON_PIXEL_FORMAT_ABGR_8888,
      H.DECON_PIXEL_FORMAT_RGBA_8888, H.DECON_PIXEL_FORMAT_BGRA_8888,
      H.DECON_PIXEL_FORMAT_XRGB_8888, H.DECON_PIXEL_FORMAT_XBGR_8888,
      H.DECON_PIXEL_FORMAT_RGBX_8888, H.DECON_PIXEL_FORMAT_BGRX_8888,
      H.DECON_PIXEL_FORMAT_RGBA_5551, H.DECON_PIXEL_FORMAT_RGB_565] ++ yuv_formats H).Nodup)
    (hle : ∀ f ∈ [H.DECON_PIXEL_FORMAT_ARGB_8888, H.DECON_PIXEL_FORMAT_ABGR_8888,
      H.DECON_PIXEL_FORMAT_RGBA_8888, H.DECON_PIXEL_FORMAT_BGRA_8888,
      H.DECON_PIXEL_FORMAT_XRGB_8888, H.DECON_PIXEL_FORMAT_XBGR_8888,
      H.DECON_PIXEL_FORMAT_RGBX_8888, H.DECON_PIXEL_FORMAT_BGRX_8888,
      H.DECON_PIXEL_FORMAT_RGBA_5551], f ≤ H.DECON_PIXEL_FORMAT_RGB_565) :
    bits_per_pixel_of H H.DECON_PIXEL_FORMAT_ARGB_8888 = 24 ∧
    bits_per_pixel_of H H.DECON_PIXEL_FORMAT_ABGR_8888 = 24 ∧
    bits_per_pixel_of H H.DECON_PIXEL_FORMAT_XRGB_8888 = 24 ∧
    bits_per_pixel_of H H.DECON_PIXEL_FORMAT_XBGR_8888 = 24 ∧
    bits_per_pixel_of H H.DECON_PIXEL_FORMAT_RGBA_8888 = 32 ∧
    bits_per_pixel_of H H.DECON_PIXEL_FORMAT_BGRA_8888 = 32 ∧
    bits_per_pixel_of H H.DECON_PIXEL_FORMAT_RGBX_8888 = 32 ∧
    bits_per_pixel_of H H.DECON_PIXEL_FORMAT_BGRX_8888 = 32 ∧
    bits_per_pixel_of H H.DECON_PIXEL_FORMAT_RGBA_5551 = 16 ∧
    bits_per_pixel_of H H.DECON_PIXEL_FORMAT_RGB_565 = 16 := by
  simp only [yuv_formats, List.cons_append, List.nil_append, List.nodup_cons, List.mem_cons,
    List.mem_singleton, not_or, List.not_mem_nil, not_false_eq_true, List.nodup_nil, and_true,
    or_false] at hd
  simp only [List.mem_cons, List.mem_singleton, forall_eq_or_imp, forall_eq, List.not_mem_nil,
    or_false] at hle
  obtain ⟨l0, l1, l2, l3, l4, l5, l6, l7, l8⟩ := hle
  obtain ⟨d0, d1, d2, d3, d4, d5, d6, d7, d8, d9, -⟩ := hd
  refine ⟨?_, ?_, ?_, ?_, ?_, ?_, ?_, ?_, ?_, ?_⟩ <;>
  simp [bits_per_pixel_of, decon_red_length, decon_green_length, decon_blue_length,
    decon_transp_length, decon_padding, yuv_formats, u32, *, eq_comm]

/-- C27 witness: the table at the sample header values. -/
theorem bits_per_pixel_table_witness :
    bits_per_pixel_of sample_h 0 = 24 ∧ bits_per_pixel_of sample_h 2 = 32 ∧
    bits_per_pixel_of sample_h 9 = 16 :=
  have h := bits_per_pixel_table sample_h (by decide) (by decide)
  ⟨h.1, h.2.2.2.2.1, h.2.2.2.2.2.2.2.2.2⟩

/-! ## C25: a window disabled because an upper window covers it -/

/-- C25 fails when the covering window is itself dropped.  Window 0 is an unscaled
full-screen RGBX8888 layer; window 1 is an opaque RGB565 layer over the same full
screen that asks for scaling.  At window 0 `decon_set_win_blocking_mode` finds window
1 covering it, disables window 0 and returns 1; at window 1 the scaling check disables
window 1.  The submission returns 0 and queues a snapshot in which no window has
`WINCON_ENWIN` set. -/
theorem covering_window_dropped :
    does_layer_need_scale (rgbx_request 0 0 720 1280) = false ∧
    (decon_set_win_blocking_mode sample_h 3 0
      (batch_of2 (rgbx_request 0 0 720 1280) scaled_request).config regs_zero).1 = 1 ∧
    (decon_set_win_config sample_h sample_env sample_decon
      (batch_of2 (rgbx_request 0 0 720 1280) scaled_request)).ret = 0 ∧
    (decon_set_win_config sample_h sample_env sample_decon
      (batch_of2 (rgbx_request 0 0 720 1280) scaled_request)).decon.update_regs_list.length = 1 ∧
    ((decon_set_win_config sample_h sample_env sample_decon
      (batch_of2 (rgbx_request 0 0 720 1280) scaled_request)).win_data.config 0).state =
        sample_h.DECON_WIN_STATE_DISABLED ∧
    sample_h.WINCON_ENWIN ≠ 0 ∧
    (∀ j, j < 3 →
      (decon_set_win_config sample_h sample_env sample_decon
        (batch_of2 (rgbx_request 0 0 720 1280) scaled_request)).regs.wincon j &&&
          sample_h.WINCON_ENWIN = 0) := by
  decide

/-! ## C26: where the block rectangle is stored -/

/-- C26 fails for every window but window 0.  Windows 0 and 1 are full-screen
RGBX8888 layers and window 2 is an opaque RGB565 layer over the lower half of the
screen.  The call for window 1 returns 0 and stores the block rectangle
(0, 640, 720, 640) in `regs->block_rect[1]`, but the final `memcpy` goes to
`win_config->block_area`, the request of window 0: the request of window 1 keeps its
zeroed `block_area` and the request of window 0 is overwritten. -/
theorem block_area_written_to_window0 :
    (decon_set_win_blocking_mode sample_h 3 1
      (requests_of3 (rgbx_request 0 0 720 1280) (rgbx_request 0 0 720 1280)
        (buffer_request 0 640 720 640)) regs_zero).1 = 0 ∧
    (decon_set_win_blocking_mode sample_h 3 1
      (requests_of3 (rgbx_request 0 0 720 1280) (rgbx_request 0 0 720 1280)
        (buffer_request 0 640 720 640)) regs_zero).2.2.block_rect 1 =
      { x := 0, y := 640, w := 720, h := 640 } ∧
    ((decon_set_win_blocking_mode sample_h 3 1
      (requests_of3 (rgbx_request 0 0 720 1280) (rgbx_request 0 0 720 1280)
        (buffer_request 0 640 720 640)) regs_zero).2.1 1).block_area =
      { x := 0, y := 0, w := 0, h := 0 } ∧
    (rgbx_request 0 0 720 1280).block_area = { x := 0, y := 0, w := 0, h := 0 } ∧
    ((decon_set_win_blocking_mode sample_h 3 1
      (requests_of3 (rgbx_request 0 0 720 1280) (rgbx_request 0 0 720 1280)
        (buffer_request 0 640 720 640)) regs_zero).2.1 0).block_area =
      { x := 0, y := 640, w := 720, h := 640 } := by
  decide

/-! ## C21: the write block of the KL5KUSB105 converter -/

/-- C21 fails whenever the fifo holds more than `size - 2` bytes.
`klsi_105_prepare_write_buffer` asks `kfifo_out_locked` for `size` bytes, not for
`size - KLSI_HDR_LEN`, and stores them from offset 2 on.  With at least `size` bytes
waiting (and `size` small enough for `int`): the payload length is `size`, the return
value is `size + 2`, which exceeds `size`, and the two bytes behind the `size`-byte
block (offsets `size` and `size + 1`) are overwritten with the payload bytes
`size - 2` and `size - 1`. -/
theorem prepare_write_buffer_overruns (port : usb_serial_port) (dest : Nat → Nat) (size : Nat)
    (hsize : 2 ≤ size ∧ size < 65536) (hfifo : size ≤ port.write_fifo.length) :
    (klsi_105_prepare_write_buffer port dest size).count = size ∧
    (klsi_105_prepare_write_buffer port dest size).ret = (size : Int) + 2 ∧
    (klsi_105_prepare_write_buffer port dest size).ret > (size : Int) ∧
    (klsi_105_prepare_write_buffer port dest size).mem size =
      port.write_fifo.getD (size - 2) 0 ∧
    (klsi_105_prepare_write_buffer port dest size).mem (size + 1) =
      port.write_fifo.getD (size - 1) 0 ∧
    (klsi_105_prepare_write_buffer port dest size).mem 0 = size % 256 ∧
    (klsi_105_prepare_write_buffer port dest size).mem 1 = size / 256 := by
  obtain ⟨h2, h64⟩ := hsize
  have hu : u32 size = size := by
    unfold u32
    omega
  have hlen : (List.take size port.write_fifo).length = size := by
    rw [List.length_take]
    omega
  have hcount : u32_to_int (List.take size port.write_fifo).length = (size : Int) := by
    rw [hlen]
    unfold u32_to_int
    split <;> omega
  have hback : int_to_u32 (size : Int) = size := by
    unfold int_to_u32
    omega
  have hu16 : u16 size = size := by
    unfold u16
    omega
  have hret : s32 ((size : Int) + (KLSI_HDR_LEN : Nat)) = (size : Int) + 2 := by
    unfold KLSI_HDR_LEN s32 u32_to_int int_to_u32
    split <;> omega
  have hget : ∀ k, k < size → (List.take size port.write_fifo).getD k 0 =
      port.write_fifo.getD k 0 := by
    intro k hk
    rw [List.getD_eq_getElem?_getD, List.getD_eq_getElem?_getD, List.getElem?_take_of_lt hk]
  unfold klsi_105_prepare_write_buffer
  simp only [kfifo_out, hu, hcount, hback, hret]
  refine ⟨trivial, trivial, by omega, ?_, ?_, ?_, ?_⟩
  · unfold put_unaligned_le16 store_bytes
    simp only [hlen, KLSI_HDR_LEN, List.length_cons, List.length_nil]
    rw [if_neg (by omega), if_pos (by omega)]
    exact hget _ (by omega)
  · unfold put_unaligned_le16 store_bytes
    simp only [hlen, KLSI_HDR_LEN, List.length_cons, List.length_nil]
    rw [if_neg (by omega), if_pos (by omega)]
    have e : size + 1 - 2 = size - 1 := by omega
    rw [e]
    exact hget _ (by omega)
  · unfold put_unaligned_le16 store_bytes
    simp only [hu16, List.length_cons, List.length_nil]
    rw [if_pos (by omega)]
    rfl
  · unfold put_unaligned_le16 store_bytes
    simp only [hu16, List.length_cons, List.length_nil]
    rw [if_pos (by omega)]
    rfl

/-- C21 witness: the 64-byte bulk-out block with 64 bytes waiting.  The call returns
66 and stores the payload bytes 63 and 64 at the offsets 64 and 65, behind the
block. -/
theorem prepare_write_buffer_overruns_witness :
    (klsi_105_prepare_write_buffer sample_port sample_dest kl5kusb105d_bulk_out_size).count = 64 ∧
    (klsi_105_prepare_write_buffer sample_port sample_dest kl5kusb105d_bulk_out_size).ret = 66 ∧
    (klsi_105_prepare_write_buffer sample_port sample_dest kl5kusb105d_bulk_out_size).mem 64 = 63 ∧
    (klsi_105_prepare_write_buffer sample_port sample_dest kl5kusb105d_bulk_out_size).mem 65 = 64 :=
  have h := prepare_write_buffer_overruns sample_port sample_dest 64 (by decide) (by decide)
  ⟨h.1, h.2.1, h.2.2.2.1, h.2.2.2.2.1⟩

/-! ## C24: panel recovery after an ESD fault -/

/-- C24 fails on the two error paths.  On the sample command-mode device with the
fault flag pending: when stopping the stream fails, and when restarting it fails,
`decon_esd_panel_reset` returns the error through `reset_fail`, which clears
`ignore_vsync` and releases `output_lock` but never stores to
`esd->queuework_pending`, so the flag is still 1 on return.  On the success path the
flag is cleared before `ignore_vsync`, and on each path `ignore_vsync` is set under
the lock before the stream is stopped. -/
theorem esd_reset_failure_keeps_pending :
    (decon_esd_panel_reset sample_h sample_renv_stop_fails sample_decon esd_pending).ret = - EIO ∧
    (decon_esd_panel_reset sample_h sample_renv_stop_fails sample_decon
      esd_pending).esd.queuework_pending = 1 ∧
    (decon_esd_panel_reset sample_h sample_renv_stop_fails sample_decon
      esd_pending).decon.ignore_vsync = false ∧
    (decon_esd_panel_reset sample_h sample_renv_stop_fails sample_decon esd_pending).trace =
      [esd_step.call kcall.flush_workqueue_lpd, esd_step.call kcall.decon_lpd_block_exit,
       esd_step.call kcall.mutex_lock_output, esd_step.store_ignore_vsync true,
       esd_step.call kcall.flush_kthread_worker, esd_step.call (kcall.s_stream false),
       esd_step.store_ignore_vsync false, esd_step.call kcall.mutex_unlock_output,
       esd_step.call kcall.decon_lpd_unblock] ∧
    (decon_esd_panel_reset sample_h sample_renv_start_fails sample_decon esd_pending).ret = - EIO ∧
    (decon_esd_panel_reset sample_h sample_renv_start_fails sample_decon
      esd_pending).esd.queuework_pending = 1 ∧
    (decon_esd_panel_reset sample_h sample_renv_start_fails sample_decon esd_pending).trace =
      [esd_step.call kcall.flush_workqueue_lpd, esd_step.call kcall.decon_lpd_block_exit,
       esd_step.call kcall.mutex_lock_output, esd_step.store_ignore_vsync true,
       esd_step.call kcall.flush_kthread_worker, esd_step.call (kcall.s_stream false),
       esd_step.call (kcall.msleep 200), esd_step.call (kcall.s_stream true),
       esd_step.store_ignore_vsync false, esd_step.call kcall.mutex_unlock_output,
       esd_step.call kcall.decon_lpd_unblock] ∧
    (decon_esd_panel_reset sample_h sample_renv sample_decon esd_pending).ret = 0 ∧
    (decon_esd_panel_reset sample_h sample_renv sample_decon
      esd_pending).esd.queuework_pending = 0 ∧
    (decon_esd_panel_reset sample_h sample_renv sample_decon esd_pending).trace =
      [esd_step.call kcall.flush_workqueue_lpd, esd_step.call kcall.decon_lpd_block_exit,
       esd_step.call kcall.mutex_lock_output, esd_step.store_ignore_vsync true,
       esd_step.call kcall.flush_kthread_worker, esd_step.call (kcall.s_stream false),
       esd_step.call (kcall.msleep 200), esd_step.call (kcall.s_stream true),
       esd_step.store_queuework_pending 0, esd_step.store_ignore_vsync false,
       esd_step.store_update_win false 0 0 720 1280,
       esd_step.call kcall.mutex_unlock_output, esd_step.call kcall.decon_lpd_unblock] := by
  decide

/-! ## C28: the invariant of the partial-update state -/

/-- The invariant of the partial-update state holds after
`decon_win_update_rect_reset`, which sets `need_update`. -/
theorem update_win_inv_rect_reset (decon : decon_device) :
    update_win_inv (decon_win_update_rect_reset decon) := by
  intro h
  exact absurd h (by simp [decon_win_update_rect_reset])

/-- The invariant of the partial-update state is kept by
`decon_set_win_update_config`, `decon_update_2_full` included. -/
theorem update_win_inv_update_config (H : decon_h) (decon : decon_device)
    (wc : Nat → decon_win_config) (regs : decon_reg_data) (h : update_win_inv decon) :
    update_win_inv (decon_set_win_update_config H decon wc regs).1 := by
  unfold decon_set_win_update_config
  dsimp only
  split_ifs
  · intro hn
    exact absurd hn (by simp)
  · intro hn
    exact absurd hn (by simp)
  · intro _
    rfl
  · exact h
  · exact h
  · exact h
  · exact h

/-- The invariant of the partial-update state is kept by `decon_esd_panel_reset` on
a build with `CONFIG_FB_WINDOW_UPDATE`, when the helpers outside decon_core.c keep it:
the success path stores the full screen, the other paths leave the rectangle alone. -/
theorem update_win_inv_esd_reset (H : decon_h) (renv : recovery_env) (decon : decon_device)
    (esd : esd_protect) (hcfg : H.CONFIG_FB_WINDOW_UPDATE = true)
    (h1 : ∀ d, update_win_inv d → update_win_inv (renv.flush_lpd_wq d))
    (h2 : ∀ d, update_win_inv d → update_win_inv (renv.decon_lpd_block_exit d))
    (h3 : ∀ d, update_win_inv d → update_win_inv (renv.flush_update_regs_worker d))
    (h : update_win_inv decon) :
    update_win_inv (decon_esd_panel_reset H renv decon esd).decon := by
  have hlog : ∀ (d : decon_device) (l : List kcall), update_win_inv d →
      update_win_inv { d with log := l } := fun d l hd => hd
  have hign : ∀ (d : decon_device) (p : Bool) (v : Bool), update_win_inv d →
      update_win_inv (if p then { d with ignore_vsync := v } else d) := by
    intro d p v hd
    split
    · exact hd
    · exact hd
  have hfail : ∀ (ret : Int) (d : decon_device) (e : esd_protect) (t : List esd_step),
      update_win_inv d → update_win_inv (esd_reset_fail ret d e t).decon := by
    intro ret d e t hd
    unfold esd_reset_fail
    dsimp only
    exact hlog _ _ (hign d _ false hd)
  unfold decon_esd_panel_reset
  split_ifs with c0
  · exact h
  · lift_lets
    extract_lets d1 d2 d3 t3 cmd d4 t4 d5 t5 ret d6 t6 d7 t7 ret2 d8 t8 esd2 t9 cmd2 d9 t10 full d10
      t11 d11 t12
    have i1 : update_win_inv d1 := hlog _ _ (h1 decon h)
    have i2 : update_win_inv d2 := hlog _ _ (h2 d1 i1)
    have i3 : update_win_inv d3 := hlog _ _ i2
    have i4 : update_win_inv d4 := hign d3 cmd true i3
    have i5 : update_win_inv d5 := hlog _ _ (h3 d4 i4)
    have i6 : update_win_inv d6 := hlog _ _ i5
    split_ifs with c1 c2
    · exact hfail _ _ _ _ i6
    · exact hfail _ _ _ _ (hlog _ _ (hlog _ _ i6))
    · show update_win_inv d11
      have i10 : update_win_inv d10 := by
        simp only [d10, hcfg, if_true]
        intro _
        rfl
      exact hlog _ _ i10

/-- C28 fails in `decon_tui_protection`.  The sample device holds a partial region
(`need_update` set, so the invariant holds on entry).  Entering TUI mode stores the
full screen and reprograms the panel; the DSIM refuses the porch values, so
`decon_win_update_disp_config` calls `decon_win_update_rect_reset` (rectangle
(0, 0, 0, 0), `need_update` set), and the caller then clears `need_update`
unconditionally.  On return `need_update` is clear and the stored rectangle is
(0, 0, 0, 0), not the full screen 720 x 1280.  When the DSIM accepts the values the
invariant holds on return. -/
theorem tui_protection_breaks_update_win_inv :
    update_win_inv partial_decon ∧
    (decon_tui_protection sample_h sample_hw_porch_fails sample_renv partial_decon true).1 = 0 ∧
    (decon_tui_protection sample_h sample_hw_porch_fails sample_renv
      partial_decon true).2.need_update = false ∧
    (decon_tui_protection sample_h sample_hw_porch_fails sample_renv
      partial_decon true).2.update_win = { x := 0, y := 0, w := 0, h := 0 } ∧
    (decon_tui_protection sample_h sample_hw_porch_fails sample_renv
      partial_decon true).2.lcd_info.xres = 720 ∧
    ¬ update_win_inv
      (decon_tui_protection sample_h sample_hw_porch_fails sample_renv partial_decon true).2 ∧
    update_win_inv (decon_tui_protection sample_h sample_hw sample_renv partial_decon true).2 := by
  decide

/-! ## C29: the calibrated span of an accepted update request -/

/-- C29: for an UPDATE-state request that `decon_calibrate_win_update_size` accepts
(the state is still UPDATE afterwards, UPDATE and DISABLED being distinct states) with
`x >= 0`, `x + w <= xres` and no `u32` overflow in the rounding (`x + w + 7 < 2^32`),
the calibrated span `[x', x' + w')` lies within the panel, contains the requested
span, `x'` is a multiple of 8 and `w'` is a multiple of 8 or equals `xres`. -/
theorem calibrated_span_spec (H : decon_h) (decon : decon_device) (uc : decon_win_config)
    (hne : H.DECON_WIN_STATE_UPDATE ≠ H.DECON_WIN_STATE_DISABLED)
    (hs : uc.state = H.DECON_WIN_STATE_UPDATE)
    (hacc : (decon_calibrate_win_update_size H decon uc).state = H.DECON_WIN_STATE_UPDATE)
    (hx0 : 0 ≤ uc.dst.x) (hx1 : uc.dst.x < 2147483648)
    (hfit : uc.dst.x + (uc.dst.w : Int) ≤ (decon.lcd_info.xres : Int))
    (hno : uc.dst.x + (uc.dst.w : Int) + 7 < 4294967296) :
    0 ≤ (decon_calibrate_win_update_size H decon uc).dst.x ∧
    (decon_calibrate_win_update_size H decon uc).dst.x +
      ((decon_calibrate_win_update_size H decon uc).dst.w : Int) ≤ (decon.lcd_info.xres : Int) ∧
    (decon_calibrate_win_update_size H decon uc).dst.x ≤ uc.dst.x ∧
    uc.dst.x + (uc.dst.w : Int) ≤ (decon_calibrate_win_update_size H decon uc).dst.x +
      ((decon_calibrate_win_update_size H decon uc).dst.w : Int) ∧
    (decon_calibrate_win_update_size H decon uc).dst.x % 8 = 0 ∧
    ((decon_calibrate_win_update_size H decon uc).dst.w % 8 = 0 ∨
      (decon_calibrate_win_update_size H decon uc).dst.w = decon.lcd_info.xres) := by
  have hy0 : 0 ≤ uc.dst.y := by
    by_contra hy
    have hneg : uc.dst.x < 0 ∨ uc.dst.y < 0 := Or.inr (by omega)
    have e : decon_calibrate_win_update_size H decon uc =
        { uc with state := H.DECON_WIN_STATE_DISABLED } := by
      unfold decon_calibrate_win_update_size
      rw [if_neg (fun h => h hs), if_pos hneg]
    rw [e] at hacc
    exact hne hacc.symm
  have hnot : ¬ (uc.dst.x < 0 ∨ uc.dst.y < 0) := by omega
  have hnz : ¬ (decon.update_win.w = 0 ∨ decon.update_win.h = 0) := by
    intro hz
    have e : decon_calibrate_win_update_size H decon uc =
        { uc with state := H.DECON_WIN_STATE_DISABLED } := by
      unfold decon_calibrate_win_update_size
      rw [if_neg (fun h => h hs), if_neg hnot, if_pos hz]
    rw [e] at hacc
    exact hne hacc.symm
  have hw : uc.dst.w < 4294967296 := by omega
  obtain ⟨-, -, -, ex, ew⟩ := calibrate_accepted H decon uc hs hx0 hx1 hy0 hw
    (fun h => hnz (Or.inl h)) (fun h => hnz (Or.inr h))
  obtain ⟨n, hn⟩ := Int.eq_ofNat_of_zero_le hx0
  have hcx : calibrated_x uc.dst.x = ((n - n % 8 : Nat) : Int) := by
    unfold calibrated_x
    rw [hn]
    omega
  have hcw : calibrated_w uc.dst.x uc.dst.w = uc.dst.w + n % 8 + 7 - (uc.dst.w + n % 8 + 7) % 8 := by
    unfold calibrated_w
    have e : (uc.dst.x % 8).toNat = n % 8 := by
      rw [hn]
      omega
    rw [e]
    have e2 : (uc.dst.w + n % 8 + 7) % 4294967296 = uc.dst.w + n % 8 + 7 := by
      apply Nat.mod_eq_of_lt
      omega
    rw [e2]
  by_cases hex : calibration_exceeds uc.dst.x uc.dst.w decon.lcd_info.xres
  · rw [ex, ew, if_pos hex, if_pos hex]
    refine ⟨le_refl _, ?_, hx0, ?_, rfl, Or.inr rfl⟩
    · omega
    · omega
  · rw [ex, ew, if_neg hex, if_neg hex, hcx, hcw]
    have hle : ¬ ((n - n % 8) + (uc.dst.w + n % 8 + 7 - (uc.dst.w + n % 8 + 7) % 8)) % 4294967296 >
        decon.lcd_info.xres := by
      intro h
      apply hex
      unfold calibration_exceeds
      rw [hcx, hcw]
      exact h
    clear ex ew hex hcx hcw hacc hnz hnot hs
    refine ⟨?_, ?_, ?_, ?_, ?_, ?_⟩
    · omega
    · omega
    · omega
    · omega
    · omega
    · left
      omega

/-- C29 witness: the request (3, 10, 50, 50) on the 720-wide sample panel is
calibrated to the span (0, 56). -/
theorem calibrated_span_spec_witness :
    0 ≤ (decon_calibrate_win_update_size sample_h sample_decon (update_request 3 10 50 50)).dst.x ∧
    (decon_calibrate_win_update_size sample_h sample_decon (update_request 3 10 50 50)).dst.x +
      ((decon_calibrate_win_update_size sample_h sample_decon
        (update_request 3 10 50 50)).dst.w : Int) ≤ 720 ∧
    (decon_calibrate_win_update_size sample_h sample_decon (update_request 3 10 50 50)).dst.w = 56 :=
  have h := calibrated_span_spec sample_h sample_decon (update_request 3 10 50 50) (by decide) rfl
    (by decide) (by decide) (by decide) (by decide) (by decide)
  ⟨h.1, h.2.1, by decide⟩

/-! ## C23: a window covered by an opaque upper window -/

/-- The covering test of the search loop on two rectangles with inclusive corners,
the first one not empty: the rectangles meet and their intersection is the first
rectangle exactly when the second contains the first. -/
theorem cover_test (r1 r2 : decon_rect) (hx : r1.left ≤ r1.right) (hy : r1.top ≤ r1.bottom) :
    (decon_intersect r1 r2 = true ∧ is_decon_rect_differ r1 (decon_intersection r1 r2) = false) ↔
      (r2.left ≤ r1.left ∧ r1.right ≤ r2.right ∧ r2.top ≤ r1.top ∧ r1.bottom ≤ r2.bottom) := by
  unfold decon_intersect is_decon_rect_differ decon_intersection
  simp only [Bool.not_eq_true', decide_eq_false_iff_not, not_or, not_lt, ne_eq, not_not, gt_iff_lt]
  constructor
  · rintro ⟨-, h1, h2, h3, h4⟩
    have a1 := le_max_right r1.left r2.left
    have a2 := min_le_right r1.right r2.right
    have a3 := le_max_right r1.top r2.top
    have a4 := min_le_right r1.bottom r2.bottom
    rw [← h1] at a1
    rw [← h3] at a2
    rw [← h2] at a3
    rw [← h4] at a4
    exact ⟨a1, a2, a3, a4⟩
  · rintro ⟨h1, h2, h3, h4⟩
    refine ⟨⟨?_, ?_, ?_, ?_⟩, ?_, ?_, ?_, ?_⟩
    · exact le_trans hx h2
    · exact le_trans h1 hx
    · exact le_trans hy h4
    · exact le_trans h3 hy
    · exact (max_eq_left h1).symm
    · exact (max_eq_left h3).symm
    · exact (min_eq_left h2).symm
    · exact (min_eq_left h4).symm

/-- What one iteration of the search loop does to `returned`. -/
theorem blocking_step_returned (H : decon_h) (wc : Nat → decon_win_config) (r1 : decon_rect)
    (j : Nat) (st : blocking_state) (hr : st.returned = false) :
    (blocking_step H wc r1 j st).returned = true ↔
      (opaque_buffer H (wc j) ∧ decon_intersect r1 (rect_of_dst (wc j).dst) = true ∧
        is_decon_rect_differ r1 (decon_intersection r1 (rect_of_dst (wc j).dst)) = false) := by
  unfold blocking_step opaque_buffer
  rw [if_neg (by simp [hr])]
  dsimp only
  split_ifs with h1 h2 h3 h4 h5 h6
  · simp [hr, h1]
  · simp only [hr, Bool.false_eq_true, false_iff]
    rintro ⟨⟨-, hf1, hf2⟩, -, -⟩
    simp only [not_or] at hf1
    obtain ⟨f1, f2, f3, f4, f5⟩ := hf1
    rcases h2 with h | h | h | h | h | h
    exacts [f1 h, f2 h, f3 h, f4 h, f5 h, hf2 ⟨h.2, h.1⟩]
  · simp only [true_iff]
    simp only [not_or] at h2
    obtain ⟨g1, g2, g3, g4, g5, g6⟩ := h2
    refine ⟨⟨not_not.1 h1, ?_, ?_⟩, h3, ?_⟩
    · simp only [not_or]
      exact ⟨g1, g2, g3, g4, g5⟩
    · intro h
      exact g6 ⟨h.2, h.1⟩
    · simpa using h4
  · simp only [hr, Bool.false_eq_true, false_iff]
    intro h
    rw [h.2.2] at h4
    simp at h4
  · simp only [hr, Bool.false_eq_true, false_iff]
    intro h
    rw [h.2.2] at h4
    simp at h4
  · simp only [hr, Bool.false_eq_true, false_iff]
    intro h
    rw [h.2.2] at h4
    simp at h4
  · simp only [hr, Bool.false_eq_true, false_iff]
    intro h
    exact h3 h.2.1

/-- The corners that `rect_of_dst` computes for a destination whose corners are
`int`s. -/
theorem rect_of_dst_exact (d : decon_frame) (hf : dst_fits d) :
    (rect_of_dst d).left = d.x ∧ (rect_of_dst d).right = d.x + (d.w : Int) - 1 ∧
    (rect_of_dst d).top = d.y ∧ (rect_of_dst d).bottom = d.y + (d.h : Int) - 1 := by
  unfold dst_fits is_int at hf
  obtain ⟨⟨a1, a2⟩, ⟨b1, b2⟩, ⟨c1, c2⟩, ⟨d1, d2⟩⟩ := hf
  have e1 := far_edge_exact d.x d.w b1 b2 a1 a2
  have e2 := far_edge_exact d.y d.h d1 d2 c1 c2
  unfold rect_of_dst
  dsimp only
  exact ⟨rfl, e1, rfl, e2⟩

/-- The covering test of the search loop, for destinations whose corners are `int`s:
it holds exactly when the upper destination contains the lower one. -/
theorem cover_test_dst (lower upper : decon_frame) (hw : 1 ≤ lower.w ∧ 1 ≤ lower.h)
    (hl : dst_fits lower) (hu : dst_fits upper) :
    (decon_intersect (rect_of_dst lower) (rect_of_dst upper) = true ∧
      is_decon_rect_differ (rect_of_dst lower)
        (decon_intersection (rect_of_dst lower) (rect_of_dst upper)) = false) ↔
      dst_contains upper lower := by
  obtain ⟨l1, l2, l3, l4⟩ := rect_of_dst_exact lower hl
  obtain ⟨u1, u2, u3, u4⟩ := rect_of_dst_exact upper hu
  generalize rect_of_dst lower = r1 at *
  generalize rect_of_dst upper = r2 at *
  have hx : r1.left ≤ r1.right := by
    rw [l1, l2]
    omega
  have hy : r1.top ≤ r1.bottom := by
    rw [l3, l4]
    omega
  rw [cover_test _ _ hx hy, l1, l2, l3, l4, u1, u2, u3, u4]
  unfold dst_contains
  clear hl hu hx hy l1 l2 l3 l4 u1 u2 u3 u4
  constructor
  · rintro ⟨a, b, c, d⟩
    refine ⟨a, ?_, c, ?_⟩
    · omega
    · omega
  · rintro ⟨a, b, c, d⟩
    refine ⟨a, ?_, c, ?_⟩
    · omega
    · omega

/-- The search loop of `decon_set_win_blocking_mode` for window `i`, after `n` upper
windows: `return 1` was taken exactly when one of them covers window `i`. -/
theorem blocking_loop_returned (H : decon_h) (wc : Nat → decon_win_config) (i : Nat)
    (st0 : blocking_state) (h0 : st0.returned = false)
    (hw : 1 ≤ (wc i).dst.w ∧ 1 ≤ (wc i).dst.h) (hfi : dst_fits (wc i).dst) (n : Nat)
    (hfit : ∀ j, i < j → j < i + 1 + n → opaque_buffer H (wc j) → dst_fits (wc j).dst) :
    (for_loop (fun k st => blocking_step H wc (rect_of_dst (wc i).dst) (i + 1 + k) st)
      n st0).returned = true ↔ ∃ k, k < n ∧ covers H wc i (i + 1 + k) := by
  induction n with
  | zero =>
    rw [for_loop_zero, h0]
    constructor
    · intro h
      exact absurd h (by decide)
    · rintro ⟨k, hk, -⟩
      exact absurd hk (Nat.not_lt_zero k)
  | succ m ih =>
    have ih1 := ih (fun j h1 h2 => hfit j h1 (by omega))
    rw [for_loop_succ]
    generalize for_loop (fun k st => blocking_step H wc (rect_of_dst (wc i).dst) (i + 1 + k) st)
      m st0 = st at ih1
    by_cases hr : st.returned = true
    · have e : blocking_step H wc (rect_of_dst (wc i).dst) (i + 1 + m) st = st := by
        unfold blocking_step
        rw [if_pos hr]
      rw [e]
      constructor
      · intro _
        obtain ⟨k, hk, hc⟩ := ih1.1 hr
        exact ⟨k, Nat.lt_succ_of_lt hk, hc⟩
      · intro _
        exact hr
    · have hr0 : st.returned = false := by
        cases h : st.returned
        · rfl
        · exact absurd h hr
      rw [blocking_step_returned H wc _ _ st hr0]
      constructor
      · rintro ⟨ho, hi1, hi2⟩
        have hu := hfit (i + 1 + m) (by omega) (by omega) ho
        exact ⟨m, Nat.lt_succ_self m, ho, (cover_test_dst _ _ hw hfi hu).1 ⟨hi1, hi2⟩⟩
      · rintro ⟨k, hk, ho, hc⟩
        by_cases hkm : k = m
        · subst hkm
          have hu := hfit (i + 1 + k) (by omega) (by omega) ho
          have ht := (cover_test_dst _ _ hw hfi hu).2 hc
          exact ⟨ho, ht.1, ht.2⟩
        · exact absurd (ih1.2 ⟨k, by omega, ho, hc⟩) hr

/-- C23 fails through wrap-around.  Window 0 is a full-screen RGBX8888 layer and
window 1 an opaque RGB565 layer at (0, 0) of width `UINT_MAX`, whose destination
contains that of window 0 in exact integers.  The far edge of window 1 is computed as
`0 + UINT_MAX - 1`, which is -2 as an `int`, so `decon_intersect` fails: the call
returns 0 and window 0 stays in Buffer state. -/
theorem overwide_cover_not_detected :
    (rgbx_request 0 0 720 1280).state = sample_h.DECON_WIN_STATE_BUFFER ∧
    is_decon_rgb32 sample_h (rgbx_request 0 0 720 1280).format = true ∧
    covers sample_h (requests_of3 (rgbx_request 0 0 720 1280) overwide_request win_config_zero) 0 1 ∧
    (rect_of_dst overwide_request.dst).right = -2 ∧
    (decon_set_win_blocking_mode sample_h 3 0
      (requests_of3 (rgbx_request 0 0 720 1280) overwide_request win_config_zero) regs_zero).1 = 0 ∧
    ((decon_set_win_blocking_mode sample_h 3 0
      (requests_of3 (rgbx_request 0 0 720 1280) overwide_request win_config_zero)
        regs_zero).2.1 0).state = sample_h.DECON_WIN_STATE_BUFFER := by
  decide

/-- C23, amended: in `decon_set_win_blocking_mode` for a Buffer-state window `i` with
a 32-bit RGB format and a destination of at least 1 x 1 pixels, when the corners of
the destinations of window `i` and of the opaque Buffer-state windows above it are
`int`s (no `x + w - 1` or `y + h - 1` wraps around): if some window above `i` and
below `max_win` is an opaque Buffer-state layer whose destination contains that of
window `i`, the request of window `i` is set to Disabled, the function returns 1 and
the snapshot and the other requests are left as they were; if there is none, the
function returns 0 and window `i` stays in Buffer state. -/
theorem blocking_mode_covered (H : decon_h) (max_win i : Nat) (wc : Nat → decon_win_config)
    (regs : decon_reg_data)
    (hst : (wc i).state = H.DECON_WIN_STATE_BUFFER)
    (hfmt : is_decon_rgb32 H (wc i).format = true)
    (hw : 1 ≤ (wc i).dst.w ∧ 1 ≤ (wc i).dst.h)
    (hfi : dst_fits (wc i).dst)
    (hfit : ∀ j, i < j → j < max_win → opaque_buffer H (wc j) → dst_fits (wc j).dst) :
    (covered H max_win wc i →
      (decon_set_win_blocking_mode H max_win i wc regs).1 = 1 ∧
      ((decon_set_win_blocking_mode H max_win i wc regs).2.1 i).state =
        H.DECON_WIN_STATE_DISABLED ∧
      (∀ j, j ≠ i → (decon_set_win_blocking_mode H max_win i wc regs).2.1 j = wc j) ∧
      (decon_set_win_blocking_mode H max_win i wc regs).2.2 = regs) ∧
    (¬ covered H max_win wc i →
      (decon_set_win_blocking_mode H max_win i wc regs).1 = 0 ∧
      ((decon_set_win_blocking_mode H max_win i wc regs).2.1 i).state =
        H.DECON_WIN_STATE_BUFFER) := by
  have hloop := blocking_loop_returned H wc i
    { returned := false, block_rect := { left := 0, top := 0, right := 0, bottom := 0 },
      blocking_size := 0, enabled := false } rfl hw hfi (max_win - (i + 1))
    (fun j h1 h2 => hfit j h1 (by omega))
  have hcov : covered H max_win wc i ↔ ∃ k, k < max_win - (i + 1) ∧ covers H wc i (i + 1 + k) := by
    unfold covered
    constructor
    · rintro ⟨j, h1, h2, hc⟩
      refine ⟨j - (i + 1), by omega, ?_⟩
      have e : i + 1 + (j - (i + 1)) = j := by omega
      rw [e]
      exact hc
    · rintro ⟨k, hk, hc⟩
      exact ⟨i + 1 + k, by omega, by omega, hc⟩
  rw [hcov, ← hloop]
  unfold decon_set_win_blocking_mode
  dsimp only
  generalize for_loop (fun k st => blocking_step H wc (rect_of_dst (wc i).dst) (i + 1 + k) st)
    (max_win - (i + 1))
    { returned := false, block_rect := { left := 0, top := 0, right := 0, bottom := 0 },
      blocking_size := 0, enabled := false } = bs
  rw [if_neg (fun h => h hst), hfmt]
  simp only [Bool.not_true, Bool.false_eq_true, if_false]
  constructor
  · intro hr
    rw [if_pos hr]
    refine ⟨rfl, ?_, ?_, rfl⟩
    · simp [set_at]
    · intro j hj
      simp [set_at, hj]
  · intro hr
    rw [if_neg hr]
    split_ifs
    · refine ⟨rfl, ?_⟩
      by_cases h0 : i = 0
      · subst h0
        simp [set_at, hst]
      · simp [set_at, h0, hst]
    · exact ⟨rfl, hst⟩

/-- C23 witness: with an opaque full-screen RGB565 layer above it the full-screen
RGBX8888 window 0 is disabled; with only a half-screen layer above it, it is not. -/
theorem blocking_mode_covered_witness :
    (decon_set_win_blocking_mode sample_h 3 0
      (requests_of3 (rgbx_request 0 0 720 1280) (buffer_request 0 0 720 1280) win_config_zero)
        regs_zero).1 = 1 ∧
    (decon_set_win_blocking_mode sample_h 3 0
      (requests_of3 (rgbx_request 0 0 720 1280) (buffer_request 0 640 720 640) win_config_zero)
        regs_zero).1 = 0 :=
  ⟨((blocking_mode_covered sample_h 3 0
      (requests_of3 (rgbx_request 0 0 720 1280) (buffer_request 0 0 720 1280) win_config_zero)
      regs_zero rfl (by decide) (by decide) (by decide)
      (fun j h1 h2 _ => by
        have hj : j = 1 ∨ j = 2 := by omega
        rcases hj with hj | hj <;> subst hj <;> decide)).1
      ⟨1, by decide, by decide, by decide⟩).1,
   ((blocking_mode_covered sample_h 3 0
      (requests_of3 (rgbx_request 0 0 720 1280) (buffer_request 0 640 720 640) win_config_zero)
      regs_zero rfl (by decide) (by decide) (by decide)
      (fun j h1 h2 _ => by
        have hj : j = 1 ∨ j = 2 := by omega
        rcases hj with hj | hj <;> subst hj <;> decide)).2
      (by
        rintro ⟨j, h1, h2, hc⟩
        have hj : j = 1 ∨ j = 2 := by omega
        rcases hj with hj | hj <;> subst hj <;> revert hc <;> decide)).1⟩

/-! ## C30: the fence timeline -/

theorem kc_refl (d : decon_device) : keeps_counters d d := ⟨rfl, rfl, rfl⟩

theorem kc_trans {a b c : decon_device} (h1 : keeps_counters a b) (h2 : keeps_counters b c) :
    keeps_counters a c :=
  ⟨h2.1.trans h1.1, h2.2.1.trans h1.2.1, h2.2.2.trans h1.2.2⟩

theorem kc_emit (d : decon_device) (l : List kcall) : keeps_counters d (emit d l) :=
  ⟨rfl, rfl, rfl⟩

theorem kc_ite {d a b : decon_device} (p : Prop) [Decidable p]
    (ha : keeps_counters d a) (hb : keeps_counters d b) :
    keeps_counters d (if p then a else b) := by
  split
  · exact ha
  · exact hb

theorem kc_rect_reset (d : decon_device) : keeps_counters d (decon_win_update_rect_reset d) :=
  ⟨rfl, rfl, rfl⟩

theorem kc_partial_cmd (H : decon_h) (hw : hw_env) (d : decon_device) (rect : decon_win_rect) :
    keeps_counters d (decon_reg_ddi_partial_cmd H hw d rect).2 := by
  unfold decon_reg_ddi_partial_cmd keeps_counters
  dsimp only
  split_ifs <;> simp [emit, decon_win_update_rect_reset]

theorem kc_disp_config (hw : hw_env) (d : decon_device) (rect : decon_win_rect) :
    keeps_counters d (decon_win_update_disp_config hw d rect).2 := by
  unfold decon_win_update_disp_config keeps_counters
  dsimp only
  split_ifs <;> simp [emit, decon_win_update_rect_reset]

theorem kc_reg_set_win_update_config (H : decon_h) (hw : hw_env) (d : decon_device)
    (regs : decon_reg_data) :
    keeps_counters d (decon_reg_set_win_update_config H hw d regs).2 := by
  unfold decon_reg_set_win_update_config
  split
  · exact kc_trans (kc_partial_cmd H hw d _) (kc_disp_config hw _ _)
  · exact kc_refl d

theorem kc_protect_retry (hw : hw_env) (fuel : Nat) :
    ∀ d, keeps_counters d (protect_retry hw fuel d) := by
  induction fuel with
  | zero => intro d; exact kc_refl d
  | succ n ih =>
    intro d
    unfold protect_retry
    dsimp only
    split
    · exact kc_trans (b := emit (emit d [kcall.reg_update_standalone, kcall.reg_per_frame_off])
        [kcall.reg_wait_linecnt_is_zero]) ⟨rfl, rfl, rfl⟩ (ih _)
    · exact ⟨rfl, rfl, rfl⟩

theorem kc_set_protected_content (hw : hw_env) (d : decon_device) (enable : Bool) :
    keeps_counters d (decon_set_protected_content hw d enable) := by
  unfold decon_set_protected_content
  dsimp only
  generalize (if enable = true then decide (d.cur_protection_bitmask ≠ 0) else false) = en
  by_cases hen : en = d.prev_protection_status
  · rw [if_pos hen]
    exact kc_refl d
  · rw [if_neg hen]
    refine kc_trans (b := if d.psr_mode = decon_psr_mode.VIDEO_MODE then
        protect_retry hw 6 d else emit d [kcall.reg_wait_linecnt_is_zero]) ?_ ?_
    · exact kc_ite _ (kc_protect_retry hw 6 d) (kc_emit _ _)
    · exact ⟨rfl, rfl, rfl⟩

theorem kc_loop (body : Nat → decon_device → decon_device)
    (hb : ∀ i d, keeps_counters d (body i d)) (n : Nat) (d : decon_device) :
    keeps_counters d (for_loop body n d) := by
  apply for_loop_inv (keeps_counters d)
  · exact kc_refl d
  · intro i s _ hs
    exact kc_trans hs (hb i s)

theorem kc_set_qos (H : decon_h) (d : decon_device) (regs : Option decon_reg_data)
    (is_after is_default_qos : Bool) :
    keeps_counters d (decon_set_qos H d regs is_after is_default_qos) := by
  unfold decon_set_qos
  dsimp only
  split_ifs <;> exact ⟨rfl, rfl, rfl⟩

theorem kc_activate_vsync (d : decon_device) : keeps_counters d (decon_activate_vsync d) := by
  unfold decon_activate_vsync
  dsimp only
  split <;> exact ⟨rfl, rfl, rfl⟩

theorem kc_deactivate_vsync (d : decon_device) : keeps_counters d (decon_deactivate_vsync d) := by
  unfold decon_deactivate_vsync
  dsimp only
  split <;> exact ⟨rfl, rfl, rfl⟩

theorem kc_wait_for_vsync (hw : hw_env) (d : decon_device) (timeout : Nat) :
    keeps_counters d (decon_wait_for_vsync hw d timeout).2 := by
  unfold decon_wait_for_vsync
  split
  · exact kc_refl d
  · lift_lets
    intro activate d1 ret woken d2 d3 d4
    have h1 : keeps_counters d d1 := kc_ite _ (kc_activate_vsync d) (kc_refl d)
    have h2 : keeps_counters d1 d2 := kc_emit _ _
    have h3 : keeps_counters d2 d3 := ⟨rfl, rfl, rfl⟩
    have h4 : keeps_counters d3 d4 := kc_ite _ (kc_deactivate_vsync d3) (kc_refl d3)
    have h := kc_trans h1 (kc_trans h2 (kc_trans h3 h4))
    split_ifs <;> exact h

theorem kc_size_mismatch_poll (hw : hw_env) (cnt : Nat) :
    ∀ d, keeps_counters d (size_mismatch_poll hw cnt d) := by
  induction cnt with
  | zero => intro d; exact kc_refl d
  | succ n ih =>
    intro d
    unfold size_mismatch_poll
    dsimp only
    have h1 : keeps_counters d (emit d [kcall.reg_get_vstatus]) := kc_emit _ _
    split_ifs
    · exact h1
    · exact h1
    · exact h1
    · exact kc_trans h1 (ih _)

theorem kc_prevent_size_mismatch (hw : hw_env) (d : decon_device) (timeout : Nat) :
    keeps_counters d (decon_prevent_size_mismatch hw d timeout) := by
  unfold decon_prevent_size_mismatch
  dsimp only
  split
  · exact kc_refl d
  · exact kc_size_mismatch_poll hw _ d

theorem kc_vsync_skip_loop (H : decon_h) (hw : hw_env) (n : Nat) :
    ∀ d, keeps_counters d (vsync_skip_loop H hw n d) := by
  induction n with
  | zero => intro d; exact kc_refl d
  | succ n ih =>
    intro d
    unfold vsync_skip_loop
    split
    · exact ⟨rfl, rfl, rfl⟩
    · exact kc_trans (kc_wait_for_vsync hw d _) (ih _)

theorem kc_vsync_skip (H : decon_h) (hw : hw_env) (d : decon_device) (regs : decon_reg_data) :
    keeps_counters d (vsync_skip H hw d regs) := by
  unfold vsync_skip
  dsimp only
  refine kc_trans (b := { d with extra_vsync_wait := 0 }) ⟨rfl, rfl, rfl⟩ ?_
  exact kc_ite _ (kc_vsync_skip_loop H hw _ _) (kc_refl _)

theorem kc_mask_trigger (H : decon_h) (hw : hw_env) (d : decon_device) :
    keeps_counters d (mask_trigger H hw d) := by
  unfold mask_trigger
  split_ifs <;> exact ⟨rfl, rfl, rfl⟩

theorem kc_update_regs_win (H : decon_h) (regs : decon_reg_data) (i : Nat) (d : decon_device) :
    keeps_counters d (update_regs_win H regs i d) := by
  unfold update_regs_win
  dsimp only
  split <;> exact ⟨rfl, rfl, rfl⟩

theorem kc_update_regs_inner (H : decon_h) (hw : hw_env) (d : decon_device)
    (regs : decon_reg_data) : keeps_counters d (__decon_update_regs H hw d regs).1 := by
  unfold __decon_update_regs
  lift_lets
  extract_lets d0 d1 d2 r d3 d4 d5 d6 d7 d8
  show keeps_counters d d8
  have h0 : keeps_counters d d0 := ⟨rfl, rfl, rfl⟩
  have h1 : keeps_counters d0 d1 := kc_ite _ (kc_emit _ _) (kc_refl _)
  have h2 : keeps_counters d1 d2 := kc_loop _ (fun i s => kc_emit s _) _ _
  have h3 : keeps_counters d2 d3 :=
    kc_ite _ (kc_reg_set_win_update_config H hw d2 _) (kc_refl _)
  have h4 : keeps_counters d3 d4 := kc_loop _ (fun i s => kc_update_regs_win H _ i s) _ _
  have h5 : keeps_counters d4 d5 := kc_loop _ (fun i s => kc_emit s _) _ _
  have h6 : keeps_counters d5 d6 := kc_set_protected_content hw d5 true
  have h7 : keeps_counters d6 d7 := kc_emit _ _
  have h8 : keeps_counters d7 d8 := kc_ite _ (kc_emit _ _) (kc_refl _)
  exact kc_trans h0 (kc_trans h1 (kc_trans h2 (kc_trans h3 (kc_trans h4 (kc_trans h5
    (kc_trans h6 (kc_trans h7 h8)))))))

/-- A commit advances the timeline value by one and keeps `timeline_max` and the
queue. -/
theorem update_regs_counters (H : decon_h) (hw : hw_env) (decon : decon_device)
    (regs : decon_reg_data) (hexit : lpd_exit_keeps hw) :
    (decon_update_regs H hw decon regs).timeline = u32 (decon.timeline + 1) ∧
    (decon_update_regs H hw decon regs).timeline_max = decon.timeline_max ∧
    (decon_update_regs H hw decon regs).update_regs_list = decon.update_regs_list := by
  unfold decon_update_regs
  lift_lets
  extract_lets x0 d0 old d1 d2 d3 r d4 regs2 d5 upd d6 d7 d8 d9 d10 d11 d12 d13 d14
  have h0 : keeps_counters decon d0 := by
    by_cases hs : decon.state = decon_state.LPD
    · simp only [d0, if_pos hs]
      exact hexit decon hs
    · simp only [d0, if_neg hs]
      exact kc_refl decon
  have h1 : keeps_counters d0 d1 :=
    kc_loop _ (fun i s => kc_ite _ (kc_emit s _) (kc_refl s)) _ _
  have h2 : keeps_counters d1 d2 := kc_ite _ (kc_set_qos H d1 _ _ _) (kc_refl _)
  have h3 : keeps_counters d2 d3 := kc_ite _ (kc_vsync_skip H hw d2 regs) (kc_refl _)
  have h4 : keeps_counters d3 d4 := kc_update_regs_inner H hw d3 regs
  have h5 : keeps_counters d4 d5 := kc_wait_for_vsync hw d4 _
  have h6 : keeps_counters d5 d6 := kc_emit _ _
  have h7 : keeps_counters d6 d7 := kc_ite _ (kc_emit _ _) (kc_refl _)
  have h8 : keeps_counters d7 d8 := kc_prevent_size_mismatch hw d7 _
  have h9 : keeps_counters d8 d9 := kc_emit _ _
  have h10 : keeps_counters d9 d10 := ⟨rfl, rfl, rfl⟩
  have h11 : keeps_counters d10 d11 := kc_mask_trigger H hw d10
  have h12 : keeps_counters d11 d12 := kc_loop _ (fun i s => kc_emit s _) _ _
  have hb : keeps_counters decon d12 :=
    kc_trans h0 (kc_trans h1 (kc_trans h2 (kc_trans h3 (kc_trans h4 (kc_trans h5
      (kc_trans h6 (kc_trans h7 (kc_trans h8 (kc_trans h9 (kc_trans h10
      (kc_trans h11 h12)))))))))))
  have h14 : d14.timeline = u32 (decon.timeline + 1) ∧ d14.timeline_max = decon.timeline_max ∧
      d14.update_regs_list = decon.update_regs_list := by
    refine ⟨?_, hb.2.1, hb.2.2⟩
    show u32 (d12.timeline + 1) = _
    rw [hb.1]
  have ha : keeps_counters d14
      (if d14.prev_bw ≠ regs2.bandwidth then decon_set_qos H d14 (some regs2) true false else d14) :=
    kc_ite _ (kc_set_qos H d14 _ _ _) (kc_refl _)
  exact ⟨ha.1.trans h14.1, ha.2.1.trans h14.2.1, ha.2.2.trans h14.2.2⟩

/-- What the end of `decon_set_win_config` does to the counters: nothing, or it
creates a fence with target `timeline_max + 1` and queues the snapshot. -/
theorem finish_counters (H : decon_h) (fd : Int) (win_data : decon_win_config_data)
    (st : cfg_state) :
    keeps_counters st.decon (win_config_finish H fd win_data st).decon ∨
    ((win_config_finish H fd win_data st).decon.timeline_max = s32 (st.decon.timeline_max + 1) ∧
      (win_config_finish H fd win_data st).decon.timeline = st.decon.timeline ∧
      (win_config_finish H fd win_data st).decon.update_regs_list.length =
        st.decon.update_regs_list.length + 1 ∧
      kcall.sync_fence_install (s32 (st.decon.timeline_max + 1)) fd ∈
        (win_config_finish H fd win_data st).decon.log) := by
  unfold win_config_finish
  dsimp only
  split_ifs
  · left
    have h := same_core_unwind_loop H
      { st.regs with
        win_config := fun i =>
          if i < st.decon.max_win then st.win_config i else st.regs.win_config i,
        bandwidth := st.bw } st.decon.max_win st.decon
    exact ⟨h.2.2.1, h.2.2.2.1, h.2.1⟩
  · right
    refine ⟨rfl, rfl, ?_, ?_⟩
    · simp
    · simp
  · left
    exact kc_refl _

/-- What a call of `decon_set_win_config` does to the counters: nothing (rejected, or
an output that is not queued), or it creates a fence with target `timeline_max + 1`
and either advances the timeline at once (short-circuit) or queues a snapshot. -/
theorem submission_counters (H : decon_h) (env : kernel_env) (d : decon_device)
    (win_data : decon_win_config_data) :
    keeps_counters d (decon_set_win_config H env d win_data).decon ∨
    ((decon_set_win_config H env d win_data).decon.timeline_max = s32 (d.timeline_max + 1) ∧
      (decon_set_win_config H env d win_data).decon.timeline = u32 (d.timeline + 1) ∧
      (decon_set_win_config H env d win_data).decon.update_regs_list = d.update_regs_list ∧
      ∃ fd, kcall.sync_fence_install (s32 (d.timeline_max + 1)) fd ∈
        (decon_set_win_config H env d win_data).decon.log) ∨
    ((decon_set_win_config H env d win_data).decon.timeline_max = s32 (d.timeline_max + 1) ∧
      (decon_set_win_config H env d win_data).decon.timeline = d.timeline ∧
      (decon_set_win_config H env d win_data).decon.update_regs_list.length =
        d.update_regs_list.length + 1 ∧
      ∃ fd, kcall.sync_fence_install (s32 (d.timeline_max + 1)) fd ∈
        (decon_set_win_config H env d win_data).decon.log) := by
  unfold decon_set_win_config
  dsimp only
  generalize (if env.get_unused_fd < 3 then env.get_unused_fd_retry else env.get_unused_fd) = fd
  split_ifs with h1 h2 h3
  · exact Or.inl (kc_refl d)
  · right
    left
    refine ⟨rfl, rfl, rfl, fd, ?_⟩
    simp
  · exact Or.inl (kc_refl d)
  · have hc : same_core d
        (for_loop (win_config_step H env) d.max_win (win_config_start H d win_data)).decon :=
      same_core_trans (same_core_start H d win_data) (same_core_loop H env _ _)
    generalize for_loop (win_config_step H env) d.max_win (win_config_start H d win_data) = st
      at hc
    obtain ⟨-, c2, c3, c4, -, -⟩ := hc
    rcases finish_counters H fd win_data st with h | h
    · left
      exact ⟨h.1.trans c3, h.2.1.trans c4, h.2.2.trans c2⟩
    · right
      right
      obtain ⟨a, b, c, e⟩ := h
      rw [c4] at a e
      rw [c3] at b
      rw [c2] at c
      exact ⟨a, b, c, _, e⟩

/-- What one submission does to the equation of the fence timeline, from a state in
which `timeline_max` is at most `k + 1`: the equation is kept, and `timeline_max` is
kept (no fence) or grows by one, which is then the target of the fence logged. -/
theorem submit_inv (H : decon_h) (env : kernel_env) (win_data : decon_win_config_data)
    (s : pipeline_state) (k : Nat) (hk : k < 2147483646) (heq : timeline_eq s)
    (hb : s.decon.timeline_max ≤ (k : Int) + 1) :
    timeline_eq { s with decon := (decon_set_win_config H env s.decon win_data).decon } ∧
    ((decon_set_win_config H env s.decon win_data).decon.timeline_max = s.decon.timeline_max ∨
      ((decon_set_win_config H env s.decon win_data).decon.timeline_max =
          s.decon.timeline_max + 1 ∧
        ∃ fd, kcall.sync_fence_install (s.decon.timeline_max + 1) fd ∈
          (decon_set_win_config H env s.decon win_data).decon.log)) := by
  unfold timeline_eq at heq ⊢
  have hs32 : s32 (s.decon.timeline_max + 1) = s.decon.timeline_max + 1 :=
    s32_of_range _ (by omega) (by omega)
  have hu32 : u32 (s.decon.timeline + 1) = s.decon.timeline + 1 := by
    unfold u32
    omega
  rcases submission_counters H env s.decon win_data with h | h | h
  · obtain ⟨a, b, c⟩ := h
    refine ⟨?_, Or.inl b⟩
    show (decon_set_win_config H env s.decon win_data).decon.timeline_max = _
    rw [b]
    show _ = ((decon_set_win_config H env s.decon win_data).decon.timeline : Int) +
      ((decon_set_win_config H env s.decon win_data).decon.update_regs_list.length : Int) + _ + 1
    rw [a, c]
    exact heq
  · obtain ⟨a, b, c, fd, e⟩ := h
    rw [hs32] at a e
    rw [hu32] at b
    refine ⟨?_, Or.inr ⟨a, fd, e⟩⟩
    show (decon_set_win_config H env s.decon win_data).decon.timeline_max =
      ((decon_set_win_config H env s.decon win_data).decon.timeline : Int) +
      ((decon_set_win_config H env s.decon win_data).decon.update_regs_list.length : Int) +
      (s.saved_list.length : Int) + 1
    rw [a, b, c]
    push_cast
    omega
  · obtain ⟨a, b, c, fd, e⟩ := h
    rw [hs32] at a e
    refine ⟨?_, Or.inr ⟨a, fd, e⟩⟩
    show (decon_set_win_config H env s.decon win_data).decon.timeline_max =
      ((decon_set_win_config H env s.decon win_data).decon.timeline : Int) +
      ((decon_set_win_config H env s.decon win_data).decon.update_regs_list.length : Int) +
      (s.saved_list.length : Int) + 1
    rw [a, b, c]
    push_cast
    omega

/-- Every step keeps the equation of the fence timeline; `timeline_max` is kept or
grows by one. -/
theorem pipeline_next_inv (H : decon_h) (s : pipeline_state) (st : pipeline_step) (k : Nat)
    (hk : k < 2147483646) (heq : timeline_eq s) (hb : s.decon.timeline_max ≤ (k : Int) + 1)
    (hok : step_ok st) :
    timeline_eq (pipeline_next H s st) ∧
    s.decon.timeline_max ≤ (pipeline_next H s st).decon.timeline_max ∧
    (pipeline_next H s st).decon.timeline_max ≤ s.decon.timeline_max + 1 := by
  cases st with
  | submit env win_data =>
    obtain ⟨h1, h2⟩ := submit_inv H env win_data s k hk heq hb
    refine ⟨h1, ?_, ?_⟩
    · show s.decon.timeline_max ≤ (decon_set_win_config H env s.decon win_data).decon.timeline_max
      rcases h2 with h | ⟨h, -⟩ <;> omega
    · show (decon_set_win_config H env s.decon win_data).decon.timeline_max ≤ _
      rcases h2 with h | ⟨h, -⟩ <;> omega
  | take =>
    unfold pipeline_next
    cases hsl : s.saved_list with
    | nil =>
      dsimp only
      unfold timeline_eq at heq ⊢
      rw [hsl] at heq
      refine ⟨?_, le_refl _, by show s.decon.timeline_max ≤ _; omega⟩
      show s.decon.timeline_max = (s.decon.timeline : Int) + (([] : List decon_reg_data).length : Int) +
        (s.decon.update_regs_list.length : Int) + 1
      simp only [List.length_nil, Nat.cast_zero] at heq ⊢
      omega
    | cons data rest =>
      dsimp only
      exact ⟨heq, le_refl _, by omega⟩
  | commit hw =>
    unfold pipeline_next
    cases hsl : s.saved_list with
    | nil =>
      dsimp only
      exact ⟨heq, le_refl _, by omega⟩
    | cons data rest =>
      dsimp only
      obtain ⟨a, b, c⟩ := update_regs_counters H hw s.decon data hok
      unfold timeline_eq at heq ⊢
      rw [hsl] at heq
      simp only [List.length_cons, Nat.cast_add, Nat.cast_one] at heq
      have hu32 : u32 (s.decon.timeline + 1) = s.decon.timeline + 1 := by
        unfold u32
        omega
      rw [hu32] at a
      refine ⟨?_, ?_, ?_⟩
      · show (decon_update_regs H hw s.decon data).timeline_max =
          ((decon_update_regs H hw s.decon data).timeline : Int) +
          ((decon_update_regs H hw s.decon data).update_regs_list.length : Int) +
          (rest.length : Int) + 1
        rw [a, b, c]
        push_cast
        omega
      · show s.decon.timeline_max ≤ (decon_update_regs H hw s.decon data).timeline_max
        rw [b]
      · show (decon_update_regs H hw s.decon data).timeline_max ≤ _
        rw [b]
        omega

/-- Along a run that starts in a state satisfying the equation of the fence
timeline, the equation holds at the end and the fences created have consecutive
targets, starting one above the initial `timeline_max`. -/
theorem pipeline_run_inv (H : decon_h) (steps : List pipeline_step) :
    ∀ (s : pipeline_state) (k : Nat), k + steps.length < 2147483646 → timeline_eq s →
      s.decon.timeline_max ≤ (k : Int) + 1 → (∀ st ∈ steps, step_ok st) →
      timeline_eq (pipeline_run H steps s) ∧
      (pipeline_run H steps s).decon.timeline_max ≤ (k : Int) + (steps.length : Int) + 1 ∧
      consecutive_from (s.decon.timeline_max + 1) (issued_targets H steps s) := by
  induction steps with
  | nil =>
    intro s k _ heq hb _
    refine ⟨heq, ?_, trivial⟩
    show s.decon.timeline_max ≤ _
    simp only [List.length_nil, Nat.cast_zero]
    omega
  | cons st rest ih =>
    intro s k hk heq hb hok
    have hlen : (st :: rest).length = rest.length + 1 := List.length_cons st rest
    have hk1 : k < 2147483646 := by omega
    obtain ⟨n1, n2, n3⟩ := pipeline_next_inv H s st k hk1 heq hb (hok st (List.mem_cons_self _ _))
    have hb2 : (pipeline_next H s st).decon.timeline_max ≤ ((k + 1 : Nat) : Int) + 1 := by
      push_cast
      omega
    obtain ⟨r1, r2, r3⟩ := ih (pipeline_next H s st) (k + 1) (by omega) n1 hb2
      (fun x hx => hok x (List.mem_cons_of_mem _ hx))
    refine ⟨r1, ?_, ?_⟩
    · show (pipeline_run H rest (pipeline_next H s st)).decon.timeline_max ≤ _
      rw [hlen]
      push_cast at r2 ⊢
      omega
    · cases st with
      | submit env win_data =>
        show consecutive_from _
          (fence_of s.decon (decon_set_win_config H env s.decon win_data).decon ++
            issued_targets H rest (pipeline_next H s (pipeline_step.submit env win_data)))
        obtain ⟨-, h2⟩ := submit_inv H env win_data s k hk1 heq hb
        have hnext : (pipeline_next H s (pipeline_step.submit env win_data)).decon.timeline_max =
            (decon_set_win_config H env s.decon win_data).decon.timeline_max := rfl
        rw [hnext] at r3
        rcases h2 with h | ⟨h, -⟩
        · unfold fence_of
          rw [if_pos h, List.nil_append]
          rw [h] at r3
          exact r3
        · unfold fence_of
          rw [if_neg (by rw [h]; omega), h]
          rw [h] at r3
          exact ⟨rfl, r3⟩
      | take =>
        show consecutive_from _ (issued_targets H rest (pipeline_next H s pipeline_step.take))
        have e : (pipeline_next H s pipeline_step.take).decon.timeline_max =
            s.decon.timeline_max := by
          unfold pipeline_next
          cases s.saved_list <;> rfl
        rw [e] at r3
        exact r3
      | commit hw =>
        show consecutive_from _ (issued_targets H rest (pipeline_next H s (pipeline_step.commit hw)))
        have e : (pipeline_next H s (pipeline_step.commit hw)).decon.timeline_max =
            s.decon.timeline_max := by
          unfold pipeline_next
          cases hsl : s.saved_list with
          | nil => rfl
          | cons data rest2 =>
            exact (update_regs_counters H hw s.decon data
              (hok (pipeline_step.commit hw) (List.mem_cons_self _ _))).2.1
        rw [e] at r3
        exact r3

/-- C30: in the pipeline whose steps are calls of `decon_set_win_config` (queued,
short-circuited or rejected) and the worker's commits (`decon_update_regs`, after the
worker has taken the queue), started from the probe state (`timeline_max` = 1,
timeline value 0, empty queue), `timeline_max` always equals the timeline value plus
the number of snapshots not yet committed plus 1; the fences created have the
targets 2, 3, 4, ... in order, so the first one has target 2; and a fence created by
the next submission has the target `timeline_max + 1`, above the current timeline
value.  The run is shorter than `INT_MAX` steps (no `int` overflow of
`timeline_max`), and the helper `decon_exit_lpd`, whose code is outside the source
tree, is assumed to keep the three counters. -/
theorem fence_timeline_invariant (H : decon_h) (d0 : decon_device) (steps : List pipeline_step)
    (hprobe : d0.timeline_max = 1 ∧ d0.timeline = 0 ∧ d0.update_regs_list = [])
    (hlen : steps.length < 2147483645) (hok : ∀ st ∈ steps, step_ok st) :
    timeline_eq (pipeline_run H steps { decon := d0, saved_list := [] }) ∧
    consecutive_from 2 (issued_targets H steps { decon := d0, saved_list := [] }) ∧
    (∀ env win_data, ∀ t ∈ fence_of (pipeline_run H steps { decon := d0, saved_list := [] }).decon
        (decon_set_win_config H env
          (pipeline_run H steps { decon := d0, saved_list := [] }).decon win_data).decon,
      t = (pipeline_run H steps { decon := d0, saved_list := [] }).decon.timeline_max + 1 ∧
      ((pipeline_run H steps { decon := d0, saved_list := [] }).decon.timeline : Int) < t ∧
      ∃ fd, kcall.sync_fence_install t fd ∈
        (decon_set_win_config H env
          (pipeline_run H steps { decon := d0, saved_list := [] }).decon win_data).decon.log) := by
  obtain ⟨p1, p2, p3⟩ := hprobe
  have heq0 : timeline_eq { decon := d0, saved_list := [] } := by
    unfold timeline_eq
    show d0.timeline_max = (d0.timeline : Int) + (d0.update_regs_list.length : Int) +
      (([] : List decon_reg_data).length : Int) + 1
    rw [p1, p2, p3]
    rfl
  have hb0 : ({ decon := d0, saved_list := [] } : pipeline_state).decon.timeline_max ≤
      ((0 : Nat) : Int) + 1 := by
    show d0.timeline_max ≤ _
    rw [p1]
    decide
  obtain ⟨r1, r2, r3⟩ := pipeline_run_inv H steps { decon := d0, saved_list := [] } 0
    (by omega) heq0 hb0 hok
  have e2 : ({ decon := d0, saved_list := [] } : pipeline_state).decon.timeline_max + 1 = 2 := by
    show d0.timeline_max + 1 = 2
    rw [p1]
    rfl
  rw [e2] at r3
  refine ⟨r1, r3, ?_⟩
  intro env win_data t ht
  generalize pipeline_run H steps { decon := d0, saved_list := [] } = s at r1 r2 ht ⊢
  have hb : s.decon.timeline_max ≤ ((steps.length : Nat) : Int) + 1 := by omega
  obtain ⟨-, h2⟩ := submit_inv H env win_data s steps.length (by omega) r1 hb
  unfold fence_of at ht
  rcases h2 with h | ⟨h, fd, e⟩
  · rw [if_pos h] at ht
    exact absurd ht (List.not_mem_nil t)
  · rw [if_neg (by rw [h]; omega), List.mem_singleton] at ht
    rw [ht, h]
    refine ⟨rfl, ?_, fd, e⟩
    unfold timeline_eq at r1
    omega

/-- C30 witness: on the sample device, one queued submission, the worker taking the
queue, and one commit.  The fence created has target 2 and the equation holds at the
end. -/
theorem fence_timeline_invariant_witness :
    timeline_eq (pipeline_run sample_h
      [pipeline_step.submit sample_env (batch_of (buffer_request 0 0 720 1280)),
       pipeline_step.take, pipeline_step.commit sample_hw]
      { decon := sample_decon, saved_list := [] }) ∧
    consecutive_from 2 (issued_targets sample_h
      [pipeline_step.submit sample_env (batch_of (buffer_request 0 0 720 1280)),
       pipeline_step.take, pipeline_step.commit sample_hw]
      { decon := sample_decon, saved_list := [] }) ∧
    issued_targets sample_h
      [pipeline_step.submit sample_env (batch_of (buffer_request 0 0 720 1280)),
       pipeline_step.take, pipeline_step.commit sample_hw]
      { decon := sample_decon, saved_list := [] } = [2] :=
  have h := fence_timeline_invariant sample_h sample_decon
    [pipeline_step.submit sample_env (batch_of (buffer_request 0 0 720 1280)),
     pipeline_step.take, pipeline_step.commit sample_hw]
    ⟨rfl, rfl, rfl⟩ (by decide)
    (by
      intro st hst
      simp only [List.mem_cons, List.mem_singleton, List.not_mem_nil, or_false] at hst
      rcases hst with h | h | h
      · rw [h]
        trivial
      · rw [h]
        trivial
      · rw [h]
        intro d _
        exact ⟨rfl, rfl, rfl⟩)
  ⟨h.1, h.2.1, by decide⟩

/-! ## C16: the partial-update request from submission to commit -/

end Decon
